import Mathlib

/-!
# SHA-224/256, HMAC and PBKDF2 of `pbkdf2-sha256.c`

A shallow embedding of `nan/wpa_supp/src/crypto/pbkdf2-sha256.c` and the
properties of it that the specification states.

Conventions of the embedding.

* `unsigned char` is `UInt8`; an `unsigned char` array is a `List Byte`.
* `unsigned long` and `size_t` are natural numbers; the width `w` of
  `unsigned long` in bits (32 on ILP32, 64 on LP64) is the first argument of
  every function that computes with it, and every C operation that can leave
  the range (`+`, `<<`, `++`) is reduced `% 2 ^ w`.
* A pointer with a length, `(input, ilen)`, is the list of the `ilen` bytes.
* A store into an array (`memcpy`, `memset`, `PUT_ULONG_BE`) replaces the bytes
  at the offsets written and keeps the others.
* Automatic variables that C leaves uninitialised start with arbitrary
  contents, which the functions take as the argument `u : Locals`.
* `while` and `for` loops are recursions on a fuel argument that the caller
  sets to a bound on the number of passes.
-/

namespace Pbkdf2Sha256

/-! ## The embedding of the source, and the definitions of the specification -/

/-- An `unsigned char`. -/
abbrev Byte := UInt8

/-- The C `struct sha2_context`. -/
structure sha2_context where
  /-- Low word `total[0]` of the number of bytes processed. -/
  total0 : Nat
  /-- High word `total[1]` of the number of bytes processed. -/
  total1 : Nat
  /-- Intermediate digest state `state[8]`. -/
  state : List Nat
  /-- Data block being processed, `buffer[64]`. -/
  buffer : List Byte
  /-- HMAC inner padding, `ipad[64]`. -/
  ipad : List Byte
  /-- HMAC outer padding, `opad[64]`. -/
  opad : List Byte
  /-- Zero for SHA-256, otherwise SHA-224. -/
  is224 : Int
deriving DecidableEq, Repr

/-- Arbitrary initial contents of the automatic variables that the C functions
declare without an initialiser. -/
structure Locals where
  /-- The `struct sha2_context ctx` of `sha2`, `sha2_hmac`, `PKCS5_PBKDF2_HMAC`. -/
  ctx : sha2_context
  /-- The `msglen[8]` of `sha2_finish`. -/
  msglen : List Byte
  /-- The `sum[32]` of `sha2_hmac_starts`. -/
  sum : List Byte
  /-- The `tmpbuf[32]` of `sha2_hmac_finish`. -/
  tmpbuf : List Byte
  /-- The `md1[32]` of `PKCS5_PBKDF2_HMAC`. -/
  md1 : List Byte
  /-- The `work[32]` of `PKCS5_PBKDF2_HMAC`. -/
  work : List Byte
  /-- The `c[4]` of `PKCS5_PBKDF2_HMAC`. -/
  c : List Byte
deriving DecidableEq, Repr

/-- Sum of two `unsigned long` values of `w` bits. -/
def uadd (w a b : Nat) : Nat := (a + b) % 2 ^ w

/-- Left shift of an `unsigned long` value of `w` bits. -/
def ushl (w x n : Nat) : Nat := (x <<< n) % 2 ^ w

/-- Store of the bytes `src` into the array `dst` from offset `off` on. -/
def store (dst : List Byte) (off : Nat) (src : List Byte) : List Byte :=
  dst.take off ++ src ++ dst.drop (off + src.length)

/-- The call `memcpy(dst + off, src, n)`. -/
def memcpy (dst : List Byte) (off : Nat) (src : List Byte) (n : Nat) : List Byte :=
  store dst off (src.take n)

/-- The call `memset(dst, c, n)`. -/
def memset (dst : List Byte) (c : Byte) (n : Nat) : List Byte :=
  store dst 0 (List.replicate n c)

/-- The macro `GET_ULONG_BE(n, b, i)`: the value assigned to `n`. -/
def GET_ULONG_BE (b : List Byte) (i : Nat) : Nat :=
  ((b.getD i 0).toNat <<< 24) ||| ((b.getD (i + 1) 0).toNat <<< 16) |||
    ((b.getD (i + 2) 0).toNat <<< 8) ||| (b.getD (i + 3) 0).toNat

/-- The macro `PUT_ULONG_BE(n, b, i)`: the array `b` after the four stores. -/
def PUT_ULONG_BE (n : Nat) (b : List Byte) (i : Nat) : List Byte :=
  let b := store b i [(n >>> 24).toUInt8]
  let b := store b (i + 1) [(n >>> 16).toUInt8]
  let b := store b (i + 2) [(n >>> 8).toUInt8]
  store b (i + 3) [n.toUInt8]

/-- The function `sha2_starts`. -/
def sha2_starts (ctx : sha2_context) (is224 : Int) : sha2_context :=
  let ctx := { ctx with total0 := 0 }
  let ctx := { ctx with total1 := 0 }
  let ctx :=
    if is224 = 0 then
      { ctx with state := [0x6A09E667, 0xBB67AE85, 0x3C6EF372, 0xA54FF53A,
                           0x510E527F, 0x9B05688C, 0x1F83D9AB, 0x5BE0CD19] }
    else
      { ctx with state := [0xC1059ED8, 0x367CD507, 0x3070DD17, 0xF70E5939,
                           0xFFC00B31, 0x68581511, 0x64F98FA7, 0xBEFA4FA4] }
  { ctx with is224 := is224 }

/-- The macro `SHR(x, n)`. -/
def SHR (x n : Nat) : Nat := (x &&& 0xFFFFFFFF) >>> n

/-- The macro `ROTR(x, n)`. -/
def ROTR (w x n : Nat) : Nat := SHR x n ||| ushl w x (32 - n)

/-- The macro `S0(x)`. -/
def S0 (w x : Nat) : Nat := ROTR w x 7 ^^^ ROTR w x 18 ^^^ SHR x 3

/-- The macro `S1(x)`. -/
def S1 (w x : Nat) : Nat := ROTR w x 17 ^^^ ROTR w x 19 ^^^ SHR x 10

/-- The macro `S2(x)`. -/
def S2 (w x : Nat) : Nat := ROTR w x 2 ^^^ ROTR w x 13 ^^^ ROTR w x 22

/-- The macro `S3(x)`. -/
def S3 (w x : Nat) : Nat := ROTR w x 6 ^^^ ROTR w x 11 ^^^ ROTR w x 25

/-- The macro `F0(x, y, z)`. -/
def F0 (x y z : Nat) : Nat := (x &&& y) ||| (z &&& (x ||| y))

/-- The macro `F1(x, y, z)`. -/
def F1 (x y z : Nat) : Nat := z ^^^ (x &&& (y ^^^ z))

/-- The macro `R(t)`: the value stored in `W[t]`, from `W[t - 2]`, `W[t - 7]`,
`W[t - 15]` and `W[t - 16]`. -/
def R (w w2 w7 w15 w16 : Nat) : Nat :=
  uadd w (uadd w (uadd w (S1 w w2) w7) (S0 w w15)) w16

/-- The macro `P(a, b, c, d, e, f, g, h, x, K)`: the new values of `d` and `h`. -/
def P (w a b c d e f g h x K : Nat) : Nat × Nat :=
  let temp1 := uadd w (uadd w (uadd w (uadd w h (S3 w e)) (F1 e f g)) K) x
  let temp2 := uadd w (S2 w a) (F0 a b c)
  (uadd w d temp1, uadd w temp1 temp2)

/-- The function `sha2_process`. -/
def sha2_process (w : Nat) (ctx : sha2_context) (data : List Byte) : sha2_context :=
  let W0 := GET_ULONG_BE data 0
  let W1 := GET_ULONG_BE data 4
  let W2 := GET_ULONG_BE data 8
  let W3 := GET_ULONG_BE data 12
  let W4 := GET_ULONG_BE data 16
  let W5 := GET_ULONG_BE data 20
  let W6 := GET_ULONG_BE data 24
  let W7 := GET_ULONG_BE data 28
  let W8 := GET_ULONG_BE data 32
  let W9 := GET_ULONG_BE data 36
  let W10 := GET_ULONG_BE data 40
  let W11 := GET_ULONG_BE data 44
  let W12 := GET_ULONG_BE data 48
  let W13 := GET_ULONG_BE data 52
  let W14 := GET_ULONG_BE data 56
  let W15 := GET_ULONG_BE data 60
  let A := ctx.state.getD 0 0
  let B := ctx.state.getD 1 0
  let C := ctx.state.getD 2 0
  let D := ctx.state.getD 3 0
  let E := ctx.state.getD 4 0
  let F := ctx.state.getD 5 0
  let G := ctx.state.getD 6 0
  let H := ctx.state.getD 7 0
  let r := P w A B C D E F G H W0 0x428A2F98; let D := r.1; let H := r.2
  let r := P w H A B C D E F G W1 0x71374491; let C := r.1; let G := r.2
  let r := P w G H A B C D E F W2 0xB5C0FBCF; let B := r.1; let F := r.2
  let r := P w F G H A B C D E W3 0xE9B5DBA5; let A := r.1; let E := r.2
  let r := P w E F G H A B C D W4 0x3956C25B; let H := r.1; let D := r.2
  let r := P w D E F G H A B C W5 0x59F111F1; let G := r.1; let C := r.2
  let r := P w C D E F G H A B W6 0x923F82A4; let F := r.1; let B := r.2
  let r := P w B C D E F G H A W7 0xAB1C5ED5; let E := r.1; let A := r.2
  let r := P w A B C D E F G H W8 0xD807AA98; let D := r.1; let H := r.2
  let r := P w H A B C D E F G W9 0x12835B01; let C := r.1; let G := r.2
  let r := P w G H A B C D E F W10 0x243185BE; let B := r.1; let F := r.2
  let r := P w F G H A B C D E W11 0x550C7DC3; let A := r.1; let E := r.2
  let r := P w E F G H A B C D W12 0x72BE5D74; let H := r.1; let D := r.2
  let r := P w D E F G H A B C W13 0x80DEB1FE; let G := r.1; let C := r.2
  let r := P w C D E F G H A B W14 0x9BDC06A7; let F := r.1; let B := r.2
  let r := P w B C D E F G H A W15 0xC19BF174; let E := r.1; let A := r.2
  let W16 := R w W14 W9 W1 W0
  let r := P w A B C D E F G H W16 0xE49B69C1; let D := r.1; let H := r.2
  let W17 := R w W15 W10 W2 W1
  let r := P w H A B C D E F G W17 0xEFBE4786; let C := r.1; let G := r.2
  let W18 := R w W16 W11 W3 W2
  let r := P w G H A B C D E F W18 0x0FC19DC6; let B := r.1; let F := r.2
  let W19 := R w W17 W12 W4 W3
  let r := P w F G H A B C D E W19 0x240CA1CC; let A := r.1; let E := r.2
  let W20 := R w W18 W13 W5 W4
  let r := P w E F G H A B C D W20 0x2DE92C6F; let H := r.1; let D := r.2
  let W21 := R w W19 W14 W6 W5
  let r := P w D E F G H A B C W21 0x4A7484AA; let G := r.1; let C := r.2
  let W22 := R w W20 W15 W7 W6
  let r := P w C D E F G H A B W22 0x5CB0A9DC; let F := r.1; let B := r.2
  let W23 := R w W21 W16 W8 W7
  let r := P w B C D E F G H A W23 0x76F988DA; let E := r.1; let A := r.2
  let W24 := R w W22 W17 W9 W8
  let r := P w A B C D E F G H W24 0x983E5152; let D := r.1; let H := r.2
  let W25 := R w W23 W18 W10 W9
  let r := P w H A B C D E F G W25 0xA831C66D; let C := r.1; let G := r.2
  let W26 := R w W24 W19 W11 W10
  let r := P w G H A B C D E F W26 0xB00327C8; let B := r.1; let F := r.2
  let W27 := R w W25 W20 W12 W11
  let r := P w F G H A B C D E W27 0xBF597FC7; let A := r.1; let E := r.2
  let W28 := R w W26 W21 W13 W12
  let r := P w E F G H A B C D W28 0xC6E00BF3; let H := r.1; let D := r.2
  let W29 := R w W27 W22 W14 W13
  let r := P w D E F G H A B C W29 0xD5A79147; let G := r.1; let C := r.2
  let W30 := R w W28 W23 W15 W14
  let r := P w C D E F G H A B W30 0x06CA6351; let F := r.1; let B := r.2
  let W31 := R w W29 W24 W16 W15
  let r := P w B C D E F G H A W31 0x14292967; let E := r.1; let A := r.2
  let W32 := R w W30 W25 W17 W16
  let r := P w A B C D E F G H W32 0x27B70A85; let D := r.1; let H := r.2
  let W33 := R w W31 W26 W18 W17
  let r := P w H A B C D E F G W33 0x2E1B2138; let C := r.1; let G := r.2
  let W34 := R w W32 W27 W19 W18
  let r := P w G H A B C D E F W34 0x4D2C6DFC; let B := r.1; let F := r.2
  let W35 := R w W33 W28 W20 W19
  let r := P w F G H A B C D E W35 0x53380D13; let A := r.1; let E := r.2
  let W36 := R w W34 W29 W21 W20
  let r := P w E F G H A B C D W36 0x650A7354; let H := r.1; let D := r.2
  let W37 := R w W35 W30 W22 W21
  let r := P w D E F G H A B C W37 0x766A0ABB; let G := r.1; let C := r.2
  let W38 := R w W36 W31 W23 W22
  let r := P w C D E F G H A B W38 0x81C2C92E; let F := r.1; let B := r.2
  let W39 := R w W37 W32 W24 W23
  let r := P w B C D E F G H A W39 0x92722C85; let E := r.1; let A := r.2
  let W40 := R w W38 W33 W25 W24
  let r := P w A B C D E F G H W40 0xA2BFE8A1; let D := r.1; let H := r.2
  let W41 := R w W39 W34 W26 W25
  let r := P w H A B C D E F G W41 0xA81A664B; let C := r.1; let G := r.2
  let W42 := R w W40 W35 W27 W26
  let r := P w G H A B C D E F W42 0xC24B8B70; let B := r.1; let F := r.2
  let W43 := R w W41 W36 W28 W27
  let r := P w F G H A B C D E W43 0xC76C51A3; let A := r.1; let E := r.2
  let W44 := R w W42 W37 W29 W28
  let r := P w E F G H A B C D W44 0xD192E819; let H := r.1; let D := r.2
  let W45 := R w W43 W38 W30 W29
  let r := P w D E F G H A B C W45 0xD6990624; let G := r.1; let C := r.2
  let W46 := R w W44 W39 W31 W30
  let r := P w C D E F G H A B W46 0xF40E3585; let F := r.1; let B := r.2
  let W47 := R w W45 W40 W32 W31
  let r := P w B C D E F G H A W47 0x106AA070; let E := r.1; let A := r.2
  let W48 := R w W46 W41 W33 W32
  let r := P w A B C D E F G H W48 0x19A4C116; let D := r.1; let H := r.2
  let W49 := R w W47 W42 W34 W33
  let r := P w H A B C D E F G W49 0x1E376C08; let C := r.1; let G := r.2
  let W50 := R w W48 W43 W35 W34
  let r := P w G H A B C D E F W50 0x2748774C; let B := r.1; let F := r.2
  let W51 := R w W49 W44 W36 W35
  let r := P w F G H A B C D E W51 0x34B0BCB5; let A := r.1; let E := r.2
  let W52 := R w W50 W45 W37 W36
  let r := P w E F G H A B C D W52 0x391C0CB3; let H := r.1; let D := r.2
  let W53 := R w W51 W46 W38 W37
  let r := P w D E F G H A B C W53 0x4ED8AA4A; let G := r.1; let C := r.2
  let W54 := R w W52 W47 W39 W38
  let r := P w C D E F G H A B W54 0x5B9CCA4F; let F := r.1; let B := r.2
  let W55 := R w W53 W48 W40 W39
  let r := P w B C D E F G H A W55 0x682E6FF3; let E := r.1; let A := r.2
  let W56 := R w W54 W49 W41 W40
  let r := P w A B C D E F G H W56 0x748F82EE; let D := r.1; let H := r.2
  let W57 := R w W55 W50 W42 W41
  let r := P w H A B C D E F G W57 0x78A5636F; let C := r.1; let G := r.2
  let W58 := R w W56 W51 W43 W42
  let r := P w G H A B C D E F W58 0x84C87814; let B := r.1; let F := r.2
  let W59 := R w W57 W52 W44 W43
  let r := P w F G H A B C D E W59 0x8CC70208; let A := r.1; let E := r.2
  let W60 := R w W58 W53 W45 W44
  let r := P w E F G H A B C D W60 0x90BEFFFA; let H := r.1; let D := r.2
  let W61 := R w W59 W54 W46 W45
  let r := P w D E F G H A B C W61 0xA4506CEB; let G := r.1; let C := r.2
  let W62 := R w W60 W55 W47 W46
  let r := P w C D E F G H A B W62 0xBEF9A3F7; let F := r.1; let B := r.2
  let W63 := R w W61 W56 W48 W47
  let r := P w B C D E F G H A W63 0xC67178F2; let E := r.1; let A := r.2
  { ctx with state := [uadd w (ctx.state.getD 0 0) A, uadd w (ctx.state.getD 1 0) B,
                       uadd w (ctx.state.getD 2 0) C, uadd w (ctx.state.getD 3 0) D,
                       uadd w (ctx.state.getD 4 0) E, uadd w (ctx.state.getD 5 0) F,
                       uadd w (ctx.state.getD 6 0) G, uadd w (ctx.state.getD 7 0) H] }

/-- The `while (ilen >= 64)` loop of `sha2_update`: the context and the rest of
the input when the loop ends or the fuel runs out. -/
def sha2_update_loop (w : Nat) : Nat → sha2_context → List Byte → sha2_context × List Byte
  | 0, ctx, input => (ctx, input)
  | fuel + 1, ctx, input =>
    if input.length ≥ 64 then
      sha2_update_loop w fuel (sha2_process w ctx input) (input.drop 64)
    else
      (ctx, input)

/-- The function `sha2_update`. -/
def sha2_update (w : Nat) (ctx : sha2_context) (input : List Byte) : sha2_context :=
  let ilen := input.length
  if ilen ≤ 0 then ctx
  else
    let left := ctx.total0 &&& 0x3F
    let fill := 64 - left
    let ctx := { ctx with total0 := uadd w ctx.total0 (ilen % 2 ^ w) }
    let ctx := { ctx with total0 := ctx.total0 &&& 0xFFFFFFFF }
    let ctx := if ctx.total0 < ilen % 2 ^ w then { ctx with total1 := uadd w ctx.total1 1 } else ctx
    let s : sha2_context × List Byte × Nat :=
      if left ≠ 0 ∧ ilen ≥ fill then
        let ctx := { ctx with buffer := memcpy ctx.buffer left input fill }
        (sha2_process w ctx ctx.buffer, input.drop fill, 0)
      else
        (ctx, input, left)
    let t := sha2_update_loop w s.2.1.length s.1 s.2.1
    if t.2.length > 0 then
      { t.1 with buffer := memcpy t.1.buffer s.2.2 t.2 t.2.length }
    else
      t.1

/-- The constant array `sha2_padding`. -/
def sha2_padding : List Byte := 0x80 :: List.replicate 63 0

/-- The function `sha2_finish`: the context and the array `output` afterwards. -/
def sha2_finish (w : Nat) (u : Locals) (ctx : sha2_context) (output : List Byte) :
    sha2_context × List Byte :=
  let high := (ctx.total0 >>> 29) ||| ushl w ctx.total1 3
  let low := ushl w ctx.total0 3
  let msglen := PUT_ULONG_BE high u.msglen 0
  let msglen := PUT_ULONG_BE low msglen 4
  let last := ctx.total0 &&& 0x3F
  let padn := if last < 56 then 56 - last else 120 - last
  let ctx := sha2_update w ctx (sha2_padding.take padn)
  let ctx := sha2_update w ctx (msglen.take 8)
  let output := PUT_ULONG_BE (ctx.state.getD 0 0) output 0
  let output := PUT_ULONG_BE (ctx.state.getD 1 0) output 4
  let output := PUT_ULONG_BE (ctx.state.getD 2 0) output 8
  let output := PUT_ULONG_BE (ctx.state.getD 3 0) output 12
  let output := PUT_ULONG_BE (ctx.state.getD 4 0) output 16
  let output := PUT_ULONG_BE (ctx.state.getD 5 0) output 20
  let output := PUT_ULONG_BE (ctx.state.getD 6 0) output 24
  let output := if ctx.is224 = 0 then PUT_ULONG_BE (ctx.state.getD 7 0) output 28 else output
  (ctx, output)

/-- The function `sha2`: the array `output` afterwards. -/
def sha2 (w : Nat) (u : Locals) (input : List Byte) (output : List Byte) (is224 : Int) :
    List Byte :=
  let ctx := sha2_starts u.ctx is224
  let ctx := sha2_update w ctx input
  (sha2_finish w u ctx output).2

/-- The `for (i = 0; i < keylen; i++)` loop of `sha2_hmac_starts`, from index
`i` on. -/
def sha2_hmac_starts_loop (key : List Byte) : Nat → Nat → sha2_context → sha2_context
  | 0, _, ctx => ctx
  | fuel + 1, i, ctx =>
    if i < key.length then
      let ctx := { ctx with ipad := store ctx.ipad i [ctx.ipad.getD i 0 ^^^ key.getD i 0] }
      let ctx := { ctx with opad := store ctx.opad i [ctx.opad.getD i 0 ^^^ key.getD i 0] }
      sha2_hmac_starts_loop key fuel (i + 1) ctx
    else
      ctx

/-- The function `sha2_hmac_starts`. -/
def sha2_hmac_starts (w : Nat) (u : Locals) (ctx : sha2_context) (key : List Byte)
    (is224 : Int) : sha2_context :=
  let key :=
    if key.length > 64 then
      let sum := sha2 w u key u.sum is224
      sum.take (if is224 ≠ 0 then 28 else 32)
    else
      key
  let ctx := { ctx with ipad := memset ctx.ipad 0x36 64 }
  let ctx := { ctx with opad := memset ctx.opad 0x5C 64 }
  let ctx := sha2_hmac_starts_loop key key.length 0 ctx
  let ctx := sha2_starts ctx is224
  sha2_update w ctx (ctx.ipad.take 64)

/-- The function `sha2_hmac_update`. -/
def sha2_hmac_update (w : Nat) (ctx : sha2_context) (input : List Byte) : sha2_context :=
  sha2_update w ctx input

/-- The function `sha2_hmac_finish`: the context and the array `output`
afterwards. -/
def sha2_hmac_finish (w : Nat) (u : Locals) (ctx : sha2_context) (output : List Byte) :
    sha2_context × List Byte :=
  let is224 := ctx.is224
  let hlen := if is224 = 0 then 32 else 28
  let r := sha2_finish w u ctx u.tmpbuf
  let ctx := r.1
  let tmpbuf := r.2
  let ctx := sha2_starts ctx is224
  let ctx := sha2_update w ctx (ctx.opad.take 64)
  let ctx := sha2_update w ctx (tmpbuf.take hlen)
  sha2_finish w u ctx output

/-- The function `sha2_hmac_reset`. -/
def sha2_hmac_reset (w : Nat) (ctx : sha2_context) : sha2_context :=
  let ctx := sha2_starts ctx ctx.is224
  sha2_update w ctx (ctx.ipad.take 64)

/-- The function `sha2_hmac`: the array `output` afterwards. -/
def sha2_hmac (w : Nat) (u : Locals) (key : List Byte) (input : List Byte)
    (output : List Byte) (is224 : Int) : List Byte :=
  let ctx := sha2_hmac_starts w u u.ctx key is224
  let ctx := sha2_hmac_update w ctx input
  (sha2_hmac_finish w u ctx output).2

/-- The macro `min_local(a, b)`. -/
def min_local (a b : Nat) : Nat := if a < b then a else b

/-- The variables of `PKCS5_PBKDF2_HMAC` that its loops change. -/
structure PBKDF2_vars where
  /-- The context `ctx`. -/
  ctx : sha2_context
  /-- The array `md1[32]`. -/
  md1 : List Byte
  /-- The array `work[32]`. -/
  work : List Byte
  /-- The block index `counter`. -/
  counter : Nat
  /-- The number of bytes written, `generated_key_length`. -/
  generated_key_length : Nat
  /-- The caller's array `output`. -/
  output : List Byte
deriving DecidableEq, Repr

/-- The `for (i = 0; i < md_size; i++) work[i] ^= md1[i]` loop of
`PKCS5_PBKDF2_HMAC`, from index `i` on. -/
def PBKDF2_xor_loop (md_size : Nat) (md1 : List Byte) : Nat → Nat → List Byte → List Byte
  | 0, _, work => work
  | fuel + 1, i, work =>
    if i < md_size then
      PBKDF2_xor_loop md_size md1 fuel (i + 1) (store work i [work.getD i 0 ^^^ md1.getD i 0])
    else
      work

/-- The `for (ic = 1; ic < iteration_count; ic++)` loop of `PKCS5_PBKDF2_HMAC`,
from the value `ic` on. -/
def PBKDF2_inner_loop (w : Nat) (u : Locals) (password : List Byte) (md_size : Nat)
    (iteration_count : Nat) : Nat → Nat → PBKDF2_vars → PBKDF2_vars
  | 0, _, v => v
  | fuel + 1, ic, v =>
    if ic < iteration_count then
      let ctx := sha2_hmac_starts w u v.ctx password 0
      let ctx := sha2_hmac_update w ctx (v.md1.take md_size)
      let r := sha2_hmac_finish w u ctx v.md1
      let v := { v with ctx := r.1, md1 := r.2 }
      let v := { v with work := PBKDF2_xor_loop md_size v.md1 md_size 0 v.work }
      PBKDF2_inner_loop w u password md_size iteration_count fuel (uadd w ic 1) v
    else
      v

/-- The `while (generated_key_length < key_length)` loop of
`PKCS5_PBKDF2_HMAC`. -/
def PBKDF2_outer_loop (w : Nat) (u : Locals) (password salt : List Byte) (md_size : Nat)
    (iteration_count key_length : Nat) : Nat → PBKDF2_vars → PBKDF2_vars
  | 0, v => v
  | fuel + 1, v =>
    if v.generated_key_length < key_length then
      let c := store u.c 0 [((v.counter >>> 24) &&& 0xff).toUInt8]
      let c := store c 1 [((v.counter >>> 16) &&& 0xff).toUInt8]
      let c := store c 2 [((v.counter >>> 8) &&& 0xff).toUInt8]
      let c := store c 3 [((v.counter >>> 0) &&& 0xff).toUInt8]
      let ctx := sha2_hmac_starts w u v.ctx password 0
      let ctx := sha2_hmac_update w ctx salt
      let ctx := sha2_hmac_update w ctx (c.take 4)
      let r := sha2_hmac_finish w u ctx v.md1
      let v := { v with ctx := r.1, md1 := r.2 }
      let v := { v with work := memcpy v.work 0 v.md1 md_size }
      let v := PBKDF2_inner_loop w u password md_size iteration_count iteration_count 1 v
      let bytes_to_write := min_local (key_length - v.generated_key_length) md_size
      let v := { v with output := memcpy v.output v.generated_key_length v.work bytes_to_write }
      let v := { v with generated_key_length := uadd w v.generated_key_length bytes_to_write }
      let v := { v with counter := uadd w v.counter 1 }
      PBKDF2_outer_loop w u password salt md_size iteration_count key_length fuel v
    else
      v

/-- The function `PKCS5_PBKDF2_HMAC`: the array `output` afterwards. -/
def PKCS5_PBKDF2_HMAC (w : Nat) (u : Locals) (password salt : List Byte)
    (iteration_count key_length : Nat) (output : List Byte) : List Byte :=
  let md_size := 32
  let v : PBKDF2_vars :=
    { ctx := sha2_starts u.ctx 0, md1 := u.md1, work := u.work, counter := 1,
      generated_key_length := 0, output := output }
  (PBKDF2_outer_loop w u password salt md_size iteration_count key_length key_length v).output

/-- The effect of `sha2_process` on the eight state words. -/
def compress (w : Nat) (st : List Nat) (data : List Byte) : List Nat :=
  (sha2_process w { total0 := 0, total1 := 0, state := st, buffer := [], ipad := [],
                    opad := [], is224 := 0 } data).state

/-- The first `q` consecutive 64-byte blocks of `l`. -/
def blocksN : Nat → List Byte → List (List Byte)
  | 0, _ => []
  | q + 1, l => l.take 64 :: blocksN q (l.drop 64)

/-- The consecutive complete 64-byte blocks of `l`. -/
def blocks (l : List Byte) : List (List Byte) := blocksN (l.length / 64) l

/-- The bytes of `l` after its last complete 64-byte block. -/
def tail64 (l : List Byte) : List Byte := l.drop (l.length / 64 * 64)

/-- The new totals that `sha2_update` stores for a non-empty input of `ilen`
bytes. -/
def total0_next (w t0 ilen : Nat) : Nat := uadd w t0 (ilen % 2 ^ w) &&& 0xFFFFFFFF

/-- The high word after `sha2_update` for a non-empty input of `ilen` bytes. -/
def total1_next (w t0 t1 ilen : Nat) : Nat :=
  if total0_next w t0 ilen < ilen % 2 ^ w then uadd w t1 1 else t1

/-- The part of `sha2_update` after the totals are stored: `ctx` holds the new
totals and `left` the number of bytes that were pending. -/
def sha2_update_body (w : Nat) (ctx : sha2_context) (left : Nat) (input : List Byte) :
    sha2_context :=
  let s : sha2_context × List Byte × Nat :=
    if left ≠ 0 ∧ input.length ≥ 64 - left then
      let ctx := { ctx with buffer := memcpy ctx.buffer left input (64 - left) }
      (sha2_process w ctx ctx.buffer, input.drop (64 - left), 0)
    else
      (ctx, input, left)
  let t := sha2_update_loop w s.2.1.length s.1 s.2.1
  if t.2.length > 0 then
    { t.1 with buffer := memcpy t.1.buffer s.2.2 t.2 t.2.length }
  else
    t.1

/-- The context of `sha2_update` once the totals are stored. -/
def sha2_update_totals (w : Nat) (ctx : sha2_context) (ilen : Nat) : sha2_context :=
  let ctx := { ctx with total0 := uadd w ctx.total0 (ilen % 2 ^ w) }
  let ctx := { ctx with total0 := ctx.total0 &&& 0xFFFFFFFF }
  if ctx.total0 < ilen % 2 ^ w then { ctx with total1 := uadd w ctx.total1 1 } else ctx

/-- The last step of `sha2_update`: the rest of the input is copied behind the
`left` pending bytes. -/
def sha2_update_tail (ctx : sha2_context) (left : Nat) (rest : List Byte) : sha2_context :=
  if rest.length > 0 then
    { ctx with buffer := memcpy ctx.buffer left rest rest.length }
  else
    ctx

/-- The initial state words of the variant `is224`. -/
def initial_state (is224 : Int) : List Nat :=
  if is224 = 0 then
    [0x6A09E667, 0xBB67AE85, 0x3C6EF372, 0xA54FF53A,
     0x510E527F, 0x9B05688C, 0x1F83D9AB, 0x5BE0CD19]
  else
    [0xC1059ED8, 0x367CD507, 0x3070DD17, 0xF70E5939,
     0xFFC00B31, 0x68581511, 0x64F98FA7, 0xBEFA4FA4]

/-- The context `ctx` has absorbed exactly the bytes `m` since `sha2_starts`
for the variant `v`. -/
structure Absorbed (w : Nat) (v : Int) (m : List Byte) (ctx : sha2_context) : Prop where
  is224 : ctx.is224 = v
  total0 : ctx.total0 = m.length % 2 ^ 32
  total1 : ctx.total1 = m.length / 2 ^ 32 % 2 ^ w
  state : ctx.state = (blocks m).foldl (compress w) (initial_state v)
  buffer : ctx.buffer.take (m.length % 64) = tail64 m

/-- The four bytes of the big-endian encoding of the low 32 bits of `n`. -/
def BE32 (n : Nat) : List Byte :=
  [(n >>> 24).toUInt8, (n >>> 16).toUInt8, (n >>> 8).toUInt8, n.toUInt8]

/-- The eight bytes of the big-endian encoding of the low 64 bits of `n`. -/
def BE64 (n : Nat) : List Byte :=
  [(n >>> 56).toUInt8, (n >>> 48).toUInt8, (n >>> 40).toUInt8, (n >>> 32).toUInt8,
   (n >>> 24).toUInt8, (n >>> 16).toUInt8, (n >>> 8).toUInt8, n.toUInt8]

/-- The number of zero bytes of the padding of a message of `n` bytes. -/
def pad_zeros (n : Nat) : Nat := (119 - n % 64) % 64

/-- The padded message: `m`, the byte `0x80`, the zero bytes, and the length of
`m` in bits as a 64-bit big-endian integer. -/
def sha2_pad (m : List Byte) : List Byte :=
  m ++ [0x80] ++ List.replicate (pad_zeros m.length) 0 ++ BE64 (8 * m.length)

/-- The state words after the compression function is folded over the blocks
of the padded message, from the initial state of the variant `v`. -/
def final_state (w : Nat) (v : Int) (m : List Byte) : List Nat :=
  (blocks (sha2_pad m)).foldl (compress w) (initial_state v)

/-- The digest of `m`: the big-endian bytes of the final state words, 32 bytes
for SHA-256 and the first 28 of them for SHA-224. -/
def digest (w : Nat) (v : Int) (m : List Byte) : List Byte :=
  ((final_state w v m).map BE32).flatten.take (if v = 0 then 32 else 28)

/-- The context `ctx` with the field `is224` replaced. -/
def with_is224 (ctx : sha2_context) (v : Int) : sha2_context := { ctx with is224 := v }

/-- The context of `sha2_finish` after its two calls of `sha2_update`. -/
def sha2_finish_ctx (w : Nat) (u : Locals) (ctx : sha2_context) : sha2_context :=
  let high := (ctx.total0 >>> 29) ||| ushl w ctx.total1 3
  let low := ushl w ctx.total0 3
  let msglen := PUT_ULONG_BE high u.msglen 0
  let msglen := PUT_ULONG_BE low msglen 4
  let last := ctx.total0 &&& 0x3F
  let padn := if last < 56 then 56 - last else 120 - last
  let ctx := sha2_update w ctx (sha2_padding.take padn)
  sha2_update w ctx (msglen.take 8)

/-- The stores of `sha2_finish` into `output`, from the context `ctx` that the
two calls of `sha2_update` leave. -/
def sha2_finish_store (ctx : sha2_context) (output : List Byte) : List Byte :=
  let output := PUT_ULONG_BE (ctx.state.getD 0 0) output 0
  let output := PUT_ULONG_BE (ctx.state.getD 1 0) output 4
  let output := PUT_ULONG_BE (ctx.state.getD 2 0) output 8
  let output := PUT_ULONG_BE (ctx.state.getD 3 0) output 12
  let output := PUT_ULONG_BE (ctx.state.getD 4 0) output 16
  let output := PUT_ULONG_BE (ctx.state.getD 5 0) output 20
  let output := PUT_ULONG_BE (ctx.state.getD 6 0) output 24
  if ctx.is224 = 0 then PUT_ULONG_BE (ctx.state.getD 7 0) output 28 else output

/-- The 28 bytes that `sha2_finish` stores for both variants. -/
def state_bytes28 (st : List Nat) : List Byte :=
  BE32 (st.getD 0 0) ++ BE32 (st.getD 1 0) ++ BE32 (st.getD 2 0) ++ BE32 (st.getD 3 0) ++
    BE32 (st.getD 4 0) ++ BE32 (st.getD 5 0) ++ BE32 (st.getD 6 0)

/-- A context with arbitrary stale contents, used for the concrete instances. -/
def stale_ctx : sha2_context :=
  { total0 := 5, total1 := 7, state := [1, 2, 3], buffer := [1, 2, 3], ipad := [], opad := [9],
    is224 := 3 }

/-- Automatic variables with arbitrary stale contents, used for the concrete
instances. -/
def stale_locals : Locals :=
  { ctx := stale_ctx, msglen := [1], sum := [3, 4], tmpbuf := [], md1 := [7, 7, 7], work := [8],
    c := [1] }

/-- Bytewise exclusive or of two byte strings. -/
def xor_bytes (a b : List Byte) : List Byte := List.zipWith (fun x y => x ^^^ y) a b

/-- The pad `K xor c^64`: 64 copies of the byte `c` xored with the key
zero-extended to 64 bytes. -/
def xor_pad (key : List Byte) (c : Byte) : List Byte :=
  xor_bytes (List.replicate 64 c) (key ++ List.replicate (64 - key.length) 0)

/-- The key that `sha2_hmac_starts` pads: the digest of a key longer than one
block, otherwise the key. -/
def hmac_key (w : Nat) (v : Int) (key : List Byte) : List Byte :=
  if key.length > 64 then digest w v key else key

/-- The MAC of `m` under the padded key `K`, from the digest of the padded
message. -/
def hmac_digest (w : Nat) (v : Int) (K m : List Byte) : List Byte :=
  digest w v (xor_pad K 0x5C ++ digest w v (xor_pad K 0x36 ++ m))

/-- The context `ctx` holds the pads of the key `K` and the variant `v`. -/
structure HmacKeyed (v : Int) (K : List Byte) (ctx : sha2_context) : Prop where
  is224 : ctx.is224 = v
  ipad : ctx.ipad.take 64 = xor_pad K 0x36
  opad : ctx.opad.take 64 = xor_pad K 0x5C

/-- The digest `H_v(x)`: the bytes that `sha2` writes for the variant `v`, taken
at the digest size of the variant. -/
def sha2_digest (w : Nat) (u : Locals) (v : Int) (x : List Byte) : List Byte :=
  (sha2 w u x (List.replicate 32 0) v).take (if v = 0 then 32 else 28)

/-- The value `U_(j+1)` of PBKDF2 for the pseudorandom function `H` and the
first message `first`: `U_1 = H first` and `U_(j+1) = H U_j`. -/
def pbkdf2_U (H : List Byte → List Byte) (first : List Byte) : Nat → List Byte
  | 0 => H first
  | j + 1 => H (pbkdf2_U H first j)

/-- The exclusive or `U_1 xor ... xor U_(n+1)`. -/
def pbkdf2_T (H : List Byte → List Byte) (first : List Byte) : Nat → List Byte
  | 0 => pbkdf2_U H first 0
  | n + 1 => xor_bytes (pbkdf2_T H first n) (pbkdf2_U H first (n + 1))

/-- The block `T_i` of PBKDF2 for the iteration count `c`, at least 1. -/
def pbkdf2_block (H : List Byte → List Byte) (salt : List Byte) (c i : Nat) : List Byte :=
  pbkdf2_T H (salt ++ BE32 i) (c - 1)

/-- The first `n` blocks `T_1 ‖ T_2 ‖ ... ‖ T_n` of PBKDF2. -/
def pbkdf2_stream (H : List Byte → List Byte) (salt : List Byte) (c n : Nat) : List Byte :=
  ((List.range n).map (fun k => pbkdf2_block H salt c (k + 1))).flatten

/-- One HMAC computation of `PKCS5_PBKDF2_HMAC` on its context: the calls
`sha2_hmac_starts`, `sha2_hmac_update` on each chunk and `sha2_hmac_finish`. -/
def hmac_op_starts (w : Nat) (u : Locals) (password : List Byte) (ctx : sha2_context)
    (chunks : List (List Byte)) (md1 : List Byte) : sha2_context × List Byte :=
  sha2_hmac_finish w u
    (chunks.foldl (sha2_hmac_update w) (sha2_hmac_starts w u ctx password 0)) md1

/-- The inner loop of PBKDF2 over an arbitrary HMAC computation `op`. -/
def gen_inner_loop (w : Nat)
    (op : sha2_context → List (List Byte) → List Byte → sha2_context × List Byte)
    (md_size : Nat) (iteration_count : Nat) : Nat → Nat → PBKDF2_vars → PBKDF2_vars
  | 0, _, v => v
  | fuel + 1, ic, v =>
    if ic < iteration_count then
      let r := op v.ctx [v.md1.take md_size] v.md1
      let v := { v with ctx := r.1, md1 := r.2 }
      let v := { v with work := PBKDF2_xor_loop md_size v.md1 md_size 0 v.work }
      gen_inner_loop w op md_size iteration_count fuel (uadd w ic 1) v
    else
      v

/-- The outer loop of PBKDF2 over an arbitrary HMAC computation `op`. -/
def gen_outer_loop (w : Nat) (u : Locals)
    (op : sha2_context → List (List Byte) → List Byte → sha2_context × List Byte)
    (salt : List Byte) (md_size : Nat) (iteration_count key_length : Nat) :
    Nat → PBKDF2_vars → PBKDF2_vars
  | 0, v => v
  | fuel + 1, v =>
    if v.generated_key_length < key_length then
      let c := store u.c 0 [((v.counter >>> 24) &&& 0xff).toUInt8]
      let c := store c 1 [((v.counter >>> 16) &&& 0xff).toUInt8]
      let c := store c 2 [((v.counter >>> 8) &&& 0xff).toUInt8]
      let c := store c 3 [((v.counter >>> 0) &&& 0xff).toUInt8]
      let r := op v.ctx [salt, c.take 4] v.md1
      let v := { v with ctx := r.1, md1 := r.2 }
      let v := { v with work := memcpy v.work 0 v.md1 md_size }
      let v := gen_inner_loop w op md_size iteration_count iteration_count 1 v
      let bytes_to_write := min_local (key_length - v.generated_key_length) md_size
      let v := { v with output := memcpy v.output v.generated_key_length v.work bytes_to_write }
      let v := { v with generated_key_length := uadd w v.generated_key_length bytes_to_write }
      let v := { v with counter := uadd w v.counter 1 }
      gen_outer_loop w u op salt md_size iteration_count key_length fuel v
    else
      v

/-- The HMAC computation `op` keeps the invariant `I` of the context and writes
`H` of the concatenated chunks to the front of its output array. -/
def OpSpec (op : sha2_context → List (List Byte) → List Byte → sha2_context × List Byte)
    (I : sha2_context → Prop) (H : List Byte → List Byte) : Prop :=
  ∀ (ctx : sha2_context) (chunks : List (List Byte)) (md1 : List Byte),
    I ctx → (∀ c ∈ chunks, c.length < 2 ^ 32) →
      (op ctx chunks md1).2 = store md1 0 (H chunks.flatten) ∧ I (op ctx chunks md1).1

/-- The state of the outer loop of PBKDF2 after `k` passes: the first `k`
blocks, cut at `key_length`, are in front of the untouched rest of the
caller's array `out0`. -/
structure OuterInv (w : Nat) (I : sha2_context → Prop) (H : List Byte → List Byte)
    (salt : List Byte) (c L : Nat) (out0 : List Byte) (k : Nat) (v : PBKDF2_vars) : Prop where
  ctx : I v.ctx
  bound : 32 * k < L + 32
  counter : v.counter = (k + 1) % 2 ^ w
  gen : v.generated_key_length = min (32 * k) L
  output : v.output =
    (pbkdf2_stream H salt c k).take (min (32 * k) L) ++ out0.drop (min (32 * k) L)

/-- The pseudorandom function of `PKCS5_PBKDF2_HMAC`: the 32 bytes that
`sha2_hmac` writes for SHA-256. -/
def hmac_sha256 (w : Nat) (u : Locals) (key msg : List Byte) : List Byte :=
  (sha2_hmac w u key msg (List.replicate 32 0) 0).take 32

/-- One HMAC computation of a PBKDF2 that keeps one keyed context: the calls
`sha2_hmac_update` on each chunk, `sha2_hmac_finish` and `sha2_hmac_reset`. -/
def hmac_op_reset (w : Nat) (u : Locals) (ctx : sha2_context)
    (chunks : List (List Byte)) (md1 : List Byte) : sha2_context × List Byte :=
  let r := sha2_hmac_finish w u (chunks.foldl (sha2_hmac_update w) ctx) md1
  (sha2_hmac_reset w r.1, r.2)

/-- The inner loop of the PBKDF2 of the specification, which keeps one HMAC
context for all HMAC computations and calls `sha2_hmac_reset` between them
where `PKCS5_PBKDF2_HMAC` calls `sha2_hmac_starts`. -/
def PBKDF2_reset_inner_loop (w : Nat) (u : Locals) (md_size : Nat)
    (iteration_count : Nat) : Nat → Nat → PBKDF2_vars → PBKDF2_vars
  | 0, _, v => v
  | fuel + 1, ic, v =>
    if ic < iteration_count then
      let ctx := sha2_hmac_update w v.ctx (v.md1.take md_size)
      let r := sha2_hmac_finish w u ctx v.md1
      let v := { v with ctx := sha2_hmac_reset w r.1, md1 := r.2 }
      let v := { v with work := PBKDF2_xor_loop md_size v.md1 md_size 0 v.work }
      PBKDF2_reset_inner_loop w u md_size iteration_count fuel (uadd w ic 1) v
    else
      v

/-- The outer loop of the PBKDF2 of the specification with one HMAC context. -/
def PBKDF2_reset_outer_loop (w : Nat) (u : Locals) (salt : List Byte) (md_size : Nat)
    (iteration_count key_length : Nat) : Nat → PBKDF2_vars → PBKDF2_vars
  | 0, v => v
  | fuel + 1, v =>
    if v.generated_key_length < key_length then
      let c := store u.c 0 [((v.counter >>> 24) &&& 0xff).toUInt8]
      let c := store c 1 [((v.counter >>> 16) &&& 0xff).toUInt8]
      let c := store c 2 [((v.counter >>> 8) &&& 0xff).toUInt8]
      let c := store c 3 [((v.counter >>> 0) &&& 0xff).toUInt8]
      let ctx := sha2_hmac_update w v.ctx salt
      let ctx := sha2_hmac_update w ctx (c.take 4)
      let r := sha2_hmac_finish w u ctx v.md1
      let v := { v with ctx := sha2_hmac_reset w r.1, md1 := r.2 }
      let v := { v with work := memcpy v.work 0 v.md1 md_size }
      let v := PBKDF2_reset_inner_loop w u md_size iteration_count iteration_count 1 v
      let bytes_to_write := min_local (key_length - v.generated_key_length) md_size
      let v := { v with output := memcpy v.output v.generated_key_length v.work bytes_to_write }
      let v := { v with generated_key_length := uadd w v.generated_key_length bytes_to_write }
      let v := { v with counter := uadd w v.counter 1 }
      PBKDF2_reset_outer_loop w u salt md_size iteration_count key_length fuel v
    else
      v

/-- The PBKDF2 of the specification with one persistent HMAC context: the key
is padded once by `sha2_hmac_starts`, and `sha2_hmac_reset` restores the
context after every HMAC computation. -/
def PKCS5_PBKDF2_HMAC_reset (w : Nat) (u : Locals) (password salt : List Byte)
    (iteration_count key_length : Nat) (output : List Byte) : List Byte :=
  let md_size := 32
  let v : PBKDF2_vars :=
    { ctx := sha2_hmac_starts w u u.ctx password 0, md1 := u.md1, work := u.work, counter := 1,
      generated_key_length := 0, output := output }
  (PBKDF2_reset_outer_loop w u salt md_size iteration_count key_length key_length v).output

/-- The eight working variables of the compression function. -/
structure Regs where
  a : Nat
  b : Nat
  c : Nat
  d : Nat
  e : Nat
  f : Nat
  g : Nat
  h : Nat

/-- The round constants of FIPS 180-2, in round order. -/
def K256 : List Nat :=
  [   0x428A2F98, 0x71374491, 0xB5C0FBCF, 0xE9B5DBA5,
   0x3956C25B, 0x59F111F1, 0x923F82A4, 0xAB1C5ED5,
   0xD807AA98, 0x12835B01, 0x243185BE, 0x550C7DC3,
   0x72BE5D74, 0x80DEB1FE, 0x9BDC06A7, 0xC19BF174,
   0xE49B69C1, 0xEFBE4786, 0x0FC19DC6, 0x240CA1CC,
   0x2DE92C6F, 0x4A7484AA, 0x5CB0A9DC, 0x76F988DA,
   0x983E5152, 0xA831C66D, 0xB00327C8, 0xBF597FC7,
   0xC6E00BF3, 0xD5A79147, 0x06CA6351, 0x14292967,
   0x27B70A85, 0x2E1B2138, 0x4D2C6DFC, 0x53380D13,
   0x650A7354, 0x766A0ABB, 0x81C2C92E, 0x92722C85,
   0xA2BFE8A1, 0xA81A664B, 0xC24B8B70, 0xC76C51A3,
   0xD192E819, 0xD6990624, 0xF40E3585, 0x106AA070,
   0x19A4C116, 0x1E376C08, 0x2748774C, 0x34B0BCB5,
   0x391C0CB3, 0x4ED8AA4A, 0x5B9CCA4F, 0x682E6FF3,
   0x748F82EE, 0x78A5636F, 0x84C87814, 0x8CC70208,
   0x90BEFFFA, 0xA4506CEB, 0xBEF9A3F7, 0xC67178F2]

/-- The message schedule grown by `n` words with the rule `r`, which gives
`W[t]` from `W[t-2]`, `W[t-7]`, `W[t-15]` and `W[t-16]`. -/
def sched_extend (r : Nat → Nat → Nat → Nat → Nat) : Nat → List Nat → List Nat
  | 0, W => W
  | n + 1, W =>
    sched_extend r n
      (W ++ [r (W.getD (W.length - 2) 0) (W.getD (W.length - 7) 0)
        (W.getD (W.length - 15) 0) (W.getD (W.length - 16) 0)])

/-- The 64 rounds with the round function `rnd` over the schedule `W`. -/
def rounds64 (rnd : Regs → Nat → Nat → Regs) (W : List Nat) (s : Regs) : Regs :=
  (List.range 64).foldl (fun s t => rnd s (K256.getD t 0) (W.getD t 0)) s

/-- One round in the terms of the macro `P`: the variables shift by one place,
`P` gives the new `e` and the new `a`. -/
def P_round (w : Nat) (s : Regs) (k x : Nat) : Regs :=
  let r := P w s.a s.b s.c s.d s.e s.f s.g s.h x k
  { a := r.2, b := s.a, c := s.b, d := s.c, e := r.1, f := s.e, g := s.f, h := s.g }

/-- The body of `sha2_process` as a loop over the macros `R` and `P`. -/
def process_loop (w : Nat) (st : List Nat) (data : List Byte) : List Nat :=
  let W := sched_extend (R w) 48
    [GET_ULONG_BE data 0, GET_ULONG_BE data 4, GET_ULONG_BE data 8, GET_ULONG_BE data 12,
     GET_ULONG_BE data 16, GET_ULONG_BE data 20, GET_ULONG_BE data 24, GET_ULONG_BE data 28,
     GET_ULONG_BE data 32, GET_ULONG_BE data 36, GET_ULONG_BE data 40, GET_ULONG_BE data 44,
     GET_ULONG_BE data 48, GET_ULONG_BE data 52, GET_ULONG_BE data 56, GET_ULONG_BE data 60]
  let s := rounds64 (P_round w) W
    { a := st.getD 0 0, b := st.getD 1 0, c := st.getD 2 0, d := st.getD 3 0,
      e := st.getD 4 0, f := st.getD 5 0, g := st.getD 6 0, h := st.getD 7 0 }
  [uadd w (st.getD 0 0) s.a, uadd w (st.getD 1 0) s.b, uadd w (st.getD 2 0) s.c,
   uadd w (st.getD 3 0) s.d, uadd w (st.getD 4 0) s.e, uadd w (st.getD 5 0) s.f,
   uadd w (st.getD 6 0) s.g, uadd w (st.getD 7 0) s.h]

/-- Sum of two words modulo `2^32`. -/
def add32 (a b : Nat) : Nat := (a + b) % 2 ^ 32

/-- The shift `shr(x, n)` of a 32-bit word. -/
def shr32 (x n : Nat) : Nat := x >>> n

/-- The circular rotation `rotr(x, n)` of a 32-bit word. -/
def rotr32 (x n : Nat) : Nat := (x >>> n) ||| ((x <<< (32 - n)) % 2 ^ 32)

/-- The function `σ0` of the message schedule. -/
def sigma0 (x : Nat) : Nat := rotr32 x 7 ^^^ rotr32 x 18 ^^^ shr32 x 3

/-- The function `σ1` of the message schedule. -/
def sigma1 (x : Nat) : Nat := rotr32 x 17 ^^^ rotr32 x 19 ^^^ shr32 x 10

/-- The function `Σ0` of the round. -/
def Sigma0 (x : Nat) : Nat := rotr32 x 2 ^^^ rotr32 x 13 ^^^ rotr32 x 22

/-- The function `Σ1` of the round. -/
def Sigma1 (x : Nat) : Nat := rotr32 x 6 ^^^ rotr32 x 11 ^^^ rotr32 x 25

/-- The function `Ch` in the form the specification gives. -/
def Ch (x y z : Nat) : Nat := z ^^^ (x &&& (y ^^^ z))

/-- The function `Maj` in the form the specification gives. -/
def Maj (x y z : Nat) : Nat := (x &&& y) ||| (z &&& (x ||| y))

/-- The schedule rule `W[t] = σ1(W[t-2]) + W[t-7] + σ0(W[t-15]) + W[t-16]`. -/
def W_rule (w2 w7 w15 w16 : Nat) : Nat :=
  add32 (add32 (add32 (sigma1 w2) w7) (sigma0 w15)) w16

/-- One round of the loop definition: `T1 = h + Σ1(e) + Ch(e,f,g) + K[t] + W[t]`,
`T2 = Σ0(a) + Maj(a,b,c)` and `(a,..,h) := (T1+T2, a, b, c, d+T1, e, f, g)`. -/
def round_spec (s : Regs) (k x : Nat) : Regs :=
  let T1 := add32 (add32 (add32 (add32 s.h (Sigma1 s.e)) (Ch s.e s.f s.g)) k) x
  let T2 := add32 (Sigma0 s.a) (Maj s.a s.b s.c)
  { a := add32 T1 T2, b := s.a, c := s.b, d := s.c, e := add32 s.d T1, f := s.e, g := s.f,
    h := s.g }

/-- The word read big-endian from four bytes of the block. -/
def be32_word (block : List Byte) (i : Nat) : Nat :=
  (block.getD i 0).toNat * 2 ^ 24 + (block.getD (i + 1) 0).toNat * 2 ^ 16 +
    (block.getD (i + 2) 0).toNat * 2 ^ 8 + (block.getD (i + 3) 0).toNat

/-- The loop definition of the compression function: the schedule of 64 words,
64 rounds over the working variables, and the addition of the working
variables to the state words, all modulo `2^32`. -/
def compress_spec (st : List Nat) (block : List Byte) : List Nat :=
  let W := sched_extend W_rule 48 ((List.range 16).map (fun j => be32_word block (4 * j)))
  let s := rounds64 round_spec W
    { a := st.getD 0 0, b := st.getD 1 0, c := st.getD 2 0, d := st.getD 3 0,
      e := st.getD 4 0, f := st.getD 5 0, g := st.getD 6 0, h := st.getD 7 0 }
  [add32 (st.getD 0 0) s.a, add32 (st.getD 1 0) s.b, add32 (st.getD 2 0) s.c,
   add32 (st.getD 3 0) s.d, add32 (st.getD 4 0) s.e, add32 (st.getD 5 0) s.f,
   add32 (st.getD 6 0) s.g, add32 (st.getD 7 0) s.h]

/-- The low 32 bits of the working variables. -/
def regs_low (s : Regs) : Regs :=
  { a := s.a % 2 ^ 32, b := s.b % 2 ^ 32, c := s.c % 2 ^ 32, d := s.d % 2 ^ 32,
    e := s.e % 2 ^ 32, f := s.f % 2 ^ 32, g := s.g % 2 ^ 32, h := s.h % 2 ^ 32 }

/-- The digest of `m` with the loop definition of the compression function, all
arithmetic modulo `2^32`. -/
def digest_spec (v : Int) (m : List Byte) : List Byte :=
  (((blocks (sha2_pad m)).foldl compress_spec (initial_state v)).map BE32).flatten.take
    (if v = 0 then 32 else 28)

/-- The MAC of `m` under the key `K` of at most 64 bytes, with the loop
definition of the compression function. -/
def hmac_spec (v : Int) (K m : List Byte) : List Byte :=
  digest_spec v (xor_pad K 0x5C ++ digest_spec v (xor_pad K 0x36 ++ m))

/-- The hexadecimal digit of a value below 16, in lower case. -/
def hex_digit (n : Nat) : Char :=
  if n < 10 then Char.ofNat (48 + n) else Char.ofNat (87 + n)

/-- The hex rendering of a byte string, two digits for each byte, the way the
specification writes digests and keys. -/
def hex_string (bs : List Byte) : String :=
  String.mk (bs.map (fun b => [hex_digit (b.toNat / 16), hex_digit (b.toNat % 16)])).flatten

/-- The type `struct testvector` of the self-test. -/
structure testvector where
  /-- The name of the test, which `main` prints. -/
  t : String
  /-- The password `p`. -/
  p : List Byte
  /-- The length `plen` of the password. -/
  plen : Nat
  /-- The salt `s`. -/
  s : List Byte
  /-- The length `slen` of the salt. -/
  slen : Nat
  /-- The iteration count `c`. -/
  c : Nat
  /-- The length `dkLen` of the derived key. -/
  dkLen : Nat
  /-- The expected key, the array `dk[1024]`. -/
  dk : List Byte

/-- The C library function `memcmp(a, b, n)`: zero when the first `n` bytes
agree, otherwise the difference of the first two bytes that differ. -/
def memcmp : List Byte → List Byte → Nat → Int
  | _, _, 0 => 0
  | a, b, n + 1 =>
    if a.getD 0 0 = b.getD 0 0 then memcmp a.tail b.tail n
    else ((a.getD 0 0).toNat : Int) - ((b.getD 0 0).toNat : Int)

/-- The function `do_test` of the self-test: its result and the lines written
to the standard output; `malloc n` is the block that `malloc(n)` returns, with
the contents it has then, or `none` when it fails. -/
def do_test (w : Nat) (u : Locals) (malloc : Nat → Option (List Byte)) (tv : testvector)
    (stdout : List String) : Int × List String :=
  let stdout := stdout ++ ["Started " ++ tv.t ++ "\n"]
  match malloc tv.dkLen with
  | none => (-1, stdout)
  | some key =>
    let key := PKCS5_PBKDF2_HMAC w u (tv.p.take tv.plen) (tv.s.take tv.slen) tv.c tv.dkLen key
    if memcmp tv.dk key tv.dkLen ≠ 0 then (-1, stdout) else (0, stdout)

/-- The PBKDF2 part of `main` of the self-test, from `testvector *tv = 0` to the
end, for the six test vectors that `main` declares: its result and the lines
written to the standard output. For the fourth vector the call of `do_test` is
commented out in the source, and only `res` is tested again. -/
def main_pbkdf2 (w : Nat) (u : Locals) (malloc : Nat → Option (List Byte))
    (t1 t2 t3 t4 t5 t6 : testvector) (stdout : List String) : Int × List String :=
  let r := do_test w u malloc t1 stdout
  if r.1 ≠ 0 then (r.1, r.2 ++ [t1.t ++ " failed\n"])
  else
    let r := do_test w u malloc t2 r.2
    if r.1 ≠ 0 then (r.1, r.2 ++ [t2.t ++ " failed\n"])
    else
      let r := do_test w u malloc t3 r.2
      if r.1 ≠ 0 then (r.1, r.2 ++ [t3.t ++ " failed\n"])
      else if r.1 ≠ 0 then (r.1, r.2 ++ [t4.t ++ " failed\n"])
      else
        let r := do_test w u malloc t5 r.2
        if r.1 ≠ 0 then (r.1, r.2 ++ [t5.t ++ " failed\n"])
        else
          let r := do_test w u malloc t6 r.2
          if r.1 ≠ 0 then (r.1, r.2 ++ [t6.t ++ " failed\n"]) else (0, r.2)

/-- The test vector `t1` of `main`. -/
def testvector_t1 : testvector :=
  { t := "Test 1", p := [0x70, 0x61, 0x73, 0x73, 0x77, 0x6f, 0x72, 0x64], plen := 8,
    s := [0x73, 0x61, 0x6c, 0x74], slen := 4, c := 1, dkLen := 32,
    dk := [0x12, 0x0f, 0xb6, 0xcf, 0xfc, 0xf8, 0xb3, 0x2c, 0x43, 0xe7, 0x22, 0x52, 0x56, 0xc4,
           0xf8, 0x37, 0xa8, 0x65, 0x48, 0xc9, 0x2c, 0xcc, 0x35, 0x48, 0x08, 0x05, 0x98, 0x7c,
           0xb7, 0x0b, 0xe1, 0x7b] ++ List.replicate 992 0 }

/-- The test vector `t2` of `main`. -/
def testvector_t2 : testvector :=
  { t := "Test 2", p := [0x70, 0x61, 0x73, 0x73, 0x77, 0x6f, 0x72, 0x64], plen := 8,
    s := [0x73, 0x61, 0x6c, 0x74], slen := 4, c := 2, dkLen := 32,
    dk := [0xae, 0x4d, 0x0c, 0x95, 0xaf, 0x6b, 0x46, 0xd3, 0x2d, 0x0a, 0xdf, 0xf9, 0x28, 0xf0,
           0x6d, 0xd0, 0x2a, 0x30, 0x3f, 0x8e, 0xf3, 0xc2, 0x51, 0xdf, 0xd6, 0xe2, 0xd8, 0x5a,
           0x95, 0x47, 0x4c, 0x43] ++ List.replicate 992 0 }

/-- The test vector `t3` of `main`. -/
def testvector_t3 : testvector :=
  { t := "Test 3", p := [0x70, 0x61, 0x73, 0x73, 0x77, 0x6f, 0x72, 0x64], plen := 8,
    s := [0x73, 0x61, 0x6c, 0x74], slen := 4, c := 4096, dkLen := 32,
    dk := [0xc5, 0xe4, 0x78, 0xd5, 0x92, 0x88, 0xc8, 0x41, 0xaa, 0x53, 0x0d, 0xb6, 0x84, 0x5c,
           0x4c, 0x8d, 0x96, 0x28, 0x93, 0xa0, 0x01, 0xce, 0x4e, 0x11, 0xa4, 0x96, 0x38, 0x73,
           0xaa, 0x98, 0x13, 0x4a] ++ List.replicate 992 0 }

/-- The test vector `t4` of `main`. -/
def testvector_t4 : testvector :=
  { t := "Test 4", p := [0x70, 0x61, 0x73, 0x73, 0x77, 0x6f, 0x72, 0x64], plen := 8,
    s := [0x73, 0x61, 0x6c, 0x74], slen := 4, c := 16777216, dkLen := 32,
    dk := [0xcf, 0x81, 0xc6, 0x6f, 0xe8, 0xcf, 0xc0, 0x4d, 0x1f, 0x31, 0xec, 0xb6, 0x5d, 0xab,
           0x40, 0x89, 0xf7, 0xf1, 0x79, 0xe8, 0x9b, 0x3b, 0x0b, 0xcb, 0x17, 0xad, 0x10, 0xe3,
           0xac, 0x6e, 0xba, 0x46] ++ List.replicate 992 0 }

/-- The test vector `t5` of `main`. -/
def testvector_t5 : testvector :=
  { t := "Test 5",
    p := [0x70, 0x61, 0x73, 0x73, 0x77, 0x6f, 0x72, 0x64, 0x50, 0x41, 0x53, 0x53, 0x57, 0x4f,
          0x52, 0x44, 0x70, 0x61, 0x73, 0x73, 0x77, 0x6f, 0x72, 0x64],
    plen := 24,
    s := [0x73, 0x61, 0x6c, 0x74, 0x53, 0x41, 0x4c, 0x54, 0x73, 0x61, 0x6c, 0x74, 0x53, 0x41,
          0x4c, 0x54, 0x73, 0x61, 0x6c, 0x74, 0x53, 0x41, 0x4c, 0x54, 0x73, 0x61, 0x6c, 0x74,
          0x53, 0x41, 0x4c, 0x54, 0x73, 0x61, 0x6c, 0x74],
    slen := 36, c := 4096, dkLen := 40,
    dk := [0x34, 0x8c, 0x89, 0xdb, 0xcb, 0xd3, 0x2b, 0x2f, 0x32, 0xd8, 0x14, 0xb8, 0x11, 0x6e,
           0x84, 0xcf, 0x2b, 0x17, 0x34, 0x7e, 0xbc, 0x18, 0x00, 0x18, 0x1c, 0x4e, 0x2a, 0x1f,
           0xb8, 0xdd, 0x53, 0xe1, 0xc6, 0x35, 0x51, 0x8c, 0x7d, 0xac, 0x47, 0xe9] ++
          List.replicate 984 0 }

/-- The test vector `t6` of `main`. -/
def testvector_t6 : testvector :=
  { t := "Test 6", p := [0x70, 0x61, 0x73, 0x73, 0x00, 0x77, 0x6f, 0x72, 0x64], plen := 9,
    s := [0x73, 0x61, 0x00, 0x6c, 0x74], slen := 5, c := 4096, dkLen := 16,
    dk := [0x89, 0xb6, 0x9d, 0x05, 0x16, 0xf8, 0x29, 0x89, 0x3c, 0x69, 0x62, 0x26, 0x65, 0x0a,
           0x86, 0x87] ++ List.replicate 1008 0 }

/-- A `malloc` that returns a block of `n` bytes `0xEE`, for the concrete
instances. -/
def stale_malloc (n : Nat) : Option (List Byte) := some (List.replicate n 0xEE)

/-- The streaming state of a context that has absorbed the bytes `m` since
`sha2_starts` for the variant `v`: the low counter word, the state words and the
pending bytes. -/
structure Streaming (w : Nat) (v : Int) (m : List Byte) (ctx : sha2_context) : Prop where
  is224 : ctx.is224 = v
  total0 : ctx.total0 = m.length % 2 ^ 32
  state : ctx.state = (blocks m).foldl (compress w) (initial_state v)
  buffer : ctx.buffer.take (m.length % 64) = tail64 m

/-- The number `padn` of padding bytes that `sha2_finish` chooses. -/
def sha2_finish_padn (ctx : sha2_context) : Nat :=
  let last := ctx.total0 &&& 0x3F
  if last < 56 then 56 - last else 120 - last

/-- The array `msglen` of `sha2_finish` after the two stores of the bit length. -/
def sha2_finish_msglen (w : Nat) (u : Locals) (ctx : sha2_context) : List Byte :=
  let high := (ctx.total0 >>> 29) ||| ushl w ctx.total1 3
  let low := ushl w ctx.total0 3
  let msglen := PUT_ULONG_BE high u.msglen 0
  PUT_ULONG_BE low msglen 4

/-- The number of passes of the `while (ilen >= 64)` loop of `sha2_update`; each
pass calls `sha2_process` once. -/
def sha2_update_loop_calls : Nat → List Byte → Nat
  | 0, _ => 0
  | fuel + 1, input =>
    if input.length ≥ 64 then sha2_update_loop_calls fuel (input.drop 64) + 1 else 0

/-- The number of calls of `sha2_process` that `sha2_update` makes: one when the
pending bytes and the head of the input fill the buffer, and one for each pass
of the loop. -/
def sha2_update_calls (ctx : sha2_context) (input : List Byte) : Nat :=
  let ilen := input.length
  if ilen ≤ 0 then 0
  else
    let left := ctx.total0 &&& 0x3F
    let fill := 64 - left
    let s : Nat × List Byte :=
      if left ≠ 0 ∧ ilen ≥ fill then (1, input.drop fill) else (0, input)
    s.1 + sha2_update_loop_calls s.2.length s.2

/-- The number of calls of `sha2_process` that `sha2_finish` makes, in its two
calls of `sha2_update`. -/
def sha2_finish_calls (w : Nat) (u : Locals) (ctx : sha2_context) : Nat :=
  sha2_update_calls ctx (sha2_padding.take (sha2_finish_padn ctx)) +
    sha2_update_calls (sha2_update w ctx (sha2_padding.take (sha2_finish_padn ctx)))
      ((sha2_finish_msglen w u ctx).take 8)

/-- The context `ctx` comes from a context with the state words `s0` by
absorbing bytes, and `m` is the bytes that were pending then followed by the
bytes absorbed. -/
structure Pending (w : Nat) (s0 : List Nat) (m : List Byte) (ctx : sha2_context) : Prop where
  total0 : ctx.total0 % 64 = m.length % 64
  state : ctx.state = (blocks m).foldl (compress w) s0
  buffer : ctx.buffer.take (m.length % 64) = tail64 m

/-- The variables of `PKCS5_PBKDF2_HMAC` when its outer loop starts. -/
def PBKDF2_init (u : Locals) (output : List Byte) : PBKDF2_vars :=
  { ctx := sha2_starts u.ctx 0, md1 := u.md1, work := u.work, counter := 1,
    generated_key_length := 0, output := output }

/-- The body of the outer loop of `PKCS5_PBKDF2_HMAC`: the variables after one
pass. -/
def PBKDF2_outer_body (w : Nat) (u : Locals) (password salt : List Byte) (md_size : Nat)
    (iteration_count key_length : Nat) (v : PBKDF2_vars) : PBKDF2_vars :=
  let c := store u.c 0 [((v.counter >>> 24) &&& 0xff).toUInt8]
  let c := store c 1 [((v.counter >>> 16) &&& 0xff).toUInt8]
  let c := store c 2 [((v.counter >>> 8) &&& 0xff).toUInt8]
  let c := store c 3 [((v.counter >>> 0) &&& 0xff).toUInt8]
  let ctx := sha2_hmac_starts w u v.ctx password 0
  let ctx := sha2_hmac_update w ctx salt
  let ctx := sha2_hmac_update w ctx (c.take 4)
  let r := sha2_hmac_finish w u ctx v.md1
  let v := { v with ctx := r.1, md1 := r.2 }
  let v := { v with work := memcpy v.work 0 v.md1 md_size }
  let v := PBKDF2_inner_loop w u password md_size iteration_count iteration_count 1 v
  let bytes_to_write := min_local (key_length - v.generated_key_length) md_size
  let v := { v with output := memcpy v.output v.generated_key_length v.work bytes_to_write }
  let v := { v with generated_key_length := uadd w v.generated_key_length bytes_to_write }
  { v with counter := uadd w v.counter 1 }

/-- The complement `not x` of a 32-bit word. -/
def not32 (x : Nat) : Nat := x ^^^ 0xFFFFFFFF

/-- The function `Ch` as FIPS 180-2 defines it: `(x and y) xor ((not x) and z)`. -/
def Ch_fips (x y z : Nat) : Nat := (x &&& y) ^^^ (not32 x &&& z)

/-- The function `Maj` as FIPS 180-2 defines it:
`(x and y) xor (x and z) xor (y and z)`. -/
def Maj_fips (x y z : Nat) : Nat := (x &&& y) ^^^ (x &&& z) ^^^ (y &&& z)

/-- Two contexts agree on all that the digest functions read: the counter, the
state words, the variant and the pending bytes of `buffer`. -/
structure SameView (c1 c2 : sha2_context) : Prop where
  total0 : c1.total0 = c2.total0
  total1 : c1.total1 = c2.total1
  state : c1.state = c2.state
  is224 : c1.is224 = c2.is224
  buffer : c1.buffer.take (c1.total0 % 64) = c2.buffer.take (c1.total0 % 64)
  len1 : c1.total0 % 64 ≤ c1.buffer.length
  len2 : c1.total0 % 64 ≤ c2.buffer.length

/-- Two contexts hold the same HMAC pads. -/
structure SamePads (c1 c2 : sha2_context) : Prop where
  ipad : c1.ipad.take 64 = c2.ipad.take 64
  opad : c1.opad.take 64 = c2.opad.take 64

/-- The bytes that `sha2_finish` stores from the context that its two calls of
`sha2_update` leave. -/
def finish_bytes (ctx : sha2_context) : List Byte :=
  state_bytes28 ctx.state ++ (if ctx.is224 = 0 then BE32 (ctx.state.getD 7 0) else [])

/-- The key that `sha2_hmac_starts` pads, after its first statement: the digest
of a key longer than 64 bytes, otherwise the key. -/
def sha2_hmac_starts_key (w : Nat) (u : Locals) (key : List Byte) (is224 : Int) : List Byte :=
  if key.length > 64 then
    let sum := sha2 w u key u.sum is224
    sum.take (if is224 ≠ 0 then 28 else 32)
  else
    key

/-- The context of the outer digest of `sha2_hmac_finish`, before its last call
of `sha2_finish`. -/
def sha2_hmac_outer (w : Nat) (u : Locals) (ctx : sha2_context) : sha2_context :=
  let is224 := ctx.is224
  let hlen := if is224 = 0 then 32 else 28
  let r := sha2_finish w u ctx u.tmpbuf
  let ctx := r.1
  let tmpbuf := r.2
  let ctx := sha2_starts ctx is224
  let ctx := sha2_update w ctx (ctx.opad.take 64)
  sha2_update w ctx (tmpbuf.take hlen)

/-- The body of the inner loop of `PKCS5_PBKDF2_HMAC`: the variables after one
pass. -/
def PBKDF2_inner_body (w : Nat) (u : Locals) (password : List Byte) (md_size : Nat)
    (v : PBKDF2_vars) : PBKDF2_vars :=
  let ctx := sha2_hmac_starts w u v.ctx password 0
  let ctx := sha2_hmac_update w ctx (v.md1.take md_size)
  let r := sha2_hmac_finish w u ctx v.md1
  let v := { v with ctx := r.1, md1 := r.2 }
  { v with work := PBKDF2_xor_loop md_size v.md1 md_size 0 v.work }

/-- The variables of two runs of the inner loop agree on all that the loop
reads. -/
structure SameInner (v1 v2 : PBKDF2_vars) : Prop where
  counter : v1.counter = v2.counter
  gen : v1.generated_key_length = v2.generated_key_length
  output : v1.output = v2.output
  md1 : v1.md1.take 32 = v2.md1.take 32
  work : v1.work.take 32 = v2.work.take 32
  lm1 : 32 ≤ v1.md1.length
  lm2 : 32 ≤ v2.md1.length
  lw1 : 32 ≤ v1.work.length
  lw2 : 32 ≤ v2.work.length

/-- The variables of two runs of the outer loop agree on all that the loop
reads. -/
structure SameOuter (v1 v2 : PBKDF2_vars) : Prop where
  counter : v1.counter = v2.counter
  gen : v1.generated_key_length = v2.generated_key_length
  output : v1.output = v2.output

/-- The variables handed to the inner loop by one pass of the outer loop. -/
def PBKDF2_outer_head (w : Nat) (u : Locals) (password salt : List Byte) (md_size : Nat)
    (v : PBKDF2_vars) : PBKDF2_vars :=
  let c := store u.c 0 [((v.counter >>> 24) &&& 0xff).toUInt8]
  let c := store c 1 [((v.counter >>> 16) &&& 0xff).toUInt8]
  let c := store c 2 [((v.counter >>> 8) &&& 0xff).toUInt8]
  let c := store c 3 [((v.counter >>> 0) &&& 0xff).toUInt8]
  let ctx := sha2_hmac_starts w u v.ctx password 0
  let ctx := sha2_hmac_update w ctx salt
  let ctx := sha2_hmac_update w ctx (c.take 4)
  let r := sha2_hmac_finish w u ctx v.md1
  let v := { v with ctx := r.1, md1 := r.2 }
  { v with work := memcpy v.work 0 v.md1 md_size }

/-- The variables after the last three statements of one pass of the outer loop. -/
def PBKDF2_outer_tail (w : Nat) (md_size key_length : Nat) (v : PBKDF2_vars) : PBKDF2_vars :=
  let bytes_to_write := min_local (key_length - v.generated_key_length) md_size
  let v := { v with output := memcpy v.output v.generated_key_length v.work bytes_to_write }
  let v := { v with generated_key_length := uadd w v.generated_key_length bytes_to_write }
  { v with counter := uadd w v.counter 1 }

/-- The padded message whose length field encodes a count of `n` bytes: `m`, the
byte `0x80`, the zero bytes, and `8 * n` as a 64-bit big-endian integer. For
`n = |m|` it is `sha2_pad m`. -/
def sha2_pad_count (m : List Byte) (n : Nat) : List Byte :=
  m ++ [0x80] ++ List.replicate (pad_zeros m.length) 0 ++ BE64 (8 * n)

/-- The digest of `m` when the length field of the padding encodes a count of
`n` bytes. For `n = |m|` it is `digest w v m`. -/
def digest_count (w : Nat) (v : Int) (m : List Byte) (n : Nat) : List Byte :=
  ((((blocks (sha2_pad_count m n)).foldl (compress w) (initial_state v)).map
    BE32).flatten).take (if v = 0 then 32 else 28)

/-! ## Lemmas and the claims -/

theorem sha2_process_eq (w : Nat) (ctx : sha2_context) (data : List Byte) :
    sha2_process w ctx data = { ctx with state := compress w ctx.state data } := rfl

theorem getD_take_of_lt (l : List Byte) (n i : Nat) (h : i < n) :
    (l.take n).getD i 0 = l.getD i 0 := by
  simp [List.getD, List.getElem?_take, h]

theorem GET_ULONG_BE_take (data : List Byte) (n i : Nat) (h : i + 3 < n) :
    GET_ULONG_BE (data.take n) i = GET_ULONG_BE data i := by
  unfold GET_ULONG_BE
  rw [getD_take_of_lt _ _ _ (by omega), getD_take_of_lt _ _ _ (by omega),
    getD_take_of_lt _ _ _ (by omega), getD_take_of_lt _ _ _ (by omega)]

theorem compress_take (w : Nat) (st : List Nat) (data : List Byte) :
    compress w st (data.take 64) = compress w st data := by
  unfold compress sha2_process
  rw [GET_ULONG_BE_take data 64 0 (by decide), GET_ULONG_BE_take data 64 4 (by decide),
    GET_ULONG_BE_take data 64 8 (by decide), GET_ULONG_BE_take data 64 12 (by decide),
    GET_ULONG_BE_take data 64 16 (by decide), GET_ULONG_BE_take data 64 20 (by decide),
    GET_ULONG_BE_take data 64 24 (by decide), GET_ULONG_BE_take data 64 28 (by decide),
    GET_ULONG_BE_take data 64 32 (by decide), GET_ULONG_BE_take data 64 36 (by decide),
    GET_ULONG_BE_take data 64 40 (by decide), GET_ULONG_BE_take data 64 44 (by decide),
    GET_ULONG_BE_take data 64 48 (by decide), GET_ULONG_BE_take data 64 52 (by decide),
    GET_ULONG_BE_take data 64 56 (by decide), GET_ULONG_BE_take data 64 60 (by decide)]

theorem tail64_length (l : List Byte) : (tail64 l).length = l.length % 64 := by
  unfold tail64
  rw [List.length_drop]
  omega

theorem blocks_of_ge (l : List Byte) (h : 64 ≤ l.length) :
    blocks l = l.take 64 :: blocks (l.drop 64) := by
  unfold blocks
  have h1 : l.length / 64 = (l.drop 64).length / 64 + 1 := by
    rw [List.length_drop]; omega
  rw [h1]
  rfl

theorem blocks_of_lt (l : List Byte) (h : l.length < 64) : blocks l = [] := by
  unfold blocks
  have h1 : l.length / 64 = 0 := by omega
  rw [h1]
  rfl

theorem tail64_of_ge (l : List Byte) (h : 64 ≤ l.length) :
    tail64 l = tail64 (l.drop 64) := by
  unfold tail64
  rw [List.drop_drop, List.length_drop]
  congr 1
  omega

theorem tail64_of_lt (l : List Byte) (h : l.length < 64) : tail64 l = l := by
  unfold tail64
  have h1 : l.length / 64 = 0 := by omega
  rw [h1]
  rfl

/-- Splitting a message at a block boundary splits its blocks and keeps the
partial tail of the second part. -/
theorem blocks_append_aux (x : List Byte) :
    ∀ (q : Nat) (m : List Byte), m.length / 64 = q →
      blocks (m ++ x) = blocks m ++ blocks (tail64 m ++ x) ∧
      tail64 (m ++ x) = tail64 (tail64 m ++ x) := by
  intro q
  induction q with
  | zero =>
    intro m hq
    have hlt : m.length < 64 := by omega
    rw [blocks_of_lt m hlt, tail64_of_lt m hlt]
    exact ⟨rfl, rfl⟩
  | succ q ih =>
    intro m hq
    have hge : 64 ≤ m.length := by omega
    have hge2 : 64 ≤ (m ++ x).length := by rw [List.length_append]; omega
    have hd : (m.drop 64).length / 64 = q := by rw [List.length_drop]; omega
    obtain ⟨ih1, ih2⟩ := ih (m.drop 64) hd
    have htk : (m ++ x).take 64 = m.take 64 := by
      rw [List.take_append_of_le_length hge]
    have hdr : (m ++ x).drop 64 = m.drop 64 ++ x := by
      rw [List.drop_append_of_le_length hge]
    rw [blocks_of_ge (m ++ x) hge2, blocks_of_ge m hge, tail64_of_ge (m ++ x) hge2,
      tail64_of_ge m hge, htk, hdr, ih1, ih2]
    exact ⟨rfl, rfl⟩

theorem blocks_append (m x : List Byte) :
    blocks (m ++ x) = blocks m ++ blocks (tail64 m ++ x) :=
  (blocks_append_aux x _ m rfl).1

theorem tail64_append (m x : List Byte) :
    tail64 (m ++ x) = tail64 (tail64 m ++ x) :=
  (blocks_append_aux x _ m rfl).2

theorem sha2_update_loop_eq (w : Nat) :
    ∀ (fuel : Nat) (ctx : sha2_context) (input : List Byte), input.length / 64 ≤ fuel →
      sha2_update_loop w fuel ctx input =
        ({ ctx with state := (blocks input).foldl (compress w) ctx.state }, tail64 input) := by
  intro fuel
  induction fuel with
  | zero =>
    intro ctx input h
    have hlt : input.length < 64 := by omega
    rw [blocks_of_lt input hlt, tail64_of_lt input hlt]
    rfl
  | succ fuel ih =>
    intro ctx input h
    by_cases hge : input.length ≥ 64
    · have hd : (input.drop 64).length / 64 ≤ fuel := by rw [List.length_drop]; omega
      rw [sha2_update_loop, if_pos hge, ih _ _ hd, blocks_of_ge input hge,
        tail64_of_ge input hge, sha2_process_eq, List.foldl_cons, compress_take]
    · have hlt : input.length < 64 := by omega
      rw [sha2_update_loop, if_neg hge, blocks_of_lt input hlt, tail64_of_lt input hlt]
      rfl

theorem and_3F (x : Nat) : x &&& 0x3F = x % 64 :=
  Nat.and_pow_two_sub_one_eq_mod x 6

theorem and_FFFFFFFF (x : Nat) : x &&& 0xFFFFFFFF = x % 2 ^ 32 :=
  Nat.and_pow_two_sub_one_eq_mod x 32

theorem store_take (dst : List Byte) (off : Nat) (src : List Byte)
    (h : off ≤ dst.length) : (store dst off src).take (off + src.length) = dst.take off ++ src := by
  unfold store
  have h1 : (dst.take off ++ src).length = off + src.length := by
    rw [List.length_append, List.length_take]; omega
  rw [← h1, List.take_left]

theorem sha2_update_eq (w : Nat) (ctx : sha2_context) (x : List Byte) (h0 : x.length ≠ 0) :
    sha2_update w ctx x =
      sha2_update_body w (sha2_update_totals w ctx x.length) (ctx.total0 &&& 0x3F) x := by
  have h0le : ¬ x.length ≤ 0 := by omega
  unfold sha2_update
  simp only [if_neg h0le]
  rfl

theorem sha2_update_nil (w : Nat) (ctx : sha2_context) : sha2_update w ctx [] = ctx := by
  simp [sha2_update]

theorem sha2_update_totals_fields (w : Nat) (ctx : sha2_context) (ilen : Nat) :
    (sha2_update_totals w ctx ilen).state = ctx.state ∧
    (sha2_update_totals w ctx ilen).buffer = ctx.buffer ∧
    (sha2_update_totals w ctx ilen).is224 = ctx.is224 ∧
    (sha2_update_totals w ctx ilen).ipad = ctx.ipad ∧
    (sha2_update_totals w ctx ilen).opad = ctx.opad ∧
    (sha2_update_totals w ctx ilen).total0 = total0_next w ctx.total0 ilen ∧
    (sha2_update_totals w ctx ilen).total1 = total1_next w ctx.total0 ctx.total1 ilen := by
  unfold sha2_update_totals total1_next total0_next
  dsimp only
  split <;> exact ⟨rfl, rfl, rfl, rfl, rfl, rfl, rfl⟩

theorem sha2_update_tail_fields (ctx : sha2_context) (left : Nat) (rest : List Byte)
    (h : left ≤ ctx.buffer.length) :
    (sha2_update_tail ctx left rest).state = ctx.state ∧
    (sha2_update_tail ctx left rest).buffer.take (left + rest.length) =
      ctx.buffer.take left ++ rest ∧
    (sha2_update_tail ctx left rest).is224 = ctx.is224 ∧
    (sha2_update_tail ctx left rest).ipad = ctx.ipad ∧
    (sha2_update_tail ctx left rest).opad = ctx.opad ∧
    (sha2_update_tail ctx left rest).total0 = ctx.total0 ∧
    (sha2_update_tail ctx left rest).total1 = ctx.total1 := by
  unfold sha2_update_tail
  split
  · refine ⟨rfl, ?_, rfl, rfl, rfl, rfl, rfl⟩
    dsimp only [memcpy]
    rw [List.take_length]
    exact store_take _ _ _ h
  · rename_i hr
    have hr0 : rest = [] := List.length_eq_zero.mp (by omega)
    subst hr0
    refine ⟨rfl, ?_, rfl, rfl, rfl, rfl, rfl⟩
    simp

theorem sha2_update_body_spec (w : Nat) (ctx : sha2_context) (left : Nat) (x t : List Byte)
    (ht : ctx.buffer.take left = t) (hlen : t.length = left) (hl : left < 64) :
    (sha2_update_body w ctx left x).state = (blocks (t ++ x)).foldl (compress w) ctx.state ∧
    (sha2_update_body w ctx left x).buffer.take ((t ++ x).length % 64) = tail64 (t ++ x) ∧
    (sha2_update_body w ctx left x).is224 = ctx.is224 ∧
    (sha2_update_body w ctx left x).ipad = ctx.ipad ∧
    (sha2_update_body w ctx left x).opad = ctx.opad ∧
    (sha2_update_body w ctx left x).total0 = ctx.total0 ∧
    (sha2_update_body w ctx left x).total1 = ctx.total1 := by
  have hbl : left ≤ ctx.buffer.length := by
    have := congrArg List.length ht
    rw [List.length_take] at this
    omega
  by_cases c1 : left ≠ 0 ∧ x.length ≥ 64 - left
  · -- the pending bytes and the head of the input fill one block
    have hfill : (x.take (64 - left)).length = 64 - left := by
      rw [List.length_take]; omega
    have hbuf : (memcpy ctx.buffer left x (64 - left)).take 64 = t ++ x.take (64 - left) := by
      have e := store_take ctx.buffer left (x.take (64 - left)) hbl
      have h64 : left + (64 - left) = 64 := by omega
      rw [hfill, ht, h64] at e
      exact e
    have hge : 64 ≤ (t ++ x).length := by rw [List.length_append]; omega
    have htk : (t ++ x).take 64 = t ++ x.take (64 - left) := by
      rw [List.take_append_eq_append_take, hlen, List.take_of_length_le (by omega)]
    have hdr : (t ++ x).drop 64 = x.drop (64 - left) := by
      rw [List.drop_append_eq_append_drop, hlen, List.drop_of_length_le (by omega),
        List.nil_append]
    have hbody : sha2_update_body w ctx left x =
        sha2_update_tail
          { ctx with
            state := (blocks (x.drop (64 - left))).foldl (compress w)
              (compress w ctx.state (memcpy ctx.buffer left x (64 - left))),
            buffer := memcpy ctx.buffer left x (64 - left) }
          0 (tail64 (x.drop (64 - left))) := by
      unfold sha2_update_body
      simp only [if_pos c1]
      rw [sha2_update_loop_eq w _ _ _ (Nat.div_le_self _ _), sha2_process_eq]
      rfl
    obtain ⟨f1, f2, f3, f4, f5, f6, f7⟩ := sha2_update_tail_fields
      { ctx with
        state := (blocks (x.drop (64 - left))).foldl (compress w)
          (compress w ctx.state (memcpy ctx.buffer left x (64 - left))),
        buffer := memcpy ctx.buffer left x (64 - left) }
      0 (tail64 (x.drop (64 - left))) (Nat.zero_le _)
    rw [hbody]
    refine ⟨?_, ?_, f3, f4, f5, f6, f7⟩
    · rw [f1, blocks_of_ge _ hge, htk, hdr, List.foldl_cons, ← compress_take, hbuf]
    · rw [tail64_of_ge _ hge, hdr]
      have hm : (t ++ x).length % 64 = 0 + (tail64 (x.drop (64 - left))).length := by
        rw [tail64_length, List.length_append, List.length_drop]; omega
      rw [hm, f2]
      simp
  · have hbody : sha2_update_body w ctx left x =
        sha2_update_tail
          { ctx with state := (blocks x).foldl (compress w) ctx.state } left (tail64 x) := by
      unfold sha2_update_body
      simp only [if_neg c1]
      rw [sha2_update_loop_eq w _ _ _ (Nat.div_le_self _ _)]
      rfl
    obtain ⟨f1, f2, f3, f4, f5, f6, f7⟩ := sha2_update_tail_fields
      { ctx with state := (blocks x).foldl (compress w) ctx.state } left (tail64 x) hbl
    rw [hbody]
    refine ⟨?_, ?_, f3, f4, f5, f6, f7⟩
    · rw [f1]
      by_cases hl0 : left = 0
      · have : t = [] := List.length_eq_zero.mp (by omega)
        rw [this, List.nil_append]
      · have hx : x.length < 64 - left := by omega
        rw [blocks_of_lt x (by omega), blocks_of_lt (t ++ x) (by rw [List.length_append]; omega)]
    · by_cases hl0 : left = 0
      · have : t = [] := List.length_eq_zero.mp (by omega)
        subst this
        rw [List.nil_append]
        have hm : x.length % 64 = left + (tail64 x).length := by
          rw [tail64_length]; omega
        rw [hm, f2]
        subst hl0
        simp
      · have hx : x.length < 64 - left := by omega
        have hlt : (t ++ x).length < 64 := by rw [List.length_append]; omega
        have hx2 := tail64_of_lt x (by omega)
        rw [hx2] at f2 ⊢
        rw [tail64_of_lt (t ++ x) hlt, Nat.mod_eq_of_lt hlt, List.length_append, hlen, f2]
        exact congrArg (· ++ x) ht

theorem total0_next_eq (w a n : Nat) (hw : 32 ≤ w) (hn : n < 2 ^ 32) :
    total0_next w (a % 2 ^ 32) n = (a + n) % 2 ^ 32 := by
  have hP : 2 ^ 32 ∣ 2 ^ w := Nat.pow_dvd_pow 2 hw
  have hPge : 2 ^ 32 ≤ 2 ^ w := Nat.pow_le_pow_right (by decide) hw
  have hn2 : n % 2 ^ w = n := Nat.mod_eq_of_lt (Nat.lt_of_lt_of_le hn hPge)
  unfold total0_next uadd
  rw [and_FFFFFFFF, hn2, Nat.mod_mod_of_dvd _ hP]
  omega

theorem total1_next_eq (w a n : Nat) (hw : 32 ≤ w) (hn : n < 2 ^ 32) :
    total1_next w (a % 2 ^ 32) (a / 2 ^ 32 % 2 ^ w) n = (a + n) / 2 ^ 32 % 2 ^ w := by
  have hPge : 2 ^ 32 ≤ 2 ^ w := Nat.pow_le_pow_right (by decide) hw
  have hn2 : n % 2 ^ w = n := Nat.mod_eq_of_lt (Nat.lt_of_lt_of_le hn hPge)
  unfold total1_next
  rw [total0_next_eq w a n hw hn, hn2]
  by_cases hc : (a + n) % 2 ^ 32 < n
  · rw [if_pos hc]
    unfold uadd
    rw [Nat.mod_add_mod]
    congr 1
    omega
  · rw [if_neg hc]
    congr 1
    omega

theorem absorbed_starts (w : Nat) (ctx : sha2_context) (v : Int) :
    Absorbed w v [] (sha2_starts ctx v) := by
  unfold sha2_starts
  by_cases hv : v = 0
  · simp only [if_pos hv]
    exact ⟨rfl, rfl, by simp, by simp [blocks, blocksN, initial_state, hv], rfl⟩
  · simp only [if_neg hv]
    exact ⟨rfl, rfl, by simp, by simp [blocks, blocksN, initial_state, hv], rfl⟩

theorem absorbed_update (w : Nat) (v : Int) (m x : List Byte) (ctx : sha2_context)
    (hw : 32 ≤ w) (hx : x.length < 2 ^ 32) (h : Absorbed w v m ctx) :
    Absorbed w v (m ++ x) (sha2_update w ctx x) := by
  by_cases h0 : x.length = 0
  · have hx0 : x = [] := List.length_eq_zero.mp h0
    subst hx0
    rw [sha2_update_nil, List.append_nil]
    exact h
  · have hleft : ctx.total0 &&& 0x3F = m.length % 64 := by
      rw [and_3F, h.total0]; omega
    obtain ⟨t1, t2, t3, t4, t5, t6, t7⟩ := sha2_update_totals_fields w ctx x.length
    have hb : (sha2_update_totals w ctx x.length).buffer.take (ctx.total0 &&& 0x3F) = tail64 m := by
      rw [t2, hleft, h.buffer]
    obtain ⟨b1, b2, b3, b4, b5, b6, b7⟩ := sha2_update_body_spec w
      (sha2_update_totals w ctx x.length) (ctx.total0 &&& 0x3F) x (tail64 m) hb
      (by rw [tail64_length, hleft]) (by rw [hleft]; omega)
    rw [sha2_update_eq w ctx x h0]
    refine ⟨?_, ?_, ?_, ?_, ?_⟩
    · rw [b3, t3, h.is224]
    · rw [b6, t6, h.total0, total0_next_eq w _ _ hw hx, List.length_append]
    · rw [b7, t7, h.total0, h.total1, total1_next_eq w _ _ hw hx, List.length_append]
    · rw [b1, t1, h.state, blocks_append m x, List.foldl_append]
    · rw [tail64_append m x, ← b2]
      congr 1
      rw [List.length_append, List.length_append, tail64_length]
      omega

theorem store_length_ge (dst : List Byte) (off : Nat) (src : List Byte)
    (h : off ≤ dst.length) : off + src.length ≤ (store dst off src).length := by
  unfold store
  simp only [List.length_append, List.length_take, List.length_drop]
  omega

theorem store_store_adj (dst : List Byte) (off : Nat) (s1 s2 : List Byte)
    (h : off ≤ dst.length) :
    store (store dst off s1) (off + s1.length) s2 = store dst off (s1 ++ s2) := by
  have h1 : (dst.take off ++ s1).length = off + s1.length := by
    rw [List.length_append, List.length_take]; omega
  have ht : (store dst off s1).take (off + s1.length) = dst.take off ++ s1 :=
    store_take dst off s1 h
  have hd : (store dst off s1).drop (off + s1.length + s2.length) =
      dst.drop (off + (s1 ++ s2).length) := by
    unfold store
    rw [List.drop_append_eq_append_drop, List.drop_of_length_le (by omega), List.nil_append,
      List.drop_drop, h1, List.length_append]
    congr 1
    omega
  calc store (store dst off s1) (off + s1.length) s2
      = (store dst off s1).take (off + s1.length) ++ s2 ++
          (store dst off s1).drop (off + s1.length + s2.length) := rfl
    _ = dst.take off ++ (s1 ++ s2) ++ dst.drop (off + (s1 ++ s2).length) := by
        rw [ht, hd]; simp only [List.append_assoc]
    _ = store dst off (s1 ++ s2) := rfl

theorem PUT_ULONG_BE_eq (n : Nat) (b : List Byte) (i : Nat) (h : i ≤ b.length) :
    PUT_ULONG_BE n b i = store b i (BE32 n) := by
  unfold PUT_ULONG_BE BE32
  have e1 := store_store_adj b i [(n >>> 24).toUInt8] [(n >>> 16).toUInt8] h
  have e2 := store_store_adj b i [(n >>> 24).toUInt8, (n >>> 16).toUInt8] [(n >>> 8).toUInt8] h
  have e3 := store_store_adj b i [(n >>> 24).toUInt8, (n >>> 16).toUInt8, (n >>> 8).toUInt8]
    [n.toUInt8] h
  simp only [List.length_cons, List.length_nil, List.singleton_append, List.cons_append,
    List.nil_append] at e1 e2 e3
  dsimp only
  rw [e1, e2, e3]

theorem store_zero (dst src : List Byte) : store dst 0 src = src ++ dst.drop src.length := by
  simp [store]

theorem PUT_ULONG_BE_next (n : Nat) (out acc : List Byte) :
    PUT_ULONG_BE n (store out 0 acc) acc.length = store out 0 (acc ++ BE32 n) := by
  rw [PUT_ULONG_BE_eq n _ _ (by have := store_length_ge out 0 acc (Nat.zero_le _); omega)]
  have := store_store_adj out 0 acc (BE32 n) (Nat.zero_le _)
  rw [Nat.zero_add] at this
  exact this

theorem toUInt8_congr (a b : Nat) (h : a % 256 = b % 256) : a.toUInt8 = b.toUInt8 := by
  unfold Nat.toUInt8 UInt8.ofNat
  congr 1
  apply BitVec.eq_of_toNat_eq
  simpa [BitVec.toNat_ofNat] using h

theorem BE32_congr (a b : Nat) (h : a % 2 ^ 32 = b % 2 ^ 32) : BE32 a = BE32 b := by
  unfold BE32
  simp only [Nat.shiftRight_eq_div_pow]
  rw [toUInt8_congr (a / 2 ^ 24) (b / 2 ^ 24) (by omega),
    toUInt8_congr (a / 2 ^ 16) (b / 2 ^ 16) (by omega),
    toUInt8_congr (a / 2 ^ 8) (b / 2 ^ 8) (by omega),
    toUInt8_congr a b (by omega)]

theorem BE32_mod_pow (w x : Nat) (hw : 32 ≤ w) : BE32 (x % 2 ^ w) = BE32 x :=
  BE32_congr _ _ (Nat.mod_mod_of_dvd _ (Nat.pow_dvd_pow 2 hw))

theorem BE64_eq (x : Nat) : BE64 x = BE32 (x >>> 32) ++ BE32 x := by
  simp [BE64, BE32, ← Nat.shiftRight_add]

theorem compress_length (w : Nat) (st : List Nat) (data : List Byte) :
    (compress w st data).length = 8 := rfl

theorem foldl_compress_length (w : Nat) (bs : List (List Byte)) :
    ∀ st : List Nat, st.length = 8 → (bs.foldl (compress w) st).length = 8 := by
  induction bs with
  | nil => intro st h; exact h
  | cons b bs ih => intro st _; exact ih _ (compress_length w st b)

theorem initial_state_length (v : Int) : (initial_state v).length = 8 := by
  unfold initial_state; split <;> rfl

theorem final_state_length (w : Nat) (v : Int) (m : List Byte) :
    (final_state w v m).length = 8 :=
  foldl_compress_length w _ _ (initial_state_length v)

theorem list8_eq (st : List Nat) (h : st.length = 8) :
    st = [st.getD 0 0, st.getD 1 0, st.getD 2 0, st.getD 3 0,
          st.getD 4 0, st.getD 5 0, st.getD 6 0, st.getD 7 0] := by
  match st, h with
  | [a, b, c, d, e, f, g, i], _ => rfl

theorem sha2_padding_take (padn : Nat) (h1 : 1 ≤ padn) (h2 : padn ≤ 64) :
    sha2_padding.take padn = 0x80 :: List.replicate (padn - 1) 0 := by
  obtain ⟨k, rfl⟩ : ∃ k, padn = k + 1 := ⟨padn - 1, by omega⟩
  unfold sha2_padding
  rw [List.take_succ_cons, List.take_replicate]
  congr 2
  omega

theorem mod_pow_mod (w x : Nat) (hw : 32 ≤ w) : x % 2 ^ w % 2 ^ 32 = x % 2 ^ 32 :=
  Nat.mod_mod_of_dvd _ (Nat.pow_dvd_pow 2 hw)

/-- The low word of the bit length that `sha2_finish` encodes. -/
theorem msglen_low (w n : Nat) (hw : 32 ≤ w) :
    BE32 (ushl w (n % 2 ^ 32) 3) = BE32 (8 * n) := by
  unfold ushl
  rw [BE32_mod_pow _ _ hw, Nat.shiftLeft_eq]
  apply BE32_congr
  omega

/-- The high word of the bit length that `sha2_finish` encodes. -/
theorem msglen_high (w n : Nat) (hw : 32 ≤ w) :
    BE32 ((n % 2 ^ 32) >>> 29 ||| ushl w (n / 2 ^ 32 % 2 ^ w) 3) = BE32 ((8 * n) >>> 32) := by
  have h3 : 3 ≤ w := by omega
  have hb : (n % 2 ^ 32) >>> 29 < 2 ^ 3 := by
    rw [Nat.shiftRight_eq_div_pow]; omega
  -- the shifted high word is a multiple of eight
  have hdvd : 2 ^ 3 ∣ ushl w (n / 2 ^ 32 % 2 ^ w) 3 := by
    unfold ushl
    rw [Nat.shiftLeft_eq]
    exact (Nat.dvd_mod_iff (Nat.pow_dvd_pow 2 h3)).mpr (Nat.dvd_mul_left _ _)
  obtain ⟨a, ha⟩ := hdvd
  have hor : (n % 2 ^ 32) >>> 29 ||| ushl w (n / 2 ^ 32 % 2 ^ w) 3 =
      ushl w (n / 2 ^ 32 % 2 ^ w) 3 + (n % 2 ^ 32) >>> 29 := by
    rw [Nat.lor_comm, ha]
    exact (Nat.mul_add_lt_is_or hb a).symm
  rw [hor]
  apply BE32_congr
  have e1 : ushl w (n / 2 ^ 32 % 2 ^ w) 3 % 2 ^ 32 = (n / 2 ^ 32 * 8) % 2 ^ 32 := by
    unfold ushl
    rw [mod_pow_mod w _ hw, Nat.shiftLeft_eq, Nat.mul_mod, mod_pow_mod w _ hw, ← Nat.mul_mod]
  rw [Nat.add_mod, e1, ← Nat.add_mod]
  simp only [Nat.shiftRight_eq_div_pow]
  omega

theorem pad_zeros_least (n : Nat) :
    (n + 1 + pad_zeros n) % 64 = 56 ∧ ∀ j, j < pad_zeros n → (n + 1 + j) % 64 ≠ 56 := by
  unfold pad_zeros
  constructor
  · omega
  · intro j hj; omega

theorem sha2_pad_length (m : List Byte) : (sha2_pad m).length % 64 = 0 := by
  unfold sha2_pad pad_zeros BE64
  simp only [List.length_append, List.length_cons, List.length_nil, List.length_replicate]
  omega

theorem PUT_ULONG_BE_at (n : Nat) (out acc : List Byte) (k : Nat) (hk : acc.length = k) :
    PUT_ULONG_BE n (store out 0 acc) k = store out 0 (acc ++ BE32 n) := by
  subst hk
  exact PUT_ULONG_BE_next n out acc

theorem PUT_ULONG_BE_seven (a b c d e f g : Nat) (out : List Byte) :
    PUT_ULONG_BE g (PUT_ULONG_BE f (PUT_ULONG_BE e (PUT_ULONG_BE d (PUT_ULONG_BE c
      (PUT_ULONG_BE b (PUT_ULONG_BE a out 0) 4) 8) 12) 16) 20) 24 =
    store out 0 (BE32 a ++ BE32 b ++ BE32 c ++ BE32 d ++ BE32 e ++ BE32 f ++ BE32 g) := by
  rw [PUT_ULONG_BE_eq _ _ 0 (Nat.zero_le _),
    PUT_ULONG_BE_at b out (BE32 a) 4 rfl,
    PUT_ULONG_BE_at c out (BE32 a ++ BE32 b) 8 rfl,
    PUT_ULONG_BE_at d out (BE32 a ++ BE32 b ++ BE32 c) 12 rfl,
    PUT_ULONG_BE_at e out (BE32 a ++ BE32 b ++ BE32 c ++ BE32 d) 16 rfl,
    PUT_ULONG_BE_at f out (BE32 a ++ BE32 b ++ BE32 c ++ BE32 d ++ BE32 e) 20 rfl,
    PUT_ULONG_BE_at g out (BE32 a ++ BE32 b ++ BE32 c ++ BE32 d ++ BE32 e ++ BE32 f) 24 rfl]

theorem PUT_ULONG_BE_eight (a b c d e f g h : Nat) (out : List Byte) :
    PUT_ULONG_BE h (store out 0
      (BE32 a ++ BE32 b ++ BE32 c ++ BE32 d ++ BE32 e ++ BE32 f ++ BE32 g)) 28 =
    store out 0 (BE32 a ++ BE32 b ++ BE32 c ++ BE32 d ++ BE32 e ++ BE32 f ++ BE32 g ++ BE32 h) :=
  PUT_ULONG_BE_at h out _ 28 rfl

/-- The digest written by `sha2_finish` for a context that absorbed `m`. -/
theorem sha2_finish_spec (w : Nat) (u : Locals) (v : Int) (m : List Byte) (ctx : sha2_context)
    (output : List Byte) (hw : 32 ≤ w) (h : Absorbed w v m ctx) :
    (sha2_finish w u ctx output).2 = store output 0 (digest w v m) ∧
    Absorbed w v (sha2_pad m) (sha2_finish w u ctx output).1 := by
  have hlast : ctx.total0 &&& 0x3F = m.length % 64 := by
    rw [and_3F, h.total0]; omega
  -- the two words of the bit length
  have hmsg : (PUT_ULONG_BE (ushl w ctx.total0 3)
      (PUT_ULONG_BE (ctx.total0 >>> 29 ||| ushl w ctx.total1 3) u.msglen 0) 4).take 8 =
      BE64 (8 * m.length) := by
    rw [PUT_ULONG_BE_eq _ _ 0 (Nat.zero_le _),
      PUT_ULONG_BE_at (ushl w ctx.total0 3) u.msglen (BE32 _) 4 rfl, h.total0, h.total1,
      msglen_low w _ hw, msglen_high w _ hw, ← BE64_eq]
    have := store_take u.msglen 0 (BE64 (8 * m.length)) (Nat.zero_le _)
    simpa using this
  -- the padding bytes
  have hpadn1 : 1 ≤ (if m.length % 64 < 56 then 56 - m.length % 64 else 120 - m.length % 64) := by
    split <;> omega
  have hpadn2 : (if m.length % 64 < 56 then 56 - m.length % 64 else 120 - m.length % 64) ≤ 64 := by
    split <;> omega
  have hpadk : (if m.length % 64 < 56 then 56 - m.length % 64 else 120 - m.length % 64) - 1 =
      pad_zeros m.length := by
    unfold pad_zeros; split <;> omega
  have hpad : sha2_padding.take
      (if ctx.total0 &&& 0x3F < 56 then 56 - (ctx.total0 &&& 0x3F) else 120 - (ctx.total0 &&& 0x3F)) =
      0x80 :: List.replicate (pad_zeros m.length) 0 := by
    rw [hlast, sha2_padding_take _ hpadn1 hpadn2, hpadk]
  -- the two calls of sha2_update absorb the padded message
  have hA1 := absorbed_update w v m (0x80 :: List.replicate (pad_zeros m.length) 0) ctx hw
    (by
      have : pad_zeros m.length < 64 := Nat.mod_lt _ (by decide)
      rw [List.length_cons, List.length_replicate]
      omega) h
  have hA2 := absorbed_update w v _ (BE64 (8 * m.length)) _ hw (by simp [BE64]) hA1
  have hp : m ++ 0x80 :: List.replicate (pad_zeros m.length) 0 ++ BE64 (8 * m.length) =
      sha2_pad m := by
    simp [sha2_pad]
  rw [hp] at hA2
  have hfin : sha2_finish w u ctx output =
      (sha2_update w (sha2_update w ctx (0x80 :: List.replicate (pad_zeros m.length) 0))
          (BE64 (8 * m.length)),
       (let c := sha2_update w (sha2_update w ctx (0x80 :: List.replicate (pad_zeros m.length) 0))
          (BE64 (8 * m.length))
        let o := PUT_ULONG_BE (c.state.getD 0 0) output 0
        let o := PUT_ULONG_BE (c.state.getD 1 0) o 4
        let o := PUT_ULONG_BE (c.state.getD 2 0) o 8
        let o := PUT_ULONG_BE (c.state.getD 3 0) o 12
        let o := PUT_ULONG_BE (c.state.getD 4 0) o 16
        let o := PUT_ULONG_BE (c.state.getD 5 0) o 20
        let o := PUT_ULONG_BE (c.state.getD 6 0) o 24
        if c.is224 = 0 then PUT_ULONG_BE (c.state.getD 7 0) o 28 else o)) := by
    unfold sha2_finish
    dsimp only
    rw [hpad, hmsg]
  rw [hfin]
  refine ⟨?_, hA2⟩
  dsimp only
  have hst : (sha2_update w (sha2_update w ctx (0x80 :: List.replicate (pad_zeros m.length) 0))
          (BE64 (8 * m.length))).state = final_state w v m := hA2.state
  have h8 := list8_eq _ (final_state_length w v m)
  rw [hst, hA2.is224, PUT_ULONG_BE_seven]
  unfold digest
  by_cases hv : v = 0
  · rw [if_pos hv, if_pos hv, PUT_ULONG_BE_eight]
    congr 1
    conv => rhs; rw [h8]
    rfl
  · rw [if_neg hv, if_neg hv]
    congr 1
    conv => rhs; rw [h8]
    rfl

theorem digest_flatten_length (st : List Nat) (h : st.length = 8) :
    (st.map BE32).flatten.length = 32 := by
  rw [list8_eq st h]
  rfl

theorem digest_length (w : Nat) (v : Int) (m : List Byte) :
    (digest w v m).length = if v = 0 then 32 else 28 := by
  unfold digest
  rw [List.length_take, digest_flatten_length _ (final_state_length w v m)]
  split <;> rfl

theorem absorbed_foldl_update (w : Nat) (v : Int) (hw : 32 ≤ w) (chunks : List (List Byte)) :
    ∀ (m : List Byte) (ctx : sha2_context), (∀ c ∈ chunks, c.length < 2 ^ 32) →
      Absorbed w v m ctx →
      Absorbed w v (m ++ chunks.flatten) (chunks.foldl (sha2_update w) ctx) := by
  induction chunks with
  | nil => intro m ctx _ h; simpa using h
  | cons c cs ih =>
    intro m ctx hc h
    have h1 := absorbed_update w v m c ctx hw (hc c (List.mem_cons_self _ _)) h
    have h2 := ih (m ++ c) (sha2_update w ctx c)
      (fun c' hc' => hc c' (List.mem_cons_of_mem _ hc')) h1
    simpa [List.append_assoc] using h2

theorem length_le_flatten_length (chunks : List (List Byte)) :
    ∀ c ∈ chunks, c.length ≤ chunks.flatten.length := by
  induction chunks with
  | nil => intro c hc; cases hc
  | cons d ds ih =>
    intro c hc
    rw [List.flatten_cons, List.length_append]
    rcases List.mem_cons.mp hc with rfl | hc
    · omega
    · have := ih c hc; omega

/-- The output of `sha2`: the digest of the input in front of the bytes of
`output` that are not written. -/
theorem sha2_eq_digest (w : Nat) (u : Locals) (m output : List Byte) (v : Int)
    (hw : 32 ≤ w) (hm : m.length < 2 ^ 32) :
    sha2 w u m output v = store output 0 (digest w v m) := by
  unfold sha2
  have h := absorbed_update w v [] m _ hw hm (absorbed_starts w u.ctx v)
  rw [List.nil_append] at h
  exact (sha2_finish_spec w u v m _ output hw h).1

theorem sha2_process_with_is224 (w : Nat) (ctx : sha2_context) (v : Int) (data : List Byte) :
    sha2_process w (with_is224 ctx v) data = with_is224 (sha2_process w ctx data) v := rfl

theorem sha2_update_loop_with_is224 (w : Nat) (v : Int) :
    ∀ (fuel : Nat) (ctx : sha2_context) (input : List Byte),
      sha2_update_loop w fuel (with_is224 ctx v) input =
        (with_is224 (sha2_update_loop w fuel ctx input).1 v,
          (sha2_update_loop w fuel ctx input).2) := by
  intro fuel
  induction fuel with
  | zero => intro ctx input; rfl
  | succ fuel ih =>
    intro ctx input
    by_cases hge : input.length ≥ 64
    · simp only [sha2_update_loop, if_pos hge]
      rw [sha2_process_with_is224, ih]
    · simp only [sha2_update_loop, if_neg hge]

theorem sha2_update_totals_with_is224 (w : Nat) (ctx : sha2_context) (v : Int) (ilen : Nat) :
    sha2_update_totals w (with_is224 ctx v) ilen =
      with_is224 (sha2_update_totals w ctx ilen) v := by
  unfold sha2_update_totals with_is224
  dsimp only
  split <;> rfl

theorem sha2_update_body_with_is224 (w : Nat) (ctx : sha2_context) (v : Int) (left : Nat)
    (x : List Byte) :
    sha2_update_body w (with_is224 ctx v) left x =
      with_is224 (sha2_update_body w ctx left x) v := by
  unfold sha2_update_body
  by_cases c1 : left ≠ 0 ∧ x.length ≥ 64 - left
  · simp only [if_pos c1]
    have e : sha2_process w
        { with_is224 ctx v with buffer := memcpy (with_is224 ctx v).buffer left x (64 - left) }
        (memcpy (with_is224 ctx v).buffer left x (64 - left)) =
        with_is224 (sha2_process w { ctx with buffer := memcpy ctx.buffer left x (64 - left) }
          (memcpy ctx.buffer left x (64 - left))) v := rfl
    rw [e, sha2_update_loop_with_is224]
    dsimp only
    split <;> rfl
  · simp only [if_neg c1]
    rw [sha2_update_loop_with_is224]
    dsimp only
    split <;> rfl

/-- The function `sha2_update` does not read the field `is224`. -/
theorem sha2_update_with_is224 (w : Nat) (ctx : sha2_context) (v : Int) (x : List Byte) :
    sha2_update w (with_is224 ctx v) x = with_is224 (sha2_update w ctx x) v := by
  by_cases h0 : x.length = 0
  · have hx : x = [] := List.length_eq_zero.mp h0
    subst hx
    rw [sha2_update_nil, sha2_update_nil]
  · rw [sha2_update_eq w _ x h0, sha2_update_eq w ctx x h0, sha2_update_totals_with_is224,
      sha2_update_body_with_is224]
    rfl

theorem sha2_finish_eq (w : Nat) (u : Locals) (ctx : sha2_context) (output : List Byte) :
    sha2_finish w u ctx output =
      (sha2_finish_ctx w u ctx, sha2_finish_store (sha2_finish_ctx w u ctx) output) := rfl

theorem sha2_finish_store_eq (ctx : sha2_context) (output : List Byte) :
    sha2_finish_store ctx output =
      store output 0 (state_bytes28 ctx.state ++
        (if ctx.is224 = 0 then BE32 (ctx.state.getD 7 0) else [])) := by
  unfold sha2_finish_store state_bytes28
  dsimp only
  rw [PUT_ULONG_BE_seven]
  split
  · rw [PUT_ULONG_BE_eight]
  · rw [List.append_nil]

theorem sha2_finish_ctx_with_is224 (w : Nat) (u : Locals) (ctx : sha2_context) (v : Int) :
    sha2_finish_ctx w u (with_is224 ctx v) = with_is224 (sha2_finish_ctx w u ctx) v := by
  unfold sha2_finish_ctx
  dsimp only
  have e0 : (with_is224 ctx v).total0 = ctx.total0 := rfl
  have e1 : (with_is224 ctx v).total1 = ctx.total1 := rfl
  rw [e0, e1, sha2_update_with_is224, sha2_update_with_is224]

theorem state_bytes28_length (st : List Nat) : (state_bytes28 st).length = 28 := rfl

/-- For either variant and every list of chunks (empty chunks included) whose
concatenation is shorter than `2^32` bytes, which is every length that a 32-bit
`size_t` holds, `sha2_starts`, `sha2_update` on each chunk in order and
`sha2_finish` write the same output as `sha2_starts`, one `sha2_update` on the
concatenation and `sha2_finish`. -/
theorem chunked_update_same_digest (w : Nat) (u : Locals) (ctx : sha2_context) (is224 : Int)
    (chunks : List (List Byte)) (output : List Byte)
    (hw : 32 ≤ w) (hlen : chunks.flatten.length < 2 ^ 32) :
    (sha2_finish w u (chunks.foldl (sha2_update w) (sha2_starts ctx is224)) output).2 =
      (sha2_finish w u (sha2_update w (sha2_starts ctx is224) chunks.flatten) output).2 := by
  have hc : ∀ c ∈ chunks, c.length < 2 ^ 32 := fun c hc =>
    Nat.lt_of_le_of_lt (length_le_flatten_length chunks c hc) hlen
  have h1 := absorbed_foldl_update w is224 hw chunks [] _ hc (absorbed_starts w ctx is224)
  have h2 := absorbed_update w is224 [] chunks.flatten _ hw hlen (absorbed_starts w ctx is224)
  rw [(sha2_finish_spec w u is224 _ _ output hw h1).1,
    (sha2_finish_spec w u is224 _ _ output hw h2).1]

theorem chunked_update_same_digest_example :
    (32 ≤ 32 ∧ [[1, 2], [], [3]].flatten.length < 2 ^ 32) ∧
    (sha2_finish 32 stale_locals
        ([[1, 2], [], [3]].foldl (sha2_update 32) (sha2_starts stale_ctx 1)) []).2 =
      (sha2_finish 32 stale_locals
        (sha2_update 32 (sha2_starts stale_ctx 1) [[1, 2], [], [3]].flatten) []).2 :=
  ⟨⟨by decide, by decide⟩,
    chunked_update_same_digest 32 stale_locals stale_ctx 1 [[1, 2], [], [3]] []
      (by decide) (by decide)⟩

/-- For every message `m` shorter than `2^32` bytes, which is every length that
a 32-bit `size_t` holds, `sha2` with `is224 = 0` writes the big-endian bytes of
the eight state words obtained by folding the compression function of
`sha2_process`, from the SHA-256 initial state, over the 64-byte blocks of `m ‖ 0x80 ‖ 0x00^k ‖ BE64(8 * |m|)`, where `k`
is the least number that makes `|m| + 1 + k` congruent to 56 modulo 64. -/
theorem sha256_is_padded_fold (w : Nat) (u : Locals) (m output : List Byte)
    (hw : 32 ≤ w) (hm : m.length < 2 ^ 32) :
    sha2 w u m output 0 =
      (((blocks (m ++ [0x80] ++ List.replicate (pad_zeros m.length) 0 ++
            BE64 (8 * m.length))).foldl (compress w)
          [0x6A09E667, 0xBB67AE85, 0x3C6EF372, 0xA54FF53A,
           0x510E527F, 0x9B05688C, 0x1F83D9AB, 0x5BE0CD19]).map BE32).flatten ++
        output.drop 32 ∧
    (m.length + 1 + pad_zeros m.length) % 64 = 56 ∧
    (∀ j, j < pad_zeros m.length → (m.length + 1 + j) % 64 ≠ 56) ∧
    (m ++ [0x80] ++ List.replicate (pad_zeros m.length) 0 ++ BE64 (8 * m.length)).length % 64
      = 0 := by
  refine ⟨?_, (pad_zeros_least m.length).1, (pad_zeros_least m.length).2, sha2_pad_length m⟩
  rw [sha2_eq_digest w u m output 0 hw hm, store_zero, digest_length, if_pos rfl]
  congr 1
  unfold digest
  rw [if_pos rfl, List.take_of_length_le
    (Nat.le_of_eq (digest_flatten_length _ (final_state_length w 0 m)))]
  rfl

theorem sha256_is_padded_fold_example :
    (32 ≤ 32 ∧ [97, 98, 99].length < 2 ^ 32) ∧
    sha2 32 stale_locals [97, 98, 99] [] 0 =
      (((blocks ([97, 98, 99] ++ [0x80] ++ List.replicate (pad_zeros [97, 98, 99].length) 0 ++
            BE64 (8 * [97, 98, 99].length))).foldl (compress 32)
          [0x6A09E667, 0xBB67AE85, 0x3C6EF372, 0xA54FF53A,
           0x510E527F, 0x9B05688C, 0x1F83D9AB, 0x5BE0CD19]).map BE32).flatten ++
        ([] : List Byte).drop 32 :=
  ⟨⟨by decide, by decide⟩,
    (sha256_is_padded_fold 32 stale_locals [97, 98, 99] [] (by decide) (by decide)).1⟩

/-- C10: `sha2_process` and `sha2_update` do not read `is224` (changing the
field before the call is the same as changing it after), and for every context
`sha2_finish` with `is224 ≠ 0` writes exactly 28 bytes, the first 28 bytes that
it writes for the same context with `is224 = 0`, and leaves the bytes of
`output` from offset 28 on unchanged, while with `is224 = 0` it writes 32. -/
theorem C10_variant_only_truncates (w : Nat) (u : Locals) (ctx : sha2_context) (v : Int)
    (data output : List Byte) (hv : v ≠ 0) :
    sha2_process w { ctx with is224 := v } data =
      { sha2_process w ctx data with is224 := v } ∧
    sha2_update w { ctx with is224 := v } data =
      { sha2_update w ctx data with is224 := v } ∧
    (sha2_finish w u { ctx with is224 := v } output).2 =
      (sha2_finish w u { ctx with is224 := 0 } output).2.take 28 ++ output.drop 28 ∧
    ((sha2_finish w u { ctx with is224 := 0 } output).2.take 28).length = 28 ∧
    (sha2_finish w u { ctx with is224 := 0 } output).2.drop 32 = output.drop 32 ∧
    ((sha2_finish w u { ctx with is224 := 0 } output).2.take 32).length = 32 := by
  have hs : ∀ x : Int, (sha2_finish w u { ctx with is224 := x } output).2 =
      store output 0 (state_bytes28 (sha2_finish_ctx w u ctx).state ++
        (if x = 0 then BE32 ((sha2_finish_ctx w u ctx).state.getD 7 0) else [])) := by
    intro x
    have e : ({ ctx with is224 := x } : sha2_context) = with_is224 ctx x := rfl
    rw [e, sha2_finish_eq, sha2_finish_ctx_with_is224, sha2_finish_store_eq]
    dsimp only [with_is224]
  have h28 := state_bytes28_length (sha2_finish_ctx w u ctx).state
  refine ⟨sha2_process_with_is224 w ctx v data, sha2_update_with_is224 w ctx v data, ?_, ?_, ?_, ?_⟩
  · rw [hs v, hs 0, if_neg hv, if_pos rfl, store_zero, store_zero, List.append_nil,
      List.append_assoc, ← h28, List.take_left]
  · rw [hs 0, if_pos rfl, store_zero, List.append_assoc, ← h28, List.take_left]
  · rw [hs 0, if_pos rfl, store_zero]
    have hl : (state_bytes28 (sha2_finish_ctx w u ctx).state ++
        BE32 ((sha2_finish_ctx w u ctx).state.getD 7 0)).length = 32 := by
      rw [List.length_append, h28]; rfl
    rw [hl, ← hl, List.drop_left]
  · rw [hs 0, if_pos rfl, store_zero]
    have hl : (state_bytes28 (sha2_finish_ctx w u ctx).state ++
        BE32 ((sha2_finish_ctx w u ctx).state.getD 7 0)).length = 32 := by
      rw [List.length_append, h28]; rfl
    rw [hl, ← hl, List.take_left, hl]

theorem C10_variant_only_truncates_witness :
    (1 : Int) ≠ 0 ∧
    (sha2_finish 32 stale_locals { stale_ctx with is224 := 1 } [1, 2]).2 =
      (sha2_finish 32 stale_locals { stale_ctx with is224 := 0 } [1, 2]).2.take 28 ++
        ([1, 2] : List Byte).drop 28 :=
  ⟨by decide,
    (C10_variant_only_truncates 32 stale_locals stale_ctx 1 [] [1, 2] (by decide)).2.2.1⟩

theorem u8_xor_zero (c : Byte) : c ^^^ 0 = c := by
  cases c with
  | mk bv =>
    show UInt8.xor ⟨bv⟩ 0 = ⟨bv⟩
    unfold UInt8.xor
    congr 1
    exact BitVec.xor_zero

theorem xor_bytes_length (a b : List Byte) :
    (xor_bytes a b).length = min a.length b.length := by
  unfold xor_bytes; exact List.length_zipWith _ _ _

theorem xor_loop_step (n : Nat) (k p : List Byte) (i : Nat) (hi : i < n) (hp : n ≤ p.length)
    (hk : n ≤ k.length) :
    store (xor_bytes (p.take i) (k.take i) ++ p.drop i) i
        [(xor_bytes (p.take i) (k.take i) ++ p.drop i).getD i 0 ^^^ k.getD i 0] =
      xor_bytes (p.take (i + 1)) (k.take (i + 1)) ++ p.drop (i + 1) := by
  have hA : (xor_bytes (p.take i) (k.take i)).length = i := by
    rw [xor_bytes_length, List.length_take, List.length_take]; omega
  have hip : i < p.length := by omega
  have hik : i < k.length := by omega
  have hg : (xor_bytes (p.take i) (k.take i) ++ p.drop i).getD i 0 = p[i] := by
    rw [List.getD_append_right _ _ _ _ (by omega), hA, Nat.sub_self,
      List.getD_eq_getElem _ _ (by rw [List.length_drop]; omega)]
    simp
  have ht : (xor_bytes (p.take i) (k.take i) ++ p.drop i).take i =
      xor_bytes (p.take i) (k.take i) := by
    exact List.take_left' hA
  have hd : (xor_bytes (p.take i) (k.take i) ++ p.drop i).drop (i + 1) = p.drop (i + 1) := by
    rw [List.drop_append_eq_append_drop, List.drop_of_length_le (by omega), hA, List.nil_append,
      List.drop_drop]
    congr 1
    omega
  have hps : p.take (i + 1) = p.take i ++ [p[i]] := by
    rw [List.take_succ, List.getElem?_eq_getElem hip]; rfl
  have hks : k.take (i + 1) = k.take i ++ [k[i]] := by
    rw [List.take_succ, List.getElem?_eq_getElem hik]; rfl
  have hz : xor_bytes (p.take (i + 1)) (k.take (i + 1)) =
      xor_bytes (p.take i) (k.take i) ++ [p[i] ^^^ k[i]] := by
    rw [hps, hks]
    unfold xor_bytes
    rw [List.zipWith_append _ _ _ _ _ (by rw [List.length_take, List.length_take]; omega)]
    rfl
  unfold store
  rw [ht, hg, List.getD_eq_getElem _ _ hik, hz]
  show _ ++ _ ++ List.drop (i + 1) _ = _
  rw [hd]

/-- The loop `work[i] ^= md1[i]` over the indexes below `n` replaces the first
`n` bytes by their exclusive or with the first `n` bytes of the other array. -/
theorem xor_loop_spec (n : Nat) (k p : List Byte) (hp : n ≤ p.length) (hk : n ≤ k.length) :
    ∀ (fuel i : Nat), i ≤ n → n - i ≤ fuel →
      PBKDF2_xor_loop n k fuel i (xor_bytes (p.take i) (k.take i) ++ p.drop i) =
        xor_bytes (p.take n) (k.take n) ++ p.drop n := by
  intro fuel
  induction fuel with
  | zero =>
    intro i hi hf
    have : i = n := by omega
    subst this
    rfl
  | succ fuel ih =>
    intro i hi hf
    by_cases hlt : i < n
    · rw [PBKDF2_xor_loop, if_pos hlt, xor_loop_step n k p i hlt hp hk]
      exact ih (i + 1) (by omega) (by omega)
    · have : i = n := by omega
      subst this
      rw [PBKDF2_xor_loop, if_neg hlt]

theorem xor_loop_full (n : Nat) (k p : List Byte) (hp : n ≤ p.length) (hk : n ≤ k.length) :
    PBKDF2_xor_loop n k n 0 p = xor_bytes (p.take n) (k.take n) ++ p.drop n := by
  have := xor_loop_spec n k p hp hk n 0 (Nat.zero_le _) (by omega)
  simpa [xor_bytes] using this

theorem sha2_hmac_starts_loop_eq (key : List Byte) :
    ∀ (fuel i : Nat) (ctx : sha2_context),
      sha2_hmac_starts_loop key fuel i ctx =
        { ctx with ipad := PBKDF2_xor_loop key.length key fuel i ctx.ipad,
                   opad := PBKDF2_xor_loop key.length key fuel i ctx.opad } := by
  intro fuel
  induction fuel with
  | zero => intro i ctx; rfl
  | succ fuel ih =>
    intro i ctx
    by_cases hlt : i < key.length
    · rw [sha2_hmac_starts_loop, if_pos hlt, ih, PBKDF2_xor_loop, if_pos hlt, PBKDF2_xor_loop,
        if_pos hlt]
    · rw [sha2_hmac_starts_loop, if_neg hlt, PBKDF2_xor_loop, if_neg hlt, PBKDF2_xor_loop,
        if_neg hlt]

theorem sha2_update_body_frame (w : Nat) (ctx : sha2_context) (left : Nat) (x : List Byte) :
    (sha2_update_body w ctx left x).ipad = ctx.ipad ∧
    (sha2_update_body w ctx left x).opad = ctx.opad ∧
    (sha2_update_body w ctx left x).is224 = ctx.is224 := by
  unfold sha2_update_body
  by_cases c1 : left ≠ 0 ∧ x.length ≥ 64 - left
  · simp only [if_pos c1]
    rw [sha2_update_loop_eq w _ _ _ (Nat.div_le_self _ _), sha2_process_eq]
    dsimp only
    split <;> exact ⟨rfl, rfl, rfl⟩
  · simp only [if_neg c1]
    rw [sha2_update_loop_eq w _ _ _ (Nat.div_le_self _ _)]
    dsimp only
    split <;> exact ⟨rfl, rfl, rfl⟩

/-- The function `sha2_update` keeps the pads and the variant. -/
theorem sha2_update_frame (w : Nat) (ctx : sha2_context) (x : List Byte) :
    (sha2_update w ctx x).ipad = ctx.ipad ∧
    (sha2_update w ctx x).opad = ctx.opad ∧
    (sha2_update w ctx x).is224 = ctx.is224 := by
  by_cases h0 : x.length = 0
  · have hx : x = [] := List.length_eq_zero.mp h0
    subst hx
    rw [sha2_update_nil]
    exact ⟨rfl, rfl, rfl⟩
  · obtain ⟨_, _, t3, t4, t5, _, _⟩ := sha2_update_totals_fields w ctx x.length
    obtain ⟨b1, b2, b3⟩ := sha2_update_body_frame w (sha2_update_totals w ctx x.length)
      (ctx.total0 &&& 0x3F) x
    rw [sha2_update_eq w ctx x h0]
    exact ⟨b1.trans t4, b2.trans t5, b3.trans t3⟩

theorem sha2_finish_ctx_frame (w : Nat) (u : Locals) (ctx : sha2_context) :
    (sha2_finish_ctx w u ctx).ipad = ctx.ipad ∧
    (sha2_finish_ctx w u ctx).opad = ctx.opad ∧
    (sha2_finish_ctx w u ctx).is224 = ctx.is224 := by
  unfold sha2_finish_ctx
  dsimp only
  obtain ⟨a1, a2, a3⟩ := sha2_update_frame w ctx (sha2_padding.take
    (if ctx.total0 &&& 0x3F < 56 then 56 - (ctx.total0 &&& 0x3F)
      else 120 - (ctx.total0 &&& 0x3F)))
  obtain ⟨b1, b2, b3⟩ := sha2_update_frame w (sha2_update w ctx (sha2_padding.take
    (if ctx.total0 &&& 0x3F < 56 then 56 - (ctx.total0 &&& 0x3F)
      else 120 - (ctx.total0 &&& 0x3F))))
    ((PUT_ULONG_BE (ushl w ctx.total0 3)
      (PUT_ULONG_BE (ctx.total0 >>> 29 ||| ushl w ctx.total1 3) u.msglen 0) 4).take 8)
  exact ⟨b1.trans a1, b2.trans a2, b3.trans a3⟩

theorem hmac_keyed_update (w : Nat) (v : Int) (K : List Byte) (ctx : sha2_context)
    (x : List Byte) (h : HmacKeyed v K ctx) : HmacKeyed v K (sha2_update w ctx x) := by
  obtain ⟨a1, a2, a3⟩ := sha2_update_frame w ctx x
  exact ⟨a3.trans h.is224, by rw [a1]; exact h.ipad, by rw [a2]; exact h.opad⟩

theorem hmac_keyed_starts (v : Int) (K : List Byte) (ctx : sha2_context)
    (h : HmacKeyed v K ctx) : HmacKeyed v K (sha2_starts ctx v) := by
  unfold sha2_starts
  dsimp only
  split <;> exact ⟨rfl, h.ipad, h.opad⟩

theorem hmac_keyed_finish (w : Nat) (u : Locals) (v : Int) (K : List Byte) (ctx : sha2_context)
    (output : List Byte) (h : HmacKeyed v K ctx) :
    HmacKeyed v K (sha2_finish w u ctx output).1 := by
  obtain ⟨a1, a2, a3⟩ := sha2_finish_ctx_frame w u ctx
  rw [sha2_finish_eq]
  exact ⟨a3.trans h.is224, by show (sha2_finish_ctx w u ctx).ipad.take 64 = _; rw [a1]; exact h.ipad,
    by show (sha2_finish_ctx w u ctx).opad.take 64 = _; rw [a2]; exact h.opad⟩

/-- The pad that the loop of `sha2_hmac_starts` leaves in an array set to 64
copies of `c`, for a key of at most 64 bytes. -/
theorem pad_after_loop (key stale : List Byte) (c : Byte) (hk : key.length ≤ 64) :
    (PBKDF2_xor_loop key.length key key.length 0 (memset stale c 64)).take 64 =
      xor_pad key c := by
  have hp : memset stale c 64 = List.replicate 64 c ++ stale.drop 64 := by
    unfold memset
    rw [store_zero, List.length_replicate]
  have hpl : key.length ≤ (memset stale c 64).length := by
    rw [hp, List.length_append, List.length_replicate]; omega
  rw [xor_loop_full key.length key _ hpl (Nat.le_refl _), List.take_length, hp]
  have hsplit : List.replicate 64 c =
      List.replicate key.length c ++ List.replicate (64 - key.length) c := by
    rw [← List.replicate_add]; congr 1; omega
  have htk : (List.replicate 64 c ++ stale.drop 64).take key.length =
      List.replicate key.length c := by
    rw [List.take_append_of_le_length (by rw [List.length_replicate]; exact hk),
      List.take_replicate]
    congr 1; omega
  have hdr : (List.replicate 64 c ++ stale.drop 64).drop key.length =
      List.replicate (64 - key.length) c ++ stale.drop 64 := by
    rw [List.drop_append_of_le_length (by rw [List.length_replicate]; exact hk),
      List.drop_replicate]
  have hxl : (xor_bytes (List.replicate key.length c) key).length = key.length := by
    rw [xor_bytes_length, List.length_replicate]; omega
  rw [htk, hdr, ← List.append_assoc]
  have h64 : (xor_bytes (List.replicate key.length c) key ++
      List.replicate (64 - key.length) c).length = 64 := by
    rw [List.length_append, hxl, List.length_replicate]; omega
  rw [List.take_left' h64]
  unfold xor_pad
  conv => rhs; rw [hsplit]
  unfold xor_bytes
  rw [List.zipWith_append _ _ _ _ _ (by rw [List.length_replicate]), List.zipWith_replicate,
    Nat.min_self, u8_xor_zero]

theorem take_store_zero (output src : List Byte) (n : Nat) (h : src.length = n) :
    (store output 0 src).take n = src := by
  rw [store_zero]
  exact List.take_left' h

theorem hmac_key_length (w : Nat) (v : Int) (key : List Byte) :
    (hmac_key w v key).length ≤ 64 := by
  unfold hmac_key
  split
  · rw [digest_length]; split <;> omega
  · omega

theorem hmac_key_of_le (w : Nat) (v : Int) (key : List Byte) (h : key.length ≤ 64) :
    hmac_key w v key = key := by
  unfold hmac_key
  rw [if_neg (by omega)]

/-- The key that `sha2_hmac_starts` uses after its first statement. -/
theorem hmac_starts_key (w : Nat) (u : Locals) (key : List Byte) (v : Int) (hw : 32 ≤ w)
    (hk : key.length < 2 ^ 32) :
    (if key.length > 64 then (sha2 w u key u.sum v).take (if v ≠ 0 then 28 else 32) else key) =
      hmac_key w v key := by
  unfold hmac_key
  split
  · rw [sha2_eq_digest w u key u.sum v hw hk]
    apply take_store_zero
    rw [digest_length]
    by_cases hv : v = 0
    · rw [if_pos hv, if_neg (by simpa using hv)]
    · rw [if_neg hv, if_pos hv]
  · rfl

theorem sha2_starts_fields (ctx : sha2_context) (v : Int) :
    (sha2_starts ctx v).ipad = ctx.ipad ∧ (sha2_starts ctx v).opad = ctx.opad ∧
    (sha2_starts ctx v).buffer = ctx.buffer ∧ (sha2_starts ctx v).is224 = v := by
  unfold sha2_starts
  dsimp only
  split <;> exact ⟨rfl, rfl, rfl, rfl⟩

/-- After `sha2_hmac_starts` the context holds the pads of the key and has
absorbed the inner pad. -/
theorem sha2_hmac_starts_spec (w : Nat) (u : Locals) (ctx : sha2_context) (key : List Byte)
    (v : Int) (hw : 32 ≤ w) (hk : key.length < 2 ^ 32) :
    HmacKeyed v (hmac_key w v key) (sha2_hmac_starts w u ctx key v) ∧
    Absorbed w v (xor_pad (hmac_key w v key) 0x36) (sha2_hmac_starts w u ctx key v) := by
  have hkl := hmac_key_length w v key
  have hi := pad_after_loop (hmac_key w v key) ctx.ipad 0x36 hkl
  have ho := pad_after_loop (hmac_key w v key) ctx.opad 0x5C hkl
  have heq : sha2_hmac_starts w u ctx key v =
      sha2_update w
        (sha2_starts
          { ctx with
            ipad := PBKDF2_xor_loop (hmac_key w v key).length (hmac_key w v key)
              (hmac_key w v key).length 0 (memset ctx.ipad 0x36 64),
            opad := PBKDF2_xor_loop (hmac_key w v key).length (hmac_key w v key)
              (hmac_key w v key).length 0 (memset ctx.opad 0x5C 64) } v)
        (xor_pad (hmac_key w v key) 0x36) := by
    unfold sha2_hmac_starts
    dsimp only
    rw [hmac_starts_key w u key v hw hk, sha2_hmac_starts_loop_eq]
    dsimp only
    rw [(sha2_starts_fields _ v).1]
    dsimp only
    rw [hi]
  have hK : HmacKeyed v (hmac_key w v key)
      (sha2_starts
          { ctx with
            ipad := PBKDF2_xor_loop (hmac_key w v key).length (hmac_key w v key)
              (hmac_key w v key).length 0 (memset ctx.ipad 0x36 64),
            opad := PBKDF2_xor_loop (hmac_key w v key).length (hmac_key w v key)
              (hmac_key w v key).length 0 (memset ctx.opad 0x5C 64) } v) := by
    obtain ⟨s1, s2, _, s4⟩ := sha2_starts_fields
      { ctx with
        ipad := PBKDF2_xor_loop (hmac_key w v key).length (hmac_key w v key)
          (hmac_key w v key).length 0 (memset ctx.ipad 0x36 64),
        opad := PBKDF2_xor_loop (hmac_key w v key).length (hmac_key w v key)
          (hmac_key w v key).length 0 (memset ctx.opad 0x5C 64) } v
    exact ⟨s4, by rw [s1]; exact hi, by rw [s2]; exact ho⟩
  rw [heq]
  refine ⟨hmac_keyed_update w v _ _ _ hK, ?_⟩
  have hl : (xor_pad (hmac_key w v key) 0x36).length < 2 ^ 32 := by
    rw [← hi, List.length_take]
    have : min 64 (PBKDF2_xor_loop (hmac_key w v key).length (hmac_key w v key)
      (hmac_key w v key).length 0 (memset ctx.ipad 54 64)).length ≤ 64 := Nat.min_le_left _ _
    omega
  have := absorbed_update w v [] _ _ hw hl (absorbed_starts w
      { ctx with
        ipad := PBKDF2_xor_loop (hmac_key w v key).length (hmac_key w v key)
          (hmac_key w v key).length 0 (memset ctx.ipad 0x36 64),
        opad := PBKDF2_xor_loop (hmac_key w v key).length (hmac_key w v key)
          (hmac_key w v key).length 0 (memset ctx.opad 0x5C 64) } v)
  rw [List.nil_append] at this
  exact this

theorem xor_pad_length (K : List Byte) (c : Byte) (h : K.length ≤ 64) :
    (xor_pad K c).length = 64 := by
  unfold xor_pad
  rw [xor_bytes_length, List.length_replicate, List.length_append, List.length_replicate]
  omega

/-- The MAC written by `sha2_hmac_finish` for a context that holds the pads of
`K` and has absorbed the inner pad and `m`. -/
theorem sha2_hmac_finish_spec (w : Nat) (u : Locals) (v : Int) (K m : List Byte)
    (ctx : sha2_context) (output : List Byte) (hw : 32 ≤ w) (hK : K.length ≤ 64)
    (hk : HmacKeyed v K ctx) (ha : Absorbed w v (xor_pad K 0x36 ++ m) ctx) :
    (sha2_hmac_finish w u ctx output).2 = store output 0 (hmac_digest w v K m) ∧
    HmacKeyed v K (sha2_hmac_finish w u ctx output).1 := by
  obtain ⟨f1, _⟩ := sha2_finish_spec w u v _ ctx u.tmpbuf hw ha
  have k1 := hmac_keyed_finish w u v K ctx u.tmpbuf hk
  have k2 := hmac_keyed_starts v K _ k1
  have hhlen : (if ctx.is224 = 0 then 32 else 28) =
      (digest w v (xor_pad K 0x36 ++ m)).length := by
    rw [digest_length, hk.is224]
  have htmp : (sha2_finish w u ctx u.tmpbuf).2.take (if ctx.is224 = 0 then 32 else 28) =
      digest w v (xor_pad K 0x36 ++ m) := by
    rw [f1]
    exact take_store_zero _ _ _ hhlen.symm
  have a1 := absorbed_update w v [] (xor_pad K 0x5C) _ hw
    (by rw [xor_pad_length K _ hK]; decide)
    (absorbed_starts w (sha2_finish w u ctx u.tmpbuf).1 v)
  have a2 := absorbed_update w v _ (digest w v (xor_pad K 0x36 ++ m)) _ hw
    (by rw [digest_length]; split <;> decide) a1
  rw [List.nil_append] at a2
  have heq : sha2_hmac_finish w u ctx output =
      sha2_finish w u
        (sha2_update w
          (sha2_update w (sha2_starts (sha2_finish w u ctx u.tmpbuf).1 v) (xor_pad K 0x5C))
          (digest w v (xor_pad K 0x36 ++ m))) output := by
    unfold sha2_hmac_finish
    dsimp only
    rw [htmp, hk.is224, (sha2_starts_fields _ v).2.1, k1.opad]
  rw [heq]
  obtain ⟨g1, _⟩ := sha2_finish_spec w u v _ _ output hw a2
  exact ⟨g1, hmac_keyed_finish w u v K _ output
    (hmac_keyed_update w v K _ _ (hmac_keyed_update w v K _ _ k2))⟩

/-- After `sha2_hmac_reset` a context that holds the pads of `K` has absorbed
the inner pad and nothing else. -/
theorem sha2_hmac_reset_spec (w : Nat) (v : Int) (K : List Byte) (ctx : sha2_context)
    (hw : 32 ≤ w) (hK : K.length ≤ 64) (hk : HmacKeyed v K ctx) :
    HmacKeyed v K (sha2_hmac_reset w ctx) ∧
    Absorbed w v (xor_pad K 0x36) (sha2_hmac_reset w ctx) := by
  have heq : sha2_hmac_reset w ctx = sha2_update w (sha2_starts ctx v) (xor_pad K 0x36) := by
    unfold sha2_hmac_reset
    dsimp only
    rw [hk.is224, (sha2_starts_fields _ v).1, hk.ipad]
  rw [heq]
  refine ⟨hmac_keyed_update w v K _ _ (hmac_keyed_starts v K ctx hk), ?_⟩
  have := absorbed_update w v [] (xor_pad K 0x36) _ hw
    (by rw [xor_pad_length K _ hK]; decide) (absorbed_starts w ctx v)
  rw [List.nil_append] at this
  exact this

/-- The output of `sha2_hmac`: the MAC in front of the bytes of `output` that
are not written. -/
theorem sha2_hmac_eq (w : Nat) (u : Locals) (key m output : List Byte) (v : Int)
    (hw : 32 ≤ w) (hk : key.length < 2 ^ 32) (hm : m.length < 2 ^ 32) :
    sha2_hmac w u key m output v = store output 0 (hmac_digest w v (hmac_key w v key) m) := by
  obtain ⟨s1, s2⟩ := sha2_hmac_starts_spec w u u.ctx key v hw hk
  have a := absorbed_update w v _ m _ hw hm s2
  have k := hmac_keyed_update w v _ _ m s1
  unfold sha2_hmac sha2_hmac_update
  exact (sha2_hmac_finish_spec w u v _ m _ output hw (hmac_key_length w v key) k a).1

theorem sha2_digest_eq (w : Nat) (u : Locals) (v : Int) (x : List Byte) (hw : 32 ≤ w)
    (hx : x.length < 2 ^ 32) : sha2_digest w u v x = digest w v x := by
  unfold sha2_digest
  rw [sha2_eq_digest w u x _ v hw hx]
  exact take_store_zero _ _ _ (digest_length w v x)

theorem hmac_foldl_update (w : Nat) (v : Int) (K : List Byte) (hw : 32 ≤ w)
    (chunks : List (List Byte)) :
    ∀ (m : List Byte) (ctx : sha2_context), (∀ c ∈ chunks, c.length < 2 ^ 32) →
      HmacKeyed v K ctx → Absorbed w v (xor_pad K 0x36 ++ m) ctx →
      HmacKeyed v K (chunks.foldl (sha2_hmac_update w) ctx) ∧
      Absorbed w v (xor_pad K 0x36 ++ (m ++ chunks.flatten))
        (chunks.foldl (sha2_hmac_update w) ctx) := by
  induction chunks with
  | nil => intro m ctx _ hk ha; simpa using ⟨hk, ha⟩
  | cons c cs ih =>
    intro m ctx hc hk ha
    have h1 := absorbed_update w v _ c ctx hw (hc c (List.mem_cons_self _ _)) ha
    rw [List.append_assoc] at h1
    have h2 := ih (m ++ c) (sha2_hmac_update w ctx c)
      (fun c' hc' => hc c' (List.mem_cons_of_mem _ hc')) (hmac_keyed_update w v K ctx c hk) h1
    simpa [List.append_assoc] using h2

/-- C4: for every key of at most 64 bytes, every message whose inner hash input
fits the 32-bit `size_t`, and either variant, `sha2_hmac` writes
`H((K xor 0x5C^64) ‖ H((K xor 0x36^64) ‖ m))`, where `K` is the key zero-extended
to 64 bytes and `H` is the digest of `sha2` at the digest size of the variant. -/
theorem C4_hmac_is_nested_digest (w : Nat) (u : Locals) (key m output : List Byte) (v : Int)
    (hw : 32 ≤ w) (hk : key.length ≤ 64) (hm : 64 + m.length < 2 ^ 32) :
    sha2_hmac w u key m output v =
      sha2_digest w u v (xor_pad key 0x5C ++ sha2_digest w u v (xor_pad key 0x36 ++ m)) ++
        output.drop (if v = 0 then 32 else 28) := by
  have hi : (xor_pad key 0x36 ++ m).length < 2 ^ 32 := by
    rw [List.length_append, xor_pad_length key _ hk]; exact hm
  have ho : (xor_pad key 0x5C ++ digest w v (xor_pad key 0x36 ++ m)).length < 2 ^ 32 := by
    rw [List.length_append, xor_pad_length key _ hk, digest_length]
    split <;> decide
  rw [sha2_hmac_eq w u key m output v hw (by omega) (by omega), hmac_key_of_le w v key hk,
    sha2_digest_eq w u v _ hw hi, sha2_digest_eq w u v _ hw ho, store_zero]
  unfold hmac_digest
  rw [digest_length]

theorem C4_hmac_is_nested_digest_witness :
    (32 ≤ 32 ∧ ([0x4a, 0x65, 0x66, 0x65] : List Byte).length ≤ 64 ∧
      64 + ([1, 2, 3] : List Byte).length < 2 ^ 32) ∧
    sha2_hmac 32 stale_locals [0x4a, 0x65, 0x66, 0x65] [1, 2, 3] [] 1 =
      sha2_digest 32 stale_locals 1 (xor_pad [0x4a, 0x65, 0x66, 0x65] 0x5C ++
        sha2_digest 32 stale_locals 1 (xor_pad [0x4a, 0x65, 0x66, 0x65] 0x36 ++ [1, 2, 3])) ++
        ([] : List Byte).drop (if (1 : Int) = 0 then 32 else 28) :=
  ⟨⟨by decide, by decide, by decide⟩,
    C4_hmac_is_nested_digest 32 stale_locals [0x4a, 0x65, 0x66, 0x65] [1, 2, 3] [] 1
      (by decide) (by decide) (by decide)⟩

/-- C7: for every key longer than 64 bytes (of a length that fits the 32-bit
`size_t`), every message and either variant, `sha2_hmac` under the key writes
what it writes under the digest of the key taken at the digest size. -/
theorem C7_long_key_is_hashed (w : Nat) (u : Locals) (key m output : List Byte) (v : Int)
    (hw : 32 ≤ w) (hk : 64 < key.length) (hk2 : key.length < 2 ^ 32)
    (hm : m.length < 2 ^ 32) :
    sha2_hmac w u key m output v = sha2_hmac w u (sha2_digest w u v key) m output v ∧
    (sha2_digest w u v key).length = (if v = 0 then 32 else 28) := by
  have hd : sha2_digest w u v key = digest w v key := sha2_digest_eq w u v key hw hk2
  have hdl : (digest w v key).length ≤ 64 := by
    rw [digest_length]; split <;> decide
  have hkey : hmac_key w v key = digest w v key := by
    unfold hmac_key; rw [if_pos hk]
  refine ⟨?_, by rw [hd, digest_length]⟩
  rw [sha2_hmac_eq w u key m output v hw hk2 hm, hd,
    sha2_hmac_eq w u (digest w v key) m output v hw (by omega) hm,
    hmac_key_of_le w v _ hdl, hkey]

theorem C7_long_key_is_hashed_witness :
    (32 ≤ 32 ∧ 64 < (List.replicate 131 (0xAA : Byte)).length ∧
      (List.replicate 131 (0xAA : Byte)).length < 2 ^ 32 ∧
      ([1, 2, 3] : List Byte).length < 2 ^ 32) ∧
    sha2_hmac 32 stale_locals (List.replicate 131 0xAA) [1, 2, 3] [] 0 =
      sha2_hmac 32 stale_locals (sha2_digest 32 stale_locals 0 (List.replicate 131 0xAA))
        [1, 2, 3] [] 0 :=
  ⟨⟨by decide, by simp, by simp, by decide⟩,
    (C7_long_key_is_hashed 32 stale_locals (List.replicate 131 0xAA) [1, 2, 3] [] 0
      (by decide) (by simp) (by simp) (by decide)).1⟩

theorem PBKDF2_inner_loop_eq_gen (w : Nat) (u : Locals) (password : List Byte)
    (md_size c : Nat) :
    ∀ (fuel ic : Nat) (v : PBKDF2_vars),
      PBKDF2_inner_loop w u password md_size c fuel ic v =
        gen_inner_loop w (hmac_op_starts w u password) md_size c fuel ic v := by
  intro fuel
  induction fuel with
  | zero => intro ic v; rfl
  | succ fuel ih =>
    intro ic v
    by_cases h : ic < c
    · rw [PBKDF2_inner_loop, gen_inner_loop, if_pos h, if_pos h]
      dsimp only [hmac_op_starts, List.foldl]
      rw [ih]
    · rw [PBKDF2_inner_loop, gen_inner_loop, if_neg h, if_neg h]

theorem PBKDF2_outer_loop_eq_gen (w : Nat) (u : Locals) (password salt : List Byte)
    (md_size c L : Nat) :
    ∀ (fuel : Nat) (v : PBKDF2_vars),
      PBKDF2_outer_loop w u password salt md_size c L fuel v =
        gen_outer_loop w u (hmac_op_starts w u password) salt md_size c L fuel v := by
  intro fuel
  induction fuel with
  | zero => intro v; rfl
  | succ fuel ih =>
    intro v
    by_cases h : v.generated_key_length < L
    · rw [PBKDF2_outer_loop, gen_outer_loop, if_pos h, if_pos h]
      dsimp only [hmac_op_starts, List.foldl]
      rw [ih, PBKDF2_inner_loop_eq_gen]
    · rw [PBKDF2_outer_loop, gen_outer_loop, if_neg h, if_neg h]

theorem pbkdf2_U_length (H : List Byte → List Byte) (hH : ∀ x, (H x).length = 32)
    (first : List Byte) (j : Nat) : (pbkdf2_U H first j).length = 32 := by
  cases j <;> exact hH _

theorem pbkdf2_T_length (H : List Byte → List Byte) (hH : ∀ x, (H x).length = 32)
    (first : List Byte) : ∀ n, (pbkdf2_T H first n).length = 32 := by
  intro n
  induction n with
  | zero => exact pbkdf2_U_length H hH first 0
  | succ n ih =>
    rw [pbkdf2_T, xor_bytes_length, ih, pbkdf2_U_length H hH]
    rfl

theorem pbkdf2_stream_succ (H : List Byte → List Byte) (salt : List Byte) (c n : Nat) :
    pbkdf2_stream H salt c (n + 1) = pbkdf2_stream H salt c n ++ pbkdf2_block H salt c (n + 1) := by
  unfold pbkdf2_stream
  rw [List.range_succ, List.map_append, List.flatten_append]
  simp

theorem pbkdf2_stream_length (H : List Byte → List Byte) (hH : ∀ x, (H x).length = 32)
    (salt : List Byte) (c : Nat) : ∀ n, (pbkdf2_stream H salt c n).length = 32 * n := by
  intro n
  induction n with
  | zero => rfl
  | succ n ih =>
    rw [pbkdf2_stream_succ, List.length_append, ih]
    unfold pbkdf2_block
    rw [pbkdf2_T_length H hH]
    omega

theorem length_ge_of_take (l t : List Byte) (n : Nat) (h : l.take n = t) (ht : t.length = n) :
    n ≤ l.length := by
  have := congrArg List.length h
  rw [List.length_take, ht] at this
  omega

theorem gen_inner_loop_spec (w : Nat)
    (op : sha2_context → List (List Byte) → List Byte → sha2_context × List Byte)
    (I : sha2_context → Prop) (H : List Byte → List Byte) (hop : OpSpec op I H)
    (hH : ∀ x, (H x).length = 32) (first : List Byte) (c : Nat) (hc : c < 2 ^ w) :
    ∀ (fuel ic : Nat) (v : PBKDF2_vars), I v.ctx → 1 ≤ ic → ic - 1 ≤ c - 1 → c - ic ≤ fuel →
      v.md1.take 32 = pbkdf2_U H first (ic - 1) →
      v.work.take 32 = pbkdf2_T H first (ic - 1) →
      I (gen_inner_loop w op 32 c fuel ic v).ctx ∧
      (gen_inner_loop w op 32 c fuel ic v).work.take 32 = pbkdf2_T H first (c - 1) ∧
      (gen_inner_loop w op 32 c fuel ic v).counter = v.counter ∧
      (gen_inner_loop w op 32 c fuel ic v).generated_key_length = v.generated_key_length ∧
      (gen_inner_loop w op 32 c fuel ic v).output = v.output := by
  intro fuel
  induction fuel with
  | zero =>
    intro ic v hI h1 h2 hf hm hwk
    have e : ic - 1 = c - 1 := by omega
    rw [e] at hwk
    exact ⟨hI, hwk, rfl, rfl, rfl⟩
  | succ fuel ih =>
    intro ic v hI h1 h2 hf hm hwk
    by_cases hlt : ic < c
    · rw [gen_inner_loop, if_pos hlt]
      dsimp only
      -- the HMAC of the previous value
      have hml : (v.md1.take 32).length < 2 ^ 32 := by
        rw [List.length_take]
        have : min 32 v.md1.length ≤ 32 := Nat.min_le_left _ _
        omega
      obtain ⟨o1, o2⟩ := hop v.ctx [v.md1.take 32] v.md1 hI
        (fun x hx => by rw [List.mem_singleton.mp hx]; exact hml)
      have hfl : [v.md1.take 32].flatten = v.md1.take 32 := by simp
      rw [hfl] at o1
      have hmd : (op v.ctx [v.md1.take 32] v.md1).2.take 32 = pbkdf2_U H first ic := by
        rw [o1, hm, take_store_zero _ _ _ (hH _)]
        obtain ⟨j, rfl⟩ : ∃ j, ic = j + 1 := ⟨ic - 1, by omega⟩
        rfl
      have hwl : 32 ≤ v.work.length :=
        length_ge_of_take _ _ _ hwk (pbkdf2_T_length H hH first _)
      have hmdl : 32 ≤ (op v.ctx [v.md1.take 32] v.md1).2.length :=
        length_ge_of_take _ _ _ hmd (pbkdf2_U_length H hH first _)
      have hwork : (PBKDF2_xor_loop 32 (op v.ctx [v.md1.take 32] v.md1).2 32 0 v.work).take 32 =
          pbkdf2_T H first ic := by
        rw [xor_loop_full 32 _ _ hwl hmdl, hwk, hmd]
        have hl : (xor_bytes (pbkdf2_T H first (ic - 1)) (pbkdf2_U H first ic)).length = 32 := by
          rw [xor_bytes_length, pbkdf2_T_length H hH, pbkdf2_U_length H hH]; rfl
        rw [List.take_left' hl]
        obtain ⟨j, rfl⟩ : ∃ j, ic = j + 1 := ⟨ic - 1, by omega⟩
        rfl
      have hic : uadd w ic 1 = ic + 1 := by
        unfold uadd
        exact Nat.mod_eq_of_lt (by omega)
      rw [hic]
      exact ih (ic + 1) _ o2 (by omega) (by omega) (by omega) hmd hwork
    · rw [gen_inner_loop, if_neg hlt]
      have e : ic - 1 = c - 1 := by omega
      rw [e] at hwk
      exact ⟨hI, hwk, rfl, rfl, rfl⟩

theorem counter_bytes (u : Locals) (n : Nat) :
    (store (store (store (store u.c 0 [((n >>> 24) &&& 0xff).toUInt8]) 1
      [((n >>> 16) &&& 0xff).toUInt8]) 2 [((n >>> 8) &&& 0xff).toUInt8]) 3
      [((n >>> 0) &&& 0xff).toUInt8]).take 4 = BE32 n := by
  have hb : ∀ x : Nat, (x &&& 0xff).toUInt8 = x.toUInt8 := by
    intro x
    apply toUInt8_congr
    rw [Nat.and_pow_two_sub_one_eq_mod x 8]
    exact Nat.mod_mod _ _
  rw [hb, hb, hb, hb, Nat.shiftRight_zero]
  have e := PUT_ULONG_BE_eq n u.c 0 (Nat.zero_le _)
  unfold PUT_ULONG_BE at e
  dsimp only at e
  rw [e]
  exact take_store_zero _ _ _ rfl

theorem min_local_eq (a b : Nat) : min_local a b = min a b := by
  unfold min_local
  split <;> omega

theorem store_append_at (A rest X : List Byte) (g : Nat) (h : A.length = g) :
    store (A ++ rest) g X = A ++ X ++ rest.drop X.length := by
  unfold store
  rw [List.take_left' h, List.drop_append_eq_append_drop, List.drop_of_length_le (by omega), h,
    List.nil_append]
  congr 2
  omega

theorem gen_outer_step (w : Nat) (u : Locals)
    (op : sha2_context → List (List Byte) → List Byte → sha2_context × List Byte)
    (I : sha2_context → Prop) (H : List Byte → List Byte) (hop : OpSpec op I H)
    (hH : ∀ x, (H x).length = 32) (salt : List Byte) (c L : Nat) (out0 : List Byte)
    (hw : 32 ≤ w) (hc : c < 2 ^ w) (hL : L < 2 ^ w) (hs : salt.length < 2 ^ 32)
    (fuel k : Nat) (v : PBKDF2_vars) (inv : OuterInv w I H salt c L out0 k v)
    (hlt : 32 * k < L) :
    ∃ v2, gen_outer_loop w u op salt 32 c L (fuel + 1) v =
        gen_outer_loop w u op salt 32 c L fuel v2 ∧
      OuterInv w I H salt c L out0 (k + 1) v2 := by
  have hg : v.generated_key_length = 32 * k := by rw [inv.gen]; omega
  have hglt : v.generated_key_length < L := by omega
  rw [gen_outer_loop, if_pos hglt]
  refine ⟨_, rfl, ?_⟩
  -- the block index in four bytes
  have hcb : BE32 v.counter = BE32 (k + 1) := by
    rw [inv.counter]; exact BE32_mod_pow w _ hw
  have hcb2 := counter_bytes u v.counter
  rw [hcb] at hcb2
  dsimp only
  rw [hcb2]
  -- the first HMAC gives U_1
  obtain ⟨o1, o2⟩ := hop v.ctx [salt, BE32 (k + 1)] v.md1 inv.ctx (by
    intro x hx
    simp only [List.mem_cons, List.mem_singleton, List.not_mem_nil, or_false] at hx
    rcases hx with rfl | rfl
    · exact hs
    · simp [BE32])
  have hfl : [salt, BE32 (k + 1)].flatten = salt ++ BE32 (k + 1) := by simp
  rw [hfl] at o1
  have hmd : (op v.ctx [salt, BE32 (k + 1)] v.md1).2.take 32 =
      pbkdf2_U H (salt ++ BE32 (k + 1)) (1 - 1) := by
    rw [o1, take_store_zero _ _ _ (hH _)]; rfl
  have hwk : (memcpy v.work 0 (op v.ctx [salt, BE32 (k + 1)] v.md1).2 32).take 32 =
      pbkdf2_T H (salt ++ BE32 (k + 1)) (1 - 1) := by
    unfold memcpy
    rw [take_store_zero _ _ _ (by rw [hmd]; exact pbkdf2_U_length H hH _ _), hmd]; rfl
  obtain ⟨i1, i2, i3, i4, i5⟩ := gen_inner_loop_spec w op I H hop hH (salt ++ BE32 (k + 1)) c hc
    c 1
    { v with ctx := (op v.ctx [salt, BE32 (k + 1)] v.md1).1,
             md1 := (op v.ctx [salt, BE32 (k + 1)] v.md1).2,
             work := memcpy v.work 0 (op v.ctx [salt, BE32 (k + 1)] v.md1).2 32 }
    o2 (Nat.le_refl 1) (by omega) (by omega) hmd hwk
  dsimp only at i3 i4 i5
  generalize gen_inner_loop w op 32 c c 1 _ = v3 at i1 i2 i3 i4 i5 ⊢
  have hn : min_local (L - 32 * k) 32 = min (L - 32 * k) 32 := min_local_eq _ _
  have hSl := pbkdf2_stream_length H hH salt c k
  refine ⟨i1, by omega, ?_, ?_, ?_⟩
  · show uadd w _ 1 = _
    rw [i3, inv.counter]
    unfold uadd
    rw [Nat.mod_add_mod]
  · show uadd w _ _ = _
    rw [i4, hg, hn]
    unfold uadd
    rw [Nat.mod_eq_of_lt (by omega)]
    omega
  · show memcpy _ _ _ _ = _
    rw [i4, i5, hg, hn, inv.output]
    have e1 : min (32 * k) L = 32 * k := by omega
    have e2 : min (32 * (k + 1)) L = 32 * k + min (L - 32 * k) 32 := by omega
    rw [e1, e2, List.take_of_length_le (by omega)]
    unfold memcpy
    rw [store_append_at _ _ _ _ hSl, pbkdf2_stream_succ]
    have ht : List.take (min (L - 32 * k) 32) v3.work =
        (pbkdf2_block H salt c (k + 1)).take (min (L - 32 * k) 32) := by
      unfold pbkdf2_block
      rw [← i2, List.take_take, Nat.min_eq_left (Nat.min_le_right _ _)]
    rw [ht]
    have hbl : ((pbkdf2_block H salt c (k + 1)).take (min (L - 32 * k) 32)).length =
        min (L - 32 * k) 32 := by
      rw [List.length_take]
      unfold pbkdf2_block
      rw [pbkdf2_T_length H hH]
      omega
    rw [hbl, List.drop_drop]
    conv => rhs; rw [← hSl, List.take_append]
    rw [hSl]

theorem gen_outer_loop_spec (w : Nat) (u : Locals)
    (op : sha2_context → List (List Byte) → List Byte → sha2_context × List Byte)
    (I : sha2_context → Prop) (H : List Byte → List Byte) (hop : OpSpec op I H)
    (hH : ∀ x, (H x).length = 32) (salt : List Byte) (c L : Nat) (out0 : List Byte)
    (hw : 32 ≤ w) (hc : c < 2 ^ w) (hL : L < 2 ^ w) (hs : salt.length < 2 ^ 32) :
    ∀ (fuel k : Nat) (v : PBKDF2_vars), OuterInv w I H salt c L out0 k v →
      L - min (32 * k) L ≤ fuel →
      (gen_outer_loop w u op salt 32 c L fuel v).output =
        (pbkdf2_stream H salt c ((L + 31) / 32)).take L ++ out0.drop L := by
  intro fuel
  induction fuel with
  | zero =>
    intro k v inv hf
    have hk : k = (L + 31) / 32 := by have := inv.bound; omega
    have hm : min (32 * k) L = L := by omega
    rw [gen_outer_loop, inv.output, hm, hk]
  | succ fuel ih =>
    intro k v inv hf
    by_cases hlt : 32 * k < L
    · obtain ⟨v2, e, inv2⟩ := gen_outer_step w u op I H hop hH salt c L out0 hw hc hL hs
        fuel k v inv hlt
      rw [e]
      exact ih (k + 1) v2 inv2 (by omega)
    · have hk : k = (L + 31) / 32 := by have := inv.bound; omega
      have hm : min (32 * k) L = L := by omega
      have hg : ¬ v.generated_key_length < L := by rw [inv.gen]; omega
      rw [gen_outer_loop, if_neg hg, inv.output, hm, hk]

theorem PBKDF2_reset_inner_loop_eq_gen (w : Nat) (u : Locals) (md_size c : Nat) :
    ∀ (fuel ic : Nat) (v : PBKDF2_vars),
      PBKDF2_reset_inner_loop w u md_size c fuel ic v =
        gen_inner_loop w (hmac_op_reset w u) md_size c fuel ic v := by
  intro fuel
  induction fuel with
  | zero => intro ic v; rfl
  | succ fuel ih =>
    intro ic v
    by_cases h : ic < c
    · rw [PBKDF2_reset_inner_loop, gen_inner_loop, if_pos h, if_pos h]
      dsimp only [hmac_op_reset, List.foldl]
      rw [ih]
    · rw [PBKDF2_reset_inner_loop, gen_inner_loop, if_neg h, if_neg h]

theorem PBKDF2_reset_outer_loop_eq_gen (w : Nat) (u : Locals) (salt : List Byte)
    (md_size c L : Nat) :
    ∀ (fuel : Nat) (v : PBKDF2_vars),
      PBKDF2_reset_outer_loop w u salt md_size c L fuel v =
        gen_outer_loop w u (hmac_op_reset w u) salt md_size c L fuel v := by
  intro fuel
  induction fuel with
  | zero => intro v; rfl
  | succ fuel ih =>
    intro v
    by_cases h : v.generated_key_length < L
    · rw [PBKDF2_reset_outer_loop, gen_outer_loop, if_pos h, if_pos h]
      dsimp only [hmac_op_reset, List.foldl]
      rw [ih, PBKDF2_reset_inner_loop_eq_gen]
    · rw [PBKDF2_reset_outer_loop, gen_outer_loop, if_neg h, if_neg h]

theorem hmac_digest_length (w : Nat) (K m : List Byte) : (hmac_digest w 0 K m).length = 32 := by
  unfold hmac_digest
  rw [digest_length]
  rfl

theorem op_spec_starts (w : Nat) (u : Locals) (password : List Byte) (hw : 32 ≤ w)
    (hp : password.length < 2 ^ 32) :
    OpSpec (hmac_op_starts w u password) (fun _ => True)
      (hmac_digest w 0 (hmac_key w 0 password)) := by
  intro ctx chunks md1 _ hc
  obtain ⟨s1, s2⟩ := sha2_hmac_starts_spec w u ctx password 0 hw hp
  rw [← List.append_nil (xor_pad (hmac_key w 0 password) 0x36)] at s2
  obtain ⟨k, a⟩ := hmac_foldl_update w 0 _ hw chunks [] _ hc s1 s2
  rw [List.nil_append] at a
  unfold hmac_op_starts
  exact ⟨(sha2_hmac_finish_spec w u 0 _ _ _ md1 hw (hmac_key_length w 0 password) k a).1, trivial⟩

theorem op_spec_reset (w : Nat) (u : Locals) (K : List Byte) (hw : 32 ≤ w)
    (hK : K.length ≤ 64) :
    OpSpec (hmac_op_reset w u)
      (fun ctx => HmacKeyed 0 K ctx ∧ Absorbed w 0 (xor_pad K 0x36) ctx)
      (hmac_digest w 0 K) := by
  intro ctx chunks md1 hI hc
  obtain ⟨s1, s2⟩ := hI
  rw [← List.append_nil (xor_pad K 0x36)] at s2
  obtain ⟨k, a⟩ := hmac_foldl_update w 0 _ hw chunks [] _ hc s1 s2
  rw [List.nil_append] at a
  obtain ⟨f1, f2⟩ := sha2_hmac_finish_spec w u 0 _ _ _ md1 hw hK k a
  dsimp only [hmac_op_reset]
  exact ⟨f1, sha2_hmac_reset_spec w 0 K _ hw hK f2⟩

theorem outer_inv_init (w : Nat) (I : sha2_context → Prop) (H : List Byte → List Byte)
    (salt : List Byte) (c L : Nat) (output : List Byte) (ctx : sha2_context) (md1 work : List Byte)
    (hw : 32 ≤ w) (hI : I ctx) :
    OuterInv w I H salt c L output 0
      { ctx := ctx, md1 := md1, work := work, counter := 1, generated_key_length := 0,
        output := output } := by
  have h1 : (1 : Nat) < 2 ^ w := Nat.one_lt_two_pow (by omega)
  refine ⟨hI, by omega, ?_, by simp, by simp [pbkdf2_stream]⟩
  show 1 = (0 + 1) % 2 ^ w
  rw [Nat.zero_add, Nat.mod_eq_of_lt h1]

/-- The output of `PKCS5_PBKDF2_HMAC`: the first `key_length` bytes of the
blocks `T_1 ‖ T_2 ‖ ...` in front of the bytes of `output` that are not
written. -/
theorem PKCS5_PBKDF2_HMAC_eq (w : Nat) (u : Locals) (password salt : List Byte) (c L : Nat)
    (output : List Byte) (hw : 32 ≤ w) (hp : password.length < 2 ^ 32)
    (hs : salt.length < 2 ^ 32) (hc : c < 2 ^ w) (hL : L < 2 ^ w) :
    PKCS5_PBKDF2_HMAC w u password salt c L output =
      (pbkdf2_stream (hmac_digest w 0 (hmac_key w 0 password)) salt c ((L + 31) / 32)).take L ++
        output.drop L := by
  unfold PKCS5_PBKDF2_HMAC
  dsimp only
  rw [PBKDF2_outer_loop_eq_gen]
  exact gen_outer_loop_spec w u _ _ _ (op_spec_starts w u password hw hp)
    (hmac_digest_length w _) salt c L output hw hc hL hs L 0 _
    (outer_inv_init w _ _ salt c L output _ _ _ hw trivial) (by omega)

/-- The output of the PBKDF2 with one persistent HMAC context. -/
theorem PKCS5_PBKDF2_HMAC_reset_eq (w : Nat) (u : Locals) (password salt : List Byte) (c L : Nat)
    (output : List Byte) (hw : 32 ≤ w) (hp : password.length < 2 ^ 32)
    (hs : salt.length < 2 ^ 32) (hc : c < 2 ^ w) (hL : L < 2 ^ w) :
    PKCS5_PBKDF2_HMAC_reset w u password salt c L output =
      (pbkdf2_stream (hmac_digest w 0 (hmac_key w 0 password)) salt c ((L + 31) / 32)).take L ++
        output.drop L := by
  unfold PKCS5_PBKDF2_HMAC_reset
  dsimp only
  rw [PBKDF2_reset_outer_loop_eq_gen]
  exact gen_outer_loop_spec w u _ _ _
    (op_spec_reset w u (hmac_key w 0 password) hw (hmac_key_length w 0 password))
    (hmac_digest_length w _) salt c L output hw hc hL hs L 0 _
    (outer_inv_init w _ _ salt c L output _ _ _ hw
      (sha2_hmac_starts_spec w u u.ctx password 0 hw hp)) (by omega)

theorem hmac_sha256_eq (w : Nat) (u : Locals) (key m : List Byte) (hw : 32 ≤ w)
    (hk : key.length < 2 ^ 32) (hm : m.length < 2 ^ 32) :
    hmac_sha256 w u key m = hmac_digest w 0 (hmac_key w 0 key) m := by
  unfold hmac_sha256
  rw [sha2_hmac_eq w u key m _ 0 hw hk hm]
  exact take_store_zero _ _ _ (hmac_digest_length w _ _)

theorem pbkdf2_U_congr (H1 H2 : List Byte → List Byte)
    (h : ∀ x, x.length < 2 ^ 32 → H1 x = H2 x) (hH : ∀ x, (H2 x).length = 32)
    (first : List Byte) (hf : first.length < 2 ^ 32) :
    ∀ j, pbkdf2_U H1 first j = pbkdf2_U H2 first j := by
  intro j
  induction j with
  | zero => exact h first hf
  | succ j ih =>
    rw [pbkdf2_U, pbkdf2_U, ih]
    exact h _ (by rw [pbkdf2_U_length H2 hH]; decide)

theorem pbkdf2_T_congr (H1 H2 : List Byte → List Byte)
    (h : ∀ x, x.length < 2 ^ 32 → H1 x = H2 x) (hH : ∀ x, (H2 x).length = 32)
    (first : List Byte) (hf : first.length < 2 ^ 32) :
    ∀ n, pbkdf2_T H1 first n = pbkdf2_T H2 first n := by
  intro n
  induction n with
  | zero => exact pbkdf2_U_congr H1 H2 h hH first hf 0
  | succ n ih => rw [pbkdf2_T, pbkdf2_T, ih, pbkdf2_U_congr H1 H2 h hH first hf]

theorem pbkdf2_stream_congr (H1 H2 : List Byte → List Byte)
    (h : ∀ x, x.length < 2 ^ 32 → H1 x = H2 x) (hH : ∀ x, (H2 x).length = 32)
    (salt : List Byte) (hs : salt.length + 4 < 2 ^ 32) (c n : Nat) :
    pbkdf2_stream H1 salt c n = pbkdf2_stream H2 salt c n := by
  unfold pbkdf2_stream
  congr 1
  apply List.map_congr_left
  intro k _
  unfold pbkdf2_block
  exact pbkdf2_T_congr H1 H2 h hH _ (by rw [List.length_append]; exact hs) _

theorem pbkdf2_stream_add (H : List Byte → List Byte) (salt : List Byte) (c n : Nat) :
    ∀ d, pbkdf2_stream H salt c (n + d) =
      pbkdf2_stream H salt c n ++
        ((List.range d).map (fun k => pbkdf2_block H salt c (n + k + 1))).flatten := by
  intro d
  induction d with
  | zero => simp
  | succ d ih =>
    rw [← Nat.add_assoc, pbkdf2_stream_succ, ih, List.range_succ, List.map_append,
      List.flatten_append, List.append_assoc]
    simp

theorem pbkdf2_stream_take (H : List Byte → List Byte) (hH : ∀ x, (H x).length = 32)
    (salt : List Byte) (c n n2 L : Nat) (hn : n ≤ n2) (hL : L ≤ 32 * n) :
    (pbkdf2_stream H salt c n2).take L = (pbkdf2_stream H salt c n).take L := by
  obtain ⟨d, rfl⟩ : ∃ d, n2 = n + d := ⟨n2 - n, by omega⟩
  rw [pbkdf2_stream_add, List.take_append_of_le_length
    (by rw [pbkdf2_stream_length H hH]; exact hL)]

/-- For every password and salt whose lengths fit the 32-bit `size_t`
(`|salt| + 4 < 2^32`), every iteration count `c ≥ 1` and every key length `L`
with fewer than `2^32` blocks, `PKCS5_PBKDF2_HMAC` writes to `output[0..L)` the first `L` bytes of
`T_1 ‖ T_2 ‖ ...`, where `T_i = U_1 xor ... xor U_c`,
`U_1 = sha2_hmac(password, salt ‖ BE32(i))` and `U_j = sha2_hmac(password, U_(j-1))`
for SHA-256, with the block index `i` starting at 1, and leaves the rest of
`output` as it was. -/
theorem pbkdf2_blocks (w : Nat) (u : Locals) (password salt : List Byte) (c L : Nat)
    (output : List Byte) (hw : 32 ≤ w) (hp : password.length < 2 ^ 32)
    (hs : salt.length + 4 < 2 ^ 32) (hc1 : 1 ≤ c) (hc : c < 2 ^ w) (hL : L < 2 ^ w)
    (hN : (L + 31) / 32 < 2 ^ 32) :
    PKCS5_PBKDF2_HMAC w u password salt c L output =
      (((List.range ((L + 31) / 32)).map (fun k =>
          pbkdf2_T (hmac_sha256 w u password) (salt ++ BE32 (k + 1)) (c - 1))).flatten).take L ++
        output.drop L := by
  have _ := hc1
  have _ := hN
  have e := pbkdf2_stream_congr (hmac_sha256 w u password)
    (hmac_digest w 0 (hmac_key w 0 password))
    (fun x hx => hmac_sha256_eq w u password x hw hp hx)
    (hmac_digest_length w _) salt hs c ((L + 31) / 32)
  rw [PKCS5_PBKDF2_HMAC_eq w u password salt c L output hw hp (by omega) hc hL, ← e]
  unfold pbkdf2_stream pbkdf2_block
  exact Eq.refl _

theorem pbkdf2_blocks_example :
    (32 ≤ 32 ∧ ([112, 119] : List Byte).length < 2 ^ 32 ∧
      ([115, 97] : List Byte).length + 4 < 2 ^ 32 ∧ 1 ≤ 2 ∧ 2 < 2 ^ 32 ∧ 40 < 2 ^ 32 ∧
      (40 + 31) / 32 < 2 ^ 32) ∧
    PKCS5_PBKDF2_HMAC 32 stale_locals [112, 119] [115, 97] 2 40 [] =
      (((List.range ((40 + 31) / 32)).map (fun k =>
          pbkdf2_T (hmac_sha256 32 stale_locals [112, 119]) ([115, 97] ++ BE32 (k + 1))
            (2 - 1))).flatten).take 40 ++ ([] : List Byte).drop 40 :=
  ⟨⟨by decide, by decide, by decide, by decide, by decide, by decide, by decide⟩,
    pbkdf2_blocks 32 stale_locals [112, 119] [115, 97] 2 40 [] (by decide) (by decide)
      (by decide) (by decide) (by decide) (by decide) (by decide)⟩

theorem PBKDF2_inner_loop_zero_one (w : Nat) (u : Locals) (password : List Byte) (md_size : Nat)
    (v : PBKDF2_vars) :
    PBKDF2_inner_loop w u password md_size 0 0 1 v =
      PBKDF2_inner_loop w u password md_size 1 1 1 v := by
  rw [PBKDF2_inner_loop, PBKDF2_inner_loop, if_neg (by decide)]

theorem PBKDF2_outer_loop_zero_one (w : Nat) (u : Locals) (password salt : List Byte)
    (md_size L : Nat) :
    ∀ (fuel : Nat) (v : PBKDF2_vars),
      PBKDF2_outer_loop w u password salt md_size 0 L fuel v =
        PBKDF2_outer_loop w u password salt md_size 1 L fuel v := by
  intro fuel
  induction fuel with
  | zero => intro v; rfl
  | succ fuel ih =>
    intro v
    by_cases h : v.generated_key_length < L
    · rw [PBKDF2_outer_loop, PBKDF2_outer_loop, if_pos h, if_pos h]
      dsimp only
      rw [PBKDF2_inner_loop_zero_one, ih]
    · rw [PBKDF2_outer_loop, PBKDF2_outer_loop, if_neg h, if_neg h]

/-- C9: for `iteration_count = 0` the function `PKCS5_PBKDF2_HMAC` does not
reject the call; it writes exactly what it writes for `iteration_count = 1`
with the same password, salt, key length and output array. -/
theorem C9_zero_iterations_as_one (w : Nat) (u : Locals) (password salt : List Byte) (L : Nat)
    (output : List Byte) :
    PKCS5_PBKDF2_HMAC w u password salt 0 L output =
      PKCS5_PBKDF2_HMAC w u password salt 1 L output := by
  unfold PKCS5_PBKDF2_HMAC
  dsimp only
  rw [PBKDF2_outer_loop_zero_one]

/-- C8: for every password, salt, iteration count `c ≥ 1` and key lengths
`L ≤ L2`, `PKCS5_PBKDF2_HMAC` with `key_length = L` writes exactly the `L`
bytes `output[0..L)` and keeps the rest of `output`; the `L` bytes are the
first `L` bytes written for `key_length = L2`; and the bytes after the last
complete block are the first `L mod 32` bytes of the untruncated block
`T_(L / 32 + 1)`. -/
theorem C8_truncation_keeps_leading_bytes (w : Nat) (u u2 : Locals) (password salt : List Byte)
    (c L L2 : Nat) (output output2 : List Byte) (hw : 32 ≤ w) (hp : password.length < 2 ^ 32)
    (hs : salt.length + 4 < 2 ^ 32) (hc1 : 1 ≤ c) (hc : c < 2 ^ w) (hLL : L ≤ L2)
    (hL2 : L2 < 2 ^ w) :
    (PKCS5_PBKDF2_HMAC w u password salt c L output).take L =
      (PKCS5_PBKDF2_HMAC w u2 password salt c L2 output2).take L ∧
    ((PKCS5_PBKDF2_HMAC w u password salt c L output).take L).length = L ∧
    (PKCS5_PBKDF2_HMAC w u password salt c L output).drop L = output.drop L ∧
    ((PKCS5_PBKDF2_HMAC w u password salt c L output).take L).drop (32 * (L / 32)) =
      (pbkdf2_T (hmac_sha256 w u password) (salt ++ BE32 (L / 32 + 1)) (c - 1)).take
        (L % 32) := by
  have _ := hc1
  have hH := hmac_digest_length w (hmac_key w 0 password)
  have hS := pbkdf2_stream_length (hmac_digest w 0 (hmac_key w 0 password)) hH salt c
  have hl : ((pbkdf2_stream (hmac_digest w 0 (hmac_key w 0 password)) salt c
      ((L + 31) / 32)).take L).length = L := by
    rw [List.length_take, hS]; omega
  have hl2 : ((pbkdf2_stream (hmac_digest w 0 (hmac_key w 0 password)) salt c
      ((L2 + 31) / 32)).take L2).length = L2 := by
    rw [List.length_take, hS]; omega
  rw [PKCS5_PBKDF2_HMAC_eq w u password salt c L output hw hp (by omega) hc (by omega),
    PKCS5_PBKDF2_HMAC_eq w u2 password salt c L2 output2 hw hp (by omega) hc hL2,
    List.take_left' hl, List.drop_left' hl]
  refine ⟨?_, hl, rfl, ?_⟩
  · rw [List.take_append_of_le_length (by omega), List.take_take, Nat.min_eq_left hLL]
    exact (pbkdf2_stream_take _ hH salt c _ _ L (by omega) (by omega)).symm
  · rw [← pbkdf2_stream_take _ hH salt c ((L + 31) / 32) (L / 32 + 1) L (by omega) (by omega),
      pbkdf2_stream_succ, List.take_append_eq_append_take,
      List.take_of_length_le (by rw [hS]; omega), hS,
      List.drop_append_eq_append_drop, List.drop_of_length_le (by rw [hS]), hS,
      List.nil_append, Nat.sub_self, List.drop_zero]
    unfold pbkdf2_block
    rw [pbkdf2_T_congr (hmac_sha256 w u password) _
      (fun x hx => hmac_sha256_eq w u password x hw hp hx) hH _
      (by rw [List.length_append]; exact hs)]
    congr 1
    omega

theorem C8_truncation_keeps_leading_bytes_witness :
    (32 ≤ 32 ∧ ([112, 119] : List Byte).length < 2 ^ 32 ∧
      ([115, 97] : List Byte).length + 4 < 2 ^ 32 ∧ 1 ≤ 1 ∧ 1 < 2 ^ 32 ∧ 16 ≤ 40 ∧
      40 < 2 ^ 32) ∧
    (PKCS5_PBKDF2_HMAC 32 stale_locals [112, 119] [115, 97] 1 16 [9, 9]).take 16 =
      (PKCS5_PBKDF2_HMAC 32 stale_locals [112, 119] [115, 97] 1 40 []).take 16 :=
  ⟨⟨by decide, by decide, by decide, by decide, by decide, by decide, by decide⟩,
    (C8_truncation_keeps_leading_bytes 32 stale_locals stale_locals [112, 119] [115, 97] 1 16 40 [9, 9] []
      (by decide) (by decide) (by decide) (by decide) (by decide) (by decide) (by decide)).1⟩

/-- C6: a context obtained from `sha2_hmac_starts(key, v)` by any calls of
`sha2_hmac_update` and `sha2_hmac_finish`, after `sha2_hmac_reset`,
`sha2_hmac_update(m)` and `sha2_hmac_finish`, gives the MAC that `sha2_hmac`
computes for `m` on a fresh context; and the PBKDF2 that keeps one HMAC context
and resets it between the HMAC computations writes what `PKCS5_PBKDF2_HMAC`
writes. -/
theorem C6_reset_equals_fresh (w : Nat) (u : Locals) (ctx0 : sha2_context) (key : List Byte)
    (v : Int) (chunks : List (List Byte)) (out0 m output : List Byte)
    (password salt : List Byte) (c L : Nat) (out : List Byte)
    (hw : 32 ≤ w) (hk : key.length < 2 ^ 32) (hch : ∀ x ∈ chunks, x.length < 2 ^ 32)
    (hm : m.length < 2 ^ 32) (hp : password.length < 2 ^ 32) (hs : salt.length < 2 ^ 32)
    (hc : c < 2 ^ w) (hL : L < 2 ^ w) :
    (sha2_hmac_finish w u
        (sha2_hmac_update w
          (sha2_hmac_reset w
            (sha2_hmac_finish w u
              (chunks.foldl (sha2_hmac_update w) (sha2_hmac_starts w u ctx0 key v)) out0).1)
          m) output).2 =
      sha2_hmac w u key m output v ∧
    PKCS5_PBKDF2_HMAC_reset w u password salt c L out =
      PKCS5_PBKDF2_HMAC w u password salt c L out := by
  constructor
  · have hK := hmac_key_length w v key
    obtain ⟨s1, s2⟩ := sha2_hmac_starts_spec w u ctx0 key v hw hk
    rw [← List.append_nil (xor_pad (hmac_key w v key) 0x36)] at s2
    obtain ⟨k1, a1⟩ := hmac_foldl_update w v _ hw chunks [] _ hch s1 s2
    obtain ⟨_, f2⟩ := sha2_hmac_finish_spec w u v _ _ _ out0 hw hK k1 a1
    obtain ⟨r1, r2⟩ := sha2_hmac_reset_spec w v _ _ hw hK f2
    have a3 := absorbed_update w v _ m _ hw hm r2
    have k3 := hmac_keyed_update w v _ _ m r1
    rw [sha2_hmac_eq w u key m output v hw hk hm]
    exact (sha2_hmac_finish_spec w u v _ m _ output hw hK k3 a3).1
  · rw [PKCS5_PBKDF2_HMAC_reset_eq w u password salt c L out hw hp hs hc hL,
      PKCS5_PBKDF2_HMAC_eq w u password salt c L out hw hp hs hc hL]

theorem C6_reset_equals_fresh_witness :
    (32 ≤ 32 ∧ ([1, 2] : List Byte).length < 2 ^ 32 ∧
      (∀ x ∈ ([[5], []] : List (List Byte)), x.length < 2 ^ 32) ∧
      ([7, 8, 9] : List Byte).length < 2 ^ 32 ∧ ([112, 119] : List Byte).length < 2 ^ 32 ∧
      ([115, 97] : List Byte).length < 2 ^ 32 ∧ 3 < 2 ^ 32 ∧ 40 < 2 ^ 32) ∧
    (sha2_hmac_finish 32 stale_locals
        (sha2_hmac_update 32
          (sha2_hmac_reset 32
            (sha2_hmac_finish 32 stale_locals
              ([[5], []].foldl (sha2_hmac_update 32)
                (sha2_hmac_starts 32 stale_locals stale_ctx [1, 2] 1)) []).1)
          [7, 8, 9]) []).2 =
      sha2_hmac 32 stale_locals [1, 2] [7, 8, 9] [] 1 ∧
    PKCS5_PBKDF2_HMAC_reset 32 stale_locals [112, 119] [115, 97] 3 40 [] =
      PKCS5_PBKDF2_HMAC 32 stale_locals [112, 119] [115, 97] 3 40 [] :=
  ⟨⟨by decide, by decide, by decide, by decide, by decide, by decide, by decide, by decide⟩,
    C6_reset_equals_fresh 32 stale_locals stale_ctx [1, 2] 1 [[5], []] [] [7, 8, 9] []
      [112, 119] [115, 97] 3 40 [] (by decide) (by decide) (by decide) (by decide) (by decide)
      (by decide) (by decide) (by decide)⟩

theorem sched_extend_succ (r : Nat → Nat → Nat → Nat → Nat) (n : Nat) (W : List Nat) :
    sched_extend r (n + 1) W =
      sched_extend r n
        (W ++ [r (W.getD (W.length - 2) 0) (W.getD (W.length - 7) 0)
          (W.getD (W.length - 15) 0) (W.getD (W.length - 16) 0)]) := rfl

theorem foldl_step (f : Regs → Nat → Regs) (s s2 : Regs) (t : Nat) (ts : List Nat)
    (h : f s t = s2) : List.foldl f s (t :: ts) = List.foldl f s2 ts := by
  rw [List.foldl_cons, h]

set_option maxRecDepth 100000 in
set_option maxHeartbeats 4000000 in
/-- The straight-line body of `sha2_process`, one variable for every assignment,
gives the state words of the loop over `R` and `P`. -/
theorem unrolled_aux (w : Nat) (ctx : sha2_context) (data : List Byte) :
    ∀ W0 : Nat, W0 = GET_ULONG_BE data 0 →
    ∀ W1 : Nat, W1 = GET_ULONG_BE data 4 →
    ∀ W2 : Nat, W2 = GET_ULONG_BE data 8 →
    ∀ W3 : Nat, W3 = GET_ULONG_BE data 12 →
    ∀ W4 : Nat, W4 = GET_ULONG_BE data 16 →
    ∀ W5 : Nat, W5 = GET_ULONG_BE data 20 →
    ∀ W6 : Nat, W6 = GET_ULONG_BE data 24 →
    ∀ W7 : Nat, W7 = GET_ULONG_BE data 28 →
    ∀ W8 : Nat, W8 = GET_ULONG_BE data 32 →
    ∀ W9 : Nat, W9 = GET_ULONG_BE data 36 →
    ∀ W10 : Nat, W10 = GET_ULONG_BE data 40 →
    ∀ W11 : Nat, W11 = GET_ULONG_BE data 44 →
    ∀ W12 : Nat, W12 = GET_ULONG_BE data 48 →
    ∀ W13 : Nat, W13 = GET_ULONG_BE data 52 →
    ∀ W14 : Nat, W14 = GET_ULONG_BE data 56 →
    ∀ W15 : Nat, W15 = GET_ULONG_BE data 60 →
    ∀ A0 : Nat, A0 = ctx.state.getD 0 0 →
    ∀ B0 : Nat, B0 = ctx.state.getD 1 0 →
    ∀ C0 : Nat, C0 = ctx.state.getD 2 0 →
    ∀ D0 : Nat, D0 = ctx.state.getD 3 0 →
    ∀ E0 : Nat, E0 = ctx.state.getD 4 0 →
    ∀ F0 : Nat, F0 = ctx.state.getD 5 0 →
    ∀ G0 : Nat, G0 = ctx.state.getD 6 0 →
    ∀ H0 : Nat, H0 = ctx.state.getD 7 0 →
    ∀ r1 : Nat × Nat, r1 = P w A0 B0 C0 D0 E0 F0 G0 H0 W0 0x428A2F98 →
    ∀ D1 : Nat, D1 = r1.1 →
    ∀ H1 : Nat, H1 = r1.2 →
    ∀ r2 : Nat × Nat, r2 = P w H1 A0 B0 C0 D1 E0 F0 G0 W1 0x71374491 →
    ∀ C2 : Nat, C2 = r2.1 →
    ∀ G2 : Nat, G2 = r2.2 →
    ∀ r3 : Nat × Nat, r3 = P w G2 H1 A0 B0 C2 D1 E0 F0 W2 0xB5C0FBCF →
    ∀ B3 : Nat, B3 = r3.1 →
    ∀ F3 : Nat, F3 = r3.2 →
    ∀ r4 : Nat × Nat, r4 = P w F3 G2 H1 A0 B3 C2 D1 E0 W3 0xE9B5DBA5 →
    ∀ A4 : Nat, A4 = r4.1 →
    ∀ E4 : Nat, E4 = r4.2 →
    ∀ r5 : Nat × Nat, r5 = P w E4 F3 G2 H1 A4 B3 C2 D1 W4 0x3956C25B →
    ∀ H5 : Nat, H5 = r5.1 →
    ∀ D5 : Nat, D5 = r5.2 →
    ∀ r6 : Nat × Nat, r6 = P w D5 E4 F3 G2 H5 A4 B3 C2 W5 0x59F111F1 →
    ∀ G6 : Nat, G6 = r6.1 →
    ∀ C6 : Nat, C6 = r6.2 →
    ∀ r7 : Nat × Nat, r7 = P w C6 D5 E4 F3 G6 H5 A4 B3 W6 0x923F82A4 →
    ∀ F7 : Nat, F7 = r7.1 →
    ∀ B7 : Nat, B7 = r7.2 →
    ∀ r8 : Nat × Nat, r8 = P w B7 C6 D5 E4 F7 G6 H5 A4 W7 0xAB1C5ED5 →
    ∀ E8 : Nat, E8 = r8.1 →
    ∀ A8 : Nat, A8 = r8.2 →
    ∀ r9 : Nat × Nat, r9 = P w A8 B7 C6 D5 E8 F7 G6 H5 W8 0xD807AA98 →
    ∀ D9 : Nat, D9 = r9.1 →
    ∀ H9 : Nat, H9 = r9.2 →
    ∀ r10 : Nat × Nat, r10 = P w H9 A8 B7 C6 D9 E8 F7 G6 W9 0x12835B01 →
    ∀ C10 : Nat, C10 = r10.1 →
    ∀ G10 : Nat, G10 = r10.2 →
    ∀ r11 : Nat × Nat, r11 = P w G10 H9 A8 B7 C10 D9 E8 F7 W10 0x243185BE →
    ∀ B11 : Nat, B11 = r11.1 →
    ∀ F11 : Nat, F11 = r11.2 →
    ∀ r12 : Nat × Nat, r12 = P w F11 G10 H9 A8 B11 C10 D9 E8 W11 0x550C7DC3 →
    ∀ A12 : Nat, A12 = r12.1 →
    ∀ E12 : Nat, E12 = r12.2 →
    ∀ r13 : Nat × Nat, r13 = P w E12 F11 G10 H9 A12 B11 C10 D9 W12 0x72BE5D74 →
    ∀ H13 : Nat, H13 = r13.1 →
    ∀ D13 : Nat, D13 = r13.2 →
    ∀ r14 : Nat × Nat, r14 = P w D13 E12 F11 G10 H13 A12 B11 C10 W13 0x80DEB1FE →
    ∀ G14 : Nat, G14 = r14.1 →
    ∀ C14 : Nat, C14 = r14.2 →
    ∀ r15 : Nat × Nat, r15 = P w C14 D13 E12 F11 G14 H13 A12 B11 W14 0x9BDC06A7 →
    ∀ F15 : Nat, F15 = r15.1 →
    ∀ B15 : Nat, B15 = r15.2 →
    ∀ r16 : Nat × Nat, r16 = P w B15 C14 D13 E12 F15 G14 H13 A12 W15 0xC19BF174 →
    ∀ E16 : Nat, E16 = r16.1 →
    ∀ A16 : Nat, A16 = r16.2 →
    ∀ W16 : Nat, W16 = R w W14 W9 W1 W0 →
    ∀ r17 : Nat × Nat, r17 = P w A16 B15 C14 D13 E16 F15 G14 H13 W16 0xE49B69C1 →
    ∀ D17 : Nat, D17 = r17.1 →
    ∀ H17 : Nat, H17 = r17.2 →
    ∀ W17 : Nat, W17 = R w W15 W10 W2 W1 →
    ∀ r18 : Nat × Nat, r18 = P w H17 A16 B15 C14 D17 E16 F15 G14 W17 0xEFBE4786 →
    ∀ C18 : Nat, C18 = r18.1 →
    ∀ G18 : Nat, G18 = r18.2 →
    ∀ W18 : Nat, W18 = R w W16 W11 W3 W2 →
    ∀ r19 : Nat × Nat, r19 = P w G18 H17 A16 B15 C18 D17 E16 F15 W18 0x0FC19DC6 →
    ∀ B19 : Nat, B19 = r19.1 →
    ∀ F19 : Nat, F19 = r19.2 →
    ∀ W19 : Nat, W19 = R w W17 W12 W4 W3 →
    ∀ r20 : Nat × Nat, r20 = P w F19 G18 H17 A16 B19 C18 D17 E16 W19 0x240CA1CC →
    ∀ A20 : Nat, A20 = r20.1 →
    ∀ E20 : Nat, E20 = r20.2 →
    ∀ W20 : Nat, W20 = R w W18 W13 W5 W4 →
    ∀ r21 : Nat × Nat, r21 = P w E20 F19 G18 H17 A20 B19 C18 D17 W20 0x2DE92C6F →
    ∀ H21 : Nat, H21 = r21.1 →
    ∀ D21 : Nat, D21 = r21.2 →
    ∀ W21 : Nat, W21 = R w W19 W14 W6 W5 →
    ∀ r22 : Nat × Nat, r22 = P w D21 E20 F19 G18 H21 A20 B19 C18 W21 0x4A7484AA →
    ∀ G22 : Nat, G22 = r22.1 →
    ∀ C22 : Nat, C22 = r22.2 →
    ∀ W22 : Nat, W22 = R w W20 W15 W7 W6 →
    ∀ r23 : Nat × Nat, r23 = P w C22 D21 E20 F19 G22 H21 A20 B19 W22 0x5CB0A9DC →
    ∀ F23 : Nat, F23 = r23.1 →
    ∀ B23 : Nat, B23 = r23.2 →
    ∀ W23 : Nat, W23 = R w W21 W16 W8 W7 →
    ∀ r24 : Nat × Nat, r24 = P w B23 C22 D21 E20 F23 G22 H21 A20 W23 0x76F988DA →
    ∀ E24 : Nat, E24 = r24.1 →
    ∀ A24 : Nat, A24 = r24.2 →
    ∀ W24 : Nat, W24 = R w W22 W17 W9 W8 →
    ∀ r25 : Nat × Nat, r25 = P w A24 B23 C22 D21 E24 F23 G22 H21 W24 0x983E5152 →
    ∀ D25 : Nat, D25 = r25.1 →
    ∀ H25 : Nat, H25 = r25.2 →
    ∀ W25 : Nat, W25 = R w W23 W18 W10 W9 →
    ∀ r26 : Nat × Nat, r26 = P w H25 A24 B23 C22 D25 E24 F23 G22 W25 0xA831C66D →
    ∀ C26 : Nat, C26 = r26.1 →
    ∀ G26 : Nat, G26 = r26.2 →
    ∀ W26 : Nat, W26 = R w W24 W19 W11 W10 →
    ∀ r27 : Nat × Nat, r27 = P w G26 H25 A24 B23 C26 D25 E24 F23 W26 0xB00327C8 →
    ∀ B27 : Nat, B27 = r27.1 →
    ∀ F27 : Nat, F27 = r27.2 →
    ∀ W27 : Nat, W27 = R w W25 W20 W12 W11 →
    ∀ r28 : Nat × Nat, r28 = P w F27 G26 H25 A24 B27 C26 D25 E24 W27 0xBF597FC7 →
    ∀ A28 : Nat, A28 = r28.1 →
    ∀ E28 : Nat, E28 = r28.2 →
    ∀ W28 : Nat, W28 = R w W26 W21 W13 W12 →
    ∀ r29 : Nat × Nat, r29 = P w E28 F27 G26 H25 A28 B27 C26 D25 W28 0xC6E00BF3 →
    ∀ H29 : Nat, H29 = r29.1 →
    ∀ D29 : Nat, D29 = r29.2 →
    ∀ W29 : Nat, W29 = R w W27 W22 W14 W13 →
    ∀ r30 : Nat × Nat, r30 = P w D29 E28 F27 G26 H29 A28 B27 C26 W29 0xD5A79147 →
    ∀ G30 : Nat, G30 = r30.1 →
    ∀ C30 : Nat, C30 = r30.2 →
    ∀ W30 : Nat, W30 = R w W28 W23 W15 W14 →
    ∀ r31 : Nat × Nat, r31 = P w C30 D29 E28 F27 G30 H29 A28 B27 W30 0x06CA6351 →
    ∀ F31 : Nat, F31 = r31.1 →
    ∀ B31 : Nat, B31 = r31.2 →
    ∀ W31 : Nat, W31 = R w W29 W24 W16 W15 →
    ∀ r32 : Nat × Nat, r32 = P w B31 C30 D29 E28 F31 G30 H29 A28 W31 0x14292967 →
    ∀ E32 : Nat, E32 = r32.1 →
    ∀ A32 : Nat, A32 = r32.2 →
    ∀ W32 : Nat, W32 = R w W30 W25 W17 W16 →
    ∀ r33 : Nat × Nat, r33 = P w A32 B31 C30 D29 E32 F31 G30 H29 W32 0x27B70A85 →
    ∀ D33 : Nat, D33 = r33.1 →
    ∀ H33 : Nat, H33 = r33.2 →
    ∀ W33 : Nat, W33 = R w W31 W26 W18 W17 →
    ∀ r34 : Nat × Nat, r34 = P w H33 A32 B31 C30 D33 E32 F31 G30 W33 0x2E1B2138 →
    ∀ C34 : Nat, C34 = r34.1 →
    ∀ G34 : Nat, G34 = r34.2 →
    ∀ W34 : Nat, W34 = R w W32 W27 W19 W18 →
    ∀ r35 : Nat × Nat, r35 = P w G34 H33 A32 B31 C34 D33 E32 F31 W34 0x4D2C6DFC →
    ∀ B35 : Nat, B35 = r35.1 →
    ∀ F35 : Nat, F35 = r35.2 →
    ∀ W35 : Nat, W35 = R w W33 W28 W20 W19 →
    ∀ r36 : Nat × Nat, r36 = P w F35 G34 H33 A32 B35 C34 D33 E32 W35 0x53380D13 →
    ∀ A36 : Nat, A36 = r36.1 →
    ∀ E36 : Nat, E36 = r36.2 →
    ∀ W36 : Nat, W36 = R w W34 W29 W21 W20 →
    ∀ r37 : Nat × Nat, r37 = P w E36 F35 G34 H33 A36 B35 C34 D33 W36 0x650A7354 →
    ∀ H37 : Nat, H37 = r37.1 →
    ∀ D37 : Nat, D37 = r37.2 →
    ∀ W37 : Nat, W37 = R w W35 W30 W22 W21 →
    ∀ r38 : Nat × Nat, r38 = P w D37 E36 F35 G34 H37 A36 B35 C34 W37 0x766A0ABB →
    ∀ G38 : Nat, G38 = r38.1 →
    ∀ C38 : Nat, C38 = r38.2 →
    ∀ W38 : Nat, W38 = R w W36 W31 W23 W22 →
    ∀ r39 : Nat × Nat, r39 = P w C38 D37 E36 F35 G38 H37 A36 B35 W38 0x81C2C92E →
    ∀ F39 : Nat, F39 = r39.1 →
    ∀ B39 : Nat, B39 = r39.2 →
    ∀ W39 : Nat, W39 = R w W37 W32 W24 W23 →
    ∀ r40 : Nat × Nat, r40 = P w B39 C38 D37 E36 F39 G38 H37 A36 W39 0x92722C85 →
    ∀ E40 : Nat, E40 = r40.1 →
    ∀ A40 : Nat, A40 = r40.2 →
    ∀ W40 : Nat, W40 = R w W38 W33 W25 W24 →
    ∀ r41 : Nat × Nat, r41 = P w A40 B39 C38 D37 E40 F39 G38 H37 W40 0xA2BFE8A1 →
    ∀ D41 : Nat, D41 = r41.1 →
    ∀ H41 : Nat, H41 = r41.2 →
    ∀ W41 : Nat, W41 = R w W39 W34 W26 W25 →
    ∀ r42 : Nat × Nat, r42 = P w H41 A40 B39 C38 D41 E40 F39 G38 W41 0xA81A664B →
    ∀ C42 : Nat, C42 = r42.1 →
    ∀ G42 : Nat, G42 = r42.2 →
    ∀ W42 : Nat, W42 = R w W40 W35 W27 W26 →
    ∀ r43 : Nat × Nat, r43 = P w G42 H41 A40 B39 C42 D41 E40 F39 W42 0xC24B8B70 →
    ∀ B43 : Nat, B43 = r43.1 →
    ∀ F43 : Nat, F43 = r43.2 →
    ∀ W43 : Nat, W43 = R w W41 W36 W28 W27 →
    ∀ r44 : Nat × Nat, r44 = P w F43 G42 H41 A40 B43 C42 D41 E40 W43 0xC76C51A3 →
    ∀ A44 : Nat, A44 = r44.1 →
    ∀ E44 : Nat, E44 = r44.2 →
    ∀ W44 : Nat, W44 = R w W42 W37 W29 W28 →
    ∀ r45 : Nat × Nat, r45 = P w E44 F43 G42 H41 A44 B43 C42 D41 W44 0xD192E819 →
    ∀ H45 : Nat, H45 = r45.1 →
    ∀ D45 : Nat, D45 = r45.2 →
    ∀ W45 : Nat, W45 = R w W43 W38 W30 W29 →
    ∀ r46 : Nat × Nat, r46 = P w D45 E44 F43 G42 H45 A44 B43 C42 W45 0xD6990624 →
    ∀ G46 : Nat, G46 = r46.1 →
    ∀ C46 : Nat, C46 = r46.2 →
    ∀ W46 : Nat, W46 = R w W44 W39 W31 W30 →
    ∀ r47 : Nat × Nat, r47 = P w C46 D45 E44 F43 G46 H45 A44 B43 W46 0xF40E3585 →
    ∀ F47 : Nat, F47 = r47.1 →
    ∀ B47 : Nat, B47 = r47.2 →
    ∀ W47 : Nat, W47 = R w W45 W40 W32 W31 →
    ∀ r48 : Nat × Nat, r48 = P w B47 C46 D45 E44 F47 G46 H45 A44 W47 0x106AA070 →
    ∀ E48 : Nat, E48 = r48.1 →
    ∀ A48 : Nat, A48 = r48.2 →
    ∀ W48 : Nat, W48 = R w W46 W41 W33 W32 →
    ∀ r49 : Nat × Nat, r49 = P w A48 B47 C46 D45 E48 F47 G46 H45 W48 0x19A4C116 →
    ∀ D49 : Nat, D49 = r49.1 →
    ∀ H49 : Nat, H49 = r49.2 →
    ∀ W49 : Nat, W49 = R w W47 W42 W34 W33 →
    ∀ r50 : Nat × Nat, r50 = P w H49 A48 B47 C46 D49 E48 F47 G46 W49 0x1E376C08 →
    ∀ C50 : Nat, C50 = r50.1 →
    ∀ G50 : Nat, G50 = r50.2 →
    ∀ W50 : Nat, W50 = R w W48 W43 W35 W34 →
    ∀ r51 : Nat × Nat, r51 = P w G50 H49 A48 B47 C50 D49 E48 F47 W50 0x2748774C →
    ∀ B51 : Nat, B51 = r51.1 →
    ∀ F51 : Nat, F51 = r51.2 →
    ∀ W51 : Nat, W51 = R w W49 W44 W36 W35 →
    ∀ r52 : Nat × Nat, r52 = P w F51 G50 H49 A48 B51 C50 D49 E48 W51 0x34B0BCB5 →
    ∀ A52 : Nat, A52 = r52.1 →
    ∀ E52 : Nat, E52 = r52.2 →
    ∀ W52 : Nat, W52 = R w W50 W45 W37 W36 →
    ∀ r53 : Nat × Nat, r53 = P w E52 F51 G50 H49 A52 B51 C50 D49 W52 0x391C0CB3 →
    ∀ H53 : Nat, H53 = r53.1 →
    ∀ D53 : Nat, D53 = r53.2 →
    ∀ W53 : Nat, W53 = R w W51 W46 W38 W37 →
    ∀ r54 : Nat × Nat, r54 = P w D53 E52 F51 G50 H53 A52 B51 C50 W53 0x4ED8AA4A →
    ∀ G54 : Nat, G54 = r54.1 →
    ∀ C54 : Nat, C54 = r54.2 →
    ∀ W54 : Nat, W54 = R w W52 W47 W39 W38 →
    ∀ r55 : Nat × Nat, r55 = P w C54 D53 E52 F51 G54 H53 A52 B51 W54 0x5B9CCA4F →
    ∀ F55 : Nat, F55 = r55.1 →
    ∀ B55 : Nat, B55 = r55.2 →
    ∀ W55 : Nat, W55 = R w W53 W48 W40 W39 →
    ∀ r56 : Nat × Nat, r56 = P w B55 C54 D53 E52 F55 G54 H53 A52 W55 0x682E6FF3 →
    ∀ E56 : Nat, E56 = r56.1 →
    ∀ A56 : Nat, A56 = r56.2 →
    ∀ W56 : Nat, W56 = R w W54 W49 W41 W40 →
    ∀ r57 : Nat × Nat, r57 = P w A56 B55 C54 D53 E56 F55 G54 H53 W56 0x748F82EE →
    ∀ D57 : Nat, D57 = r57.1 →
    ∀ H57 : Nat, H57 = r57.2 →
    ∀ W57 : Nat, W57 = R w W55 W50 W42 W41 →
    ∀ r58 : Nat × Nat, r58 = P w H57 A56 B55 C54 D57 E56 F55 G54 W57 0x78A5636F →
    ∀ C58 : Nat, C58 = r58.1 →
    ∀ G58 : Nat, G58 = r58.2 →
    ∀ W58 : Nat, W58 = R w W56 W51 W43 W42 →
    ∀ r59 : Nat × Nat, r59 = P w G58 H57 A56 B55 C58 D57 E56 F55 W58 0x84C87814 →
    ∀ B59 : Nat, B59 = r59.1 →
    ∀ F59 : Nat, F59 = r59.2 →
    ∀ W59 : Nat, W59 = R w W57 W52 W44 W43 →
    ∀ r60 : Nat × Nat, r60 = P w F59 G58 H57 A56 B59 C58 D57 E56 W59 0x8CC70208 →
    ∀ A60 : Nat, A60 = r60.1 →
    ∀ E60 : Nat, E60 = r60.2 →
    ∀ W60 : Nat, W60 = R w W58 W53 W45 W44 →
    ∀ r61 : Nat × Nat, r61 = P w E60 F59 G58 H57 A60 B59 C58 D57 W60 0x90BEFFFA →
    ∀ H61 : Nat, H61 = r61.1 →
    ∀ D61 : Nat, D61 = r61.2 →
    ∀ W61 : Nat, W61 = R w W59 W54 W46 W45 →
    ∀ r62 : Nat × Nat, r62 = P w D61 E60 F59 G58 H61 A60 B59 C58 W61 0xA4506CEB →
    ∀ G62 : Nat, G62 = r62.1 →
    ∀ C62 : Nat, C62 = r62.2 →
    ∀ W62 : Nat, W62 = R w W60 W55 W47 W46 →
    ∀ r63 : Nat × Nat, r63 = P w C62 D61 E60 F59 G62 H61 A60 B59 W62 0xBEF9A3F7 →
    ∀ F63 : Nat, F63 = r63.1 →
    ∀ B63 : Nat, B63 = r63.2 →
    ∀ W63 : Nat, W63 = R w W61 W56 W48 W47 →
    ∀ r64 : Nat × Nat, r64 = P w B63 C62 D61 E60 F63 G62 H61 A60 W63 0xC67178F2 →
    ∀ E64 : Nat, E64 = r64.1 →
    ∀ A64 : Nat, A64 = r64.2 →
    [uadd w (ctx.state.getD 0 0) A64, uadd w (ctx.state.getD 1 0) B63, uadd w (ctx.state.getD 2 0) C62, uadd w (ctx.state.getD 3 0) D61, uadd w (ctx.state.getD 4 0) E64, uadd w (ctx.state.getD 5 0) F63, uadd w (ctx.state.getD 6 0) G62, uadd w (ctx.state.getD 7 0) H61] =
      process_loop w ctx.state data := by
  intro W0 hW0 W1 hW1 W2 hW2 W3 hW3 W4 hW4 W5 hW5 W6 hW6 W7 hW7 W8 hW8 W9 hW9 W10 hW10 W11 hW11 W12 hW12 W13 hW13 W14 hW14 W15 hW15 A0 hA0 B0 hB0 C0 hC0 D0 hD0 E0 hE0 F0 hF0 G0 hG0 H0 hH0 r1 hr1 D1 hD1 H1 hH1 r2 hr2 C2 hC2 G2 hG2 r3 hr3 B3 hB3 F3 hF3 r4 hr4 A4 hA4 E4 hE4 r5 hr5 H5 hH5 D5 hD5 r6 hr6 G6 hG6 C6 hC6 r7 hr7 F7 hF7 B7 hB7 r8 hr8 E8 hE8 A8 hA8 r9 hr9 D9 hD9 H9 hH9 r10 hr10 C10 hC10 G10 hG10 r11 hr11 B11 hB11 F11 hF11 r12 hr12 A12 hA12 E12 hE12 r13 hr13 H13 hH13 D13 hD13 r14 hr14 G14 hG14 C14 hC14 r15 hr15 F15 hF15 B15 hB15 r16 hr16 E16 hE16 A16 hA16 W16 hW16 r17 hr17 D17 hD17 H17 hH17 W17 hW17 r18 hr18 C18 hC18 G18 hG18 W18 hW18 r19 hr19 B19 hB19 F19 hF19 W19 hW19 r20 hr20 A20 hA20 E20 hE20 W20 hW20 r21 hr21 H21 hH21 D21 hD21 W21 hW21 r22 hr22 G22 hG22 C22 hC22 W22 hW22 r23 hr23 F23 hF23 B23 hB23 W23 hW23 r24 hr24 E24 hE24 A24 hA24 W24 hW24 r25 hr25 D25 hD25 H25 hH25 W25 hW25 r26 hr26 C26 hC26 G26 hG26 W26 hW26 r27 hr27 B27 hB27 F27 hF27 W27 hW27 r28 hr28 A28 hA28 E28 hE28 W28 hW28 r29 hr29 H29 hH29 D29 hD29 W29 hW29 r30 hr30 G30 hG30 C30 hC30 W30 hW30 r31 hr31 F31 hF31 B31 hB31 W31 hW31 r32 hr32 E32 hE32 A32 hA32 W32 hW32 r33 hr33 D33 hD33 H33 hH33 W33 hW33 r34 hr34 C34 hC34 G34 hG34 W34 hW34 r35 hr35 B35 hB35 F35 hF35 W35 hW35 r36 hr36 A36 hA36 E36 hE36 W36 hW36 r37 hr37 H37 hH37 D37 hD37 W37 hW37 r38 hr38 G38 hG38 C38 hC38 W38 hW38 r39 hr39 F39 hF39 B39 hB39 W39 hW39 r40 hr40 E40 hE40 A40 hA40 W40 hW40 r41 hr41 D41 hD41 H41 hH41 W41 hW41 r42 hr42 C42 hC42 G42 hG42 W42 hW42 r43 hr43 B43 hB43 F43 hF43 W43 hW43 r44 hr44 A44 hA44 E44 hE44 W44 hW44 r45 hr45 H45 hH45 D45 hD45 W45 hW45 r46 hr46 G46 hG46 C46 hC46 W46 hW46 r47 hr47 F47 hF47 B47 hB47 W47 hW47 r48 hr48 E48 hE48 A48 hA48 W48 hW48 r49 hr49 D49 hD49 H49 hH49 W49 hW49 r50 hr50 C50 hC50 G50 hG50 W50 hW50 r51 hr51 B51 hB51 F51 hF51 W51 hW51 r52 hr52 A52 hA52 E52 hE52 W52 hW52 r53 hr53 H53 hH53 D53 hD53 W53 hW53 r54 hr54 G54 hG54 C54 hC54 W54 hW54 r55 hr55 F55 hF55 B55 hB55 W55 hW55 r56 hr56 E56 hE56 A56 hA56 W56 hW56 r57 hr57 D57 hD57 H57 hH57 W57 hW57 r58 hr58 C58 hC58 G58 hG58 W58 hW58 r59 hr59 B59 hB59 F59 hF59 W59 hW59 r60 hr60 A60 hA60 E60 hE60 W60 hW60 r61 hr61 H61 hH61 D61 hD61 W61 hW61 r62 hr62 G62 hG62 C62 hC62 W62 hW62 r63 hr63 F63 hF63 B63 hB63 W63 hW63 r64 hr64 E64 hE64 A64 hA64
  have hs16 : sched_extend (R w) 48 [W0, W1, W2, W3, W4, W5, W6, W7, W8, W9, W10, W11, W12, W13, W14, W15] = sched_extend (R w) 47 [W0, W1, W2, W3, W4, W5, W6, W7, W8, W9, W10, W11, W12, W13, W14, W15, W16] :=
    (sched_extend_succ (R w) 47 [W0, W1, W2, W3, W4, W5, W6, W7, W8, W9, W10, W11, W12, W13, W14, W15]).trans (by rw [hW16]; rfl)
  have hs17 : sched_extend (R w) 47 [W0, W1, W2, W3, W4, W5, W6, W7, W8, W9, W10, W11, W12, W13, W14, W15, W16] = sched_extend (R w) 46 [W0, W1, W2, W3, W4, W5, W6, W7, W8, W9, W10, W11, W12, W13, W14, W15, W16, W17] :=
    (sched_extend_succ (R w) 46 [W0, W1, W2, W3, W4, W5, W6, W7, W8, W9, W10, W11, W12, W13, W14, W15, W16]).trans (by rw [hW17]; rfl)
  have hs18 : sched_extend (R w) 46 [W0, W1, W2, W3, W4, W5, W6, W7, W8, W9, W10, W11, W12, W13, W14, W15, W16, W17] = sched_extend (R w) 45 [W0, W1, W2, W3, W4, W5, W6, W7, W8, W9, W10, W11, W12, W13, W14, W15, W16, W17, W18] :=
    (sched_extend_succ (R w) 45 [W0, W1, W2, W3, W4, W5, W6, W7, W8, W9, W10, W11, W12, W13, W14, W15, W16, W17]).trans (by rw [hW18]; rfl)
  have hs19 : sched_extend (R w) 45 [W0, W1, W2, W3, W4, W5, W6, W7, W8, W9, W10, W11, W12, W13, W14, W15, W16, W17, W18] = sched_extend (R w) 44 [W0, W1, W2, W3, W4, W5, W6, W7, W8, W9, W10, W11, W12, W13, W14, W15, W16, W17, W18, W19] :=
    (sched_extend_succ (R w) 44 [W0, W1, W2, W3, W4, W5, W6, W7, W8, W9, W10, W11, W12, W13, W14, W15, W16, W17, W18]).trans (by rw [hW19]; rfl)
  have hs20 : sched_extend (R w) 44 [W0, W1, W2, W3, W4, W5, W6, W7, W8, W9, W10, W11, W12, W13, W14, W15, W16, W17, W18, W19] = sched_extend (R w) 43 [W0, W1, W2, W3, W4, W5, W6, W7, W8, W9, W10, W11, W12, W13, W14, W15, W16, W17, W18, W19, W20] :=
    (sched_extend_succ (R w) 43 [W0, W1, W2, W3, W4, W5, W6, W7, W8, W9, W10, W11, W12, W13, W14, W15, W16, W17, W18, W19]).trans (by rw [hW20]; rfl)
  have hs21 : sched_extend (R w) 43 [W0, W1, W2, W3, W4, W5, W6, W7, W8, W9, W10, W11, W12, W13, W14, W15, W16, W17, W18, W19, W20] = sched_extend (R w) 42 [W0, W1, W2, W3, W4, W5, W6, W7, W8, W9, W10, W11, W12, W13, W14, W15, W16, W17, W18, W19, W20, W21] :=
    (sched_extend_succ (R w) 42 [W0, W1, W2, W3, W4, W5, W6, W7, W8, W9, W10, W11, W12, W13, W14, W15, W16, W17, W18, W19, W20]).trans (by rw [hW21]; rfl)
  have hs22 : sched_extend (R w) 42 [W0, W1, W2, W3, W4, W5, W6, W7, W8, W9, W10, W11, W12, W13, W14, W15, W16, W17, W18, W19, W20, W21] = sched_extend (R w) 41 [W0, W1, W2, W3, W4, W5, W6, W7, W8, W9, W10, W11, W12, W13, W14, W15, W16, W17, W18, W19, W20, W21, W22] :=
    (sched_extend_succ (R w) 41 [W0, W1, W2, W3, W4, W5, W6, W7, W8, W9, W10, W11, W12, W13, W14, W15, W16, W17, W18, W19, W20, W21]).trans (by rw [hW22]; rfl)
  have hs23 : sched_extend (R w) 41 [W0, W1, W2, W3, W4, W5, W6, W7, W8, W9, W10, W11, W12, W13, W14, W15, W16, W17, W18, W19, W20, W21, W22] = sched_extend (R w) 40 [W0, W1, W2, W3, W4, W5, W6, W7, W8, W9, W10, W11, W12, W13, W14, W15, W16, W17, W18, W19, W20, W21, W22, W23] :=
    (sched_extend_succ (R w) 40 [W0, W1, W2, W3, W4, W5, W6, W7, W8, W9, W10, W11, W12, W13, W14, W15, W16, W17, W18, W19, W20, W21, W22]).trans (by rw [hW23]; rfl)
  have hs24 : sched_extend (R w) 40 [W0, W1, W2, W3, W4, W5, W6, W7, W8, W9, W10, W11, W12, W13, W14, W15, W16, W17, W18, W19, W20, W21, W22, W23] = sched_extend (R w) 39 [W0, W1, W2, W3, W4, W5, W6, W7, W8, W9, W10, W11, W12, W13, W14, W15, W16, W17, W18, W19, W20, W21, W22, W23, W24] :=
    (sched_extend_succ (R w) 39 [W0, W1, W2, W3, W4, W5, W6, W7, W8, W9, W10, W11, W12, W13, W14, W15, W16, W17, W18, W19, W20, W21, W22, W23]).trans (by rw [hW24]; rfl)
  have hs25 : sched_extend (R w) 39 [W0, W1, W2, W3, W4, W5, W6, W7, W8, W9, W10, W11, W12, W13, W14, W15, W16, W17, W18, W19, W20, W21, W22, W23, W24] = sched_extend (R w) 38 [W0, W1, W2, W3, W4, W5, W6, W7, W8, W9, W10, W11, W12, W13, W14, W15, W16, W17, W18, W19, W20, W21, W22, W23, W24, W25] :=
    (sched_extend_succ (R w) 38 [W0, W1, W2, W3, W4, W5, W6, W7, W8, W9, W10, W11, W12, W13, W14, W15, W16, W17, W18, W19, W20, W21, W22, W23, W24]).trans (by rw [hW25]; rfl)
  have hs26 : sched_extend (R w) 38 [W0, W1, W2, W3, W4, W5, W6, W7, W8, W9, W10, W11, W12, W13, W14, W15, W16, W17, W18, W19, W20, W21, W22, W23, W24, W25] = sched_extend (R w) 37 [W0, W1, W2, W3, W4, W5, W6, W7, W8, W9, W10, W11, W12, W13, W14, W15, W16, W17, W18, W19, W20, W21, W22, W23, W24, W25, W26] :=
    (sched_extend_succ (R w) 37 [W0, W1, W2, W3, W4, W5, W6, W7, W8, W9, W10, W11, W12, W13, W14, W15, W16, W17, W18, W19, W20, W21, W22, W23, W24, W25]).trans (by rw [hW26]; rfl)
  have hs27 : sched_extend (R w) 37 [W0, W1, W2, W3, W4, W5, W6, W7, W8, W9, W10, W11, W12, W13, W14, W15, W16, W17, W18, W19, W20, W21, W22, W23, W24, W25, W26] = sched_extend (R w) 36 [W0, W1, W2, W3, W4, W5, W6, W7, W8, W9, W10, W11, W12, W13, W14, W15, W16, W17, W18, W19, W20, W21, W22, W23, W24, W25, W26, W27] :=
    (sched_extend_succ (R w) 36 [W0, W1, W2, W3, W4, W5, W6, W7, W8, W9, W10, W11, W12, W13, W14, W15, W16, W17, W18, W19, W20, W21, W22, W23, W24, W25, W26]).trans (by rw [hW27]; rfl)
  have hs28 : sched_extend (R w) 36 [W0, W1, W2, W3, W4, W5, W6, W7, W8, W9, W10, W11, W12, W13, W14, W15, W16, W17, W18, W19, W20, W21, W22, W23, W24, W25, W26, W27] = sched_extend (R w) 35 [W0, W1, W2, W3, W4, W5, W6, W7, W8, W9, W10, W11, W12, W13, W14, W15, W16, W17, W18, W19, W20, W21, W22, W23, W24, W25, W26, W27, W28] :=
    (sched_extend_succ (R w) 35 [W0, W1, W2, W3, W4, W5, W6, W7, W8, W9, W10, W11, W12, W13, W14, W15, W16, W17, W18, W19, W20, W21, W22, W23, W24, W25, W26, W27]).trans (by rw [hW28]; rfl)
  have hs29 : sched_extend (R w) 35 [W0, W1, W2, W3, W4, W5, W6, W7, W8, W9, W10, W11, W12, W13, W14, W15, W16, W17, W18, W19, W20, W21, W22, W23, W24, W25, W26, W27, W28] = sched_extend (R w) 34 [W0, W1, W2, W3, W4, W5, W6, W7, W8, W9, W10, W11, W12, W13, W14, W15, W16, W17, W18, W19, W20, W21, W22, W23, W24, W25, W26, W27, W28, W29] :=
    (sched_extend_succ (R w) 34 [W0, W1, W2, W3, W4, W5, W6, W7, W8, W9, W10, W11, W12, W13, W14, W15, W16, W17, W18, W19, W20, W21, W22, W23, W24, W25, W26, W27, W28]).trans (by rw [hW29]; rfl)
  have hs30 : sched_extend (R w) 34 [W0, W1, W2, W3, W4, W5, W6, W7, W8, W9, W10, W11, W12, W13, W14, W15, W16, W17, W18, W19, W20, W21, W22, W23, W24, W25, W26, W27, W28, W29] = sched_extend (R w) 33 [W0, W1, W2, W3, W4, W5, W6, W7, W8, W9, W10, W11, W12, W13, W14, W15, W16, W17, W18, W19, W20, W21, W22, W23, W24, W25, W26, W27, W28, W29, W30] :=
    (sched_extend_succ (R w) 33 [W0, W1, W2, W3, W4, W5, W6, W7, W8, W9, W10, W11, W12, W13, W14, W15, W16, W17, W18, W19, W20, W21, W22, W23, W24, W25, W26, W27, W28, W29]).trans (by rw [hW30]; rfl)
  have hs31 : sched_extend (R w) 33 [W0, W1, W2, W3, W4, W5, W6, W7, W8, W9, W10, W11, W12, W13, W14, W15, W16, W17, W18, W19, W20, W21, W22, W23, W24, W25, W26, W27, W28, W29, W30] = sched_extend (R w) 32 [W0, W1, W2, W3, W4, W5, W6, W7, W8, W9, W10, W11, W12, W13, W14, W15, W16, W17, W18, W19, W20, W21, W22, W23, W24, W25, W26, W27, W28, W29, W30, W31] :=
    (sched_extend_succ (R w) 32 [W0, W1, W2, W3, W4, W5, W6, W7, W8, W9, W10, W11, W12, W13, W14, W15, W16, W17, W18, W19, W20, W21, W22, W23, W24, W25, W26, W27, W28, W29, W30]).trans (by rw [hW31]; rfl)
  have hs32 : sched_extend (R w) 32 [W0, W1, W2, W3, W4, W5, W6, W7, W8, W9, W10, W11, W12, W13, W14, W15, W16, W17, W18, W19, W20, W21, W22, W23, W24, W25, W26, W27, W28, W29, W30, W31] = sched_extend (R w) 31 [W0, W1, W2, W3, W4, W5, W6, W7, W8, W9, W10, W11, W12, W13, W14, W15, W16, W17, W18, W19, W20, W21, W22, W23, W24, W25, W26, W27, W28, W29, W30, W31, W32] :=
    (sched_extend_succ (R w) 31 [W0, W1, W2, W3, W4, W5, W6, W7, W8, W9, W10, W11, W12, W13, W14, W15, W16, W17, W18, W19, W20, W21, W22, W23, W24, W25, W26, W27, W28, W29, W30, W31]).trans (by rw [hW32]; rfl)
  have hs33 : sched_extend (R w) 31 [W0, W1, W2, W3, W4, W5, W6, W7, W8, W9, W10, W11, W12, W13, W14, W15, W16, W17, W18, W19, W20, W21, W22, W23, W24, W25, W26, W27, W28, W29, W30, W31, W32] = sched_extend (R w) 30 [W0, W1, W2, W3, W4, W5, W6, W7, W8, W9, W10, W11, W12, W13, W14, W15, W16, W17, W18, W19, W20, W21, W22, W23, W24, W25, W26, W27, W28, W29, W30, W31, W32, W33] :=
    (sched_extend_succ (R w) 30 [W0, W1, W2, W3, W4, W5, W6, W7, W8, W9, W10, W11, W12, W13, W14, W15, W16, W17, W18, W19, W20, W21, W22, W23, W24, W25, W26, W27, W28, W29, W30, W31, W32]).trans (by rw [hW33]; rfl)
  have hs34 : sched_extend (R w) 30 [W0, W1, W2, W3, W4, W5, W6, W7, W8, W9, W10, W11, W12, W13, W14, W15, W16, W17, W18, W19, W20, W21, W22, W23, W24, W25, W26, W27, W28, W29, W30, W31, W32, W33] = sched_extend (R w) 29 [W0, W1, W2, W3, W4, W5, W6, W7, W8, W9, W10, W11, W12, W13, W14, W15, W16, W17, W18, W19, W20, W21, W22, W23, W24, W25, W26, W27, W28, W29, W30, W31, W32, W33, W34] :=
    (sched_extend_succ (R w) 29 [W0, W1, W2, W3, W4, W5, W6, W7, W8, W9, W10, W11, W12, W13, W14, W15, W16, W17, W18, W19, W20, W21, W22, W23, W24, W25, W26, W27, W28, W29, W30, W31, W32, W33]).trans (by rw [hW34]; rfl)
  have hs35 : sched_extend (R w) 29 [W0, W1, W2, W3, W4, W5, W6, W7, W8, W9, W10, W11, W12, W13, W14, W15, W16, W17, W18, W19, W20, W21, W22, W23, W24, W25, W26, W27, W28, W29, W30, W31, W32, W33, W34] = sched_extend (R w) 28 [W0, W1, W2, W3, W4, W5, W6, W7, W8, W9, W10, W11, W12, W13, W14, W15, W16, W17, W18, W19, W20, W21, W22, W23, W24, W25, W26, W27, W28, W29, W30, W31, W32, W33, W34, W35] :=
    (sched_extend_succ (R w) 28 [W0, W1, W2, W3, W4, W5, W6, W7, W8, W9, W10, W11, W12, W13, W14, W15, W16, W17, W18, W19, W20, W21, W22, W23, W24, W25, W26, W27, W28, W29, W30, W31, W32, W33, W34]).trans (by rw [hW35]; rfl)
  have hs36 : sched_extend (R w) 28 [W0, W1, W2, W3, W4, W5, W6, W7, W8, W9, W10, W11, W12, W13, W14, W15, W16, W17, W18, W19, W20, W21, W22, W23, W24, W25, W26, W27, W28, W29, W30, W31, W32, W33, W34, W35] = sched_extend (R w) 27 [W0, W1, W2, W3, W4, W5, W6, W7, W8, W9, W10, W11, W12, W13, W14, W15, W16, W17, W18, W19, W20, W21, W22, W23, W24, W25, W26, W27, W28, W29, W30, W31, W32, W33, W34, W35, W36] :=
    (sched_extend_succ (R w) 27 [W0, W1, W2, W3, W4, W5, W6, W7, W8, W9, W10, W11, W12, W13, W14, W15, W16, W17, W18, W19, W20, W21, W22, W23, W24, W25, W26, W27, W28, W29, W30, W31, W32, W33, W34, W35]).trans (by rw [hW36]; rfl)
  have hs37 : sched_extend (R w) 27 [W0, W1, W2, W3, W4, W5, W6, W7, W8, W9, W10, W11, W12, W13, W14, W15, W16, W17, W18, W19, W20, W21, W22, W23, W24, W25, W26, W27, W28, W29, W30, W31, W32, W33, W34, W35, W36] = sched_extend (R w) 26 [W0, W1, W2, W3, W4, W5, W6, W7, W8, W9, W10, W11, W12, W13, W14, W15, W16, W17, W18, W19, W20, W21, W22, W23, W24, W25, W26, W27, W28, W29, W30, W31, W32, W33, W34, W35, W36, W37] :=
    (sched_extend_succ (R w) 26 [W0, W1, W2, W3, W4, W5, W6, W7, W8, W9, W10, W11, W12, W13, W14, W15, W16, W17, W18, W19, W20, W21, W22, W23, W24, W25, W26, W27, W28, W29, W30, W31, W32, W33, W34, W35, W36]).trans (by rw [hW37]; rfl)
  have hs38 : sched_extend (R w) 26 [W0, W1, W2, W3, W4, W5, W6, W7, W8, W9, W10, W11, W12, W13, W14, W15, W16, W17, W18, W19, W20, W21, W22, W23, W24, W25, W26, W27, W28, W29, W30, W31, W32, W33, W34, W35, W36, W37] = sched_extend (R w) 25 [W0, W1, W2, W3, W4, W5, W6, W7, W8, W9, W10, W11, W12, W13, W14, W15, W16, W17, W18, W19, W20, W21, W22, W23, W24, W25, W26, W27, W28, W29, W30, W31, W32, W33, W34, W35, W36, W37, W38] :=
    (sched_extend_succ (R w) 25 [W0, W1, W2, W3, W4, W5, W6, W7, W8, W9, W10, W11, W12, W13, W14, W15, W16, W17, W18, W19, W20, W21, W22, W23, W24, W25, W26, W27, W28, W29, W30, W31, W32, W33, W34, W35, W36, W37]).trans (by rw [hW38]; rfl)
  have hs39 : sched_extend (R w) 25 [W0, W1, W2, W3, W4, W5, W6, W7, W8, W9, W10, W11, W12, W13, W14, W15, W16, W17, W18, W19, W20, W21, W22, W23, W24, W25, W26, W27, W28, W29, W30, W31, W32, W33, W34, W35, W36, W37, W38] = sched_extend (R w) 24 [W0, W1, W2, W3, W4, W5, W6, W7, W8, W9, W10, W11, W12, W13, W14, W15, W16, W17, W18, W19, W20, W21, W22, W23, W24, W25, W26, W27, W28, W29, W30, W31, W32, W33, W34, W35, W36, W37, W38, W39] :=
    (sched_extend_succ (R w) 24 [W0, W1, W2, W3, W4, W5, W6, W7, W8, W9, W10, W11, W12, W13, W14, W15, W16, W17, W18, W19, W20, W21, W22, W23, W24, W25, W26, W27, W28, W29, W30, W31, W32, W33, W34, W35, W36, W37, W38]).trans (by rw [hW39]; rfl)
  have hs40 : sched_extend (R w) 24 [W0, W1, W2, W3, W4, W5, W6, W7, W8, W9, W10, W11, W12, W13, W14, W15, W16, W17, W18, W19, W20, W21, W22, W23, W24, W25, W26, W27, W28, W29, W30, W31, W32, W33, W34, W35, W36, W37, W38, W39] = sched_extend (R w) 23 [W0, W1, W2, W3, W4, W5, W6, W7, W8, W9, W10, W11, W12, W13, W14, W15, W16, W17, W18, W19, W20, W21, W22, W23, W24, W25, W26, W27, W28, W29, W30, W31, W32, W33, W34, W35, W36, W37, W38, W39, W40] :=
    (sched_extend_succ (R w) 23 [W0, W1, W2, W3, W4, W5, W6, W7, W8, W9, W10, W11, W12, W13, W14, W15, W16, W17, W18, W19, W20, W21, W22, W23, W24, W25, W26, W27, W28, W29, W30, W31, W32, W33, W34, W35, W36, W37, W38, W39]).trans (by rw [hW40]; rfl)
  have hs41 : sched_extend (R w) 23 [W0, W1, W2, W3, W4, W5, W6, W7, W8, W9, W10, W11, W12, W13, W14, W15, W16, W17, W18, W19, W20, W21, W22, W23, W24, W25, W26, W27, W28, W29, W30, W31, W32, W33, W34, W35, W36, W37, W38, W39, W40] = sched_extend (R w) 22 [W0, W1, W2, W3, W4, W5, W6, W7, W8, W9, W10, W11, W12, W13, W14, W15, W16, W17, W18, W19, W20, W21, W22, W23, W24, W25, W26, W27, W28, W29, W30, W31, W32, W33, W34, W35, W36, W37, W38, W39, W40, W41] :=
    (sched_extend_succ (R w) 22 [W0, W1, W2, W3, W4, W5, W6, W7, W8, W9, W10, W11, W12, W13, W14, W15, W16, W17, W18, W19, W20, W21, W22, W23, W24, W25, W26, W27, W28, W29, W30, W31, W32, W33, W34, W35, W36, W37, W38, W39, W40]).trans (by rw [hW41]; rfl)
  have hs42 : sched_extend (R w) 22 [W0, W1, W2, W3, W4, W5, W6, W7, W8, W9, W10, W11, W12, W13, W14, W15, W16, W17, W18, W19, W20, W21, W22, W23, W24, W25, W26, W27, W28, W29, W30, W31, W32, W33, W34, W35, W36, W37, W38, W39, W40, W41] = sched_extend (R w) 21 [W0, W1, W2, W3, W4, W5, W6, W7, W8, W9, W10, W11, W12, W13, W14, W15, W16, W17, W18, W19, W20, W21, W22, W23, W24, W25, W26, W27, W28, W29, W30, W31, W32, W33, W34, W35, W36, W37, W38, W39, W40, W41, W42] :=
    (sched_extend_succ (R w) 21 [W0, W1, W2, W3, W4, W5, W6, W7, W8, W9, W10, W11, W12, W13, W14, W15, W16, W17, W18, W19, W20, W21, W22, W23, W24, W25, W26, W27, W28, W29, W30, W31, W32, W33, W34, W35, W36, W37, W38, W39, W40, W41]).trans (by rw [hW42]; rfl)
  have hs43 : sched_extend (R w) 21 [W0, W1, W2, W3, W4, W5, W6, W7, W8, W9, W10, W11, W12, W13, W14, W15, W16, W17, W18, W19, W20, W21, W22, W23, W24, W25, W26, W27, W28, W29, W30, W31, W32, W33, W34, W35, W36, W37, W38, W39, W40, W41, W42] = sched_extend (R w) 20 [W0, W1, W2, W3, W4, W5, W6, W7, W8, W9, W10, W11, W12, W13, W14, W15, W16, W17, W18, W19, W20, W21, W22, W23, W24, W25, W26, W27, W28, W29, W30, W31, W32, W33, W34, W35, W36, W37, W38, W39, W40, W41, W42, W43] :=
    (sched_extend_succ (R w) 20 [W0, W1, W2, W3, W4, W5, W6, W7, W8, W9, W10, W11, W12, W13, W14, W15, W16, W17, W18, W19, W20, W21, W22, W23, W24, W25, W26, W27, W28, W29, W30, W31, W32, W33, W34, W35, W36, W37, W38, W39, W40, W41, W42]).trans (by rw [hW43]; rfl)
  have hs44 : sched_extend (R w) 20 [W0, W1, W2, W3, W4, W5, W6, W7, W8, W9, W10, W11, W12, W13, W14, W15, W16, W17, W18, W19, W20, W21, W22, W23, W24, W25, W26, W27, W28, W29, W30, W31, W32, W33, W34, W35, W36, W37, W38, W39, W40, W41, W42, W43] = sched_extend (R w) 19 [W0, W1, W2, W3, W4, W5, W6, W7, W8, W9, W10, W11, W12, W13, W14, W15, W16, W17, W18, W19, W20, W21, W22, W23, W24, W25, W26, W27, W28, W29, W30, W31, W32, W33, W34, W35, W36, W37, W38, W39, W40, W41, W42, W43, W44] :=
    (sched_extend_succ (R w) 19 [W0, W1, W2, W3, W4, W5, W6, W7, W8, W9, W10, W11, W12, W13, W14, W15, W16, W17, W18, W19, W20, W21, W22, W23, W24, W25, W26, W27, W28, W29, W30, W31, W32, W33, W34, W35, W36, W37, W38, W39, W40, W41, W42, W43]).trans (by rw [hW44]; rfl)
  have hs45 : sched_extend (R w) 19 [W0, W1, W2, W3, W4, W5, W6, W7, W8, W9, W10, W11, W12, W13, W14, W15, W16, W17, W18, W19, W20, W21, W22, W23, W24, W25, W26, W27, W28, W29, W30, W31, W32, W33, W34, W35, W36, W37, W38, W39, W40, W41, W42, W43, W44] = sched_extend (R w) 18 [W0, W1, W2, W3, W4, W5, W6, W7, W8, W9, W10, W11, W12, W13, W14, W15, W16, W17, W18, W19, W20, W21, W22, W23, W24, W25, W26, W27, W28, W29, W30, W31, W32, W33, W34, W35, W36, W37, W38, W39, W40, W41, W42, W43, W44, W45] :=
    (sched_extend_succ (R w) 18 [W0, W1, W2, W3, W4, W5, W6, W7, W8, W9, W10, W11, W12, W13, W14, W15, W16, W17, W18, W19, W20, W21, W22, W23, W24, W25, W26, W27, W28, W29, W30, W31, W32, W33, W34, W35, W36, W37, W38, W39, W40, W41, W42, W43, W44]).trans (by rw [hW45]; rfl)
  have hs46 : sched_extend (R w) 18 [W0, W1, W2, W3, W4, W5, W6, W7, W8, W9, W10, W11, W12, W13, W14, W15, W16, W17, W18, W19, W20, W21, W22, W23, W24, W25, W26, W27, W28, W29, W30, W31, W32, W33, W34, W35, W36, W37, W38, W39, W40, W41, W42, W43, W44, W45] = sched_extend (R w) 17 [W0, W1, W2, W3, W4, W5, W6, W7, W8, W9, W10, W11, W12, W13, W14, W15, W16, W17, W18, W19, W20, W21, W22, W23, W24, W25, W26, W27, W28, W29, W30, W31, W32, W33, W34, W35, W36, W37, W38, W39, W40, W41, W42, W43, W44, W45, W46] :=
    (sched_extend_succ (R w) 17 [W0, W1, W2, W3, W4, W5, W6, W7, W8, W9, W10, W11, W12, W13, W14, W15, W16, W17, W18, W19, W20, W21, W22, W23, W24, W25, W26, W27, W28, W29, W30, W31, W32, W33, W34, W35, W36, W37, W38, W39, W40, W41, W42, W43, W44, W45]).trans (by rw [hW46]; rfl)
  have hs47 : sched_extend (R w) 17 [W0, W1, W2, W3, W4, W5, W6, W7, W8, W9, W10, W11, W12, W13, W14, W15, W16, W17, W18, W19, W20, W21, W22, W23, W24, W25, W26, W27, W28, W29, W30, W31, W32, W33, W34, W35, W36, W37, W38, W39, W40, W41, W42, W43, W44, W45, W46] = sched_extend (R w) 16 [W0, W1, W2, W3, W4, W5, W6, W7, W8, W9, W10, W11, W12, W13, W14, W15, W16, W17, W18, W19, W20, W21, W22, W23, W24, W25, W26, W27, W28, W29, W30, W31, W32, W33, W34, W35, W36, W37, W38, W39, W40, W41, W42, W43, W44, W45, W46, W47] :=
    (sched_extend_succ (R w) 16 [W0, W1, W2, W3, W4, W5, W6, W7, W8, W9, W10, W11, W12, W13, W14, W15, W16, W17, W18, W19, W20, W21, W22, W23, W24, W25, W26, W27, W28, W29, W30, W31, W32, W33, W34, W35, W36, W37, W38, W39, W40, W41, W42, W43, W44, W45, W46]).trans (by rw [hW47]; rfl)
  have hs48 : sched_extend (R w) 16 [W0, W1, W2, W3, W4, W5, W6, W7, W8, W9, W10, W11, W12, W13, W14, W15, W16, W17, W18, W19, W20, W21, W22, W23, W24, W25, W26, W27, W28, W29, W30, W31, W32, W33, W34, W35, W36, W37, W38, W39, W40, W41, W42, W43, W44, W45, W46, W47] = sched_extend (R w) 15 [W0, W1, W2, W3, W4, W5, W6, W7, W8, W9, W10, W11, W12, W13, W14, W15, W16, W17, W18, W19, W20, W21, W22, W23, W24, W25, W26, W27, W28, W29, W30, W31, W32, W33, W34, W35, W36, W37, W38, W39, W40, W41, W42, W43, W44, W45, W46, W47, W48] :=
    (sched_extend_succ (R w) 15 [W0, W1, W2, W3, W4, W5, W6, W7, W8, W9, W10, W11, W12, W13, W14, W15, W16, W17, W18, W19, W20, W21, W22, W23, W24, W25, W26, W27, W28, W29, W30, W31, W32, W33, W34, W35, W36, W37, W38, W39, W40, W41, W42, W43, W44, W45, W46, W47]).trans (by rw [hW48]; rfl)
  have hs49 : sched_extend (R w) 15 [W0, W1, W2, W3, W4, W5, W6, W7, W8, W9, W10, W11, W12, W13, W14, W15, W16, W17, W18, W19, W20, W21, W22, W23, W24, W25, W26, W27, W28, W29, W30, W31, W32, W33, W34, W35, W36, W37, W38, W39, W40, W41, W42, W43, W44, W45, W46, W47, W48] = sched_extend (R w) 14 [W0, W1, W2, W3, W4, W5, W6, W7, W8, W9, W10, W11, W12, W13, W14, W15, W16, W17, W18, W19, W20, W21, W22, W23, W24, W25, W26, W27, W28, W29, W30, W31, W32, W33, W34, W35, W36, W37, W38, W39, W40, W41, W42, W43, W44, W45, W46, W47, W48, W49] :=
    (sched_extend_succ (R w) 14 [W0, W1, W2, W3, W4, W5, W6, W7, W8, W9, W10, W11, W12, W13, W14, W15, W16, W17, W18, W19, W20, W21, W22, W23, W24, W25, W26, W27, W28, W29, W30, W31, W32, W33, W34, W35, W36, W37, W38, W39, W40, W41, W42, W43, W44, W45, W46, W47, W48]).trans (by rw [hW49]; rfl)
  have hs50 : sched_extend (R w) 14 [W0, W1, W2, W3, W4, W5, W6, W7, W8, W9, W10, W11, W12, W13, W14, W15, W16, W17, W18, W19, W20, W21, W22, W23, W24, W25, W26, W27, W28, W29, W30, W31, W32, W33, W34, W35, W36, W37, W38, W39, W40, W41, W42, W43, W44, W45, W46, W47, W48, W49] = sched_extend (R w) 13 [W0, W1, W2, W3, W4, W5, W6, W7, W8, W9, W10, W11, W12, W13, W14, W15, W16, W17, W18, W19, W20, W21, W22, W23, W24, W25, W26, W27, W28, W29, W30, W31, W32, W33, W34, W35, W36, W37, W38, W39, W40, W41, W42, W43, W44, W45, W46, W47, W48, W49, W50] :=
    (sched_extend_succ (R w) 13 [W0, W1, W2, W3, W4, W5, W6, W7, W8, W9, W10, W11, W12, W13, W14, W15, W16, W17, W18, W19, W20, W21, W22, W23, W24, W25, W26, W27, W28, W29, W30, W31, W32, W33, W34, W35, W36, W37, W38, W39, W40, W41, W42, W43, W44, W45, W46, W47, W48, W49]).trans (by rw [hW50]; rfl)
  have hs51 : sched_extend (R w) 13 [W0, W1, W2, W3, W4, W5, W6, W7, W8, W9, W10, W11, W12, W13, W14, W15, W16, W17, W18, W19, W20, W21, W22, W23, W24, W25, W26, W27, W28, W29, W30, W31, W32, W33, W34, W35, W36, W37, W38, W39, W40, W41, W42, W43, W44, W45, W46, W47, W48, W49, W50] = sched_extend (R w) 12 [W0, W1, W2, W3, W4, W5, W6, W7, W8, W9, W10, W11, W12, W13, W14, W15, W16, W17, W18, W19, W20, W21, W22, W23, W24, W25, W26, W27, W28, W29, W30, W31, W32, W33, W34, W35, W36, W37, W38, W39, W40, W41, W42, W43, W44, W45, W46, W47, W48, W49, W50, W51] :=
    (sched_extend_succ (R w) 12 [W0, W1, W2, W3, W4, W5, W6, W7, W8, W9, W10, W11, W12, W13, W14, W15, W16, W17, W18, W19, W20, W21, W22, W23, W24, W25, W26, W27, W28, W29, W30, W31, W32, W33, W34, W35, W36, W37, W38, W39, W40, W41, W42, W43, W44, W45, W46, W47, W48, W49, W50]).trans (by rw [hW51]; rfl)
  have hs52 : sched_extend (R w) 12 [W0, W1, W2, W3, W4, W5, W6, W7, W8, W9, W10, W11, W12, W13, W14, W15, W16, W17, W18, W19, W20, W21, W22, W23, W24, W25, W26, W27, W28, W29, W30, W31, W32, W33, W34, W35, W36, W37, W38, W39, W40, W41, W42, W43, W44, W45, W46, W47, W48, W49, W50, W51] = sched_extend (R w) 11 [W0, W1, W2, W3, W4, W5, W6, W7, W8, W9, W10, W11, W12, W13, W14, W15, W16, W17, W18, W19, W20, W21, W22, W23, W24, W25, W26, W27, W28, W29, W30, W31, W32, W33, W34, W35, W36, W37, W38, W39, W40, W41, W42, W43, W44, W45, W46, W47, W48, W49, W50, W51, W52] :=
    (sched_extend_succ (R w) 11 [W0, W1, W2, W3, W4, W5, W6, W7, W8, W9, W10, W11, W12, W13, W14, W15, W16, W17, W18, W19, W20, W21, W22, W23, W24, W25, W26, W27, W28, W29, W30, W31, W32, W33, W34, W35, W36, W37, W38, W39, W40, W41, W42, W43, W44, W45, W46, W47, W48, W49, W50, W51]).trans (by rw [hW52]; rfl)
  have hs53 : sched_extend (R w) 11 [W0, W1, W2, W3, W4, W5, W6, W7, W8, W9, W10, W11, W12, W13, W14, W15, W16, W17, W18, W19, W20, W21, W22, W23, W24, W25, W26, W27, W28, W29, W30, W31, W32, W33, W34, W35, W36, W37, W38, W39, W40, W41, W42, W43, W44, W45, W46, W47, W48, W49, W50, W51, W52] = sched_extend (R w) 10 [W0, W1, W2, W3, W4, W5, W6, W7, W8, W9, W10, W11, W12, W13, W14, W15, W16, W17, W18, W19, W20, W21, W22, W23, W24, W25, W26, W27, W28, W29, W30, W31, W32, W33, W34, W35, W36, W37, W38, W39, W40, W41, W42, W43, W44, W45, W46, W47, W48, W49, W50, W51, W52, W53] :=
    (sched_extend_succ (R w) 10 [W0, W1, W2, W3, W4, W5, W6, W7, W8, W9, W10, W11, W12, W13, W14, W15, W16, W17, W18, W19, W20, W21, W22, W23, W24, W25, W26, W27, W28, W29, W30, W31, W32, W33, W34, W35, W36, W37, W38, W39, W40, W41, W42, W43, W44, W45, W46, W47, W48, W49, W50, W51, W52]).trans (by rw [hW53]; rfl)
  have hs54 : sched_extend (R w) 10 [W0, W1, W2, W3, W4, W5, W6, W7, W8, W9, W10, W11, W12, W13, W14, W15, W16, W17, W18, W19, W20, W21, W22, W23, W24, W25, W26, W27, W28, W29, W30, W31, W32, W33, W34, W35, W36, W37, W38, W39, W40, W41, W42, W43, W44, W45, W46, W47, W48, W49, W50, W51, W52, W53] = sched_extend (R w) 9 [W0, W1, W2, W3, W4, W5, W6, W7, W8, W9, W10, W11, W12, W13, W14, W15, W16, W17, W18, W19, W20, W21, W22, W23, W24, W25, W26, W27, W28, W29, W30, W31, W32, W33, W34, W35, W36, W37, W38, W39, W40, W41, W42, W43, W44, W45, W46, W47, W48, W49, W50, W51, W52, W53, W54] :=
    (sched_extend_succ (R w) 9 [W0, W1, W2, W3, W4, W5, W6, W7, W8, W9, W10, W11, W12, W13, W14, W15, W16, W17, W18, W19, W20, W21, W22, W23, W24, W25, W26, W27, W28, W29, W30, W31, W32, W33, W34, W35, W36, W37, W38, W39, W40, W41, W42, W43, W44, W45, W46, W47, W48, W49, W50, W51, W52, W53]).trans (by rw [hW54]; rfl)
  have hs55 : sched_extend (R w) 9 [W0, W1, W2, W3, W4, W5, W6, W7, W8, W9, W10, W11, W12, W13, W14, W15, W16, W17, W18, W19, W20, W21, W22, W23, W24, W25, W26, W27, W28, W29, W30, W31, W32, W33, W34, W35, W36, W37, W38, W39, W40, W41, W42, W43, W44, W45, W46, W47, W48, W49, W50, W51, W52, W53, W54] = sched_extend (R w) 8 [W0, W1, W2, W3, W4, W5, W6, W7, W8, W9, W10, W11, W12, W13, W14, W15, W16, W17, W18, W19, W20, W21, W22, W23, W24, W25, W26, W27, W28, W29, W30, W31, W32, W33, W34, W35, W36, W37, W38, W39, W40, W41, W42, W43, W44, W45, W46, W47, W48, W49, W50, W51, W52, W53, W54, W55] :=
    (sched_extend_succ (R w) 8 [W0, W1, W2, W3, W4, W5, W6, W7, W8, W9, W10, W11, W12, W13, W14, W15, W16, W17, W18, W19, W20, W21, W22, W23, W24, W25, W26, W27, W28, W29, W30, W31, W32, W33, W34, W35, W36, W37, W38, W39, W40, W41, W42, W43, W44, W45, W46, W47, W48, W49, W50, W51, W52, W53, W54]).trans (by rw [hW55]; rfl)
  have hs56 : sched_extend (R w) 8 [W0, W1, W2, W3, W4, W5, W6, W7, W8, W9, W10, W11, W12, W13, W14, W15, W16, W17, W18, W19, W20, W21, W22, W23, W24, W25, W26, W27, W28, W29, W30, W31, W32, W33, W34, W35, W36, W37, W38, W39, W40, W41, W42, W43, W44, W45, W46, W47, W48, W49, W50, W51, W52, W53, W54, W55] = sched_extend (R w) 7 [W0, W1, W2, W3, W4, W5, W6, W7, W8, W9, W10, W11, W12, W13, W14, W15, W16, W17, W18, W19, W20, W21, W22, W23, W24, W25, W26, W27, W28, W29, W30, W31, W32, W33, W34, W35, W36, W37, W38, W39, W40, W41, W42, W43, W44, W45, W46, W47, W48, W49, W50, W51, W52, W53, W54, W55, W56] :=
    (sched_extend_succ (R w) 7 [W0, W1, W2, W3, W4, W5, W6, W7, W8, W9, W10, W11, W12, W13, W14, W15, W16, W17, W18, W19, W20, W21, W22, W23, W24, W25, W26, W27, W28, W29, W30, W31, W32, W33, W34, W35, W36, W37, W38, W39, W40, W41, W42, W43, W44, W45, W46, W47, W48, W49, W50, W51, W52, W53, W54, W55]).trans (by rw [hW56]; rfl)
  have hs57 : sched_extend (R w) 7 [W0, W1, W2, W3, W4, W5, W6, W7, W8, W9, W10, W11, W12, W13, W14, W15, W16, W17, W18, W19, W20, W21, W22, W23, W24, W25, W26, W27, W28, W29, W30, W31, W32, W33, W34, W35, W36, W37, W38, W39, W40, W41, W42, W43, W44, W45, W46, W47, W48, W49, W50, W51, W52, W53, W54, W55, W56] = sched_extend (R w) 6 [W0, W1, W2, W3, W4, W5, W6, W7, W8, W9, W10, W11, W12, W13, W14, W15, W16, W17, W18, W19, W20, W21, W22, W23, W24, W25, W26, W27, W28, W29, W30, W31, W32, W33, W34, W35, W36, W37, W38, W39, W40, W41, W42, W43, W44, W45, W46, W47, W48, W49, W50, W51, W52, W53, W54, W55, W56, W57] :=
    (sched_extend_succ (R w) 6 [W0, W1, W2, W3, W4, W5, W6, W7, W8, W9, W10, W11, W12, W13, W14, W15, W16, W17, W18, W19, W20, W21, W22, W23, W24, W25, W26, W27, W28, W29, W30, W31, W32, W33, W34, W35, W36, W37, W38, W39, W40, W41, W42, W43, W44, W45, W46, W47, W48, W49, W50, W51, W52, W53, W54, W55, W56]).trans (by rw [hW57]; rfl)
  have hs58 : sched_extend (R w) 6 [W0, W1, W2, W3, W4, W5, W6, W7, W8, W9, W10, W11, W12, W13, W14, W15, W16, W17, W18, W19, W20, W21, W22, W23, W24, W25, W26, W27, W28, W29, W30, W31, W32, W33, W34, W35, W36, W37, W38, W39, W40, W41, W42, W43, W44, W45, W46, W47, W48, W49, W50, W51, W52, W53, W54, W55, W56, W57] = sched_extend (R w) 5 [W0, W1, W2, W3, W4, W5, W6, W7, W8, W9, W10, W11, W12, W13, W14, W15, W16, W17, W18, W19, W20, W21, W22, W23, W24, W25, W26, W27, W28, W29, W30, W31, W32, W33, W34, W35, W36, W37, W38, W39, W40, W41, W42, W43, W44, W45, W46, W47, W48, W49, W50, W51, W52, W53, W54, W55, W56, W57, W58] :=
    (sched_extend_succ (R w) 5 [W0, W1, W2, W3, W4, W5, W6, W7, W8, W9, W10, W11, W12, W13, W14, W15, W16, W17, W18, W19, W20, W21, W22, W23, W24, W25, W26, W27, W28, W29, W30, W31, W32, W33, W34, W35, W36, W37, W38, W39, W40, W41, W42, W43, W44, W45, W46, W47, W48, W49, W50, W51, W52, W53, W54, W55, W56, W57]).trans (by rw [hW58]; rfl)
  have hs59 : sched_extend (R w) 5 [W0, W1, W2, W3, W4, W5, W6, W7, W8, W9, W10, W11, W12, W13, W14, W15, W16, W17, W18, W19, W20, W21, W22, W23, W24, W25, W26, W27, W28, W29, W30, W31, W32, W33, W34, W35, W36, W37, W38, W39, W40, W41, W42, W43, W44, W45, W46, W47, W48, W49, W50, W51, W52, W53, W54, W55, W56, W57, W58] = sched_extend (R w) 4 [W0, W1, W2, W3, W4, W5, W6, W7, W8, W9, W10, W11, W12, W13, W14, W15, W16, W17, W18, W19, W20, W21, W22, W23, W24, W25, W26, W27, W28, W29, W30, W31, W32, W33, W34, W35, W36, W37, W38, W39, W40, W41, W42, W43, W44, W45, W46, W47, W48, W49, W50, W51, W52, W53, W54, W55, W56, W57, W58, W59] :=
    (sched_extend_succ (R w) 4 [W0, W1, W2, W3, W4, W5, W6, W7, W8, W9, W10, W11, W12, W13, W14, W15, W16, W17, W18, W19, W20, W21, W22, W23, W24, W25, W26, W27, W28, W29, W30, W31, W32, W33, W34, W35, W36, W37, W38, W39, W40, W41, W42, W43, W44, W45, W46, W47, W48, W49, W50, W51, W52, W53, W54, W55, W56, W57, W58]).trans (by rw [hW59]; rfl)
  have hs60 : sched_extend (R w) 4 [W0, W1, W2, W3, W4, W5, W6, W7, W8, W9, W10, W11, W12, W13, W14, W15, W16, W17, W18, W19, W20, W21, W22, W23, W24, W25, W26, W27, W28, W29, W30, W31, W32, W33, W34, W35, W36, W37, W38, W39, W40, W41, W42, W43, W44, W45, W46, W47, W48, W49, W50, W51, W52, W53, W54, W55, W56, W57, W58, W59] = sched_extend (R w) 3 [W0, W1, W2, W3, W4, W5, W6, W7, W8, W9, W10, W11, W12, W13, W14, W15, W16, W17, W18, W19, W20, W21, W22, W23, W24, W25, W26, W27, W28, W29, W30, W31, W32, W33, W34, W35, W36, W37, W38, W39, W40, W41, W42, W43, W44, W45, W46, W47, W48, W49, W50, W51, W52, W53, W54, W55, W56, W57, W58, W59, W60] :=
    (sched_extend_succ (R w) 3 [W0, W1, W2, W3, W4, W5, W6, W7, W8, W9, W10, W11, W12, W13, W14, W15, W16, W17, W18, W19, W20, W21, W22, W23, W24, W25, W26, W27, W28, W29, W30, W31, W32, W33, W34, W35, W36, W37, W38, W39, W40, W41, W42, W43, W44, W45, W46, W47, W48, W49, W50, W51, W52, W53, W54, W55, W56, W57, W58, W59]).trans (by rw [hW60]; rfl)
  have hs61 : sched_extend (R w) 3 [W0, W1, W2, W3, W4, W5, W6, W7, W8, W9, W10, W11, W12, W13, W14, W15, W16, W17, W18, W19, W20, W21, W22, W23, W24, W25, W26, W27, W28, W29, W30, W31, W32, W33, W34, W35, W36, W37, W38, W39, W40, W41, W42, W43, W44, W45, W46, W47, W48, W49, W50, W51, W52, W53, W54, W55, W56, W57, W58, W59, W60] = sched_extend (R w) 2 [W0, W1, W2, W3, W4, W5, W6, W7, W8, W9, W10, W11, W12, W13, W14, W15, W16, W17, W18, W19, W20, W21, W22, W23, W24, W25, W26, W27, W28, W29, W30, W31, W32, W33, W34, W35, W36, W37, W38, W39, W40, W41, W42, W43, W44, W45, W46, W47, W48, W49, W50, W51, W52, W53, W54, W55, W56, W57, W58, W59, W60, W61] :=
    (sched_extend_succ (R w) 2 [W0, W1, W2, W3, W4, W5, W6, W7, W8, W9, W10, W11, W12, W13, W14, W15, W16, W17, W18, W19, W20, W21, W22, W23, W24, W25, W26, W27, W28, W29, W30, W31, W32, W33, W34, W35, W36, W37, W38, W39, W40, W41, W42, W43, W44, W45, W46, W47, W48, W49, W50, W51, W52, W53, W54, W55, W56, W57, W58, W59, W60]).trans (by rw [hW61]; rfl)
  have hs62 : sched_extend (R w) 2 [W0, W1, W2, W3, W4, W5, W6, W7, W8, W9, W10, W11, W12, W13, W14, W15, W16, W17, W18, W19, W20, W21, W22, W23, W24, W25, W26, W27, W28, W29, W30, W31, W32, W33, W34, W35, W36, W37, W38, W39, W40, W41, W42, W43, W44, W45, W46, W47, W48, W49, W50, W51, W52, W53, W54, W55, W56, W57, W58, W59, W60, W61] = sched_extend (R w) 1 [W0, W1, W2, W3, W4, W5, W6, W7, W8, W9, W10, W11, W12, W13, W14, W15, W16, W17, W18, W19, W20, W21, W22, W23, W24, W25, W26, W27, W28, W29, W30, W31, W32, W33, W34, W35, W36, W37, W38, W39, W40, W41, W42, W43, W44, W45, W46, W47, W48, W49, W50, W51, W52, W53, W54, W55, W56, W57, W58, W59, W60, W61, W62] :=
    (sched_extend_succ (R w) 1 [W0, W1, W2, W3, W4, W5, W6, W7, W8, W9, W10, W11, W12, W13, W14, W15, W16, W17, W18, W19, W20, W21, W22, W23, W24, W25, W26, W27, W28, W29, W30, W31, W32, W33, W34, W35, W36, W37, W38, W39, W40, W41, W42, W43, W44, W45, W46, W47, W48, W49, W50, W51, W52, W53, W54, W55, W56, W57, W58, W59, W60, W61]).trans (by rw [hW62]; rfl)
  have hs63 : sched_extend (R w) 1 [W0, W1, W2, W3, W4, W5, W6, W7, W8, W9, W10, W11, W12, W13, W14, W15, W16, W17, W18, W19, W20, W21, W22, W23, W24, W25, W26, W27, W28, W29, W30, W31, W32, W33, W34, W35, W36, W37, W38, W39, W40, W41, W42, W43, W44, W45, W46, W47, W48, W49, W50, W51, W52, W53, W54, W55, W56, W57, W58, W59, W60, W61, W62] = sched_extend (R w) 0 [W0, W1, W2, W3, W4, W5, W6, W7, W8, W9, W10, W11, W12, W13, W14, W15, W16, W17, W18, W19, W20, W21, W22, W23, W24, W25, W26, W27, W28, W29, W30, W31, W32, W33, W34, W35, W36, W37, W38, W39, W40, W41, W42, W43, W44, W45, W46, W47, W48, W49, W50, W51, W52, W53, W54, W55, W56, W57, W58, W59, W60, W61, W62, W63] :=
    (sched_extend_succ (R w) 0 [W0, W1, W2, W3, W4, W5, W6, W7, W8, W9, W10, W11, W12, W13, W14, W15, W16, W17, W18, W19, W20, W21, W22, W23, W24, W25, W26, W27, W28, W29, W30, W31, W32, W33, W34, W35, W36, W37, W38, W39, W40, W41, W42, W43, W44, W45, W46, W47, W48, W49, W50, W51, W52, W53, W54, W55, W56, W57, W58, W59, W60, W61, W62]).trans (by rw [hW63]; rfl)
  have hsched : sched_extend (R w) 48 [W0, W1, W2, W3, W4, W5, W6, W7, W8, W9, W10, W11, W12, W13, W14, W15] = [W0, W1, W2, W3, W4, W5, W6, W7, W8, W9, W10, W11, W12, W13, W14, W15, W16, W17, W18, W19, W20, W21, W22, W23, W24, W25, W26, W27, W28, W29, W30, W31, W32, W33, W34, W35, W36, W37, W38, W39, W40, W41, W42, W43, W44, W45, W46, W47, W48, W49, W50, W51, W52, W53, W54, W55, W56, W57, W58, W59, W60, W61, W62, W63] := by
    rw [hs16, hs17, hs18, hs19, hs20, hs21, hs22, hs23, hs24, hs25, hs26, hs27, hs28, hs29, hs30, hs31, hs32, hs33, hs34, hs35, hs36, hs37, hs38, hs39, hs40, hs41, hs42, hs43, hs44, hs45, hs46, hs47, hs48, hs49, hs50, hs51, hs52, hs53, hs54, hs55, hs56, hs57, hs58, hs59, hs60, hs61, hs62, hs63]
    rfl
  clear hs16 hs17 hs18 hs19 hs20 hs21 hs22 hs23 hs24 hs25 hs26 hs27 hs28 hs29 hs30 hs31 hs32 hs33 hs34 hs35 hs36 hs37 hs38 hs39 hs40 hs41 hs42 hs43 hs44 hs45 hs46 hs47 hs48 hs49 hs50 hs51 hs52 hs53 hs54 hs55 hs56 hs57 hs58 hs59 hs60 hs61 hs62 hs63
  generalize hWl : [W0, W1, W2, W3, W4, W5, W6, W7, W8, W9, W10, W11, W12, W13, W14, W15, W16, W17, W18, W19, W20, W21, W22, W23, W24, W25, W26, W27, W28, W29, W30, W31, W32, W33, W34, W35, W36, W37, W38, W39, W40, W41, W42, W43, W44, W45, W46, W47, W48, W49, W50, W51, W52, W53, W54, W55, W56, W57, W58, W59, W60, W61, W62, W63] = Wl at hsched
  have hg0 : Wl.getD 0 0 = W0 := by rw [← hWl]; rfl
  have hg1 : Wl.getD 1 0 = W1 := by rw [← hWl]; rfl
  have hg2 : Wl.getD 2 0 = W2 := by rw [← hWl]; rfl
  have hg3 : Wl.getD 3 0 = W3 := by rw [← hWl]; rfl
  have hg4 : Wl.getD 4 0 = W4 := by rw [← hWl]; rfl
  have hg5 : Wl.getD 5 0 = W5 := by rw [← hWl]; rfl
  have hg6 : Wl.getD 6 0 = W6 := by rw [← hWl]; rfl
  have hg7 : Wl.getD 7 0 = W7 := by rw [← hWl]; rfl
  have hg8 : Wl.getD 8 0 = W8 := by rw [← hWl]; rfl
  have hg9 : Wl.getD 9 0 = W9 := by rw [← hWl]; rfl
  have hg10 : Wl.getD 10 0 = W10 := by rw [← hWl]; rfl
  have hg11 : Wl.getD 11 0 = W11 := by rw [← hWl]; rfl
  have hg12 : Wl.getD 12 0 = W12 := by rw [← hWl]; rfl
  have hg13 : Wl.getD 13 0 = W13 := by rw [← hWl]; rfl
  have hg14 : Wl.getD 14 0 = W14 := by rw [← hWl]; rfl
  have hg15 : Wl.getD 15 0 = W15 := by rw [← hWl]; rfl
  have hg16 : Wl.getD 16 0 = W16 := by rw [← hWl]; rfl
  have hg17 : Wl.getD 17 0 = W17 := by rw [← hWl]; rfl
  have hg18 : Wl.getD 18 0 = W18 := by rw [← hWl]; rfl
  have hg19 : Wl.getD 19 0 = W19 := by rw [← hWl]; rfl
  have hg20 : Wl.getD 20 0 = W20 := by rw [← hWl]; rfl
  have hg21 : Wl.getD 21 0 = W21 := by rw [← hWl]; rfl
  have hg22 : Wl.getD 22 0 = W22 := by rw [← hWl]; rfl
  have hg23 : Wl.getD 23 0 = W23 := by rw [← hWl]; rfl
  have hg24 : Wl.getD 24 0 = W24 := by rw [← hWl]; rfl
  have hg25 : Wl.getD 25 0 = W25 := by rw [← hWl]; rfl
  have hg26 : Wl.getD 26 0 = W26 := by rw [← hWl]; rfl
  have hg27 : Wl.getD 27 0 = W27 := by rw [← hWl]; rfl
  have hg28 : Wl.getD 28 0 = W28 := by rw [← hWl]; rfl
  have hg29 : Wl.getD 29 0 = W29 := by rw [← hWl]; rfl
  have hg30 : Wl.getD 30 0 = W30 := by rw [← hWl]; rfl
  have hg31 : Wl.getD 31 0 = W31 := by rw [← hWl]; rfl
  have hg32 : Wl.getD 32 0 = W32 := by rw [← hWl]; rfl
  have hg33 : Wl.getD 33 0 = W33 := by rw [← hWl]; rfl
  have hg34 : Wl.getD 34 0 = W34 := by rw [← hWl]; rfl
  have hg35 : Wl.getD 35 0 = W35 := by rw [← hWl]; rfl
  have hg36 : Wl.getD 36 0 = W36 := by rw [← hWl]; rfl
  have hg37 : Wl.getD 37 0 = W37 := by rw [← hWl]; rfl
  have hg38 : Wl.getD 38 0 = W38 := by rw [← hWl]; rfl
  have hg39 : Wl.getD 39 0 = W39 := by rw [← hWl]; rfl
  have hg40 : Wl.getD 40 0 = W40 := by rw [← hWl]; rfl
  have hg41 : Wl.getD 41 0 = W41 := by rw [← hWl]; rfl
  have hg42 : Wl.getD 42 0 = W42 := by rw [← hWl]; rfl
  have hg43 : Wl.getD 43 0 = W43 := by rw [← hWl]; rfl
  have hg44 : Wl.getD 44 0 = W44 := by rw [← hWl]; rfl
  have hg45 : Wl.getD 45 0 = W45 := by rw [← hWl]; rfl
  have hg46 : Wl.getD 46 0 = W46 := by rw [← hWl]; rfl
  have hg47 : Wl.getD 47 0 = W47 := by rw [← hWl]; rfl
  have hg48 : Wl.getD 48 0 = W48 := by rw [← hWl]; rfl
  have hg49 : Wl.getD 49 0 = W49 := by rw [← hWl]; rfl
  have hg50 : Wl.getD 50 0 = W50 := by rw [← hWl]; rfl
  have hg51 : Wl.getD 51 0 = W51 := by rw [← hWl]; rfl
  have hg52 : Wl.getD 52 0 = W52 := by rw [← hWl]; rfl
  have hg53 : Wl.getD 53 0 = W53 := by rw [← hWl]; rfl
  have hg54 : Wl.getD 54 0 = W54 := by rw [← hWl]; rfl
  have hg55 : Wl.getD 55 0 = W55 := by rw [← hWl]; rfl
  have hg56 : Wl.getD 56 0 = W56 := by rw [← hWl]; rfl
  have hg57 : Wl.getD 57 0 = W57 := by rw [← hWl]; rfl
  have hg58 : Wl.getD 58 0 = W58 := by rw [← hWl]; rfl
  have hg59 : Wl.getD 59 0 = W59 := by rw [← hWl]; rfl
  have hg60 : Wl.getD 60 0 = W60 := by rw [← hWl]; rfl
  have hg61 : Wl.getD 61 0 = W61 := by rw [← hWl]; rfl
  have hg62 : Wl.getD 62 0 = W62 := by rw [← hWl]; rfl
  have hg63 : Wl.getD 63 0 = W63 := by rw [← hWl]; rfl
  clear hWl
  have e0 : List.foldl (fun s t => P_round w s (K256.getD t 0) (Wl.getD t 0)) (Regs.mk A0 B0 C0 D0 E0 F0 G0 H0) [0, 1, 2, 3, 4, 5, 6, 7, 8, 9, 10, 11, 12, 13, 14, 15, 16, 17, 18, 19, 20, 21, 22, 23, 24, 25, 26, 27, 28, 29, 30, 31, 32, 33, 34, 35, 36, 37, 38, 39, 40, 41, 42, 43, 44, 45, 46, 47, 48, 49, 50, 51, 52, 53, 54, 55, 56, 57, 58, 59, 60, 61, 62, 63] =
      List.foldl (fun s t => P_round w s (K256.getD t 0) (Wl.getD t 0)) (Regs.mk H1 A0 B0 C0 D1 E0 F0 G0) [1, 2, 3, 4, 5, 6, 7, 8, 9, 10, 11, 12, 13, 14, 15, 16, 17, 18, 19, 20, 21, 22, 23, 24, 25, 26, 27, 28, 29, 30, 31, 32, 33, 34, 35, 36, 37, 38, 39, 40, 41, 42, 43, 44, 45, 46, 47, 48, 49, 50, 51, 52, 53, 54, 55, 56, 57, 58, 59, 60, 61, 62, 63] :=
    foldl_step _ _ _ _ _ (by rw [hH1, hD1, hr1]; show P_round w _ (K256.getD 0 0) (Wl.getD 0 0) = _; rw [hg0]; rfl)
  have e1 : List.foldl (fun s t => P_round w s (K256.getD t 0) (Wl.getD t 0)) (Regs.mk H1 A0 B0 C0 D1 E0 F0 G0) [1, 2, 3, 4, 5, 6, 7, 8, 9, 10, 11, 12, 13, 14, 15, 16, 17, 18, 19, 20, 21, 22, 23, 24, 25, 26, 27, 28, 29, 30, 31, 32, 33, 34, 35, 36, 37, 38, 39, 40, 41, 42, 43, 44, 45, 46, 47, 48, 49, 50, 51, 52, 53, 54, 55, 56, 57, 58, 59, 60, 61, 62, 63] =
      List.foldl (fun s t => P_round w s (K256.getD t 0) (Wl.getD t 0)) (Regs.mk G2 H1 A0 B0 C2 D1 E0 F0) [2, 3, 4, 5, 6, 7, 8, 9, 10, 11, 12, 13, 14, 15, 16, 17, 18, 19, 20, 21, 22, 23, 24, 25, 26, 27, 28, 29, 30, 31, 32, 33, 34, 35, 36, 37, 38, 39, 40, 41, 42, 43, 44, 45, 46, 47, 48, 49, 50, 51, 52, 53, 54, 55, 56, 57, 58, 59, 60, 61, 62, 63] :=
    foldl_step _ _ _ _ _ (by rw [hG2, hC2, hr2]; show P_round w _ (K256.getD 1 0) (Wl.getD 1 0) = _; rw [hg1]; rfl)
  have e2 : List.foldl (fun s t => P_round w s (K256.getD t 0) (Wl.getD t 0)) (Regs.mk G2 H1 A0 B0 C2 D1 E0 F0) [2, 3, 4, 5, 6, 7, 8, 9, 10, 11, 12, 13, 14, 15, 16, 17, 18, 19, 20, 21, 22, 23, 24, 25, 26, 27, 28, 29, 30, 31, 32, 33, 34, 35, 36, 37, 38, 39, 40, 41, 42, 43, 44, 45, 46, 47, 48, 49, 50, 51, 52, 53, 54, 55, 56, 57, 58, 59, 60, 61, 62, 63] =
      List.foldl (fun s t => P_round w s (K256.getD t 0) (Wl.getD t 0)) (Regs.mk F3 G2 H1 A0 B3 C2 D1 E0) [3, 4, 5, 6, 7, 8, 9, 10, 11, 12, 13, 14, 15, 16, 17, 18, 19, 20, 21, 22, 23, 24, 25, 26, 27, 28, 29, 30, 31, 32, 33, 34, 35, 36, 37, 38, 39, 40, 41, 42, 43, 44, 45, 46, 47, 48, 49, 50, 51, 52, 53, 54, 55, 56, 57, 58, 59, 60, 61, 62, 63] :=
    foldl_step _ _ _ _ _ (by rw [hF3, hB3, hr3]; show P_round w _ (K256.getD 2 0) (Wl.getD 2 0) = _; rw [hg2]; rfl)
  have e3 : List.foldl (fun s t => P_round w s (K256.getD t 0) (Wl.getD t 0)) (Regs.mk F3 G2 H1 A0 B3 C2 D1 E0) [3, 4, 5, 6, 7, 8, 9, 10, 11, 12, 13, 14, 15, 16, 17, 18, 19, 20, 21, 22, 23, 24, 25, 26, 27, 28, 29, 30, 31, 32, 33, 34, 35, 36, 37, 38, 39, 40, 41, 42, 43, 44, 45, 46, 47, 48, 49, 50, 51, 52, 53, 54, 55, 56, 57, 58, 59, 60, 61, 62, 63] =
      List.foldl (fun s t => P_round w s (K256.getD t 0) (Wl.getD t 0)) (Regs.mk E4 F3 G2 H1 A4 B3 C2 D1) [4, 5, 6, 7, 8, 9, 10, 11, 12, 13, 14, 15, 16, 17, 18, 19, 20, 21, 22, 23, 24, 25, 26, 27, 28, 29, 30, 31, 32, 33, 34, 35, 36, 37, 38, 39, 40, 41, 42, 43, 44, 45, 46, 47, 48, 49, 50, 51, 52, 53, 54, 55, 56, 57, 58, 59, 60, 61, 62, 63] :=
    foldl_step _ _ _ _ _ (by rw [hE4, hA4, hr4]; show P_round w _ (K256.getD 3 0) (Wl.getD 3 0) = _; rw [hg3]; rfl)
  have e4 : List.foldl (fun s t => P_round w s (K256.getD t 0) (Wl.getD t 0)) (Regs.mk E4 F3 G2 H1 A4 B3 C2 D1) [4, 5, 6, 7, 8, 9, 10, 11, 12, 13, 14, 15, 16, 17, 18, 19, 20, 21, 22, 23, 24, 25, 26, 27, 28, 29, 30, 31, 32, 33, 34, 35, 36, 37, 38, 39, 40, 41, 42, 43, 44, 45, 46, 47, 48, 49, 50, 51, 52, 53, 54, 55, 56, 57, 58, 59, 60, 61, 62, 63] =
      List.foldl (fun s t => P_round w s (K256.getD t 0) (Wl.getD t 0)) (Regs.mk D5 E4 F3 G2 H5 A4 B3 C2) [5, 6, 7, 8, 9, 10, 11, 12, 13, 14, 15, 16, 17, 18, 19, 20, 21, 22, 23, 24, 25, 26, 27, 28, 29, 30, 31, 32, 33, 34, 35, 36, 37, 38, 39, 40, 41, 42, 43, 44, 45, 46, 47, 48, 49, 50, 51, 52, 53, 54, 55, 56, 57, 58, 59, 60, 61, 62, 63] :=
    foldl_step _ _ _ _ _ (by rw [hD5, hH5, hr5]; show P_round w _ (K256.getD 4 0) (Wl.getD 4 0) = _; rw [hg4]; rfl)
  have e5 : List.foldl (fun s t => P_round w s (K256.getD t 0) (Wl.getD t 0)) (Regs.mk D5 E4 F3 G2 H5 A4 B3 C2) [5, 6, 7, 8, 9, 10, 11, 12, 13, 14, 15, 16, 17, 18, 19, 20, 21, 22, 23, 24, 25, 26, 27, 28, 29, 30, 31, 32, 33, 34, 35, 36, 37, 38, 39, 40, 41, 42, 43, 44, 45, 46, 47, 48, 49, 50, 51, 52, 53, 54, 55, 56, 57, 58, 59, 60, 61, 62, 63] =
      List.foldl (fun s t => P_round w s (K256.getD t 0) (Wl.getD t 0)) (Regs.mk C6 D5 E4 F3 G6 H5 A4 B3) [6, 7, 8, 9, 10, 11, 12, 13, 14, 15, 16, 17, 18, 19, 20, 21, 22, 23, 24, 25, 26, 27, 28, 29, 30, 31, 32, 33, 34, 35, 36, 37, 38, 39, 40, 41, 42, 43, 44, 45, 46, 47, 48, 49, 50, 51, 52, 53, 54, 55, 56, 57, 58, 59, 60, 61, 62, 63] :=
    foldl_step _ _ _ _ _ (by rw [hC6, hG6, hr6]; show P_round w _ (K256.getD 5 0) (Wl.getD 5 0) = _; rw [hg5]; rfl)
  have e6 : List.foldl (fun s t => P_round w s (K256.getD t 0) (Wl.getD t 0)) (Regs.mk C6 D5 E4 F3 G6 H5 A4 B3) [6, 7, 8, 9, 10, 11, 12, 13, 14, 15, 16, 17, 18, 19, 20, 21, 22, 23, 24, 25, 26, 27, 28, 29, 30, 31, 32, 33, 34, 35, 36, 37, 38, 39, 40, 41, 42, 43, 44, 45, 46, 47, 48, 49, 50, 51, 52, 53, 54, 55, 56, 57, 58, 59, 60, 61, 62, 63] =
      List.foldl (fun s t => P_round w s (K256.getD t 0) (Wl.getD t 0)) (Regs.mk B7 C6 D5 E4 F7 G6 H5 A4) [7, 8, 9, 10, 11, 12, 13, 14, 15, 16, 17, 18, 19, 20, 21, 22, 23, 24, 25, 26, 27, 28, 29, 30, 31, 32, 33, 34, 35, 36, 37, 38, 39, 40, 41, 42, 43, 44, 45, 46, 47, 48, 49, 50, 51, 52, 53, 54, 55, 56, 57, 58, 59, 60, 61, 62, 63] :=
    foldl_step _ _ _ _ _ (by rw [hB7, hF7, hr7]; show P_round w _ (K256.getD 6 0) (Wl.getD 6 0) = _; rw [hg6]; rfl)
  have e7 : List.foldl (fun s t => P_round w s (K256.getD t 0) (Wl.getD t 0)) (Regs.mk B7 C6 D5 E4 F7 G6 H5 A4) [7, 8, 9, 10, 11, 12, 13, 14, 15, 16, 17, 18, 19, 20, 21, 22, 23, 24, 25, 26, 27, 28, 29, 30, 31, 32, 33, 34, 35, 36, 37, 38, 39, 40, 41, 42, 43, 44, 45, 46, 47, 48, 49, 50, 51, 52, 53, 54, 55, 56, 57, 58, 59, 60, 61, 62, 63] =
      List.foldl (fun s t => P_round w s (K256.getD t 0) (Wl.getD t 0)) (Regs.mk A8 B7 C6 D5 E8 F7 G6 H5) [8, 9, 10, 11, 12, 13, 14, 15, 16, 17, 18, 19, 20, 21, 22, 23, 24, 25, 26, 27, 28, 29, 30, 31, 32, 33, 34, 35, 36, 37, 38, 39, 40, 41, 42, 43, 44, 45, 46, 47, 48, 49, 50, 51, 52, 53, 54, 55, 56, 57, 58, 59, 60, 61, 62, 63] :=
    foldl_step _ _ _ _ _ (by rw [hA8, hE8, hr8]; show P_round w _ (K256.getD 7 0) (Wl.getD 7 0) = _; rw [hg7]; rfl)
  have e8 : List.foldl (fun s t => P_round w s (K256.getD t 0) (Wl.getD t 0)) (Regs.mk A8 B7 C6 D5 E8 F7 G6 H5) [8, 9, 10, 11, 12, 13, 14, 15, 16, 17, 18, 19, 20, 21, 22, 23, 24, 25, 26, 27, 28, 29, 30, 31, 32, 33, 34, 35, 36, 37, 38, 39, 40, 41, 42, 43, 44, 45, 46, 47, 48, 49, 50, 51, 52, 53, 54, 55, 56, 57, 58, 59, 60, 61, 62, 63] =
      List.foldl (fun s t => P_round w s (K256.getD t 0) (Wl.getD t 0)) (Regs.mk H9 A8 B7 C6 D9 E8 F7 G6) [9, 10, 11, 12, 13, 14, 15, 16, 17, 18, 19, 20, 21, 22, 23, 24, 25, 26, 27, 28, 29, 30, 31, 32, 33, 34, 35, 36, 37, 38, 39, 40, 41, 42, 43, 44, 45, 46, 47, 48, 49, 50, 51, 52, 53, 54, 55, 56, 57, 58, 59, 60, 61, 62, 63] :=
    foldl_step _ _ _ _ _ (by rw [hH9, hD9, hr9]; show P_round w _ (K256.getD 8 0) (Wl.getD 8 0) = _; rw [hg8]; rfl)
  have e9 : List.foldl (fun s t => P_round w s (K256.getD t 0) (Wl.getD t 0)) (Regs.mk H9 A8 B7 C6 D9 E8 F7 G6) [9, 10, 11, 12, 13, 14, 15, 16, 17, 18, 19, 20, 21, 22, 23, 24, 25, 26, 27, 28, 29, 30, 31, 32, 33, 34, 35, 36, 37, 38, 39, 40, 41, 42, 43, 44, 45, 46, 47, 48, 49, 50, 51, 52, 53, 54, 55, 56, 57, 58, 59, 60, 61, 62, 63] =
      List.foldl (fun s t => P_round w s (K256.getD t 0) (Wl.getD t 0)) (Regs.mk G10 H9 A8 B7 C10 D9 E8 F7) [10, 11, 12, 13, 14, 15, 16, 17, 18, 19, 20, 21, 22, 23, 24, 25, 26, 27, 28, 29, 30, 31, 32, 33, 34, 35, 36, 37, 38, 39, 40, 41, 42, 43, 44, 45, 46, 47, 48, 49, 50, 51, 52, 53, 54, 55, 56, 57, 58, 59, 60, 61, 62, 63] :=
    foldl_step _ _ _ _ _ (by rw [hG10, hC10, hr10]; show P_round w _ (K256.getD 9 0) (Wl.getD 9 0) = _; rw [hg9]; rfl)
  have e10 : List.foldl (fun s t => P_round w s (K256.getD t 0) (Wl.getD t 0)) (Regs.mk G10 H9 A8 B7 C10 D9 E8 F7) [10, 11, 12, 13, 14, 15, 16, 17, 18, 19, 20, 21, 22, 23, 24, 25, 26, 27, 28, 29, 30, 31, 32, 33, 34, 35, 36, 37, 38, 39, 40, 41, 42, 43, 44, 45, 46, 47, 48, 49, 50, 51, 52, 53, 54, 55, 56, 57, 58, 59, 60, 61, 62, 63] =
      List.foldl (fun s t => P_round w s (K256.getD t 0) (Wl.getD t 0)) (Regs.mk F11 G10 H9 A8 B11 C10 D9 E8) [11, 12, 13, 14, 15, 16, 17, 18, 19, 20, 21, 22, 23, 24, 25, 26, 27, 28, 29, 30, 31, 32, 33, 34, 35, 36, 37, 38, 39, 40, 41, 42, 43, 44, 45, 46, 47, 48, 49, 50, 51, 52, 53, 54, 55, 56, 57, 58, 59, 60, 61, 62, 63] :=
    foldl_step _ _ _ _ _ (by rw [hF11, hB11, hr11]; show P_round w _ (K256.getD 10 0) (Wl.getD 10 0) = _; rw [hg10]; rfl)
  have e11 : List.foldl (fun s t => P_round w s (K256.getD t 0) (Wl.getD t 0)) (Regs.mk F11 G10 H9 A8 B11 C10 D9 E8) [11, 12, 13, 14, 15, 16, 17, 18, 19, 20, 21, 22, 23, 24, 25, 26, 27, 28, 29, 30, 31, 32, 33, 34, 35, 36, 37, 38, 39, 40, 41, 42, 43, 44, 45, 46, 47, 48, 49, 50, 51, 52, 53, 54, 55, 56, 57, 58, 59, 60, 61, 62, 63] =
      List.foldl (fun s t => P_round w s (K256.getD t 0) (Wl.getD t 0)) (Regs.mk E12 F11 G10 H9 A12 B11 C10 D9) [12, 13, 14, 15, 16, 17, 18, 19, 20, 21, 22, 23, 24, 25, 26, 27, 28, 29, 30, 31, 32, 33, 34, 35, 36, 37, 38, 39, 40, 41, 42, 43, 44, 45, 46, 47, 48, 49, 50, 51, 52, 53, 54, 55, 56, 57, 58, 59, 60, 61, 62, 63] :=
    foldl_step _ _ _ _ _ (by rw [hE12, hA12, hr12]; show P_round w _ (K256.getD 11 0) (Wl.getD 11 0) = _; rw [hg11]; rfl)
  have e12 : List.foldl (fun s t => P_round w s (K256.getD t 0) (Wl.getD t 0)) (Regs.mk E12 F11 G10 H9 A12 B11 C10 D9) [12, 13, 14, 15, 16, 17, 18, 19, 20, 21, 22, 23, 24, 25, 26, 27, 28, 29, 30, 31, 32, 33, 34, 35, 36, 37, 38, 39, 40, 41, 42, 43, 44, 45, 46, 47, 48, 49, 50, 51, 52, 53, 54, 55, 56, 57, 58, 59, 60, 61, 62, 63] =
      List.foldl (fun s t => P_round w s (K256.getD t 0) (Wl.getD t 0)) (Regs.mk D13 E12 F11 G10 H13 A12 B11 C10) [13, 14, 15, 16, 17, 18, 19, 20, 21, 22, 23, 24, 25, 26, 27, 28, 29, 30, 31, 32, 33, 34, 35, 36, 37, 38, 39, 40, 41, 42, 43, 44, 45, 46, 47, 48, 49, 50, 51, 52, 53, 54, 55, 56, 57, 58, 59, 60, 61, 62, 63] :=
    foldl_step _ _ _ _ _ (by rw [hD13, hH13, hr13]; show P_round w _ (K256.getD 12 0) (Wl.getD 12 0) = _; rw [hg12]; rfl)
  have e13 : List.foldl (fun s t => P_round w s (K256.getD t 0) (Wl.getD t 0)) (Regs.mk D13 E12 F11 G10 H13 A12 B11 C10) [13, 14, 15, 16, 17, 18, 19, 20, 21, 22, 23, 24, 25, 26, 27, 28, 29, 30, 31, 32, 33, 34, 35, 36, 37, 38, 39, 40, 41, 42, 43, 44, 45, 46, 47, 48, 49, 50, 51, 52, 53, 54, 55, 56, 57, 58, 59, 60, 61, 62, 63] =
      List.foldl (fun s t => P_round w s (K256.getD t 0) (Wl.getD t 0)) (Regs.mk C14 D13 E12 F11 G14 H13 A12 B11) [14, 15, 16, 17, 18, 19, 20, 21, 22, 23, 24, 25, 26, 27, 28, 29, 30, 31, 32, 33, 34, 35, 36, 37, 38, 39, 40, 41, 42, 43, 44, 45, 46, 47, 48, 49, 50, 51, 52, 53, 54, 55, 56, 57, 58, 59, 60, 61, 62, 63] :=
    foldl_step _ _ _ _ _ (by rw [hC14, hG14, hr14]; show P_round w _ (K256.getD 13 0) (Wl.getD 13 0) = _; rw [hg13]; rfl)
  have e14 : List.foldl (fun s t => P_round w s (K256.getD t 0) (Wl.getD t 0)) (Regs.mk C14 D13 E12 F11 G14 H13 A12 B11) [14, 15, 16, 17, 18, 19, 20, 21, 22, 23, 24, 25, 26, 27, 28, 29, 30, 31, 32, 33, 34, 35, 36, 37, 38, 39, 40, 41, 42, 43, 44, 45, 46, 47, 48, 49, 50, 51, 52, 53, 54, 55, 56, 57, 58, 59, 60, 61, 62, 63] =
      List.foldl (fun s t => P_round w s (K256.getD t 0) (Wl.getD t 0)) (Regs.mk B15 C14 D13 E12 F15 G14 H13 A12) [15, 16, 17, 18, 19, 20, 21, 22, 23, 24, 25, 26, 27, 28, 29, 30, 31, 32, 33, 34, 35, 36, 37, 38, 39, 40, 41, 42, 43, 44, 45, 46, 47, 48, 49, 50, 51, 52, 53, 54, 55, 56, 57, 58, 59, 60, 61, 62, 63] :=
    foldl_step _ _ _ _ _ (by rw [hB15, hF15, hr15]; show P_round w _ (K256.getD 14 0) (Wl.getD 14 0) = _; rw [hg14]; rfl)
  have e15 : List.foldl (fun s t => P_round w s (K256.getD t 0) (Wl.getD t 0)) (Regs.mk B15 C14 D13 E12 F15 G14 H13 A12) [15, 16, 17, 18, 19, 20, 21, 22, 23, 24, 25, 26, 27, 28, 29, 30, 31, 32, 33, 34, 35, 36, 37, 38, 39, 40, 41, 42, 43, 44, 45, 46, 47, 48, 49, 50, 51, 52, 53, 54, 55, 56, 57, 58, 59, 60, 61, 62, 63] =
      List.foldl (fun s t => P_round w s (K256.getD t 0) (Wl.getD t 0)) (Regs.mk A16 B15 C14 D13 E16 F15 G14 H13) [16, 17, 18, 19, 20, 21, 22, 23, 24, 25, 26, 27, 28, 29, 30, 31, 32, 33, 34, 35, 36, 37, 38, 39, 40, 41, 42, 43, 44, 45, 46, 47, 48, 49, 50, 51, 52, 53, 54, 55, 56, 57, 58, 59, 60, 61, 62, 63] :=
    foldl_step _ _ _ _ _ (by rw [hA16, hE16, hr16]; show P_round w _ (K256.getD 15 0) (Wl.getD 15 0) = _; rw [hg15]; rfl)
  have e16 : List.foldl (fun s t => P_round w s (K256.getD t 0) (Wl.getD t 0)) (Regs.mk A16 B15 C14 D13 E16 F15 G14 H13) [16, 17, 18, 19, 20, 21, 22, 23, 24, 25, 26, 27, 28, 29, 30, 31, 32, 33, 34, 35, 36, 37, 38, 39, 40, 41, 42, 43, 44, 45, 46, 47, 48, 49, 50, 51, 52, 53, 54, 55, 56, 57, 58, 59, 60, 61, 62, 63] =
      List.foldl (fun s t => P_round w s (K256.getD t 0) (Wl.getD t 0)) (Regs.mk H17 A16 B15 C14 D17 E16 F15 G14) [17, 18, 19, 20, 21, 22, 23, 24, 25, 26, 27, 28, 29, 30, 31, 32, 33, 34, 35, 36, 37, 38, 39, 40, 41, 42, 43, 44, 45, 46, 47, 48, 49, 50, 51, 52, 53, 54, 55, 56, 57, 58, 59, 60, 61, 62, 63] :=
    foldl_step _ _ _ _ _ (by rw [hH17, hD17, hr17]; show P_round w _ (K256.getD 16 0) (Wl.getD 16 0) = _; rw [hg16]; rfl)
  have e17 : List.foldl (fun s t => P_round w s (K256.getD t 0) (Wl.getD t 0)) (Regs.mk H17 A16 B15 C14 D17 E16 F15 G14) [17, 18, 19, 20, 21, 22, 23, 24, 25, 26, 27, 28, 29, 30, 31, 32, 33, 34, 35, 36, 37, 38, 39, 40, 41, 42, 43, 44, 45, 46, 47, 48, 49, 50, 51, 52, 53, 54, 55, 56, 57, 58, 59, 60, 61, 62, 63] =
      List.foldl (fun s t => P_round w s (K256.getD t 0) (Wl.getD t 0)) (Regs.mk G18 H17 A16 B15 C18 D17 E16 F15) [18, 19, 20, 21, 22, 23, 24, 25, 26, 27, 28, 29, 30, 31, 32, 33, 34, 35, 36, 37, 38, 39, 40, 41, 42, 43, 44, 45, 46, 47, 48, 49, 50, 51, 52, 53, 54, 55, 56, 57, 58, 59, 60, 61, 62, 63] :=
    foldl_step _ _ _ _ _ (by rw [hG18, hC18, hr18]; show P_round w _ (K256.getD 17 0) (Wl.getD 17 0) = _; rw [hg17]; rfl)
  have e18 : List.foldl (fun s t => P_round w s (K256.getD t 0) (Wl.getD t 0)) (Regs.mk G18 H17 A16 B15 C18 D17 E16 F15) [18, 19, 20, 21, 22, 23, 24, 25, 26, 27, 28, 29, 30, 31, 32, 33, 34, 35, 36, 37, 38, 39, 40, 41, 42, 43, 44, 45, 46, 47, 48, 49, 50, 51, 52, 53, 54, 55, 56, 57, 58, 59, 60, 61, 62, 63] =
      List.foldl (fun s t => P_round w s (K256.getD t 0) (Wl.getD t 0)) (Regs.mk F19 G18 H17 A16 B19 C18 D17 E16) [19, 20, 21, 22, 23, 24, 25, 26, 27, 28, 29, 30, 31, 32, 33, 34, 35, 36, 37, 38, 39, 40, 41, 42, 43, 44, 45, 46, 47, 48, 49, 50, 51, 52, 53, 54, 55, 56, 57, 58, 59, 60, 61, 62, 63] :=
    foldl_step _ _ _ _ _ (by rw [hF19, hB19, hr19]; show P_round w _ (K256.getD 18 0) (Wl.getD 18 0) = _; rw [hg18]; rfl)
  have e19 : List.foldl (fun s t => P_round w s (K256.getD t 0) (Wl.getD t 0)) (Regs.mk F19 G18 H17 A16 B19 C18 D17 E16) [19, 20, 21, 22, 23, 24, 25, 26, 27, 28, 29, 30, 31, 32, 33, 34, 35, 36, 37, 38, 39, 40, 41, 42, 43, 44, 45, 46, 47, 48, 49, 50, 51, 52, 53, 54, 55, 56, 57, 58, 59, 60, 61, 62, 63] =
      List.foldl (fun s t => P_round w s (K256.getD t 0) (Wl.getD t 0)) (Regs.mk E20 F19 G18 H17 A20 B19 C18 D17) [20, 21, 22, 23, 24, 25, 26, 27, 28, 29, 30, 31, 32, 33, 34, 35, 36, 37, 38, 39, 40, 41, 42, 43, 44, 45, 46, 47, 48, 49, 50, 51, 52, 53, 54, 55, 56, 57, 58, 59, 60, 61, 62, 63] :=
    foldl_step _ _ _ _ _ (by rw [hE20, hA20, hr20]; show P_round w _ (K256.getD 19 0) (Wl.getD 19 0) = _; rw [hg19]; rfl)
  have e20 : List.foldl (fun s t => P_round w s (K256.getD t 0) (Wl.getD t 0)) (Regs.mk E20 F19 G18 H17 A20 B19 C18 D17) [20, 21, 22, 23, 24, 25, 26, 27, 28, 29, 30, 31, 32, 33, 34, 35, 36, 37, 38, 39, 40, 41, 42, 43, 44, 45, 46, 47, 48, 49, 50, 51, 52, 53, 54, 55, 56, 57, 58, 59, 60, 61, 62, 63] =
      List.foldl (fun s t => P_round w s (K256.getD t 0) (Wl.getD t 0)) (Regs.mk D21 E20 F19 G18 H21 A20 B19 C18) [21, 22, 23, 24, 25, 26, 27, 28, 29, 30, 31, 32, 33, 34, 35, 36, 37, 38, 39, 40, 41, 42, 43, 44, 45, 46, 47, 48, 49, 50, 51, 52, 53, 54, 55, 56, 57, 58, 59, 60, 61, 62, 63] :=
    foldl_step _ _ _ _ _ (by rw [hD21, hH21, hr21]; show P_round w _ (K256.getD 20 0) (Wl.getD 20 0) = _; rw [hg20]; rfl)
  have e21 : List.foldl (fun s t => P_round w s (K256.getD t 0) (Wl.getD t 0)) (Regs.mk D21 E20 F19 G18 H21 A20 B19 C18) [21, 22, 23, 24, 25, 26, 27, 28, 29, 30, 31, 32, 33, 34, 35, 36, 37, 38, 39, 40, 41, 42, 43, 44, 45, 46, 47, 48, 49, 50, 51, 52, 53, 54, 55, 56, 57, 58, 59, 60, 61, 62, 63] =
      List.foldl (fun s t => P_round w s (K256.getD t 0) (Wl.getD t 0)) (Regs.mk C22 D21 E20 F19 G22 H21 A20 B19) [22, 23, 24, 25, 26, 27, 28, 29, 30, 31, 32, 33, 34, 35, 36, 37, 38, 39, 40, 41, 42, 43, 44, 45, 46, 47, 48, 49, 50, 51, 52, 53, 54, 55, 56, 57, 58, 59, 60, 61, 62, 63] :=
    foldl_step _ _ _ _ _ (by rw [hC22, hG22, hr22]; show P_round w _ (K256.getD 21 0) (Wl.getD 21 0) = _; rw [hg21]; rfl)
  have e22 : List.foldl (fun s t => P_round w s (K256.getD t 0) (Wl.getD t 0)) (Regs.mk C22 D21 E20 F19 G22 H21 A20 B19) [22, 23, 24, 25, 26, 27, 28, 29, 30, 31, 32, 33, 34, 35, 36, 37, 38, 39, 40, 41, 42, 43, 44, 45, 46, 47, 48, 49, 50, 51, 52, 53, 54, 55, 56, 57, 58, 59, 60, 61, 62, 63] =
      List.foldl (fun s t => P_round w s (K256.getD t 0) (Wl.getD t 0)) (Regs.mk B23 C22 D21 E20 F23 G22 H21 A20) [23, 24, 25, 26, 27, 28, 29, 30, 31, 32, 33, 34, 35, 36, 37, 38, 39, 40, 41, 42, 43, 44, 45, 46, 47, 48, 49, 50, 51, 52, 53, 54, 55, 56, 57, 58, 59, 60, 61, 62, 63] :=
    foldl_step _ _ _ _ _ (by rw [hB23, hF23, hr23]; show P_round w _ (K256.getD 22 0) (Wl.getD 22 0) = _; rw [hg22]; rfl)
  have e23 : List.foldl (fun s t => P_round w s (K256.getD t 0) (Wl.getD t 0)) (Regs.mk B23 C22 D21 E20 F23 G22 H21 A20) [23, 24, 25, 26, 27, 28, 29, 30, 31, 32, 33, 34, 35, 36, 37, 38, 39, 40, 41, 42, 43, 44, 45, 46, 47, 48, 49, 50, 51, 52, 53, 54, 55, 56, 57, 58, 59, 60, 61, 62, 63] =
      List.foldl (fun s t => P_round w s (K256.getD t 0) (Wl.getD t 0)) (Regs.mk A24 B23 C22 D21 E24 F23 G22 H21) [24, 25, 26, 27, 28, 29, 30, 31, 32, 33, 34, 35, 36, 37, 38, 39, 40, 41, 42, 43, 44, 45, 46, 47, 48, 49, 50, 51, 52, 53, 54, 55, 56, 57, 58, 59, 60, 61, 62, 63] :=
    foldl_step _ _ _ _ _ (by rw [hA24, hE24, hr24]; show P_round w _ (K256.getD 23 0) (Wl.getD 23 0) = _; rw [hg23]; rfl)
  have e24 : List.foldl (fun s t => P_round w s (K256.getD t 0) (Wl.getD t 0)) (Regs.mk A24 B23 C22 D21 E24 F23 G22 H21) [24, 25, 26, 27, 28, 29, 30, 31, 32, 33, 34, 35, 36, 37, 38, 39, 40, 41, 42, 43, 44, 45, 46, 47, 48, 49, 50, 51, 52, 53, 54, 55, 56, 57, 58, 59, 60, 61, 62, 63] =
      List.foldl (fun s t => P_round w s (K256.getD t 0) (Wl.getD t 0)) (Regs.mk H25 A24 B23 C22 D25 E24 F23 G22) [25, 26, 27, 28, 29, 30, 31, 32, 33, 34, 35, 36, 37, 38, 39, 40, 41, 42, 43, 44, 45, 46, 47, 48, 49, 50, 51, 52, 53, 54, 55, 56, 57, 58, 59, 60, 61, 62, 63] :=
    foldl_step _ _ _ _ _ (by rw [hH25, hD25, hr25]; show P_round w _ (K256.getD 24 0) (Wl.getD 24 0) = _; rw [hg24]; rfl)
  have e25 : List.foldl (fun s t => P_round w s (K256.getD t 0) (Wl.getD t 0)) (Regs.mk H25 A24 B23 C22 D25 E24 F23 G22) [25, 26, 27, 28, 29, 30, 31, 32, 33, 34, 35, 36, 37, 38, 39, 40, 41, 42, 43, 44, 45, 46, 47, 48, 49, 50, 51, 52, 53, 54, 55, 56, 57, 58, 59, 60, 61, 62, 63] =
      List.foldl (fun s t => P_round w s (K256.getD t 0) (Wl.getD t 0)) (Regs.mk G26 H25 A24 B23 C26 D25 E24 F23) [26, 27, 28, 29, 30, 31, 32, 33, 34, 35, 36, 37, 38, 39, 40, 41, 42, 43, 44, 45, 46, 47, 48, 49, 50, 51, 52, 53, 54, 55, 56, 57, 58, 59, 60, 61, 62, 63] :=
    foldl_step _ _ _ _ _ (by rw [hG26, hC26, hr26]; show P_round w _ (K256.getD 25 0) (Wl.getD 25 0) = _; rw [hg25]; rfl)
  have e26 : List.foldl (fun s t => P_round w s (K256.getD t 0) (Wl.getD t 0)) (Regs.mk G26 H25 A24 B23 C26 D25 E24 F23) [26, 27, 28, 29, 30, 31, 32, 33, 34, 35, 36, 37, 38, 39, 40, 41, 42, 43, 44, 45, 46, 47, 48, 49, 50, 51, 52, 53, 54, 55, 56, 57, 58, 59, 60, 61, 62, 63] =
      List.foldl (fun s t => P_round w s (K256.getD t 0) (Wl.getD t 0)) (Regs.mk F27 G26 H25 A24 B27 C26 D25 E24) [27, 28, 29, 30, 31, 32, 33, 34, 35, 36, 37, 38, 39, 40, 41, 42, 43, 44, 45, 46, 47, 48, 49, 50, 51, 52, 53, 54, 55, 56, 57, 58, 59, 60, 61, 62, 63] :=
    foldl_step _ _ _ _ _ (by rw [hF27, hB27, hr27]; show P_round w _ (K256.getD 26 0) (Wl.getD 26 0) = _; rw [hg26]; rfl)
  have e27 : List.foldl (fun s t => P_round w s (K256.getD t 0) (Wl.getD t 0)) (Regs.mk F27 G26 H25 A24 B27 C26 D25 E24) [27, 28, 29, 30, 31, 32, 33, 34, 35, 36, 37, 38, 39, 40, 41, 42, 43, 44, 45, 46, 47, 48, 49, 50, 51, 52, 53, 54, 55, 56, 57, 58, 59, 60, 61, 62, 63] =
      List.foldl (fun s t => P_round w s (K256.getD t 0) (Wl.getD t 0)) (Regs.mk E28 F27 G26 H25 A28 B27 C26 D25) [28, 29, 30, 31, 32, 33, 34, 35, 36, 37, 38, 39, 40, 41, 42, 43, 44, 45, 46, 47, 48, 49, 50, 51, 52, 53, 54, 55, 56, 57, 58, 59, 60, 61, 62, 63] :=
    foldl_step _ _ _ _ _ (by rw [hE28, hA28, hr28]; show P_round w _ (K256.getD 27 0) (Wl.getD 27 0) = _; rw [hg27]; rfl)
  have e28 : List.foldl (fun s t => P_round w s (K256.getD t 0) (Wl.getD t 0)) (Regs.mk E28 F27 G26 H25 A28 B27 C26 D25) [28, 29, 30, 31, 32, 33, 34, 35, 36, 37, 38, 39, 40, 41, 42, 43, 44, 45, 46, 47, 48, 49, 50, 51, 52, 53, 54, 55, 56, 57, 58, 59, 60, 61, 62, 63] =
      List.foldl (fun s t => P_round w s (K256.getD t 0) (Wl.getD t 0)) (Regs.mk D29 E28 F27 G26 H29 A28 B27 C26) [29, 30, 31, 32, 33, 34, 35, 36, 37, 38, 39, 40, 41, 42, 43, 44, 45, 46, 47, 48, 49, 50, 51, 52, 53, 54, 55, 56, 57, 58, 59, 60, 61, 62, 63] :=
    foldl_step _ _ _ _ _ (by rw [hD29, hH29, hr29]; show P_round w _ (K256.getD 28 0) (Wl.getD 28 0) = _; rw [hg28]; rfl)
  have e29 : List.foldl (fun s t => P_round w s (K256.getD t 0) (Wl.getD t 0)) (Regs.mk D29 E28 F27 G26 H29 A28 B27 C26) [29, 30, 31, 32, 33, 34, 35, 36, 37, 38, 39, 40, 41, 42, 43, 44, 45, 46, 47, 48, 49, 50, 51, 52, 53, 54, 55, 56, 57, 58, 59, 60, 61, 62, 63] =
      List.foldl (fun s t => P_round w s (K256.getD t 0) (Wl.getD t 0)) (Regs.mk C30 D29 E28 F27 G30 H29 A28 B27) [30, 31, 32, 33, 34, 35, 36, 37, 38, 39, 40, 41, 42, 43, 44, 45, 46, 47, 48, 49, 50, 51, 52, 53, 54, 55, 56, 57, 58, 59, 60, 61, 62, 63] :=
    foldl_step _ _ _ _ _ (by rw [hC30, hG30, hr30]; show P_round w _ (K256.getD 29 0) (Wl.getD 29 0) = _; rw [hg29]; rfl)
  have e30 : List.foldl (fun s t => P_round w s (K256.getD t 0) (Wl.getD t 0)) (Regs.mk C30 D29 E28 F27 G30 H29 A28 B27) [30, 31, 32, 33, 34, 35, 36, 37, 38, 39, 40, 41, 42, 43, 44, 45, 46, 47, 48, 49, 50, 51, 52, 53, 54, 55, 56, 57, 58, 59, 60, 61, 62, 63] =
      List.foldl (fun s t => P_round w s (K256.getD t 0) (Wl.getD t 0)) (Regs.mk B31 C30 D29 E28 F31 G30 H29 A28) [31, 32, 33, 34, 35, 36, 37, 38, 39, 40, 41, 42, 43, 44, 45, 46, 47, 48, 49, 50, 51, 52, 53, 54, 55, 56, 57, 58, 59, 60, 61, 62, 63] :=
    foldl_step _ _ _ _ _ (by rw [hB31, hF31, hr31]; show P_round w _ (K256.getD 30 0) (Wl.getD 30 0) = _; rw [hg30]; rfl)
  have e31 : List.foldl (fun s t => P_round w s (K256.getD t 0) (Wl.getD t 0)) (Regs.mk B31 C30 D29 E28 F31 G30 H29 A28) [31, 32, 33, 34, 35, 36, 37, 38, 39, 40, 41, 42, 43, 44, 45, 46, 47, 48, 49, 50, 51, 52, 53, 54, 55, 56, 57, 58, 59, 60, 61, 62, 63] =
      List.foldl (fun s t => P_round w s (K256.getD t 0) (Wl.getD t 0)) (Regs.mk A32 B31 C30 D29 E32 F31 G30 H29) [32, 33, 34, 35, 36, 37, 38, 39, 40, 41, 42, 43, 44, 45, 46, 47, 48, 49, 50, 51, 52, 53, 54, 55, 56, 57, 58, 59, 60, 61, 62, 63] :=
    foldl_step _ _ _ _ _ (by rw [hA32, hE32, hr32]; show P_round w _ (K256.getD 31 0) (Wl.getD 31 0) = _; rw [hg31]; rfl)
  have e32 : List.foldl (fun s t => P_round w s (K256.getD t 0) (Wl.getD t 0)) (Regs.mk A32 B31 C30 D29 E32 F31 G30 H29) [32, 33, 34, 35, 36, 37, 38, 39, 40, 41, 42, 43, 44, 45, 46, 47, 48, 49, 50, 51, 52, 53, 54, 55, 56, 57, 58, 59, 60, 61, 62, 63] =
      List.foldl (fun s t => P_round w s (K256.getD t 0) (Wl.getD t 0)) (Regs.mk H33 A32 B31 C30 D33 E32 F31 G30) [33, 34, 35, 36, 37, 38, 39, 40, 41, 42, 43, 44, 45, 46, 47, 48, 49, 50, 51, 52, 53, 54, 55, 56, 57, 58, 59, 60, 61, 62, 63] :=
    foldl_step _ _ _ _ _ (by rw [hH33, hD33, hr33]; show P_round w _ (K256.getD 32 0) (Wl.getD 32 0) = _; rw [hg32]; rfl)
  have e33 : List.foldl (fun s t => P_round w s (K256.getD t 0) (Wl.getD t 0)) (Regs.mk H33 A32 B31 C30 D33 E32 F31 G30) [33, 34, 35, 36, 37, 38, 39, 40, 41, 42, 43, 44, 45, 46, 47, 48, 49, 50, 51, 52, 53, 54, 55, 56, 57, 58, 59, 60, 61, 62, 63] =
      List.foldl (fun s t => P_round w s (K256.getD t 0) (Wl.getD t 0)) (Regs.mk G34 H33 A32 B31 C34 D33 E32 F31) [34, 35, 36, 37, 38, 39, 40, 41, 42, 43, 44, 45, 46, 47, 48, 49, 50, 51, 52, 53, 54, 55, 56, 57, 58, 59, 60, 61, 62, 63] :=
    foldl_step _ _ _ _ _ (by rw [hG34, hC34, hr34]; show P_round w _ (K256.getD 33 0) (Wl.getD 33 0) = _; rw [hg33]; rfl)
  have e34 : List.foldl (fun s t => P_round w s (K256.getD t 0) (Wl.getD t 0)) (Regs.mk G34 H33 A32 B31 C34 D33 E32 F31) [34, 35, 36, 37, 38, 39, 40, 41, 42, 43, 44, 45, 46, 47, 48, 49, 50, 51, 52, 53, 54, 55, 56, 57, 58, 59, 60, 61, 62, 63] =
      List.foldl (fun s t => P_round w s (K256.getD t 0) (Wl.getD t 0)) (Regs.mk F35 G34 H33 A32 B35 C34 D33 E32) [35, 36, 37, 38, 39, 40, 41, 42, 43, 44, 45, 46, 47, 48, 49, 50, 51, 52, 53, 54, 55, 56, 57, 58, 59, 60, 61, 62, 63] :=
    foldl_step _ _ _ _ _ (by rw [hF35, hB35, hr35]; show P_round w _ (K256.getD 34 0) (Wl.getD 34 0) = _; rw [hg34]; rfl)
  have e35 : List.foldl (fun s t => P_round w s (K256.getD t 0) (Wl.getD t 0)) (Regs.mk F35 G34 H33 A32 B35 C34 D33 E32) [35, 36, 37, 38, 39, 40, 41, 42, 43, 44, 45, 46, 47, 48, 49, 50, 51, 52, 53, 54, 55, 56, 57, 58, 59, 60, 61, 62, 63] =
      List.foldl (fun s t => P_round w s (K256.getD t 0) (Wl.getD t 0)) (Regs.mk E36 F35 G34 H33 A36 B35 C34 D33) [36, 37, 38, 39, 40, 41, 42, 43, 44, 45, 46, 47, 48, 49, 50, 51, 52, 53, 54, 55, 56, 57, 58, 59, 60, 61, 62, 63] :=
    foldl_step _ _ _ _ _ (by rw [hE36, hA36, hr36]; show P_round w _ (K256.getD 35 0) (Wl.getD 35 0) = _; rw [hg35]; rfl)
  have e36 : List.foldl (fun s t => P_round w s (K256.getD t 0) (Wl.getD t 0)) (Regs.mk E36 F35 G34 H33 A36 B35 C34 D33) [36, 37, 38, 39, 40, 41, 42, 43, 44, 45, 46, 47, 48, 49, 50, 51, 52, 53, 54, 55, 56, 57, 58, 59, 60, 61, 62, 63] =
      List.foldl (fun s t => P_round w s (K256.getD t 0) (Wl.getD t 0)) (Regs.mk D37 E36 F35 G34 H37 A36 B35 C34) [37, 38, 39, 40, 41, 42, 43, 44, 45, 46, 47, 48, 49, 50, 51, 52, 53, 54, 55, 56, 57, 58, 59, 60, 61, 62, 63] :=
    foldl_step _ _ _ _ _ (by rw [hD37, hH37, hr37]; show P_round w _ (K256.getD 36 0) (Wl.getD 36 0) = _; rw [hg36]; rfl)
  have e37 : List.foldl (fun s t => P_round w s (K256.getD t 0) (Wl.getD t 0)) (Regs.mk D37 E36 F35 G34 H37 A36 B35 C34) [37, 38, 39, 40, 41, 42, 43, 44, 45, 46, 47, 48, 49, 50, 51, 52, 53, 54, 55, 56, 57, 58, 59, 60, 61, 62, 63] =
      List.foldl (fun s t => P_round w s (K256.getD t 0) (Wl.getD t 0)) (Regs.mk C38 D37 E36 F35 G38 H37 A36 B35) [38, 39, 40, 41, 42, 43, 44, 45, 46, 47, 48, 49, 50, 51, 52, 53, 54, 55, 56, 57, 58, 59, 60, 61, 62, 63] :=
    foldl_step _ _ _ _ _ (by rw [hC38, hG38, hr38]; show P_round w _ (K256.getD 37 0) (Wl.getD 37 0) = _; rw [hg37]; rfl)
  have e38 : List.foldl (fun s t => P_round w s (K256.getD t 0) (Wl.getD t 0)) (Regs.mk C38 D37 E36 F35 G38 H37 A36 B35) [38, 39, 40, 41, 42, 43, 44, 45, 46, 47, 48, 49, 50, 51, 52, 53, 54, 55, 56, 57, 58, 59, 60, 61, 62, 63] =
      List.foldl (fun s t => P_round w s (K256.getD t 0) (Wl.getD t 0)) (Regs.mk B39 C38 D37 E36 F39 G38 H37 A36) [39, 40, 41, 42, 43, 44, 45, 46, 47, 48, 49, 50, 51, 52, 53, 54, 55, 56, 57, 58, 59, 60, 61, 62, 63] :=
    foldl_step _ _ _ _ _ (by rw [hB39, hF39, hr39]; show P_round w _ (K256.getD 38 0) (Wl.getD 38 0) = _; rw [hg38]; rfl)
  have e39 : List.foldl (fun s t => P_round w s (K256.getD t 0) (Wl.getD t 0)) (Regs.mk B39 C38 D37 E36 F39 G38 H37 A36) [39, 40, 41, 42, 43, 44, 45, 46, 47, 48, 49, 50, 51, 52, 53, 54, 55, 56, 57, 58, 59, 60, 61, 62, 63] =
      List.foldl (fun s t => P_round w s (K256.getD t 0) (Wl.getD t 0)) (Regs.mk A40 B39 C38 D37 E40 F39 G38 H37) [40, 41, 42, 43, 44, 45, 46, 47, 48, 49, 50, 51, 52, 53, 54, 55, 56, 57, 58, 59, 60, 61, 62, 63] :=
    foldl_step _ _ _ _ _ (by rw [hA40, hE40, hr40]; show P_round w _ (K256.getD 39 0) (Wl.getD 39 0) = _; rw [hg39]; rfl)
  have e40 : List.foldl (fun s t => P_round w s (K256.getD t 0) (Wl.getD t 0)) (Regs.mk A40 B39 C38 D37 E40 F39 G38 H37) [40, 41, 42, 43, 44, 45, 46, 47, 48, 49, 50, 51, 52, 53, 54, 55, 56, 57, 58, 59, 60, 61, 62, 63] =
      List.foldl (fun s t => P_round w s (K256.getD t 0) (Wl.getD t 0)) (Regs.mk H41 A40 B39 C38 D41 E40 F39 G38) [41, 42, 43, 44, 45, 46, 47, 48, 49, 50, 51, 52, 53, 54, 55, 56, 57, 58, 59, 60, 61, 62, 63] :=
    foldl_step _ _ _ _ _ (by rw [hH41, hD41, hr41]; show P_round w _ (K256.getD 40 0) (Wl.getD 40 0) = _; rw [hg40]; rfl)
  have e41 : List.foldl (fun s t => P_round w s (K256.getD t 0) (Wl.getD t 0)) (Regs.mk H41 A40 B39 C38 D41 E40 F39 G38) [41, 42, 43, 44, 45, 46, 47, 48, 49, 50, 51, 52, 53, 54, 55, 56, 57, 58, 59, 60, 61, 62, 63] =
      List.foldl (fun s t => P_round w s (K256.getD t 0) (Wl.getD t 0)) (Regs.mk G42 H41 A40 B39 C42 D41 E40 F39) [42, 43, 44, 45, 46, 47, 48, 49, 50, 51, 52, 53, 54, 55, 56, 57, 58, 59, 60, 61, 62, 63] :=
    foldl_step _ _ _ _ _ (by rw [hG42, hC42, hr42]; show P_round w _ (K256.getD 41 0) (Wl.getD 41 0) = _; rw [hg41]; rfl)
  have e42 : List.foldl (fun s t => P_round w s (K256.getD t 0) (Wl.getD t 0)) (Regs.mk G42 H41 A40 B39 C42 D41 E40 F39) [42, 43, 44, 45, 46, 47, 48, 49, 50, 51, 52, 53, 54, 55, 56, 57, 58, 59, 60, 61, 62, 63] =
      List.foldl (fun s t => P_round w s (K256.getD t 0) (Wl.getD t 0)) (Regs.mk F43 G42 H41 A40 B43 C42 D41 E40) [43, 44, 45, 46, 47, 48, 49, 50, 51, 52, 53, 54, 55, 56, 57, 58, 59, 60, 61, 62, 63] :=
    foldl_step _ _ _ _ _ (by rw [hF43, hB43, hr43]; show P_round w _ (K256.getD 42 0) (Wl.getD 42 0) = _; rw [hg42]; rfl)
  have e43 : List.foldl (fun s t => P_round w s (K256.getD t 0) (Wl.getD t 0)) (Regs.mk F43 G42 H41 A40 B43 C42 D41 E40) [43, 44, 45, 46, 47, 48, 49, 50, 51, 52, 53, 54, 55, 56, 57, 58, 59, 60, 61, 62, 63] =
      List.foldl (fun s t => P_round w s (K256.getD t 0) (Wl.getD t 0)) (Regs.mk E44 F43 G42 H41 A44 B43 C42 D41) [44, 45, 46, 47, 48, 49, 50, 51, 52, 53, 54, 55, 56, 57, 58, 59, 60, 61, 62, 63] :=
    foldl_step _ _ _ _ _ (by rw [hE44, hA44, hr44]; show P_round w _ (K256.getD 43 0) (Wl.getD 43 0) = _; rw [hg43]; rfl)
  have e44 : List.foldl (fun s t => P_round w s (K256.getD t 0) (Wl.getD t 0)) (Regs.mk E44 F43 G42 H41 A44 B43 C42 D41) [44, 45, 46, 47, 48, 49, 50, 51, 52, 53, 54, 55, 56, 57, 58, 59, 60, 61, 62, 63] =
      List.foldl (fun s t => P_round w s (K256.getD t 0) (Wl.getD t 0)) (Regs.mk D45 E44 F43 G42 H45 A44 B43 C42) [45, 46, 47, 48, 49, 50, 51, 52, 53, 54, 55, 56, 57, 58, 59, 60, 61, 62, 63] :=
    foldl_step _ _ _ _ _ (by rw [hD45, hH45, hr45]; show P_round w _ (K256.getD 44 0) (Wl.getD 44 0) = _; rw [hg44]; rfl)
  have e45 : List.foldl (fun s t => P_round w s (K256.getD t 0) (Wl.getD t 0)) (Regs.mk D45 E44 F43 G42 H45 A44 B43 C42) [45, 46, 47, 48, 49, 50, 51, 52, 53, 54, 55, 56, 57, 58, 59, 60, 61, 62, 63] =
      List.foldl (fun s t => P_round w s (K256.getD t 0) (Wl.getD t 0)) (Regs.mk C46 D45 E44 F43 G46 H45 A44 B43) [46, 47, 48, 49, 50, 51, 52, 53, 54, 55, 56, 57, 58, 59, 60, 61, 62, 63] :=
    foldl_step _ _ _ _ _ (by rw [hC46, hG46, hr46]; show P_round w _ (K256.getD 45 0) (Wl.getD 45 0) = _; rw [hg45]; rfl)
  have e46 : List.foldl (fun s t => P_round w s (K256.getD t 0) (Wl.getD t 0)) (Regs.mk C46 D45 E44 F43 G46 H45 A44 B43) [46, 47, 48, 49, 50, 51, 52, 53, 54, 55, 56, 57, 58, 59, 60, 61, 62, 63] =
      List.foldl (fun s t => P_round w s (K256.getD t 0) (Wl.getD t 0)) (Regs.mk B47 C46 D45 E44 F47 G46 H45 A44) [47, 48, 49, 50, 51, 52, 53, 54, 55, 56, 57, 58, 59, 60, 61, 62, 63] :=
    foldl_step _ _ _ _ _ (by rw [hB47, hF47, hr47]; show P_round w _ (K256.getD 46 0) (Wl.getD 46 0) = _; rw [hg46]; rfl)
  have e47 : List.foldl (fun s t => P_round w s (K256.getD t 0) (Wl.getD t 0)) (Regs.mk B47 C46 D45 E44 F47 G46 H45 A44) [47, 48, 49, 50, 51, 52, 53, 54, 55, 56, 57, 58, 59, 60, 61, 62, 63] =
      List.foldl (fun s t => P_round w s (K256.getD t 0) (Wl.getD t 0)) (Regs.mk A48 B47 C46 D45 E48 F47 G46 H45) [48, 49, 50, 51, 52, 53, 54, 55, 56, 57, 58, 59, 60, 61, 62, 63] :=
    foldl_step _ _ _ _ _ (by rw [hA48, hE48, hr48]; show P_round w _ (K256.getD 47 0) (Wl.getD 47 0) = _; rw [hg47]; rfl)
  have e48 : List.foldl (fun s t => P_round w s (K256.getD t 0) (Wl.getD t 0)) (Regs.mk A48 B47 C46 D45 E48 F47 G46 H45) [48, 49, 50, 51, 52, 53, 54, 55, 56, 57, 58, 59, 60, 61, 62, 63] =
      List.foldl (fun s t => P_round w s (K256.getD t 0) (Wl.getD t 0)) (Regs.mk H49 A48 B47 C46 D49 E48 F47 G46) [49, 50, 51, 52, 53, 54, 55, 56, 57, 58, 59, 60, 61, 62, 63] :=
    foldl_step _ _ _ _ _ (by rw [hH49, hD49, hr49]; show P_round w _ (K256.getD 48 0) (Wl.getD 48 0) = _; rw [hg48]; rfl)
  have e49 : List.foldl (fun s t => P_round w s (K256.getD t 0) (Wl.getD t 0)) (Regs.mk H49 A48 B47 C46 D49 E48 F47 G46) [49, 50, 51, 52, 53, 54, 55, 56, 57, 58, 59, 60, 61, 62, 63] =
      List.foldl (fun s t => P_round w s (K256.getD t 0) (Wl.getD t 0)) (Regs.mk G50 H49 A48 B47 C50 D49 E48 F47) [50, 51, 52, 53, 54, 55, 56, 57, 58, 59, 60, 61, 62, 63] :=
    foldl_step _ _ _ _ _ (by rw [hG50, hC50, hr50]; show P_round w _ (K256.getD 49 0) (Wl.getD 49 0) = _; rw [hg49]; rfl)
  have e50 : List.foldl (fun s t => P_round w s (K256.getD t 0) (Wl.getD t 0)) (Regs.mk G50 H49 A48 B47 C50 D49 E48 F47) [50, 51, 52, 53, 54, 55, 56, 57, 58, 59, 60, 61, 62, 63] =
      List.foldl (fun s t => P_round w s (K256.getD t 0) (Wl.getD t 0)) (Regs.mk F51 G50 H49 A48 B51 C50 D49 E48) [51, 52, 53, 54, 55, 56, 57, 58, 59, 60, 61, 62, 63] :=
    foldl_step _ _ _ _ _ (by rw [hF51, hB51, hr51]; show P_round w _ (K256.getD 50 0) (Wl.getD 50 0) = _; rw [hg50]; rfl)
  have e51 : List.foldl (fun s t => P_round w s (K256.getD t 0) (Wl.getD t 0)) (Regs.mk F51 G50 H49 A48 B51 C50 D49 E48) [51, 52, 53, 54, 55, 56, 57, 58, 59, 60, 61, 62, 63] =
      List.foldl (fun s t => P_round w s (K256.getD t 0) (Wl.getD t 0)) (Regs.mk E52 F51 G50 H49 A52 B51 C50 D49) [52, 53, 54, 55, 56, 57, 58, 59, 60, 61, 62, 63] :=
    foldl_step _ _ _ _ _ (by rw [hE52, hA52, hr52]; show P_round w _ (K256.getD 51 0) (Wl.getD 51 0) = _; rw [hg51]; rfl)
  have e52 : List.foldl (fun s t => P_round w s (K256.getD t 0) (Wl.getD t 0)) (Regs.mk E52 F51 G50 H49 A52 B51 C50 D49) [52, 53, 54, 55, 56, 57, 58, 59, 60, 61, 62, 63] =
      List.foldl (fun s t => P_round w s (K256.getD t 0) (Wl.getD t 0)) (Regs.mk D53 E52 F51 G50 H53 A52 B51 C50) [53, 54, 55, 56, 57, 58, 59, 60, 61, 62, 63] :=
    foldl_step _ _ _ _ _ (by rw [hD53, hH53, hr53]; show P_round w _ (K256.getD 52 0) (Wl.getD 52 0) = _; rw [hg52]; rfl)
  have e53 : List.foldl (fun s t => P_round w s (K256.getD t 0) (Wl.getD t 0)) (Regs.mk D53 E52 F51 G50 H53 A52 B51 C50) [53, 54, 55, 56, 57, 58, 59, 60, 61, 62, 63] =
      List.foldl (fun s t => P_round w s (K256.getD t 0) (Wl.getD t 0)) (Regs.mk C54 D53 E52 F51 G54 H53 A52 B51) [54, 55, 56, 57, 58, 59, 60, 61, 62, 63] :=
    foldl_step _ _ _ _ _ (by rw [hC54, hG54, hr54]; show P_round w _ (K256.getD 53 0) (Wl.getD 53 0) = _; rw [hg53]; rfl)
  have e54 : List.foldl (fun s t => P_round w s (K256.getD t 0) (Wl.getD t 0)) (Regs.mk C54 D53 E52 F51 G54 H53 A52 B51) [54, 55, 56, 57, 58, 59, 60, 61, 62, 63] =
      List.foldl (fun s t => P_round w s (K256.getD t 0) (Wl.getD t 0)) (Regs.mk B55 C54 D53 E52 F55 G54 H53 A52) [55, 56, 57, 58, 59, 60, 61, 62, 63] :=
    foldl_step _ _ _ _ _ (by rw [hB55, hF55, hr55]; show P_round w _ (K256.getD 54 0) (Wl.getD 54 0) = _; rw [hg54]; rfl)
  have e55 : List.foldl (fun s t => P_round w s (K256.getD t 0) (Wl.getD t 0)) (Regs.mk B55 C54 D53 E52 F55 G54 H53 A52) [55, 56, 57, 58, 59, 60, 61, 62, 63] =
      List.foldl (fun s t => P_round w s (K256.getD t 0) (Wl.getD t 0)) (Regs.mk A56 B55 C54 D53 E56 F55 G54 H53) [56, 57, 58, 59, 60, 61, 62, 63] :=
    foldl_step _ _ _ _ _ (by rw [hA56, hE56, hr56]; show P_round w _ (K256.getD 55 0) (Wl.getD 55 0) = _; rw [hg55]; rfl)
  have e56 : List.foldl (fun s t => P_round w s (K256.getD t 0) (Wl.getD t 0)) (Regs.mk A56 B55 C54 D53 E56 F55 G54 H53) [56, 57, 58, 59, 60, 61, 62, 63] =
      List.foldl (fun s t => P_round w s (K256.getD t 0) (Wl.getD t 0)) (Regs.mk H57 A56 B55 C54 D57 E56 F55 G54) [57, 58, 59, 60, 61, 62, 63] :=
    foldl_step _ _ _ _ _ (by rw [hH57, hD57, hr57]; show P_round w _ (K256.getD 56 0) (Wl.getD 56 0) = _; rw [hg56]; rfl)
  have e57 : List.foldl (fun s t => P_round w s (K256.getD t 0) (Wl.getD t 0)) (Regs.mk H57 A56 B55 C54 D57 E56 F55 G54) [57, 58, 59, 60, 61, 62, 63] =
      List.foldl (fun s t => P_round w s (K256.getD t 0) (Wl.getD t 0)) (Regs.mk G58 H57 A56 B55 C58 D57 E56 F55) [58, 59, 60, 61, 62, 63] :=
    foldl_step _ _ _ _ _ (by rw [hG58, hC58, hr58]; show P_round w _ (K256.getD 57 0) (Wl.getD 57 0) = _; rw [hg57]; rfl)
  have e58 : List.foldl (fun s t => P_round w s (K256.getD t 0) (Wl.getD t 0)) (Regs.mk G58 H57 A56 B55 C58 D57 E56 F55) [58, 59, 60, 61, 62, 63] =
      List.foldl (fun s t => P_round w s (K256.getD t 0) (Wl.getD t 0)) (Regs.mk F59 G58 H57 A56 B59 C58 D57 E56) [59, 60, 61, 62, 63] :=
    foldl_step _ _ _ _ _ (by rw [hF59, hB59, hr59]; show P_round w _ (K256.getD 58 0) (Wl.getD 58 0) = _; rw [hg58]; rfl)
  have e59 : List.foldl (fun s t => P_round w s (K256.getD t 0) (Wl.getD t 0)) (Regs.mk F59 G58 H57 A56 B59 C58 D57 E56) [59, 60, 61, 62, 63] =
      List.foldl (fun s t => P_round w s (K256.getD t 0) (Wl.getD t 0)) (Regs.mk E60 F59 G58 H57 A60 B59 C58 D57) [60, 61, 62, 63] :=
    foldl_step _ _ _ _ _ (by rw [hE60, hA60, hr60]; show P_round w _ (K256.getD 59 0) (Wl.getD 59 0) = _; rw [hg59]; rfl)
  have e60 : List.foldl (fun s t => P_round w s (K256.getD t 0) (Wl.getD t 0)) (Regs.mk E60 F59 G58 H57 A60 B59 C58 D57) [60, 61, 62, 63] =
      List.foldl (fun s t => P_round w s (K256.getD t 0) (Wl.getD t 0)) (Regs.mk D61 E60 F59 G58 H61 A60 B59 C58) [61, 62, 63] :=
    foldl_step _ _ _ _ _ (by rw [hD61, hH61, hr61]; show P_round w _ (K256.getD 60 0) (Wl.getD 60 0) = _; rw [hg60]; rfl)
  have e61 : List.foldl (fun s t => P_round w s (K256.getD t 0) (Wl.getD t 0)) (Regs.mk D61 E60 F59 G58 H61 A60 B59 C58) [61, 62, 63] =
      List.foldl (fun s t => P_round w s (K256.getD t 0) (Wl.getD t 0)) (Regs.mk C62 D61 E60 F59 G62 H61 A60 B59) [62, 63] :=
    foldl_step _ _ _ _ _ (by rw [hC62, hG62, hr62]; show P_round w _ (K256.getD 61 0) (Wl.getD 61 0) = _; rw [hg61]; rfl)
  have e62 : List.foldl (fun s t => P_round w s (K256.getD t 0) (Wl.getD t 0)) (Regs.mk C62 D61 E60 F59 G62 H61 A60 B59) [62, 63] =
      List.foldl (fun s t => P_round w s (K256.getD t 0) (Wl.getD t 0)) (Regs.mk B63 C62 D61 E60 F63 G62 H61 A60) [63] :=
    foldl_step _ _ _ _ _ (by rw [hB63, hF63, hr63]; show P_round w _ (K256.getD 62 0) (Wl.getD 62 0) = _; rw [hg62]; rfl)
  have e63 : List.foldl (fun s t => P_round w s (K256.getD t 0) (Wl.getD t 0)) (Regs.mk B63 C62 D61 E60 F63 G62 H61 A60) [63] =
      List.foldl (fun s t => P_round w s (K256.getD t 0) (Wl.getD t 0)) (Regs.mk A64 B63 C62 D61 E64 F63 G62 H61) [] :=
    foldl_step _ _ _ _ _ (by rw [hA64, hE64, hr64]; show P_round w _ (K256.getD 63 0) (Wl.getD 63 0) = _; rw [hg63]; rfl)
  have hrounds : rounds64 (P_round w) Wl (Regs.mk A0 B0 C0 D0 E0 F0 G0 H0) = Regs.mk A64 B63 C62 D61 E64 F63 G62 H61 := by
    unfold rounds64
    rw [show List.range 64 = [0, 1, 2, 3, 4, 5, 6, 7, 8, 9, 10, 11, 12, 13, 14, 15, 16, 17, 18, 19, 20, 21, 22, 23, 24, 25, 26, 27, 28, 29, 30, 31, 32, 33, 34, 35, 36, 37, 38, 39, 40, 41, 42, 43, 44, 45, 46, 47, 48, 49, 50, 51, 52, 53, 54, 55, 56, 57, 58, 59, 60, 61, 62, 63] from by decide]
    rw [e0, e1, e2, e3, e4, e5, e6, e7, e8, e9, e10, e11, e12, e13, e14, e15, e16, e17, e18, e19, e20, e21, e22, e23, e24, e25, e26, e27, e28, e29, e30, e31, e32, e33, e34, e35, e36, e37, e38, e39, e40, e41, e42, e43, e44, e45, e46, e47, e48, e49, e50, e51, e52, e53, e54, e55, e56, e57, e58, e59, e60, e61, e62, e63]
    rfl
  unfold process_loop
  rw [← hW0, ← hW1, ← hW2, ← hW3, ← hW4, ← hW5, ← hW6, ← hW7, ← hW8, ← hW9, ← hW10, ← hW11, ← hW12, ← hW13, ← hW14, ← hW15, ← hA0, ← hB0, ← hC0, ← hD0, ← hE0, ← hF0, ← hG0, ← hH0]
  dsimp only
  rw [hsched]
  show _ = [uadd w A0 (rounds64 (P_round w) Wl (Regs.mk A0 B0 C0 D0 E0 F0 G0 H0)).a, _, _, _, _, _, _, _]
  rw [hrounds]

set_option maxRecDepth 100000 in
set_option maxHeartbeats 4000000 in
/-- The state words after `sha2_process` are those of the loop over `R` and `P`. -/
theorem sha2_process_state_eq (w : Nat) (ctx : sha2_context) (data : List Byte) :
    (sha2_process w ctx data).state = process_loop w ctx.state data :=
  unrolled_aux w ctx data _ rfl _ rfl _ rfl _ rfl _ rfl _ rfl _ rfl _ rfl _ rfl _ rfl _ rfl _ rfl _ rfl _ rfl _ rfl _ rfl _ rfl _ rfl _ rfl _ rfl _ rfl _ rfl _ rfl _ rfl _ rfl _ rfl _ rfl _ rfl _ rfl _ rfl _ rfl _ rfl _ rfl _ rfl _ rfl _ rfl _ rfl _ rfl _ rfl _ rfl _ rfl _ rfl _ rfl _ rfl _ rfl _ rfl _ rfl _ rfl _ rfl _ rfl _ rfl _ rfl _ rfl _ rfl _ rfl _ rfl _ rfl _ rfl _ rfl _ rfl _ rfl _ rfl _ rfl _ rfl _ rfl _ rfl _ rfl _ rfl _ rfl _ rfl _ rfl _ rfl _ rfl _ rfl _ rfl _ rfl _ rfl _ rfl _ rfl _ rfl _ rfl _ rfl _ rfl _ rfl _ rfl _ rfl _ rfl _ rfl _ rfl _ rfl _ rfl _ rfl _ rfl _ rfl _ rfl _ rfl _ rfl _ rfl _ rfl _ rfl _ rfl _ rfl _ rfl _ rfl _ rfl _ rfl _ rfl _ rfl _ rfl _ rfl _ rfl _ rfl _ rfl _ rfl _ rfl _ rfl _ rfl _ rfl _ rfl _ rfl _ rfl _ rfl _ rfl _ rfl _ rfl _ rfl _ rfl _ rfl _ rfl _ rfl _ rfl _ rfl _ rfl _ rfl _ rfl _ rfl _ rfl _ rfl _ rfl _ rfl _ rfl _ rfl _ rfl _ rfl _ rfl _ rfl _ rfl _ rfl _ rfl _ rfl _ rfl _ rfl _ rfl _ rfl _ rfl _ rfl _ rfl _ rfl _ rfl _ rfl _ rfl _ rfl _ rfl _ rfl _ rfl _ rfl _ rfl _ rfl _ rfl _ rfl _ rfl _ rfl _ rfl _ rfl _ rfl _ rfl _ rfl _ rfl _ rfl _ rfl _ rfl _ rfl _ rfl _ rfl _ rfl _ rfl _ rfl _ rfl _ rfl _ rfl _ rfl _ rfl _ rfl _ rfl _ rfl _ rfl _ rfl _ rfl _ rfl _ rfl _ rfl _ rfl _ rfl _ rfl _ rfl _ rfl _ rfl _ rfl _ rfl _ rfl _ rfl _ rfl _ rfl _ rfl _ rfl _ rfl _ rfl _ rfl _ rfl _ rfl _ rfl _ rfl _ rfl _ rfl _ rfl _ rfl _ rfl _ rfl _ rfl _ rfl _ rfl _ rfl _ rfl _ rfl _ rfl _ rfl _ rfl _ rfl _ rfl _ rfl _ rfl _ rfl _ rfl _ rfl _ rfl _ rfl _ rfl _ rfl _ rfl _ rfl _ rfl _ rfl _ rfl _ rfl _ rfl _ rfl _ rfl _ rfl _ rfl _ rfl _ rfl _ rfl _ rfl _ rfl

theorem sched_extend_zero (r : Nat → Nat → Nat → Nat → Nat) (W : List Nat) :
    sched_extend r 0 W = W := rfl

theorem add32_lt (a b : Nat) : add32 a b < 2 ^ 32 := Nat.mod_lt _ (by decide)

theorem toNat_lt_256 (b : Byte) : b.toNat < 256 := UInt8.toNat_lt b

theorem GET_ULONG_BE_eq (data : List Byte) (i : Nat) :
    GET_ULONG_BE data i = be32_word data i ∧ GET_ULONG_BE data i < 2 ^ 32 := by
  have h0 := toNat_lt_256 (data.getD i 0)
  have h1 := toNat_lt_256 (data.getD (i + 1) 0)
  have h2 := toNat_lt_256 (data.getD (i + 2) 0)
  have h3 := toNat_lt_256 (data.getD (i + 3) 0)
  unfold GET_ULONG_BE be32_word
  generalize (data.getD i 0).toNat = b0 at h0 ⊢
  generalize (data.getD (i + 1) 0).toNat = b1 at h1 ⊢
  generalize (data.getD (i + 2) 0).toNat = b2 at h2 ⊢
  generalize (data.getD (i + 3) 0).toNat = b3 at h3 ⊢
  have e : b0 <<< 24 ||| b1 <<< 16 ||| b2 <<< 8 ||| b3 =
      b0 * 2 ^ 24 + b1 * 2 ^ 16 + b2 * 2 ^ 8 + b3 := by
    have s1 : b0 <<< 24 ||| b1 <<< 16 = 2 ^ 16 * (b0 * 2 ^ 8 + b1) := by
      rw [Nat.shiftLeft_eq, Nat.shiftLeft_eq]
      have := Nat.mul_add_lt_is_or (show b1 * 2 ^ 16 < 2 ^ 24 by omega) b0
      rw [Nat.mul_comm (2 ^ 24) b0] at this
      rw [← this]
      omega
    have s2 : 2 ^ 16 * (b0 * 2 ^ 8 + b1) ||| b2 <<< 8 = 2 ^ 8 * ((b0 * 2 ^ 8 + b1) * 2 ^ 8 + b2) := by
      rw [Nat.shiftLeft_eq]
      have := Nat.mul_add_lt_is_or (show b2 * 2 ^ 8 < 2 ^ 16 by omega) (b0 * 2 ^ 8 + b1)
      rw [← this]
      omega
    have s3 : 2 ^ 8 * ((b0 * 2 ^ 8 + b1) * 2 ^ 8 + b2) ||| b3 =
        2 ^ 8 * ((b0 * 2 ^ 8 + b1) * 2 ^ 8 + b2) + b3 :=
      (Nat.mul_add_lt_is_or (show b3 < 2 ^ 8 by omega) _).symm
    rw [s1, s2, s3]
    omega
  constructor
  · exact e
  · rw [e]; omega

theorem and_low (a b : Nat) : (a &&& b) % 2 ^ 32 = (a % 2 ^ 32) &&& (b % 2 ^ 32) := by
  apply Nat.eq_of_testBit_eq
  intro i
  simp only [Nat.testBit_mod_two_pow, Nat.testBit_and]
  cases decide (i < 32) <;> simp

theorem or_low (a b : Nat) : (a ||| b) % 2 ^ 32 = (a % 2 ^ 32) ||| (b % 2 ^ 32) := by
  apply Nat.eq_of_testBit_eq
  intro i
  simp only [Nat.testBit_mod_two_pow, Nat.testBit_or]
  cases decide (i < 32) <;> simp

theorem xor_low (a b : Nat) : (a ^^^ b) % 2 ^ 32 = (a % 2 ^ 32) ^^^ (b % 2 ^ 32) := by
  apply Nat.eq_of_testBit_eq
  intro i
  simp only [Nat.testBit_mod_two_pow, Nat.testBit_xor]
  cases decide (i < 32) <;> simp

theorem uadd_low (w a b : Nat) (hw : 32 ≤ w) :
    uadd w a b % 2 ^ 32 = add32 (a % 2 ^ 32) (b % 2 ^ 32) := by
  unfold uadd add32
  rw [Nat.mod_mod_of_dvd _ (pow_dvd_pow 2 hw)]
  exact Nat.add_mod a b _

theorem add32_mod_right (a b : Nat) : add32 a (b % 2 ^ 32) = add32 a b := by
  unfold add32
  exact Nat.add_mod_mod a b _

theorem SHR_low (x n : Nat) : SHR x n = shr32 (x % 2 ^ 32) n := by
  unfold SHR shr32
  rw [and_FFFFFFFF]

theorem shr32_mod (x n : Nat) : shr32 (x % 2 ^ 32) n % 2 ^ 32 = shr32 (x % 2 ^ 32) n := by
  apply Nat.mod_eq_of_lt
  unfold shr32
  rw [Nat.shiftRight_eq_div_pow]
  exact Nat.lt_of_le_of_lt (Nat.div_le_self _ _) (Nat.mod_lt _ (by decide))

theorem ushl_low (w x k : Nat) (hw : 32 ≤ w) :
    ushl w x k % 2 ^ 32 = ((x % 2 ^ 32) <<< k) % 2 ^ 32 := by
  unfold ushl
  rw [Nat.mod_mod_of_dvd _ (pow_dvd_pow 2 hw), Nat.shiftLeft_eq, Nat.shiftLeft_eq,
    Nat.mod_mul_mod]

theorem ROTR_low (w x n : Nat) (hw : 32 ≤ w) :
    ROTR w x n % 2 ^ 32 = rotr32 (x % 2 ^ 32) n := by
  unfold ROTR rotr32
  rw [or_low, SHR_low, shr32_mod, ushl_low w x _ hw]
  rfl

theorem S0_low (w x : Nat) (hw : 32 ≤ w) : S0 w x % 2 ^ 32 = sigma0 (x % 2 ^ 32) := by
  unfold S0 sigma0
  rw [xor_low, xor_low, ROTR_low w x 7 hw, ROTR_low w x 18 hw, SHR_low, shr32_mod]

theorem S1_low (w x : Nat) (hw : 32 ≤ w) : S1 w x % 2 ^ 32 = sigma1 (x % 2 ^ 32) := by
  unfold S1 sigma1
  rw [xor_low, xor_low, ROTR_low w x 17 hw, ROTR_low w x 19 hw, SHR_low, shr32_mod]

theorem S2_low (w x : Nat) (hw : 32 ≤ w) : S2 w x % 2 ^ 32 = Sigma0 (x % 2 ^ 32) := by
  unfold S2 Sigma0
  rw [xor_low, xor_low, ROTR_low w x 2 hw, ROTR_low w x 13 hw, ROTR_low w x 22 hw]

theorem S3_low (w x : Nat) (hw : 32 ≤ w) : S3 w x % 2 ^ 32 = Sigma1 (x % 2 ^ 32) := by
  unfold S3 Sigma1
  rw [xor_low, xor_low, ROTR_low w x 6 hw, ROTR_low w x 11 hw, ROTR_low w x 25 hw]

theorem F0_low (x y z : Nat) :
    F0 x y z % 2 ^ 32 = Maj (x % 2 ^ 32) (y % 2 ^ 32) (z % 2 ^ 32) := by
  unfold F0 Maj
  rw [or_low, and_low, and_low, or_low]

theorem F1_low (x y z : Nat) :
    F1 x y z % 2 ^ 32 = Ch (x % 2 ^ 32) (y % 2 ^ 32) (z % 2 ^ 32) := by
  unfold F1 Ch
  rw [xor_low, and_low, xor_low]

theorem R_low (w w2 w7 w15 w16 : Nat) (hw : 32 ≤ w) :
    R w w2 w7 w15 w16 % 2 ^ 32 =
      W_rule (w2 % 2 ^ 32) (w7 % 2 ^ 32) (w15 % 2 ^ 32) (w16 % 2 ^ 32) := by
  unfold R W_rule
  rw [uadd_low _ _ _ hw, uadd_low _ _ _ hw, uadd_low _ _ _ hw, S1_low w w2 hw, S0_low w w15 hw]

theorem P_round_low (w : Nat) (s : Regs) (k x : Nat) (hw : 32 ≤ w) :
    regs_low (P_round w s k x) = round_spec (regs_low s) k (x % 2 ^ 32) := by
  unfold P_round round_spec P regs_low
  dsimp only
  have t1 : uadd w (uadd w (uadd w (uadd w s.h (S3 w s.e)) (F1 s.e s.f s.g)) k) x % 2 ^ 32 =
      add32 (add32 (add32 (add32 (s.h % 2 ^ 32) (Sigma1 (s.e % 2 ^ 32)))
        (Ch (s.e % 2 ^ 32) (s.f % 2 ^ 32) (s.g % 2 ^ 32))) k) (x % 2 ^ 32) := by
    rw [uadd_low _ _ _ hw, uadd_low _ _ _ hw, uadd_low _ _ _ hw, uadd_low _ _ _ hw,
      S3_low w s.e hw, F1_low, add32_mod_right _ k]
  have t2 : uadd w (S2 w s.a) (F0 s.a s.b s.c) % 2 ^ 32 =
      add32 (Sigma0 (s.a % 2 ^ 32)) (Maj (s.a % 2 ^ 32) (s.b % 2 ^ 32) (s.c % 2 ^ 32)) := by
    rw [uadd_low _ _ _ hw, S2_low w s.a hw, F0_low]
  rw [uadd_low _ _ _ hw, uadd_low w s.d _ hw, t1, t2]

theorem getD_map_low (W : List Nat) (i : Nat) :
    (W.map (fun x => x % 2 ^ 32)).getD i 0 = W.getD i 0 % 2 ^ 32 :=
  List.getD_map W 0 (fun x => x % 2 ^ 32)

/-- The schedule of `R` has, in its low 32 bits, the schedule of the rule of the
specification. -/
theorem sched_extend_low (w : Nat) (hw : 32 ≤ w) :
    ∀ (n : Nat) (W : List Nat),
      (sched_extend (R w) n W).map (fun x => x % 2 ^ 32) =
        sched_extend W_rule n (W.map (fun x => x % 2 ^ 32)) := by
  intro n
  induction n with
  | zero => intro W; rw [sched_extend_zero, sched_extend_zero]
  | succ n ih =>
    intro W
    rw [sched_extend_succ (R w), sched_extend_succ W_rule, ih, List.map_append, List.map_cons,
      List.map_nil, R_low _ _ _ _ _ hw, List.length_map, getD_map_low, getD_map_low,
      getD_map_low, getD_map_low]

theorem foldl_round_low (w : Nat) (hw : 32 ≤ w) (W : List Nat) :
    ∀ (ts : List Nat) (s : Regs),
      regs_low (List.foldl (fun s t => P_round w s (K256.getD t 0) (W.getD t 0)) s ts) =
        List.foldl (fun s t => round_spec s (K256.getD t 0)
          ((W.map (fun x => x % 2 ^ 32)).getD t 0)) (regs_low s) ts := by
  intro ts
  induction ts with
  | nil => intro s; rw [List.foldl_nil, List.foldl_nil]
  | cons t ts ih =>
    intro s
    rw [List.foldl_cons, List.foldl_cons, ih, P_round_low w s _ _ hw, getD_map_low]

theorem map_low_of_lt (l : List Nat) (h : ∀ x ∈ l, x < 2 ^ 32) :
    l.map (fun x => x % 2 ^ 32) = l := by
  induction l with
  | nil => rfl
  | cons a l ih =>
    rw [List.map_cons, Nat.mod_eq_of_lt (h a (List.mem_cons_self _ _)),
      ih (fun x hx => h x (List.mem_cons_of_mem _ hx))]

theorem block_words_eq (data : List Byte) :
    [GET_ULONG_BE data 0, GET_ULONG_BE data 4, GET_ULONG_BE data 8,
      GET_ULONG_BE data 12, GET_ULONG_BE data 16, GET_ULONG_BE data 20, GET_ULONG_BE data 24,
      GET_ULONG_BE data 28, GET_ULONG_BE data 32, GET_ULONG_BE data 36, GET_ULONG_BE data 40,
      GET_ULONG_BE data 44, GET_ULONG_BE data 48, GET_ULONG_BE data 52, GET_ULONG_BE data 56,
      GET_ULONG_BE data 60] = (List.range 16).map (fun j => be32_word data (4 * j)) := by
  rw [(GET_ULONG_BE_eq data 0).1, (GET_ULONG_BE_eq data 4).1, (GET_ULONG_BE_eq data 8).1,
    (GET_ULONG_BE_eq data 12).1, (GET_ULONG_BE_eq data 16).1, (GET_ULONG_BE_eq data 20).1,
    (GET_ULONG_BE_eq data 24).1, (GET_ULONG_BE_eq data 28).1, (GET_ULONG_BE_eq data 32).1,
    (GET_ULONG_BE_eq data 36).1, (GET_ULONG_BE_eq data 40).1, (GET_ULONG_BE_eq data 44).1,
    (GET_ULONG_BE_eq data 48).1, (GET_ULONG_BE_eq data 52).1, (GET_ULONG_BE_eq data 56).1,
    (GET_ULONG_BE_eq data 60).1]
  rfl

theorem block_words_lt (data : List Byte) :
    ∀ x ∈ [GET_ULONG_BE data 0, GET_ULONG_BE data 4, GET_ULONG_BE data 8,
      GET_ULONG_BE data 12, GET_ULONG_BE data 16, GET_ULONG_BE data 20, GET_ULONG_BE data 24,
      GET_ULONG_BE data 28, GET_ULONG_BE data 32, GET_ULONG_BE data 36, GET_ULONG_BE data 40,
      GET_ULONG_BE data 44, GET_ULONG_BE data 48, GET_ULONG_BE data 52, GET_ULONG_BE data 56,
      GET_ULONG_BE data 60], x < 2 ^ 32 := by
  intro x hx
  simp only [List.mem_cons, List.mem_singleton, List.not_mem_nil, or_false] at hx
  rcases hx with h | h | h | h | h | h | h | h | h | h | h | h | h | h | h | h <;>
    (rw [h]; exact (GET_ULONG_BE_eq data _).2)

/-- The low 32 bits of the state words that the loop over `R` and `P` gives, for
an `unsigned long` of 32 bits or more, are the words of the loop definition on
the low 32 bits of the state. -/
theorem process_loop_low (w : Nat) (hw : 32 ≤ w) (st : List Nat) (data : List Byte) :
    (process_loop w st data).map (fun x => x % 2 ^ 32) =
      compress_spec (st.map (fun x => x % 2 ^ 32)) data := by
  have hS := foldl_round_low w hw
    (sched_extend (R w) 48
      [GET_ULONG_BE data 0, GET_ULONG_BE data 4, GET_ULONG_BE data 8,
       GET_ULONG_BE data 12, GET_ULONG_BE data 16, GET_ULONG_BE data 20, GET_ULONG_BE data 24,
       GET_ULONG_BE data 28, GET_ULONG_BE data 32, GET_ULONG_BE data 36, GET_ULONG_BE data 40,
       GET_ULONG_BE data 44, GET_ULONG_BE data 48, GET_ULONG_BE data 52, GET_ULONG_BE data 56,
       GET_ULONG_BE data 60])
    (List.range 64)
    { a := st.getD 0 0, b := st.getD 1 0, c := st.getD 2 0, d := st.getD 3 0,
      e := st.getD 4 0, f := st.getD 5 0, g := st.getD 6 0, h := st.getD 7 0 }
  have hI : regs_low
      { a := st.getD 0 0, b := st.getD 1 0, c := st.getD 2 0, d := st.getD 3 0,
        e := st.getD 4 0, f := st.getD 5 0, g := st.getD 6 0, h := st.getD 7 0 } =
      { a := (st.map (fun x => x % 2 ^ 32)).getD 0 0,
        b := (st.map (fun x => x % 2 ^ 32)).getD 1 0,
        c := (st.map (fun x => x % 2 ^ 32)).getD 2 0,
        d := (st.map (fun x => x % 2 ^ 32)).getD 3 0,
        e := (st.map (fun x => x % 2 ^ 32)).getD 4 0,
        f := (st.map (fun x => x % 2 ^ 32)).getD 5 0,
        g := (st.map (fun x => x % 2 ^ 32)).getD 6 0,
        h := (st.map (fun x => x % 2 ^ 32)).getD 7 0 } := by
    unfold regs_low
    dsimp only
    rw [getD_map_low, getD_map_low, getD_map_low, getD_map_low, getD_map_low, getD_map_low,
      getD_map_low, getD_map_low]
  rw [sched_extend_low w hw, map_low_of_lt _ (block_words_lt data), block_words_eq, hI] at hS
  unfold process_loop compress_spec rounds64
  dsimp only
  rw [block_words_eq, ← hS]
  simp only [List.map_cons, List.map_nil]
  rw [uadd_low w (st.getD 0 0) _ hw, uadd_low w (st.getD 1 0) _ hw,
    uadd_low w (st.getD 2 0) _ hw, uadd_low w (st.getD 3 0) _ hw,
    uadd_low w (st.getD 4 0) _ hw, uadd_low w (st.getD 5 0) _ hw,
    uadd_low w (st.getD 6 0) _ hw, uadd_low w (st.getD 7 0) _ hw,
    getD_map_low, getD_map_low, getD_map_low, getD_map_low, getD_map_low, getD_map_low,
    getD_map_low, getD_map_low]
  dsimp only [regs_low]

theorem process_loop_lt (w : Nat) (st : List Nat) (data : List Byte) :
    ∀ x ∈ process_loop w st data, x < 2 ^ w := by
  intro x hx
  unfold process_loop at hx
  dsimp only at hx
  simp only [List.mem_cons, List.mem_singleton, List.not_mem_nil, or_false] at hx
  rcases hx with h | h | h | h | h | h | h | h <;>
    (rw [h]; exact Nat.mod_lt _ (Nat.two_pow_pos w))

/-- C3: the macro-unrolled `sha2_process` changes only the state words,
and from every state of 32-bit words and every block the low 32 bits of the
state words that it leaves are the state words of the loop definition:
`W[0..15]` read big-endian from the block,
`W[t] = σ1(W[t-2]) + W[t-7] + σ0(W[t-15]) + W[t-16]` for `t = 16..63`, 64 rounds
with the FIPS 180-2 constants in round order, and each state word incremented by
its working variable, all modulo `2^32`. With a 32-bit `unsigned long` the state
words themselves are those of the loop definition; with a wider `unsigned long`
the code keeps carries above bit 31 in the words, and only their low 32 bits,
the bits that `sha2_finish` writes, are those of the loop definition. -/
theorem C3_unrolled_is_loop (w : Nat) (ctx : sha2_context) (data : List Byte)
    (hw : 32 ≤ w) (hst : ∀ x ∈ ctx.state, x < 2 ^ 32) :
    sha2_process 32 ctx data = { ctx with state := compress_spec ctx.state data } ∧
    sha2_process w ctx data = { ctx with state := (sha2_process w ctx data).state } ∧
    (sha2_process w ctx data).state.map (fun x => x % 2 ^ 32) =
      compress_spec ctx.state data := by
  have h := process_loop_low w hw ctx.state data
  have h32 := process_loop_low 32 (Nat.le_refl 32) ctx.state data
  rw [map_low_of_lt _ hst] at h h32
  rw [map_low_of_lt _ (process_loop_lt 32 ctx.state data)] at h32
  refine ⟨?_, ?_, ?_⟩
  · rw [sha2_process_eq, ← h32, ← sha2_process_state_eq, sha2_process_eq]
  · rw [sha2_process_eq]
  · rw [sha2_process_state_eq]
    exact h

theorem C3_unrolled_is_loop_witness :
    (32 ≤ 64 ∧ ∀ x ∈ (sha2_starts stale_ctx 0).state, x < 2 ^ 32) ∧
    sha2_process 32 (sha2_starts stale_ctx 0) (List.replicate 64 0x61) =
      { sha2_starts stale_ctx 0 with
        state := compress_spec (sha2_starts stale_ctx 0).state (List.replicate 64 0x61) } ∧
    (sha2_process 64 (sha2_starts stale_ctx 0) (List.replicate 64 0x61)).state.map
        (fun x => x % 2 ^ 32) =
      compress_spec (sha2_starts stale_ctx 0).state (List.replicate 64 0x61) :=
  ⟨⟨by decide, by decide⟩,
    (C3_unrolled_is_loop 64 (sha2_starts stale_ctx 0) (List.replicate 64 0x61) (by decide)
      (by decide)).1,
    (C3_unrolled_is_loop 64 (sha2_starts stale_ctx 0) (List.replicate 64 0x61) (by decide)
      (by decide)).2.2⟩

theorem compress_eq_process_loop (w : Nat) (st : List Nat) (data : List Byte) :
    compress w st data = process_loop w st data := by
  unfold compress
  rw [sha2_process_state_eq]

theorem compress_low (w : Nat) (hw : 32 ≤ w) (st : List Nat) (data : List Byte) :
    (compress w st data).map (fun x => x % 2 ^ 32) =
      compress_spec (st.map (fun x => x % 2 ^ 32)) data := by
  rw [compress_eq_process_loop, process_loop_low w hw]

theorem foldl_compress_low (w : Nat) (hw : 32 ≤ w) (bs : List (List Byte)) :
    ∀ st : List Nat,
      (bs.foldl (compress w) st).map (fun x => x % 2 ^ 32) =
        bs.foldl compress_spec (st.map (fun x => x % 2 ^ 32)) := by
  induction bs with
  | nil => intro st; rfl
  | cons b bs ih =>
    intro st
    rw [List.foldl_cons, List.foldl_cons, ih, compress_low w hw]

theorem map_BE32_low (st : List Nat) :
    (st.map (fun x => x % 2 ^ 32)).map BE32 = st.map BE32 := by
  rw [List.map_map]
  apply List.map_congr_left
  intro x _
  exact BE32_mod_pow 32 x (Nat.le_refl 32)

theorem initial_state_lt (v : Int) : ∀ x ∈ initial_state v, x < 2 ^ 32 := by
  unfold initial_state
  split <;> decide

/-- The digest does not depend on the width of `unsigned long`. -/
theorem digest_eq_spec (w : Nat) (hw : 32 ≤ w) (v : Int) (m : List Byte) :
    digest w v m = digest_spec v m := by
  unfold digest digest_spec final_state
  rw [← map_BE32_low, foldl_compress_low w hw, map_low_of_lt _ (initial_state_lt v)]

set_option maxRecDepth 100000 in
/-- The digest of the loop definition for the message `abc`, SHA-256. -/
theorem digest_spec_abc_256 : digest_spec 0 [0x61, 0x62, 0x63] =
    [0xba, 0x78, 0x16, 0xbf, 0x8f, 0x01, 0xcf, 0xea, 0x41, 0x41, 0x40, 0xde, 0x5d, 0xae, 0x22,
     0x23, 0xb0, 0x03, 0x61, 0xa3, 0x96, 0x17, 0x7a, 0x9c, 0xb4, 0x10, 0xff, 0x61, 0xf2, 0x00,
     0x15, 0xad] := by
  decide

set_option maxRecDepth 100000 in
/-- The digest of the loop definition for the message `abc`, SHA-224. -/
theorem digest_spec_abc_224 : digest_spec 1 [0x61, 0x62, 0x63] =
    [0x23, 0x09, 0x7d, 0x22, 0x34, 0x05, 0xd8, 0x22, 0x86, 0x42, 0xa4, 0x77, 0xbd, 0xa2, 0x55,
     0xb3, 0x2a, 0xad, 0xbc, 0xe4, 0xbd, 0xa0, 0xb3, 0xf7, 0xe3, 0x6c, 0x9d, 0xa7] := by
  decide

/-- C12: `sha2` of the three bytes `abc` with `is224 = 0` writes the 32 bytes
`ba7816bf 8f01cfea 414140de 5dae2223 b00361a3 96177a9c b410ff61 f20015ad` at the
start of `output`, for every width of `unsigned long` of 32 bits or more and
whatever the automatic variables held before. -/
theorem C12_sha256_abc (w : Nat) (u : Locals) (output : List Byte) (hw : 32 ≤ w) :
    sha2 w u [0x61, 0x62, 0x63] output 0 =
      [0xba, 0x78, 0x16, 0xbf, 0x8f, 0x01, 0xcf, 0xea, 0x41, 0x41, 0x40, 0xde, 0x5d, 0xae, 0x22,
       0x23, 0xb0, 0x03, 0x61, 0xa3, 0x96, 0x17, 0x7a, 0x9c, 0xb4, 0x10, 0xff, 0x61, 0xf2, 0x00,
       0x15, 0xad] ++ output.drop 32 := by
  rw [sha2_eq_digest w u _ output 0 hw (by decide), digest_eq_spec w hw, store_zero,
    digest_spec_abc_256]
  rfl

theorem C12_sha256_abc_witness :
    32 ≤ 64 ∧
    sha2 64 stale_locals [0x61, 0x62, 0x63] (List.replicate 32 0) 0 =
      [0xba, 0x78, 0x16, 0xbf, 0x8f, 0x01, 0xcf, 0xea, 0x41, 0x41, 0x40, 0xde, 0x5d, 0xae, 0x22,
       0x23, 0xb0, 0x03, 0x61, 0xa3, 0x96, 0x17, 0x7a, 0x9c, 0xb4, 0x10, 0xff, 0x61, 0xf2, 0x00,
       0x15, 0xad] ++ (List.replicate 32 (0 : Byte)).drop 32 :=
  ⟨by decide, C12_sha256_abc 64 stale_locals (List.replicate 32 0) (by decide)⟩

/-- C13: `sha2` of the three bytes `abc` with `is224 = 1` writes the 28 bytes
`23097d22 3405d822 8642a477 bda255b3 2aadbce4 bda0b3f7 e36c9da7` at the start of
`output` and leaves the bytes of `output` from offset 28 on as they were. -/
theorem C13_sha224_abc (w : Nat) (u : Locals) (output : List Byte) (hw : 32 ≤ w) :
    sha2 w u [0x61, 0x62, 0x63] output 1 =
      [0x23, 0x09, 0x7d, 0x22, 0x34, 0x05, 0xd8, 0x22, 0x86, 0x42, 0xa4, 0x77, 0xbd, 0xa2, 0x55,
       0xb3, 0x2a, 0xad, 0xbc, 0xe4, 0xbd, 0xa0, 0xb3, 0xf7, 0xe3, 0x6c, 0x9d, 0xa7] ++
        output.drop 28 := by
  rw [sha2_eq_digest w u _ output 1 hw (by decide), digest_eq_spec w hw, store_zero,
    digest_spec_abc_224]
  rfl

theorem C13_sha224_abc_witness :
    32 ≤ 32 ∧
    sha2 32 stale_locals [0x61, 0x62, 0x63] (List.replicate 32 0xEE) 1 =
      [0x23, 0x09, 0x7d, 0x22, 0x34, 0x05, 0xd8, 0x22, 0x86, 0x42, 0xa4, 0x77, 0xbd, 0xa2, 0x55,
       0xb3, 0x2a, 0xad, 0xbc, 0xe4, 0xbd, 0xa0, 0xb3, 0xf7, 0xe3, 0x6c, 0x9d, 0xa7] ++
        (List.replicate 32 (0xEE : Byte)).drop 28 :=
  ⟨by decide, C13_sha224_abc 32 stale_locals (List.replicate 32 0xEE) (by decide)⟩

theorem hmac_digest_eq_spec (w : Nat) (hw : 32 ≤ w) (v : Int) (K m : List Byte) :
    hmac_digest w v K m = hmac_spec v K m := by
  unfold hmac_digest hmac_spec
  rw [digest_eq_spec w hw, digest_eq_spec w hw]

theorem hmac_digest_fun_eq_spec (w : Nat) (hw : 32 ≤ w) (password : List Byte)
    (hp : password.length ≤ 64) :
    hmac_digest w 0 (hmac_key w 0 password) = hmac_spec 0 password := by
  funext m
  rw [hmac_key_of_le w 0 password hp, hmac_digest_eq_spec w hw]

/-- The output of `PKCS5_PBKDF2_HMAC` for a password of at most 64 bytes, with
the loop definition of the compression function. -/
theorem PKCS5_PBKDF2_HMAC_eq_spec (w : Nat) (u : Locals) (password salt : List Byte) (c L : Nat)
    (output : List Byte) (hw : 32 ≤ w) (hp : password.length ≤ 64)
    (hs : salt.length < 2 ^ 32) (hc : c < 2 ^ 32) (hL : L < 2 ^ 32) :
    PKCS5_PBKDF2_HMAC w u password salt c L output =
      (pbkdf2_stream (hmac_spec 0 password) salt c ((L + 31) / 32)).take L ++ output.drop L := by
  have h32 : 2 ^ 32 ≤ 2 ^ w := Nat.pow_le_pow_right (by decide) hw
  rw [PKCS5_PBKDF2_HMAC_eq w u password salt c L output hw (by omega) hs (by omega) (by omega),
    hmac_digest_fun_eq_spec w hw password hp]

set_option maxRecDepth 100000 in
/-- HMAC-SHA-256 of `Hi There` under the key of 20 bytes `0x0b`. -/
theorem hmac_spec_hi_there :
    hmac_spec 0 (List.replicate 20 0x0b) [0x48, 0x69, 0x20, 0x54, 0x68, 0x65, 0x72, 0x65] =
      [0xb0, 0x34, 0x4c, 0x61, 0xd8, 0xdb, 0x38, 0x53, 0x5c, 0xa8, 0xaf, 0xce, 0xaf, 0x0b, 0xf1,
       0x2b, 0x88, 0x1d, 0xc2, 0x00, 0xc9, 0x83, 0x3d, 0xa7, 0x26, 0xe9, 0x37, 0x6c, 0x2e, 0x32,
       0xcf, 0xf7] := by
  decide

set_option maxRecDepth 100000 in
/-- The first block of PBKDF2 for `password`, `salt` and one iteration. -/
theorem pbkdf2_spec_password_salt_1 :
    (pbkdf2_stream (hmac_spec 0 [0x70, 0x61, 0x73, 0x73, 0x77, 0x6f, 0x72, 0x64])
        [0x73, 0x61, 0x6c, 0x74] 1 ((32 + 31) / 32)).take 32 =
      [0x12, 0x0f, 0xb6, 0xcf, 0xfc, 0xf8, 0xb3, 0x2c, 0x43, 0xe7, 0x22, 0x52, 0x56, 0xc4, 0xf8,
       0x37, 0xa8, 0x65, 0x48, 0xc9, 0x2c, 0xcc, 0x35, 0x48, 0x08, 0x05, 0x98, 0x7c, 0xb7, 0x0b,
       0xe1, 0x7b] := by
  decide

set_option maxRecDepth 100000 in
/-- The first block of PBKDF2 for `password`, `salt` and two iterations. -/
theorem pbkdf2_spec_password_salt_2 :
    (pbkdf2_stream (hmac_spec 0 [0x70, 0x61, 0x73, 0x73, 0x77, 0x6f, 0x72, 0x64])
        [0x73, 0x61, 0x6c, 0x74] 2 ((32 + 31) / 32)).take 32 =
      [0xae, 0x4d, 0x0c, 0x95, 0xaf, 0x6b, 0x46, 0xd3, 0x2d, 0x0a, 0xdf, 0xf9, 0x28, 0xf0, 0x6d,
       0xd0, 0x2a, 0x30, 0x3f, 0x8e, 0xf3, 0xc2, 0x51, 0xdf, 0xd6, 0xe2, 0xd8, 0x5a, 0x95, 0x47,
       0x4c, 0x43] := by
  decide

theorem getD_tail (a : List Byte) (i : Nat) : a.tail.getD i 0 = a.getD (i + 1) 0 := by
  cases a <;> simp

theorem memcmp_eq_zero_iff :
    ∀ (n : Nat) (a b : List Byte), memcmp a b n = 0 ↔ ∀ i, i < n → a.getD i 0 = b.getD i 0 := by
  intro n
  induction n with
  | zero => intro a b; simp [memcmp]
  | succ n ih =>
    intro a b
    by_cases h : a.getD 0 0 = b.getD 0 0
    · rw [memcmp, if_pos h, ih]
      constructor
      · intro hh i hi
        cases i with
        | zero => exact h
        | succ i =>
          have := hh i (by omega)
          rw [getD_tail, getD_tail] at this
          exact this
      · intro hh i hi
        rw [getD_tail, getD_tail]
        exact hh (i + 1) (by omega)
    · rw [memcmp, if_neg h]
      constructor
      · intro hh
        exfalso
        apply h
        have h2 : ((a.getD 0 0).toNat : Int) = ((b.getD 0 0).toNat : Int) := by omega
        have h3 : (a.getD 0 0).toNat = (b.getD 0 0).toNat := by exact_mod_cast h2
        cases ha : a.getD 0 0 with
        | mk x =>
          cases hb : b.getD 0 0 with
          | mk y =>
            rw [ha, hb] at h3
            congr 1
            exact BitVec.eq_of_toNat_eq h3
      · intro hh
        exact absurd (hh 0 (by omega)) h

theorem do_test_stdout (w : Nat) (u : Locals) (malloc : Nat → Option (List Byte))
    (tv : testvector) (stdout : List String) :
    (do_test w u malloc tv stdout).2 = stdout ++ ["Started " ++ tv.t ++ "\n"] := by
  unfold do_test
  dsimp only
  split
  · rfl
  · split <;> rfl

theorem do_test_result (w : Nat) (u : Locals) (malloc : Nat → Option (List Byte))
    (tv : testvector) (stdout : List String) :
    (do_test w u malloc tv stdout).1 = (do_test w u malloc tv []).1 := by
  unfold do_test
  dsimp only
  split
  · rfl
  · split <;> rfl

theorem do_test_eq_zero_iff (w : Nat) (u : Locals) (malloc : Nat → Option (List Byte))
    (tv : testvector) (stdout : List String) (key : List Byte)
    (hm : malloc tv.dkLen = some key) :
    (do_test w u malloc tv stdout).1 = 0 ↔
      ∀ i, i < tv.dkLen →
        tv.dk.getD i 0 =
          (PKCS5_PBKDF2_HMAC w u (tv.p.take tv.plen) (tv.s.take tv.slen) tv.c tv.dkLen
            key).getD i 0 := by
  unfold do_test
  rw [hm]
  dsimp only
  rw [← memcmp_eq_zero_iff]
  by_cases h : memcmp tv.dk
      (PKCS5_PBKDF2_HMAC w u (tv.p.take tv.plen) (tv.s.take tv.slen) tv.c tv.dkLen key)
      tv.dkLen = 0
  · rw [if_neg (not_not.mpr h)]
    exact ⟨fun _ => h, fun _ => rfl⟩
  · rw [if_pos h]
    constructor
    · intro h2
      have h3 : (-1 : Int) = 0 := h2
      exact absurd h3 (by decide)
    · intro h2
      exact absurd h2 h

theorem do_test_values (w : Nat) (u : Locals) (malloc : Nat → Option (List Byte))
    (tv : testvector) (stdout : List String) :
    (do_test w u malloc tv stdout).1 = 0 ∨ (do_test w u malloc tv stdout).1 = -1 := by
  unfold do_test
  dsimp only
  split
  · right; rfl
  · split
    · right; rfl
    · left; rfl

theorem main_pbkdf2_eq_zero_iff (w : Nat) (u : Locals) (malloc : Nat → Option (List Byte))
    (t1 t2 t3 t4 t5 t6 : testvector) (stdout : List String) :
    (main_pbkdf2 w u malloc t1 t2 t3 t4 t5 t6 stdout).1 = 0 ↔
      (do_test w u malloc t1 []).1 = 0 ∧ (do_test w u malloc t2 []).1 = 0 ∧
        (do_test w u malloc t3 []).1 = 0 ∧ (do_test w u malloc t5 []).1 = 0 ∧
        (do_test w u malloc t6 []).1 = 0 := by
  unfold main_pbkdf2
  dsimp only
  rw [do_test_result w u malloc t1 stdout, do_test_result w u malloc t2 _,
    do_test_result w u malloc t3 _, do_test_result w u malloc t5 _,
    do_test_result w u malloc t6 _]
  rcases do_test_values w u malloc t1 [] with h1 | h1 <;>
  rcases do_test_values w u malloc t2 [] with h2 | h2 <;>
  rcases do_test_values w u malloc t3 [] with h3 | h3 <;>
  rcases do_test_values w u malloc t5 [] with h5 | h5 <;>
  rcases do_test_values w u malloc t6 [] with h6 | h6 <;>
  simp [h1, h2, h3, h5, h6]

/-- Every line that the PBKDF2 part of `main` writes is the start line or the
failure line of the first, second, third, fifth or sixth test vector. -/
theorem main_pbkdf2_stdout (w : Nat) (u : Locals) (malloc : Nat → Option (List Byte))
    (t1 t2 t3 t4 t5 t6 : testvector) :
    ∀ l ∈ (main_pbkdf2 w u malloc t1 t2 t3 t4 t5 t6 []).2,
      l ∈ ["Started " ++ t1.t ++ "\n", t1.t ++ " failed\n",
           "Started " ++ t2.t ++ "\n", t2.t ++ " failed\n",
           "Started " ++ t3.t ++ "\n", t3.t ++ " failed\n",
           "Started " ++ t5.t ++ "\n", t5.t ++ " failed\n",
           "Started " ++ t6.t ++ "\n", t6.t ++ " failed\n"] := by
  intro l hl
  unfold main_pbkdf2 at hl
  dsimp only at hl
  simp only [do_test_stdout] at hl
  split at hl
  · simp only [List.mem_append, List.mem_cons, List.mem_singleton, List.not_mem_nil,
      or_false, false_or] at hl ⊢
    tauto
  · split at hl
    · simp only [List.mem_append, List.mem_cons, List.mem_singleton, List.not_mem_nil,
        or_false, false_or] at hl ⊢
      tauto
    · split at hl
      · simp only [List.mem_append, List.mem_cons, List.mem_singleton, List.not_mem_nil,
          or_false, false_or] at hl ⊢
        tauto
      · split at hl
        · simp only [List.mem_append, List.mem_cons, List.mem_singleton, List.not_mem_nil,
            or_false, false_or] at hl ⊢
          tauto
        · split at hl
          · simp only [List.mem_append, List.mem_cons, List.mem_singleton, List.not_mem_nil,
              or_false, false_or] at hl ⊢
            tauto
          · simp only [List.mem_append, List.mem_cons, List.mem_singleton, List.not_mem_nil,
              or_false, false_or] at hl ⊢
            tauto

/-- C14: `sha2_hmac` with the key of 20 bytes `0x0b`, the 8 bytes `Hi There` and
`is224 = 0` writes the 32 bytes
`b0344c61 d8db3853 5ca8afce af0bf12b 881dc200 c9833da7 26e9376c 2e32cff7` at the
start of `output`, for every width of `unsigned long` of 32 bits or more. -/
theorem C14_hmac_sha256_hi_there (w : Nat) (u : Locals) (output : List Byte) (hw : 32 ≤ w) :
    sha2_hmac w u (List.replicate 20 0x0b) [0x48, 0x69, 0x20, 0x54, 0x68, 0x65, 0x72, 0x65]
        output 0 =
      [0xb0, 0x34, 0x4c, 0x61, 0xd8, 0xdb, 0x38, 0x53, 0x5c, 0xa8, 0xaf, 0xce, 0xaf, 0x0b, 0xf1,
       0x2b, 0x88, 0x1d, 0xc2, 0x00, 0xc9, 0x83, 0x3d, 0xa7, 0x26, 0xe9, 0x37, 0x6c, 0x2e, 0x32,
       0xcf, 0xf7] ++ output.drop 32 := by
  have hk : (List.replicate 20 (0x0b : Byte)).length = 20 := List.length_replicate _ _
  rw [sha2_hmac_eq w u _ _ output 0 hw (by rw [hk]; decide) (by decide),
    hmac_key_of_le w 0 _ (by rw [hk]; decide), hmac_digest_eq_spec w hw, hmac_spec_hi_there,
    store_zero]
  rfl

theorem C14_hmac_sha256_hi_there_witness :
    32 ≤ 64 ∧
    sha2_hmac 64 stale_locals (List.replicate 20 0x0b)
        [0x48, 0x69, 0x20, 0x54, 0x68, 0x65, 0x72, 0x65] (List.replicate 32 0) 0 =
      [0xb0, 0x34, 0x4c, 0x61, 0xd8, 0xdb, 0x38, 0x53, 0x5c, 0xa8, 0xaf, 0xce, 0xaf, 0x0b, 0xf1,
       0x2b, 0x88, 0x1d, 0xc2, 0x00, 0xc9, 0x83, 0x3d, 0xa7, 0x26, 0xe9, 0x37, 0x6c, 0x2e, 0x32,
       0xcf, 0xf7] ++ (List.replicate 32 (0 : Byte)).drop 32 :=
  ⟨by decide, C14_hmac_sha256_hi_there 64 stale_locals (List.replicate 32 0) (by decide)⟩

/-- The key that `PKCS5_PBKDF2_HMAC` derives from `password` and `salt` with one
iteration. -/
theorem pbkdf2_password_salt_1 (w : Nat) (u : Locals) (output : List Byte) (hw : 32 ≤ w) :
    PKCS5_PBKDF2_HMAC w u [0x70, 0x61, 0x73, 0x73, 0x77, 0x6f, 0x72, 0x64]
        [0x73, 0x61, 0x6c, 0x74] 1 32 output =
      [0x12, 0x0f, 0xb6, 0xcf, 0xfc, 0xf8, 0xb3, 0x2c, 0x43, 0xe7, 0x22, 0x52, 0x56, 0xc4, 0xf8,
       0x37, 0xa8, 0x65, 0x48, 0xc9, 0x2c, 0xcc, 0x35, 0x48, 0x08, 0x05, 0x98, 0x7c, 0xb7, 0x0b,
       0xe1, 0x7b] ++ output.drop 32 := by
  rw [PKCS5_PBKDF2_HMAC_eq_spec w u _ _ 1 32 output hw (by decide) (by decide) (by decide)
    (by decide), pbkdf2_spec_password_salt_1]

/-- The key that `PKCS5_PBKDF2_HMAC` derives from `password` and `salt` with two
iterations. -/
theorem pbkdf2_password_salt_2 (w : Nat) (u : Locals) (output : List Byte) (hw : 32 ≤ w) :
    PKCS5_PBKDF2_HMAC w u [0x70, 0x61, 0x73, 0x73, 0x77, 0x6f, 0x72, 0x64]
        [0x73, 0x61, 0x6c, 0x74] 2 32 output =
      [0xae, 0x4d, 0x0c, 0x95, 0xaf, 0x6b, 0x46, 0xd3, 0x2d, 0x0a, 0xdf, 0xf9, 0x28, 0xf0, 0x6d,
       0xd0, 0x2a, 0x30, 0x3f, 0x8e, 0xf3, 0xc2, 0x51, 0xdf, 0xd6, 0xe2, 0xd8, 0x5a, 0x95, 0x47,
       0x4c, 0x43] ++ output.drop 32 := by
  rw [PKCS5_PBKDF2_HMAC_eq_spec w u _ _ 2 32 output hw (by decide) (by decide) (by decide)
    (by decide), pbkdf2_spec_password_salt_2]

/-- The hex rendering of the key that `PKCS5_PBKDF2_HMAC` derives from `password`
and `salt` with one iteration is not the string of the specification, with or
without its blank: the string has 65 digits, and from the 45th digit on it is
not the rendering of the key. -/
theorem C15_spec_string_is_not_the_key :
    hex_string (PKCS5_PBKDF2_HMAC 32 stale_locals [0x70, 0x61, 0x73, 0x73, 0x77, 0x6f, 0x72, 0x64]
        [0x73, 0x61, 0x6c, 0x74] 1 32 (List.replicate 32 0)) ≠
      "120fb6cffcf8b32c43e7225256c4f837a86548c92cccc3548080598 7cb70be17b" ∧
    hex_string (PKCS5_PBKDF2_HMAC 32 stale_locals [0x70, 0x61, 0x73, 0x73, 0x77, 0x6f, 0x72, 0x64]
        [0x73, 0x61, 0x6c, 0x74] 1 32 (List.replicate 32 0)) ≠
      "120fb6cffcf8b32c43e7225256c4f837a86548c92cccc35480805987cb70be17b" := by
  rw [pbkdf2_password_salt_1 32 stale_locals _ (Nat.le_refl 32)]
  decide

/-- C15 (amended): `PKCS5_PBKDF2_HMAC` with the password `password`, the salt
`salt`, `iteration_count = 1` and `key_length = 32` writes the 32 bytes whose hex
rendering is `120fb6cffcf8b32c43e7225256c4f837a86548c92ccc35480805987cb70be17b`,
the vector of self-test Test 1, for every width of `unsigned long` of 32 bits or
more. -/
theorem C15_pbkdf2_one_iteration (w : Nat) (u : Locals) (output : List Byte) (hw : 32 ≤ w) :
    PKCS5_PBKDF2_HMAC w u [0x70, 0x61, 0x73, 0x73, 0x77, 0x6f, 0x72, 0x64]
        [0x73, 0x61, 0x6c, 0x74] 1 32 output =
      [0x12, 0x0f, 0xb6, 0xcf, 0xfc, 0xf8, 0xb3, 0x2c, 0x43, 0xe7, 0x22, 0x52, 0x56, 0xc4, 0xf8,
       0x37, 0xa8, 0x65, 0x48, 0xc9, 0x2c, 0xcc, 0x35, 0x48, 0x08, 0x05, 0x98, 0x7c, 0xb7, 0x0b,
       0xe1, 0x7b] ++ output.drop 32 ∧
    hex_string ((PKCS5_PBKDF2_HMAC w u [0x70, 0x61, 0x73, 0x73, 0x77, 0x6f, 0x72, 0x64]
        [0x73, 0x61, 0x6c, 0x74] 1 32 output).take 32) =
      "120fb6cffcf8b32c43e7225256c4f837a86548c92ccc35480805987cb70be17b" := by
  rw [pbkdf2_password_salt_1 w u output hw]
  refine ⟨rfl, ?_⟩
  rw [List.take_left' (by rfl)]
  decide

theorem C15_pbkdf2_one_iteration_witness :
    32 ≤ 64 ∧
    hex_string ((PKCS5_PBKDF2_HMAC 64 stale_locals [0x70, 0x61, 0x73, 0x73, 0x77, 0x6f, 0x72, 0x64]
        [0x73, 0x61, 0x6c, 0x74] 1 32 (List.replicate 32 0)).take 32) =
      "120fb6cffcf8b32c43e7225256c4f837a86548c92ccc35480805987cb70be17b" :=
  ⟨by decide, (C15_pbkdf2_one_iteration 64 stale_locals (List.replicate 32 0) (by decide)).2⟩

/-- The PBKDF2 part of `main` never starts Test 4: no line `Started Test 4` is
written, whatever the other tests give, because the call of `do_test` for the
fourth test vector is commented out. -/
theorem C16_test_4_is_never_started :
    "Started Test 4\n" ∉
      (main_pbkdf2 32 stale_locals stale_malloc testvector_t1 testvector_t2 testvector_t3
        testvector_t4 testvector_t5 testvector_t6 []).2 ∧
    "Started " ++ testvector_t4.t ++ "\n" = "Started Test 4\n" := by
  constructor
  · intro h
    have h2 := main_pbkdf2_stdout 32 stale_locals stale_malloc testvector_t1 testvector_t2
      testvector_t3 testvector_t4 testvector_t5 testvector_t6 _ h
    revert h2
    decide
  · decide

/-- C16 (amended): `PKCS5_PBKDF2_HMAC` with the password `password`, the salt
`salt`, `iteration_count = 2` and `key_length = 32` writes the 32 bytes
`ae4d0c95 af6b46d3 2d0adff9 28f06dd0 2a303f8e f3c251df d6e2d85a 95474c43`, so that
`do_test` returns 0 for the test vector `t2`; for every test vector `do_test`
returns 0 exactly when the derived key equals the vector at every index below
`dkLen`; and the PBKDF2 part of `main` returns 0 exactly when `do_test` does for
the first, second, third, fifth and sixth test vector: the fourth is not run. -/
theorem C16_pbkdf2_two_iterations (w : Nat) (u : Locals) (output : List Byte)
    (malloc : Nat → Option (List Byte)) (key : List Byte) (stdout : List String)
    (hw : 32 ≤ w) (hm : malloc 32 = some key) :
    PKCS5_PBKDF2_HMAC w u [0x70, 0x61, 0x73, 0x73, 0x77, 0x6f, 0x72, 0x64]
        [0x73, 0x61, 0x6c, 0x74] 2 32 output =
      [0xae, 0x4d, 0x0c, 0x95, 0xaf, 0x6b, 0x46, 0xd3, 0x2d, 0x0a, 0xdf, 0xf9, 0x28, 0xf0, 0x6d,
       0xd0, 0x2a, 0x30, 0x3f, 0x8e, 0xf3, 0xc2, 0x51, 0xdf, 0xd6, 0xe2, 0xd8, 0x5a, 0x95, 0x47,
       0x4c, 0x43] ++ output.drop 32 ∧
    (do_test w u malloc testvector_t2 stdout).1 = 0 ∧
    (∀ (tv : testvector) (k : List Byte), malloc tv.dkLen = some k →
      ((do_test w u malloc tv stdout).1 = 0 ↔
        ∀ i, i < tv.dkLen →
          tv.dk.getD i 0 =
            (PKCS5_PBKDF2_HMAC w u (tv.p.take tv.plen) (tv.s.take tv.slen) tv.c tv.dkLen
              k).getD i 0)) ∧
    ((main_pbkdf2 w u malloc testvector_t1 testvector_t2 testvector_t3 testvector_t4
        testvector_t5 testvector_t6 stdout).1 = 0 ↔
      (do_test w u malloc testvector_t1 []).1 = 0 ∧ (do_test w u malloc testvector_t2 []).1 = 0 ∧
        (do_test w u malloc testvector_t3 []).1 = 0 ∧
        (do_test w u malloc testvector_t5 []).1 = 0 ∧
        (do_test w u malloc testvector_t6 []).1 = 0) := by
  refine ⟨pbkdf2_password_salt_2 w u output hw, ?_,
    fun tv k hk => do_test_eq_zero_iff w u malloc tv stdout k hk,
    main_pbkdf2_eq_zero_iff w u malloc _ _ _ _ _ _ stdout⟩
  rw [do_test_eq_zero_iff w u malloc testvector_t2 stdout key hm]
  intro i hi
  have hi32 : i < 32 := hi
  have e : PKCS5_PBKDF2_HMAC w u (testvector_t2.p.take testvector_t2.plen)
      (testvector_t2.s.take testvector_t2.slen) testvector_t2.c testvector_t2.dkLen key =
      [0xae, 0x4d, 0x0c, 0x95, 0xaf, 0x6b, 0x46, 0xd3, 0x2d, 0x0a, 0xdf, 0xf9, 0x28, 0xf0, 0x6d,
       0xd0, 0x2a, 0x30, 0x3f, 0x8e, 0xf3, 0xc2, 0x51, 0xdf, 0xd6, 0xe2, 0xd8, 0x5a, 0x95, 0x47,
       0x4c, 0x43] ++ key.drop 32 := pbkdf2_password_salt_2 w u key hw
  rw [e]
  unfold testvector_t2
  dsimp only
  rw [List.getD_append _ _ _ _ (by exact hi32), List.getD_append _ _ _ _ (by exact hi32)]

theorem C16_pbkdf2_two_iterations_witness :
    (32 ≤ 32 ∧ stale_malloc 32 = some (List.replicate 32 0xEE)) ∧
    (do_test 32 stale_locals stale_malloc testvector_t2 []).1 = 0 :=
  ⟨⟨by decide, rfl⟩,
    (C16_pbkdf2_two_iterations 32 stale_locals [] stale_malloc (List.replicate 32 0xEE) []
      (by decide) rfl).2.1⟩

theorem total0_next_any (w t0 n : Nat) (hw : 32 ≤ w) :
    total0_next w t0 n = (t0 + n) % 2 ^ 32 := by
  have hP : 2 ^ 32 ∣ 2 ^ w := Nat.pow_dvd_pow 2 hw
  unfold total0_next uadd
  rw [and_FFFFFFFF, Nat.mod_mod_of_dvd _ hP, Nat.add_mod, Nat.mod_mod_of_dvd _ hP, ← Nat.add_mod]

theorem sha2_update_body_totals (w : Nat) (ctx : sha2_context) (left : Nat) (x : List Byte) :
    (sha2_update_body w ctx left x).total0 = ctx.total0 ∧
    (sha2_update_body w ctx left x).total1 = ctx.total1 := by
  unfold sha2_update_body
  by_cases c1 : left ≠ 0 ∧ x.length ≥ 64 - left
  · simp only [if_pos c1]
    rw [sha2_update_loop_eq w _ _ _ (Nat.div_le_self _ _), sha2_process_eq]
    dsimp only
    split <;> exact ⟨rfl, rfl⟩
  · simp only [if_neg c1]
    rw [sha2_update_loop_eq w _ _ _ (Nat.div_le_self _ _)]
    dsimp only
    split <;> exact ⟨rfl, rfl⟩

/-- The two counter words after `sha2_update` on a non-empty input. -/
theorem sha2_update_totals_eq (w : Nat) (ctx : sha2_context) (x : List Byte)
    (h0 : x.length ≠ 0) :
    (sha2_update w ctx x).total0 = total0_next w ctx.total0 x.length ∧
    (sha2_update w ctx x).total1 = total1_next w ctx.total0 ctx.total1 x.length := by
  obtain ⟨_, _, _, _, _, t6, t7⟩ := sha2_update_totals_fields w ctx x.length
  obtain ⟨b1, b2⟩ := sha2_update_body_totals w (sha2_update_totals w ctx x.length)
    (ctx.total0 &&& 0x3F) x
  rw [sha2_update_eq w ctx x h0, b1, b2, t6, t7]
  exact ⟨rfl, rfl⟩

theorem streaming_starts (w : Nat) (ctx : sha2_context) (v : Int) :
    Streaming w v [] (sha2_starts ctx v) :=
  let h := absorbed_starts w ctx v
  ⟨h.is224, h.total0, h.state, h.buffer⟩

theorem streaming_update (w : Nat) (v : Int) (m x : List Byte) (ctx : sha2_context)
    (hw : 32 ≤ w) (h : Streaming w v m ctx) :
    Streaming w v (m ++ x) (sha2_update w ctx x) := by
  by_cases h0 : x.length = 0
  · have hx0 : x = [] := List.length_eq_zero.mp h0
    subst hx0
    rw [sha2_update_nil, List.append_nil]
    exact h
  · have hleft : ctx.total0 &&& 0x3F = m.length % 64 := by
      rw [and_3F, h.total0]; omega
    obtain ⟨t1, t2, t3, t4, t5, t6, t7⟩ := sha2_update_totals_fields w ctx x.length
    have hb : (sha2_update_totals w ctx x.length).buffer.take (ctx.total0 &&& 0x3F) = tail64 m := by
      rw [t2, hleft, h.buffer]
    obtain ⟨b1, b2, b3, b4, b5, b6, b7⟩ := sha2_update_body_spec w
      (sha2_update_totals w ctx x.length) (ctx.total0 &&& 0x3F) x (tail64 m) hb
      (by rw [tail64_length, hleft]) (by rw [hleft]; omega)
    rw [sha2_update_eq w ctx x h0]
    refine ⟨?_, ?_, ?_, ?_⟩
    · rw [b3, t3, h.is224]
    · rw [b6, t6, total0_next_any w _ _ hw, h.total0, List.length_append]
      omega
    · rw [b1, t1, h.state, blocks_append m x, List.foldl_append]
    · rw [tail64_append m x, ← b2]
      congr 1
      rw [List.length_append, List.length_append, tail64_length]
      omega

theorem streaming_foldl_update (w : Nat) (v : Int) (hw : 32 ≤ w) (chunks : List (List Byte)) :
    ∀ (m : List Byte) (ctx : sha2_context), Streaming w v m ctx →
      Streaming w v (m ++ chunks.flatten) (chunks.foldl (sha2_update w) ctx) := by
  induction chunks with
  | nil => intro m ctx h; simpa using h
  | cons c cs ih =>
    intro m ctx h
    have h1 := streaming_update w v m c ctx hw h
    have h2 := ih (m ++ c) (sha2_update w ctx c) h1
    simpa [List.append_assoc] using h2

theorem foldl_sha2_process_state (w : Nat) (bs : List (List Byte)) :
    ∀ ctx : sha2_context,
      (bs.foldl (sha2_process w) ctx).state = bs.foldl (compress w) ctx.state := by
  induction bs with
  | nil => intro ctx; rfl
  | cons b bs ih =>
    intro ctx
    rw [List.foldl_cons, List.foldl_cons, ih, sha2_process_eq]

theorem blocksN_eq_range :
    ∀ (q : Nat) (l : List Byte),
      blocksN q l = (List.range q).map (fun i => (l.drop (64 * i)).take 64) := by
  intro q
  induction q with
  | zero => intro l; rfl
  | succ q ih =>
    intro l
    rw [blocksN, ih, List.range_succ_eq_map, List.map_cons, List.map_map]
    congr 1
    apply List.map_congr_left
    intro i _
    show ((l.drop 64).drop (64 * i)).take 64 = (l.drop (64 * (i + 1))).take 64
    rw [List.drop_drop]
    congr 2
    omega

theorem tail64_eq_drop (m : List Byte) : tail64 m = m.drop (m.length - m.length % 64) := by
  unfold tail64
  congr 1
  omega

/-- The two counter words hold the number of bytes absorbed, modulo the width of
the counter, when every call of `sha2_update` has fewer than `2^32` bytes. -/
theorem sha2_update_counter (w : Nat) (ctx0 : sha2_context) (v : Int)
    (chunks : List (List Byte)) (hw : 32 ≤ w) (hc : ∀ c ∈ chunks, c.length < 2 ^ 32) :
    (chunks.foldl (sha2_update w) (sha2_starts ctx0 v)).total0 < 2 ^ 32 ∧
    (chunks.foldl (sha2_update w) (sha2_starts ctx0 v)).total0 +
        2 ^ 32 * (chunks.foldl (sha2_update w) (sha2_starts ctx0 v)).total1 =
      (chunks.map List.length).sum % (2 ^ 32 * 2 ^ w) := by
  have h := absorbed_foldl_update w v hw chunks [] _ hc (absorbed_starts w ctx0 v)
  rw [List.nil_append] at h
  rw [h.total0, h.total1, List.length_flatten]
  refine ⟨Nat.mod_lt _ (by decide), ?_⟩
  rw [Nat.mod_mul]

/-- C11: with `unsigned long` and `size_t` of 64 bits, after `sha2_starts` one
call of `sha2_update` with `2^33` bytes leaves `total[0] = 0` and `total[1] = 1`,
a count of `2^32` bytes that differs from the `2^33` bytes absorbed modulo the
width of the counter: the test `total[0] < ilen` adds one carry at most. The same bytes given in two calls of
`2^32` bytes leave `total[1] = 2`. -/
theorem C11_counter_misses_carry :
    (sha2_update 64 (sha2_starts stale_ctx 0) (List.replicate (2 ^ 33) 0)).total0 = 0 ∧
    (sha2_update 64 (sha2_starts stale_ctx 0) (List.replicate (2 ^ 33) 0)).total1 = 1 ∧
    (sha2_update 64 (sha2_update 64 (sha2_starts stale_ctx 0) (List.replicate (2 ^ 32) 0))
      (List.replicate (2 ^ 32) 0)).total0 = 0 ∧
    (sha2_update 64 (sha2_update 64 (sha2_starts stale_ctx 0) (List.replicate (2 ^ 32) 0))
      (List.replicate (2 ^ 32) 0)).total1 = 2 ∧
    (sha2_update 64 (sha2_starts stale_ctx 0) (List.replicate (2 ^ 33) 0)).total0 +
        2 ^ 32 * (sha2_update 64 (sha2_starts stale_ctx 0) (List.replicate (2 ^ 33) 0)).total1 ≠
      (List.replicate (2 ^ 33) (0 : Byte)).length % (2 ^ 32 * 2 ^ 64) := by
  have l33 : (List.replicate (2 ^ 33) (0 : Byte)).length = 2 ^ 33 := List.length_replicate _ _
  have l32 : (List.replicate (2 ^ 32) (0 : Byte)).length = 2 ^ 32 := List.length_replicate _ _
  have s0 : (sha2_starts stale_ctx 0).total0 = 0 := rfl
  have s1 : (sha2_starts stale_ctx 0).total1 = 0 := rfl
  obtain ⟨a0, a1⟩ := sha2_update_totals_eq 64 (sha2_starts stale_ctx 0)
    (List.replicate (2 ^ 33) 0) (by rw [l33]; decide)
  obtain ⟨b0, b1⟩ := sha2_update_totals_eq 64 (sha2_starts stale_ctx 0)
    (List.replicate (2 ^ 32) 0) (by rw [l32]; decide)
  obtain ⟨c0, c1⟩ := sha2_update_totals_eq 64
    (sha2_update 64 (sha2_starts stale_ctx 0) (List.replicate (2 ^ 32) 0))
    (List.replicate (2 ^ 32) 0) (by rw [l32]; decide)
  rw [l33, s0] at a0
  rw [l33, s0, s1] at a1
  rw [l32, s0] at b0
  rw [l32, s0, s1] at b1
  rw [l32, b0] at c0
  rw [l32, b0, b1] at c1
  rw [a0, a1, c0, c1, l33]
  decide

/-- C17: after `sha2_starts` for the variant `v` and any calls of `sha2_update`
whose inputs concatenate to `m`, the count of pending bytes `total[0] mod 64` is
below 64 and is `|m| mod 64`, the first `|m| mod 64` bytes of `buffer` are the
last `|m| mod 64` bytes of `m`, and `state` is what `sha2_process` gives, block
after block from the state that `sha2_starts` sets, over the first
`|m| / 64` blocks of 64 bytes of `m`. -/
theorem C17_streaming_invariant (w : Nat) (ctx0 : sha2_context) (v : Int)
    (chunks : List (List Byte)) (hw : 32 ≤ w) :
    (chunks.foldl (sha2_update w) (sha2_starts ctx0 v)).total0 % 64 < 64 ∧
    (chunks.foldl (sha2_update w) (sha2_starts ctx0 v)).total0 % 64 =
      chunks.flatten.length % 64 ∧
    (chunks.foldl (sha2_update w) (sha2_starts ctx0 v)).buffer.take
        (chunks.flatten.length % 64) =
      chunks.flatten.drop (chunks.flatten.length - chunks.flatten.length % 64) ∧
    (chunks.foldl (sha2_update w) (sha2_starts ctx0 v)).state =
      (((List.range (chunks.flatten.length / 64)).map
          (fun i => (chunks.flatten.drop (64 * i)).take 64)).foldl (sha2_process w)
        (sha2_starts ctx0 v)).state := by
  have h := streaming_foldl_update w v hw chunks [] _ (streaming_starts w ctx0 v)
  rw [List.nil_append] at h
  have hs : (sha2_starts ctx0 v).state = initial_state v := by
    have := (streaming_starts w ctx0 v).state
    rw [blocks_of_lt [] (by decide)] at this
    exact this
  have hl : (chunks.foldl (sha2_update w) (sha2_starts ctx0 v)).total0 % 64 =
      chunks.flatten.length % 64 := by
    rw [h.total0]; omega
  refine ⟨?_, hl, ?_, ?_⟩
  · rw [hl]; exact Nat.mod_lt _ (by decide)
  · rw [h.buffer, tail64_eq_drop]
  · rw [h.state, foldl_sha2_process_state, hs, ← blocksN_eq_range]
    rfl

theorem C17_streaming_invariant_witness :
    32 ≤ 32 ∧
    ([[1, 2], [], List.replicate 70 3].foldl (sha2_update 32) (sha2_starts stale_ctx 1)).buffer.take
        (([[1, 2], [], List.replicate 70 3] : List (List Byte)).flatten.length % 64) =
      ([[1, 2], [], List.replicate 70 3] : List (List Byte)).flatten.drop
        (([[1, 2], [], List.replicate 70 3] : List (List Byte)).flatten.length -
          ([[1, 2], [], List.replicate 70 3] : List (List Byte)).flatten.length % 64) :=
  ⟨by decide,
    (C17_streaming_invariant 32 stale_ctx 1 [[1, 2], [], List.replicate 70 3] (by decide)).2.2.1⟩

theorem sha2_finish_ctx_eq (w : Nat) (u : Locals) (ctx : sha2_context) :
    sha2_finish_ctx w u ctx =
      sha2_update w (sha2_update w ctx (sha2_padding.take (sha2_finish_padn ctx)))
        ((sha2_finish_msglen w u ctx).take 8) := rfl

theorem sha2_finish_msglen_take (w : Nat) (u : Locals) (ctx : sha2_context) :
    ((sha2_finish_msglen w u ctx).take 8).length = 8 := by
  unfold sha2_finish_msglen
  dsimp only
  rw [PUT_ULONG_BE_eq _ _ 0 (Nat.zero_le _),
    PUT_ULONG_BE_at (ushl w ctx.total0 3) u.msglen (BE32 _) 4 rfl]
  have := store_take u.msglen 0
    (BE32 (ctx.total0 >>> 29 ||| ushl w ctx.total1 3) ++ BE32 (ushl w ctx.total0 3))
    (Nat.zero_le _)
  have hl : (BE32 (ctx.total0 >>> 29 ||| ushl w ctx.total1 3) ++
      BE32 (ushl w ctx.total0 3)).length = 8 := rfl
  rw [hl] at this
  rw [this, List.take_zero, List.nil_append, hl]

theorem sha2_finish_padn_bounds (ctx : sha2_context) :
    1 ≤ sha2_finish_padn ctx ∧ sha2_finish_padn ctx ≤ 64 ∧
    (ctx.total0 &&& 0x3F) + sha2_finish_padn ctx + 8 =
      (if ctx.total0 &&& 0x3F < 56 then 64 else 128) := by
  have hl : ctx.total0 &&& 0x3F < 64 := by rw [and_3F]; exact Nat.mod_lt _ (by decide)
  unfold sha2_finish_padn
  dsimp only
  split <;> omega

theorem sha2_padding_take_length (n : Nat) (h : n ≤ 64) : (sha2_padding.take n).length = n := by
  rw [List.length_take]
  have : sha2_padding.length = 64 := rfl
  omega

theorem pending_init (w : Nat) (ctx : sha2_context) (h : ctx.total0 % 64 ≤ ctx.buffer.length) :
    Pending w ctx.state (ctx.buffer.take (ctx.total0 % 64)) ctx := by
  have hlt : ctx.total0 % 64 < 64 := Nat.mod_lt _ (by decide)
  have hlen : (ctx.buffer.take (ctx.total0 % 64)).length = ctx.total0 % 64 := by
    rw [List.length_take]; omega
  refine ⟨?_, ?_, ?_⟩
  · rw [hlen, Nat.mod_mod]
  · rw [blocks_of_lt _ (by rw [hlen]; exact hlt)]
    rfl
  · rw [hlen, Nat.mod_mod, tail64_of_lt _ (by rw [hlen]; exact hlt)]

theorem pending_update (w : Nat) (s0 : List Nat) (m x : List Byte) (ctx : sha2_context)
    (hw : 32 ≤ w) (h : Pending w s0 m ctx) :
    Pending w s0 (m ++ x) (sha2_update w ctx x) := by
  by_cases h0 : x.length = 0
  · have hx0 : x = [] := List.length_eq_zero.mp h0
    subst hx0
    rw [sha2_update_nil, List.append_nil]
    exact h
  · have hleft : ctx.total0 &&& 0x3F = m.length % 64 := by
      rw [and_3F, h.total0]
    obtain ⟨t1, t2, t3, t4, t5, t6, t7⟩ := sha2_update_totals_fields w ctx x.length
    have hb : (sha2_update_totals w ctx x.length).buffer.take (ctx.total0 &&& 0x3F) = tail64 m := by
      rw [t2, hleft, h.buffer]
    obtain ⟨b1, b2, b3, b4, b5, b6, b7⟩ := sha2_update_body_spec w
      (sha2_update_totals w ctx x.length) (ctx.total0 &&& 0x3F) x (tail64 m) hb
      (by rw [tail64_length, hleft]) (by rw [hleft]; omega)
    rw [sha2_update_eq w ctx x h0]
    refine ⟨?_, ?_, ?_⟩
    · rw [b6, t6, total0_next_any w _ _ hw, List.length_append]
      have := h.total0
      omega
    · rw [b1, t1, h.state, blocks_append m x, List.foldl_append]
    · rw [tail64_append m x, ← b2]
      congr 1
      rw [List.length_append, List.length_append, tail64_length]
      omega

theorem blocks_length (l : List Byte) : (blocks l).length = l.length / 64 := by
  unfold blocks
  rw [blocksN_eq_range, List.length_map, List.length_range]

theorem sha2_update_loop_calls_eq :
    ∀ (fuel : Nat) (input : List Byte), input.length / 64 ≤ fuel →
      sha2_update_loop_calls fuel input = input.length / 64 := by
  intro fuel
  induction fuel with
  | zero =>
    intro input h
    rw [sha2_update_loop_calls]
    omega
  | succ fuel ih =>
    intro input h
    by_cases hge : input.length ≥ 64
    · rw [sha2_update_loop_calls, if_pos hge, ih _ (by rw [List.length_drop]; omega),
        List.length_drop]
      omega
    · rw [sha2_update_loop_calls, if_neg hge]
      omega

/-- The calls of `sha2_process` that `sha2_update` makes are as many as the
complete blocks that the pending bytes and the input fill. -/
theorem sha2_update_calls_eq (ctx : sha2_context) (x : List Byte) :
    sha2_update_calls ctx x = (ctx.total0 % 64 + x.length) / 64 := by
  have hlt : ctx.total0 % 64 < 64 := Nat.mod_lt _ (by decide)
  unfold sha2_update_calls
  dsimp only
  by_cases h0 : x.length ≤ 0
  · rw [if_pos h0]
    omega
  · rw [if_neg h0, and_3F]
    by_cases c1 : ctx.total0 % 64 ≠ 0 ∧ x.length ≥ 64 - ctx.total0 % 64
    · rw [if_pos c1]
      dsimp only
      rw [sha2_update_loop_calls_eq _ _ (Nat.div_le_self _ _), List.length_drop]
      omega
    · rw [if_neg c1]
      dsimp only
      rw [sha2_update_loop_calls_eq _ _ (Nat.div_le_self _ _)]
      omega

/-- C19: for every context with `last = total[0] mod 64`, `sha2_finish` chooses
`padn` with `1 ≤ padn ≤ 64` and `last + padn + 8` equal to 64 when `last < 56`
and to 128 otherwise; its two calls of `sha2_update` call `sha2_process` once
when `last < 56` and twice otherwise, the state afterwards being what
`sha2_process` gives over the one or two blocks made of the pending bytes, the
padding and the eight length bytes; and afterwards `total[0] mod 64 = 0`. -/
theorem C19_finish_padding (w : Nat) (u : Locals) (ctx : sha2_context) (output : List Byte)
    (hw : 32 ≤ w) (hb : ctx.buffer.length = 64) :
    1 ≤ sha2_finish_padn ctx ∧ sha2_finish_padn ctx ≤ 64 ∧
    (ctx.total0 &&& 0x3F) + sha2_finish_padn ctx + 8 =
      (if ctx.total0 &&& 0x3F < 56 then 64 else 128) ∧
    sha2_finish_calls w u ctx = (if ctx.total0 &&& 0x3F < 56 then 1 else 2) ∧
    (sha2_finish w u ctx output).1.state =
      ((blocks (ctx.buffer.take (ctx.total0 &&& 0x3F) ++
          sha2_padding.take (sha2_finish_padn ctx) ++
          (sha2_finish_msglen w u ctx).take 8)).foldl (sha2_process w) ctx).state ∧
    (blocks (ctx.buffer.take (ctx.total0 &&& 0x3F) ++
        sha2_padding.take (sha2_finish_padn ctx) ++
        (sha2_finish_msglen w u ctx).take 8)).length =
      (if ctx.total0 &&& 0x3F < 56 then 1 else 2) ∧
    (sha2_finish w u ctx output).1.total0 &&& 0x3F = 0 := by
  obtain ⟨p1, p2, p3⟩ := sha2_finish_padn_bounds ctx
  have hlt : ctx.total0 % 64 < 64 := Nat.mod_lt _ (by decide)
  have hl0 : (ctx.buffer.take (ctx.total0 % 64)).length = ctx.total0 % 64 := by
    rw [List.length_take]; omega
  have hl1 := sha2_padding_take_length _ p2
  have hl2 := sha2_finish_msglen_take w u ctx
  have P0 := pending_init w ctx (by omega)
  have P1 := pending_update w _ _ (sha2_padding.take (sha2_finish_padn ctx)) _ hw P0
  have P2 := pending_update w _ _ ((sha2_finish_msglen w u ctx).take 8) _ hw P1
  have hfin : (sha2_finish w u ctx output).1 =
      sha2_update w (sha2_update w ctx (sha2_padding.take (sha2_finish_padn ctx)))
        ((sha2_finish_msglen w u ctx).take 8) := by
    rw [sha2_finish_eq, sha2_finish_ctx_eq]
  have hlen : (ctx.buffer.take (ctx.total0 % 64) ++
      sha2_padding.take (sha2_finish_padn ctx) ++
      (sha2_finish_msglen w u ctx).take 8).length =
      ctx.total0 % 64 + sha2_finish_padn ctx + 8 := by
    rw [List.length_append, List.length_append, hl0, hl1, hl2]
  have ht1 := P1.total0
  rw [List.length_append, hl0, hl1] at ht1
  rw [and_3F] at p3 ⊢
  refine ⟨p1, p2, p3, ?_, ?_, ?_, ?_⟩
  · unfold sha2_finish_calls
    rw [sha2_update_calls_eq, sha2_update_calls_eq, hl1, hl2, ht1]
    split at p3 <;> rename_i hc
    · rw [if_pos hc]; omega
    · rw [if_neg hc]; omega
  · rw [hfin, P2.state, foldl_sha2_process_state]
  · rw [blocks_length, hlen]
    split at p3 <;> rename_i hc
    · rw [if_pos hc]; omega
    · rw [if_neg hc]; omega
  · rw [hfin, and_3F, P2.total0, hlen]
    split at p3 <;> omega

theorem C19_finish_padding_witness :
    (32 ≤ 32 ∧
      ({ stale_ctx with total0 := 60, buffer := List.replicate 64 7 } : sha2_context).buffer.length
        = 64) ∧
    sha2_finish_calls 32 stale_locals
        { stale_ctx with total0 := 60, buffer := List.replicate 64 7 } = 2 ∧
    (sha2_finish 32 stale_locals { stale_ctx with total0 := 60, buffer := List.replicate 64 7 }
        []).1.total0 &&& 0x3F = 0 :=
  ⟨⟨by decide, rfl⟩,
    (C19_finish_padding 32 stale_locals
      { stale_ctx with total0 := 60, buffer := List.replicate 64 7 } [] (by decide) rfl).2.2.2.1,
    (C19_finish_padding 32 stale_locals
      { stale_ctx with total0 := 60, buffer := List.replicate 64 7 } [] (by decide)
      rfl).2.2.2.2.2.2⟩

/-- The pads that `sha2_hmac_starts` leaves for a key of at most 64 bytes. -/
theorem sha2_hmac_starts_pads (w : Nat) (u : Locals) (ctx : sha2_context) (key : List Byte)
    (v : Int) (hk : key.length ≤ 64) :
    (sha2_hmac_starts w u ctx key v).ipad.take 64 = xor_pad key 0x36 ∧
    (sha2_hmac_starts w u ctx key v).opad.take 64 = xor_pad key 0x5C := by
  have hi := pad_after_loop key ctx.ipad 0x36 hk
  have ho := pad_after_loop key ctx.opad 0x5C hk
  unfold sha2_hmac_starts
  dsimp only
  rw [if_neg (by omega), sha2_hmac_starts_loop_eq, (sha2_update_frame w _ _).1,
    (sha2_update_frame w _ _).2.1, (sha2_starts_fields _ v).1, (sha2_starts_fields _ v).2.1]
  exact ⟨hi, ho⟩

/-- The byte of index `i` of the pad of a key of at most 64 bytes. -/
theorem xor_pad_getElem (key : List Byte) (c : Byte) (hk : key.length ≤ 64) (i : Nat)
    (hi : i < 64) :
    (xor_pad key c)[i]? = some (c ^^^ key.getD i 0) := by
  have hl := xor_pad_length key c hk
  rw [List.getElem?_eq_getElem (by rw [hl]; exact hi)]
  congr 1
  unfold xor_pad xor_bytes
  rw [List.getElem_zipWith, List.getElem_replicate]
  congr 1
  by_cases h : i < key.length
  · rw [List.getElem_append_left h, List.getD_eq_getElem _ _ h]
  · rw [List.getElem_append_right (by omega), List.getElem_replicate,
      List.getD_eq_default _ _ (by omega)]

theorem getElem_of_take (l t : List Byte) (n i : Nat) (h : l.take n = t) (hi : i < n) :
    l[i]? = t[i]? := by
  rw [← h, List.getElem?_take_of_lt hi]

theorem PBKDF2_inner_loop_frame (w : Nat) (u : Locals) (password : List Byte)
    (md_size c : Nat) :
    ∀ (fuel ic : Nat) (v : PBKDF2_vars),
      (PBKDF2_inner_loop w u password md_size c fuel ic v).counter = v.counter ∧
      (PBKDF2_inner_loop w u password md_size c fuel ic v).generated_key_length =
        v.generated_key_length ∧
      (PBKDF2_inner_loop w u password md_size c fuel ic v).output = v.output := by
  intro fuel
  induction fuel with
  | zero => intro ic v; exact ⟨rfl, rfl, rfl⟩
  | succ fuel ih =>
    intro ic v
    by_cases h : ic < c
    · rw [PBKDF2_inner_loop, if_pos h]
      dsimp only
      obtain ⟨a, b, d⟩ := ih (uadd w ic 1)
        { ctx := (sha2_hmac_finish w u
            (sha2_hmac_update w (sha2_hmac_starts w u v.ctx password 0) (v.md1.take md_size))
            v.md1).1,
          md1 := (sha2_hmac_finish w u
            (sha2_hmac_update w (sha2_hmac_starts w u v.ctx password 0) (v.md1.take md_size))
            v.md1).2,
          work := PBKDF2_xor_loop md_size (sha2_hmac_finish w u
            (sha2_hmac_update w (sha2_hmac_starts w u v.ctx password 0) (v.md1.take md_size))
            v.md1).2 md_size 0 v.work,
          counter := v.counter, generated_key_length := v.generated_key_length,
          output := v.output }
      exact ⟨a, b, d⟩
    · rw [PBKDF2_inner_loop, if_neg h]
      exact ⟨rfl, rfl, rfl⟩

/-- One pass of the outer loop: `generated_key_length` grows by `bytes_to_write`
and `counter` by one. -/
theorem PBKDF2_outer_pass (w : Nat) (u : Locals) (password salt : List Byte) (c L : Nat)
    (v : PBKDF2_vars) (hlt : v.generated_key_length < L) :
    (∀ fuel, PBKDF2_outer_loop w u password salt 32 c L (fuel + 1) v =
      PBKDF2_outer_loop w u password salt 32 c L fuel
        (PBKDF2_outer_body w u password salt 32 c L v)) ∧
    (PBKDF2_outer_body w u password salt 32 c L v).generated_key_length =
      uadd w v.generated_key_length (min_local (L - v.generated_key_length) 32) ∧
    (PBKDF2_outer_body w u password salt 32 c L v).counter = uadd w v.counter 1 := by
  refine ⟨fun fuel => ?_, ?_, ?_⟩
  · rw [PBKDF2_outer_loop, if_pos hlt]
    rfl
  · unfold PBKDF2_outer_body
    dsimp only
    rw [(PBKDF2_inner_loop_frame w u password 32 c c 1 _).2.1]
  · unfold PBKDF2_outer_body
    dsimp only
    rw [(PBKDF2_inner_loop_frame w u password 32 c c 1 _).1]

theorem PBKDF2_outer_done (w : Nat) (u : Locals) (password salt : List Byte) (c L : Nat)
    (v : PBKDF2_vars) (h : ¬ v.generated_key_length < L) :
    ∀ fuel, PBKDF2_outer_loop w u password salt 32 c L fuel v = v := by
  intro fuel
  cases fuel with
  | zero => rfl
  | succ fuel => rw [PBKDF2_outer_loop, if_neg h]

/-- C18: after `sha2_hmac_starts` with a key of at most 64 bytes, for every
`i < |key|` the bytes `ipad[i]` and `opad[i]` are `0x36 xor key[i]` and
`0x5C xor key[i]`, and for every `|key| ≤ i < 64` they are `0x36` and `0x5C`;
with a key of no bytes the pads are 64 bytes `0x36` and 64 bytes `0x5C`. -/
theorem C18_hmac_pads (w : Nat) (u : Locals) (ctx : sha2_context) (key : List Byte) (v : Int)
    (hk : key.length ≤ 64) :
    (∀ i, i < key.length →
      (sha2_hmac_starts w u ctx key v).ipad[i]? = some (0x36 ^^^ key.getD i 0) ∧
      (sha2_hmac_starts w u ctx key v).opad[i]? = some (0x5C ^^^ key.getD i 0)) ∧
    (∀ i, key.length ≤ i → i < 64 →
      (sha2_hmac_starts w u ctx key v).ipad[i]? = some 0x36 ∧
      (sha2_hmac_starts w u ctx key v).opad[i]? = some 0x5C) ∧
    (sha2_hmac_starts w u ctx [] v).ipad.take 64 = List.replicate 64 0x36 ∧
    (sha2_hmac_starts w u ctx [] v).opad.take 64 = List.replicate 64 0x5C := by
  obtain ⟨hi, ho⟩ := sha2_hmac_starts_pads w u ctx key v hk
  obtain ⟨hi0, ho0⟩ := sha2_hmac_starts_pads w u ctx [] v (Nat.zero_le _)
  refine ⟨fun i h => ?_, fun i h1 h2 => ?_, ?_, ?_⟩
  · rw [getElem_of_take _ _ 64 i hi (by omega), getElem_of_take _ _ 64 i ho (by omega),
      xor_pad_getElem key _ hk i (by omega), xor_pad_getElem key _ hk i (by omega)]
    exact ⟨rfl, rfl⟩
  · rw [getElem_of_take _ _ 64 i hi h2, getElem_of_take _ _ 64 i ho h2,
      xor_pad_getElem key _ hk i h2, xor_pad_getElem key _ hk i h2,
      List.getD_eq_default _ _ h1, u8_xor_zero, u8_xor_zero]
    exact ⟨rfl, rfl⟩
  · rw [hi0]; decide
  · rw [ho0]; decide

theorem C18_hmac_pads_witness :
    ([0x4a, 0x65, 0x66, 0x65] : List Byte).length ≤ 64 ∧
    (sha2_hmac_starts 32 stale_locals stale_ctx [0x4a, 0x65, 0x66, 0x65] 0).ipad[1]? =
      some (0x36 ^^^ ([0x4a, 0x65, 0x66, 0x65] : List Byte).getD 1 0) ∧
    (sha2_hmac_starts 32 stale_locals stale_ctx [0x4a, 0x65, 0x66, 0x65] 0).opad[10]? =
      some 0x5C :=
  ⟨by decide,
    ((C18_hmac_pads 32 stale_locals stale_ctx [0x4a, 0x65, 0x66, 0x65] 0 (by decide)).1 1
      (by decide)).1,
    ((C18_hmac_pads 32 stale_locals stale_ctx [0x4a, 0x65, 0x66, 0x65] 0 (by decide)).2.1 10
      (by decide) (by decide)).2⟩

theorem testBit_mask32 (i : Nat) : (0xFFFFFFFF : Nat).testBit i = decide (i < 32) :=
  Nat.testBit_two_pow_sub_one 32 i

theorem testBit_of_lt_32 (x i : Nat) (hx : x < 2 ^ 32) (hi : 32 ≤ i) : x.testBit i = false :=
  Nat.testBit_lt_two_pow (Nat.lt_of_lt_of_le hx (Nat.pow_le_pow_right (by decide) hi))

theorem not32_eq_sub (x : Nat) (hx : x < 2 ^ 32) : not32 x = 2 ^ 32 - 1 - x := by
  unfold not32
  apply Nat.eq_of_testBit_eq
  intro i
  have e : 2 ^ 32 - 1 - x = 2 ^ 32 - (x + 1) := by omega
  rw [e, Nat.testBit_two_pow_sub_succ hx, Nat.testBit_xor, testBit_mask32]
  by_cases hi : i < 32
  · simp [hi]
  · simp [hi, testBit_of_lt_32 x i hx (by omega)]

theorem F1_eq_Ch_fips (x y z : Nat) (hz : z < 2 ^ 32) : F1 x y z = Ch_fips x y z := by
  unfold F1 Ch_fips not32
  apply Nat.eq_of_testBit_eq
  intro i
  simp only [Nat.testBit_xor, Nat.testBit_and, testBit_mask32]
  by_cases hi : i < 32
  · simp only [hi, decide_True]
    cases x.testBit i <;> cases y.testBit i <;> cases z.testBit i <;> rfl
  · rw [testBit_of_lt_32 z i hz (by omega)]
    cases x.testBit i <;> cases y.testBit i <;> simp

theorem F0_eq_Maj_fips (x y z : Nat) : F0 x y z = Maj_fips x y z := by
  unfold F0 Maj_fips
  apply Nat.eq_of_testBit_eq
  intro i
  simp only [Nat.testBit_xor, Nat.testBit_and, Nat.testBit_or]
  cases x.testBit i <;> cases y.testBit i <;> cases z.testBit i <;> rfl

/-- C23: for all 32-bit words `x`, `y`, `z` the form `F1` of the round macro,
`z xor (x and (y xor z))`, is `Ch(x, y, z) = (x and y) xor ((not x) and z)` of
FIPS 180-2, and the form `F0`, `(x and y) or (z and (x or y))`, is
`Maj(x, y, z) = (x and y) xor (x and z) xor (y and z)`; so the macro `P` computes
`temp1` and `temp2` with `Ch` and `Maj`. On words of any width the low 32 bits
of `F1` and `F0` are `Ch` and `Maj` of the low 32 bits. -/
theorem C23_boolean_forms (w x y z d h k t a b c : Nat)
    (hx : x < 2 ^ 32) (hy : y < 2 ^ 32) (hz : z < 2 ^ 32) :
    F1 x y z = Ch_fips x y z ∧ F0 x y z = Maj_fips x y z ∧
    not32 x = 2 ^ 32 - 1 - x ∧
    P w x y z d x y z h t k =
      (uadd w d (uadd w (uadd w (uadd w (uadd w h (S3 w x)) (Ch_fips x y z)) k) t),
       uadd w (uadd w (uadd w (uadd w (uadd w h (S3 w x)) (Ch_fips x y z)) k) t)
         (uadd w (S2 w x) (Maj_fips x y z))) ∧
    F1 a b c % 2 ^ 32 = Ch_fips (a % 2 ^ 32) (b % 2 ^ 32) (c % 2 ^ 32) ∧
    F0 a b c % 2 ^ 32 = Maj_fips (a % 2 ^ 32) (b % 2 ^ 32) (c % 2 ^ 32) := by
  have _ := hx
  have _ := hy
  have hc : c % 2 ^ 32 < 2 ^ 32 := Nat.mod_lt _ (by decide)
  refine ⟨F1_eq_Ch_fips x y z hz, F0_eq_Maj_fips x y z, not32_eq_sub x hx, ?_, ?_, ?_⟩
  · unfold P
    dsimp only
    rw [F1_eq_Ch_fips x y z hz, F0_eq_Maj_fips x y z]
  · rw [F1_low, ← F1_eq_Ch_fips _ _ _ hc]
    rfl
  · rw [F0_low, ← F0_eq_Maj_fips]
    rfl

theorem C23_boolean_forms_witness :
    (0x510E527F < 2 ^ 32 ∧ 0x9B05688C < 2 ^ 32 ∧ 0x1F83D9AB < 2 ^ 32) ∧
    F1 0x510E527F 0x9B05688C 0x1F83D9AB = Ch_fips 0x510E527F 0x9B05688C 0x1F83D9AB ∧
    F0 0x510E527F 0x9B05688C 0x1F83D9AB = Maj_fips 0x510E527F 0x9B05688C 0x1F83D9AB :=
  ⟨⟨by decide, by decide, by decide⟩,
    (C23_boolean_forms 32 0x510E527F 0x9B05688C 0x1F83D9AB 0 0 0 0 0 0 0 (by decide) (by decide)
      (by decide)).1,
    (C23_boolean_forms 32 0x510E527F 0x9B05688C 0x1F83D9AB 0 0 0 0 0 0 0 (by decide) (by decide)
      (by decide)).2.1⟩

theorem digest_width (w : Nat) (hw : 32 ≤ w) (v : Int) (m : List Byte) :
    digest w v m = digest 32 v m := by
  rw [digest_eq_spec w hw, digest_eq_spec 32 (Nat.le_refl 32)]

theorem hmac_key_width (w : Nat) (hw : 32 ≤ w) (v : Int) (key : List Byte) :
    hmac_key w v key = hmac_key 32 v key := by
  unfold hmac_key
  rw [digest_width w hw]

theorem hmac_digest_width (w : Nat) (hw : 32 ≤ w) (v : Int) (K m : List Byte) :
    hmac_digest w v K m = hmac_digest 32 v K m := by
  rw [hmac_digest_eq_spec w hw, hmac_digest_eq_spec 32 (Nat.le_refl 32)]

/-- The digest that `sha2_finish` writes after `sha2_starts` and calls of
`sha2_update` with fewer than `2^32` bytes each does not depend on the width of
`unsigned long`. -/
theorem sha2_finish_width (w : Nat) (u : Locals) (ctx0 : sha2_context) (v : Int)
    (chunks : List (List Byte)) (output : List Byte) (hw : 32 ≤ w)
    (hc : ∀ c ∈ chunks, c.length < 2 ^ 32) :
    (sha2_finish w u (chunks.foldl (sha2_update w) (sha2_starts ctx0 v)) output).2 =
      store output 0 (digest_spec v chunks.flatten) := by
  have h := absorbed_foldl_update w v hw chunks [] _ hc (absorbed_starts w ctx0 v)
  rw [List.nil_append] at h
  rw [(sha2_finish_spec w u v _ _ output hw h).1, digest_eq_spec w hw]

theorem sha2_hmac_width (w : Nat) (u : Locals) (key m output : List Byte) (v : Int)
    (hw : 32 ≤ w) (hk : key.length < 2 ^ 32) (hm : m.length < 2 ^ 32) :
    sha2_hmac w u key m output v = sha2_hmac 32 u key m output v := by
  rw [sha2_hmac_eq w u key m output v hw hk hm,
    sha2_hmac_eq 32 u key m output v (Nat.le_refl 32) hk hm, hmac_key_width w hw,
    hmac_digest_width w hw]

theorem PKCS5_PBKDF2_HMAC_width (w : Nat) (u : Locals) (password salt : List Byte) (c L : Nat)
    (output : List Byte) (hw : 32 ≤ w) (hp : password.length < 2 ^ 32)
    (hs : salt.length < 2 ^ 32) (hc : c < 2 ^ 32) (hL : L < 2 ^ 32) :
    PKCS5_PBKDF2_HMAC w u password salt c L output =
      PKCS5_PBKDF2_HMAC 32 u password salt c L output := by
  have h32 : 2 ^ 32 ≤ 2 ^ w := Nat.pow_le_pow_right (by decide) hw
  have hf : hmac_digest w 0 (hmac_key w 0 password) =
      hmac_digest 32 0 (hmac_key 32 0 password) := by
    funext m
    rw [hmac_key_width w hw, hmac_digest_width w hw]
  rw [PKCS5_PBKDF2_HMAC_eq w u password salt c L output hw hp hs (by omega) (by omega),
    PKCS5_PBKDF2_HMAC_eq 32 u password salt c L output (Nat.le_refl 32) hp hs hc hL, hf]

set_option maxRecDepth 100000 in
/-- With a 64-bit `unsigned long` the state words after one block are not those
of the 32-bit computation: they hold carries above bit 31. -/
theorem process_loop_64_differs :
    process_loop 64 (initial_state 0) (List.replicate 64 0x61) ≠
      process_loop 32 (initial_state 0) (List.replicate 64 0x61) := by
  decide

/-- C21: the width of `unsigned long` changes no output byte. For every variant,
any prior context contents and every sequence of `sha2_update` calls with fewer
than `2^32` bytes each, the digest that `sha2_finish` writes with an
`unsigned long` of `w ≥ 32` bits, in particular of 64 bits, where the state
words, `W[]` and the working variables keep carries above bit 31, is the digest
written with 32 bits, and both are the digest of the loop definition with all
arithmetic modulo `2^32`; the same holds for `sha2_hmac` and
`PKCS5_PBKDF2_HMAC`. The state words themselves do differ between 64 and 32
bits. -/
theorem C21_width_independence (w : Nat) (u : Locals) (ctx0 : sha2_context) (v : Int)
    (chunks : List (List Byte)) (output : List Byte) (hw : 32 ≤ w)
    (hc : ∀ c ∈ chunks, c.length < 2 ^ 32) :
    (sha2_finish w u (chunks.foldl (sha2_update w) (sha2_starts ctx0 v)) output).2 =
      (sha2_finish 32 u (chunks.foldl (sha2_update 32) (sha2_starts ctx0 v)) output).2 ∧
    (sha2_finish 64 u (chunks.foldl (sha2_update 64) (sha2_starts ctx0 v)) output).2 =
      (sha2_finish 32 u (chunks.foldl (sha2_update 32) (sha2_starts ctx0 v)) output).2 ∧
    (sha2_finish w u (chunks.foldl (sha2_update w) (sha2_starts ctx0 v)) output).2 =
      store output 0 (digest_spec v chunks.flatten) ∧
    (∀ key m : List Byte, key.length < 2 ^ 32 → m.length < 2 ^ 32 →
      sha2_hmac w u key m output v = sha2_hmac 32 u key m output v) ∧
    (∀ (password salt : List Byte) (c L : Nat), password.length < 2 ^ 32 →
      salt.length < 2 ^ 32 → c < 2 ^ 32 → L < 2 ^ 32 →
      PKCS5_PBKDF2_HMAC w u password salt c L output =
        PKCS5_PBKDF2_HMAC 32 u password salt c L output) ∧
    (sha2_process 64 (sha2_starts ctx0 0) (List.replicate 64 0x61)).state ≠
      (sha2_process 32 (sha2_starts ctx0 0) (List.replicate 64 0x61)).state := by
  have hs : (sha2_starts ctx0 0).state = initial_state 0 := by
    have := (streaming_starts 32 ctx0 0).state
    rw [blocks_of_lt [] (by decide)] at this
    exact this
  refine ⟨?_, ?_, sha2_finish_width w u ctx0 v chunks output hw hc,
    fun key m hk hm => sha2_hmac_width w u key m output v hw hk hm,
    fun password salt c L hp hsl hcc hL =>
      PKCS5_PBKDF2_HMAC_width w u password salt c L output hw hp hsl hcc hL, ?_⟩
  · rw [sha2_finish_width w u ctx0 v chunks output hw hc,
      sha2_finish_width 32 u ctx0 v chunks output (Nat.le_refl 32) hc]
  · rw [sha2_finish_width 64 u ctx0 v chunks output (by decide) hc,
      sha2_finish_width 32 u ctx0 v chunks output (Nat.le_refl 32) hc]
  · rw [sha2_process_state_eq, sha2_process_state_eq, hs]
    exact process_loop_64_differs

theorem C21_width_independence_witness :
    (32 ≤ 64 ∧ ∀ c ∈ ([[0x61, 0x62], [], [0x63]] : List (List Byte)), c.length < 2 ^ 32) ∧
    (sha2_finish 64 stale_locals
        ([[0x61, 0x62], [], [0x63]].foldl (sha2_update 64) (sha2_starts stale_ctx 1))
        (List.replicate 32 0)).2 =
      (sha2_finish 32 stale_locals
        ([[0x61, 0x62], [], [0x63]].foldl (sha2_update 32) (sha2_starts stale_ctx 1))
        (List.replicate 32 0)).2 :=
  ⟨⟨by decide, by decide⟩,
    (C21_width_independence 64 stale_locals stale_ctx 1 [[0x61, 0x62], [], [0x63]]
      (List.replicate 32 0) (by decide) (by decide)).1⟩

theorem sha2_starts_totals (ctx : sha2_context) (v : Int) :
    (sha2_starts ctx v).total0 = 0 ∧ (sha2_starts ctx v).total1 = 0 ∧
    (sha2_starts ctx v).state = initial_state v := by
  unfold sha2_starts initial_state
  dsimp only
  split <;> exact ⟨rfl, rfl, rfl⟩

theorem sameview_starts (c1 c2 : sha2_context) (v : Int) :
    SameView (sha2_starts c1 v) (sha2_starts c2 v) := by
  obtain ⟨a0, a1, a2⟩ := sha2_starts_totals c1 v
  obtain ⟨b0, b1, b2⟩ := sha2_starts_totals c2 v
  obtain ⟨_, _, _, a4⟩ := sha2_starts_fields c1 v
  obtain ⟨_, _, _, b4⟩ := sha2_starts_fields c2 v
  refine ⟨by rw [a0, b0], by rw [a1, b1], by rw [a2, b2], by rw [a4, b4], ?_, ?_, ?_⟩
  · rw [a0]; rfl
  · rw [a0]; exact Nat.zero_le _
  · rw [a0]; exact Nat.zero_le _

theorem sameview_update (w : Nat) (hw : 32 ≤ w) (c1 c2 : sha2_context) (x : List Byte)
    (h : SameView c1 c2) : SameView (sha2_update w c1 x) (sha2_update w c2 x) := by
  by_cases h0 : x.length = 0
  · have hx0 : x = [] := List.length_eq_zero.mp h0
    subst hx0
    rw [sha2_update_nil, sha2_update_nil]
    exact h
  · have P1 := pending_update w _ _ x _ hw (pending_init w c1 h.len1)
    have P2 := pending_update w _ _ x _ hw (pending_init w c2 (by rw [← h.total0]; exact h.len2))
    rw [← h.total0, ← h.state, ← h.buffer] at P2
    obtain ⟨a0, a1⟩ := sha2_update_totals_eq w c1 x h0
    obtain ⟨b0, b1⟩ := sha2_update_totals_eq w c2 x h0
    obtain ⟨_, _, a3⟩ := sha2_update_frame w c1 x
    obtain ⟨_, _, b3⟩ := sha2_update_frame w c2 x
    have e0 : (sha2_update w c1 x).total0 = (sha2_update w c2 x).total0 := by
      rw [a0, b0, h.total0]
    have hl := tail64_length (c1.buffer.take (c1.total0 % 64) ++ x)
    refine ⟨e0, ?_, ?_, ?_, ?_, ?_, ?_⟩
    · rw [a1, b1, h.total0, h.total1]
    · rw [P1.state, P2.state]
    · rw [a3, b3, h.is224]
    · rw [P1.total0, P1.buffer, P2.buffer]
    · rw [P1.total0]
      exact length_ge_of_take _ _ _ P1.buffer hl
    · rw [P1.total0]
      exact length_ge_of_take _ _ _ P2.buffer hl

theorem samepads_update (w : Nat) (c1 c2 : sha2_context) (x y : List Byte)
    (h : SamePads c1 c2) : SamePads (sha2_update w c1 x) (sha2_update w c2 y) := by
  obtain ⟨a1, a2, _⟩ := sha2_update_frame w c1 x
  obtain ⟨b1, b2, _⟩ := sha2_update_frame w c2 y
  exact ⟨by rw [a1, b1]; exact h.ipad, by rw [a2, b2]; exact h.opad⟩

theorem samepads_starts (c1 c2 : sha2_context) (v1 v2 : Int) (h : SamePads c1 c2) :
    SamePads (sha2_starts c1 v1) (sha2_starts c2 v2) := by
  obtain ⟨a1, a2, _, _⟩ := sha2_starts_fields c1 v1
  obtain ⟨b1, b2, _, _⟩ := sha2_starts_fields c2 v2
  exact ⟨by rw [a1, b1]; exact h.ipad, by rw [a2, b2]; exact h.opad⟩

theorem samepads_finish_ctx (w : Nat) (u1 u2 : Locals) (c1 c2 : sha2_context)
    (h : SamePads c1 c2) : SamePads (sha2_finish_ctx w u1 c1) (sha2_finish_ctx w u2 c2) := by
  obtain ⟨a1, a2, _⟩ := sha2_finish_ctx_frame w u1 c1
  obtain ⟨b1, b2, _⟩ := sha2_finish_ctx_frame w u2 c2
  exact ⟨by rw [a1, b1]; exact h.ipad, by rw [a2, b2]; exact h.opad⟩

/-- The eight length bytes that `sha2_finish` absorbs: they do not depend on
what `msglen` held before. -/
theorem sha2_finish_msglen_eq (w : Nat) (u : Locals) (ctx : sha2_context) :
    (sha2_finish_msglen w u ctx).take 8 =
      BE32 (ctx.total0 >>> 29 ||| ushl w ctx.total1 3) ++ BE32 (ushl w ctx.total0 3) := by
  unfold sha2_finish_msglen
  dsimp only
  rw [PUT_ULONG_BE_eq _ _ 0 (Nat.zero_le _),
    PUT_ULONG_BE_at (ushl w ctx.total0 3) u.msglen (BE32 _) 4 rfl]
  exact take_store_zero _ _ _ rfl

theorem sameview_finish_ctx (w : Nat) (hw : 32 ≤ w) (u1 u2 : Locals) (c1 c2 : sha2_context)
    (h : SameView c1 c2) : SameView (sha2_finish_ctx w u1 c1) (sha2_finish_ctx w u2 c2) := by
  have hp : sha2_finish_padn c1 = sha2_finish_padn c2 := by
    unfold sha2_finish_padn
    rw [h.total0]
  rw [sha2_finish_ctx_eq, sha2_finish_ctx_eq, sha2_finish_msglen_eq, sha2_finish_msglen_eq,
    ← hp, ← h.total0, ← h.total1]
  exact sameview_update w hw _ _ _ (sameview_update w hw _ _ _ h)

theorem finish_bytes_length (ctx : sha2_context) :
    (finish_bytes ctx).length = if ctx.is224 = 0 then 32 else 28 := by
  unfold finish_bytes
  rw [List.length_append, state_bytes28_length]
  split <;> rfl

theorem finish_bytes_congr (c1 c2 : sha2_context) (h : SameView c1 c2) :
    finish_bytes c1 = finish_bytes c2 := by
  unfold finish_bytes
  rw [h.state, h.is224]

theorem sha2_finish_output (w : Nat) (u : Locals) (ctx : sha2_context) (output : List Byte) :
    (sha2_finish w u ctx output).2 = store output 0 (finish_bytes (sha2_finish_ctx w u ctx)) := by
  rw [sha2_finish_eq, sha2_finish_store_eq]
  rfl

/-- The digest that `sha2_finish` writes is the same for two contexts that agree
on what the digest functions read. -/
theorem sameview_finish (w : Nat) (hw : 32 ≤ w) (u1 u2 : Locals) (c1 c2 : sha2_context)
    (output : List Byte) (h : SameView c1 c2) :
    (sha2_finish w u1 c1 output).2 = (sha2_finish w u2 c2 output).2 := by
  rw [sha2_finish_output, sha2_finish_output,
    finish_bytes_congr _ _ (sameview_finish_ctx w hw u1 u2 c1 c2 h)]

theorem sameview_foldl (w : Nat) (hw : 32 ≤ w) (chunks : List (List Byte)) :
    ∀ c1 c2 : sha2_context, SameView c1 c2 →
      SameView (chunks.foldl (sha2_update w) c1) (chunks.foldl (sha2_update w) c2) := by
  induction chunks with
  | nil => intro c1 c2 h; exact h
  | cons x xs ih => intro c1 c2 h; exact ih _ _ (sameview_update w hw c1 c2 x h)

theorem samepads_foldl (w : Nat) (chunks : List (List Byte)) :
    ∀ c1 c2 : sha2_context, SamePads c1 c2 →
      SamePads (chunks.foldl (sha2_update w) c1) (chunks.foldl (sha2_update w) c2) := by
  induction chunks with
  | nil => intro c1 c2 h; exact h
  | cons x xs ih => intro c1 c2 h; exact ih _ _ (samepads_update w c1 c2 x x h)

theorem sha2_finish_fst (w : Nat) (u : Locals) (ctx : sha2_context) (output : List Byte) :
    (sha2_finish w u ctx output).1 = sha2_finish_ctx w u ctx := by
  rw [sha2_finish_eq]

theorem sha2_finish_ctx_is224 (w : Nat) (u : Locals) (ctx : sha2_context) (x : List Byte)
    (v : Int) : (sha2_finish_ctx w u (sha2_update w (sha2_starts ctx v) x)).is224 = v := by
  rw [(sha2_finish_ctx_frame w u _).2.2, (sha2_update_frame w _ x).2.2,
    (sha2_starts_fields ctx v).2.2.2]

/-- The digest of a long key, as `sha2_hmac_starts` takes it from `sum`. -/
theorem sha2_hmac_starts_key_long (w : Nat) (u : Locals) (key : List Byte) (v : Int)
    (h : key.length > 64) :
    sha2_hmac_starts_key w u key v =
      finish_bytes (sha2_finish_ctx w u (sha2_update w (sha2_starts u.ctx v) key)) := by
  have e : sha2 w u key u.sum v =
      (sha2_finish w u (sha2_update w (sha2_starts u.ctx v) key) u.sum).2 := rfl
  unfold sha2_hmac_starts_key
  rw [if_pos h]
  dsimp only
  rw [e, sha2_finish_output]
  apply take_store_zero
  rw [finish_bytes_length, sha2_finish_ctx_is224]
  by_cases hv : v = 0
  · rw [if_pos hv, if_neg (by simpa using hv)]
  · rw [if_neg hv, if_pos hv]

theorem sha2_hmac_starts_key_length (w : Nat) (u : Locals) (key : List Byte) (v : Int) :
    (sha2_hmac_starts_key w u key v).length ≤ 64 := by
  by_cases h : key.length > 64
  · rw [sha2_hmac_starts_key_long w u key v h, finish_bytes_length]
    split <;> decide
  · unfold sha2_hmac_starts_key
    rw [if_neg h]
    omega

/-- The key that `sha2_hmac_starts` pads does not depend on what the automatic
variables held before. -/
theorem sha2_hmac_starts_key_indep (w : Nat) (hw : 32 ≤ w) (u1 u2 : Locals) (key : List Byte)
    (v : Int) : sha2_hmac_starts_key w u1 key v = sha2_hmac_starts_key w u2 key v := by
  by_cases h : key.length > 64
  · rw [sha2_hmac_starts_key_long w u1 key v h, sha2_hmac_starts_key_long w u2 key v h]
    exact finish_bytes_congr _ _
      (sameview_finish_ctx w hw u1 u2 _ _
        (sameview_update w hw _ _ key (sameview_starts u1.ctx u2.ctx v)))
  · unfold sha2_hmac_starts_key
    rw [if_neg h, if_neg h]

/-- The function `sha2_hmac_starts` after the key is chosen and the pads are
made. -/
theorem sha2_hmac_starts_eq (w : Nat) (u : Locals) (ctx : sha2_context) (key : List Byte)
    (v : Int) :
    sha2_hmac_starts w u ctx key v =
      sha2_update w
        (sha2_starts
          { ctx with
            ipad := PBKDF2_xor_loop (sha2_hmac_starts_key w u key v).length
              (sha2_hmac_starts_key w u key v) (sha2_hmac_starts_key w u key v).length 0
              (memset ctx.ipad 0x36 64),
            opad := PBKDF2_xor_loop (sha2_hmac_starts_key w u key v).length
              (sha2_hmac_starts_key w u key v) (sha2_hmac_starts_key w u key v).length 0
              (memset ctx.opad 0x5C 64) } v)
        (xor_pad (sha2_hmac_starts_key w u key v) 0x36) := by
  have hi := pad_after_loop (sha2_hmac_starts_key w u key v) ctx.ipad 0x36
    (sha2_hmac_starts_key_length w u key v)
  have e : sha2_hmac_starts w u ctx key v =
      (let k := sha2_hmac_starts_key w u key v
       let c := { ctx with ipad := memset ctx.ipad 0x36 64 }
       let c := { c with opad := memset c.opad 0x5C 64 }
       let c := sha2_hmac_starts_loop k k.length 0 c
       let c := sha2_starts c v
       sha2_update w c (c.ipad.take 64)) := rfl
  rw [e]
  dsimp only
  rw [sha2_hmac_starts_loop_eq]
  dsimp only
  rw [(sha2_starts_fields _ v).1]
  dsimp only
  rw [hi]

/-- After `sha2_hmac_starts` two contexts agree on all that the digest and HMAC
functions read, whatever they and the automatic variables held before. -/
theorem sameview_hmac_starts (w : Nat) (hw : 32 ≤ w) (u1 u2 : Locals) (c1 c2 : sha2_context)
    (key : List Byte) (v : Int) :
    SameView (sha2_hmac_starts w u1 c1 key v) (sha2_hmac_starts w u2 c2 key v) ∧
    SamePads (sha2_hmac_starts w u1 c1 key v) (sha2_hmac_starts w u2 c2 key v) := by
  have hk := sha2_hmac_starts_key_indep w hw u1 u2 key v
  have hl := sha2_hmac_starts_key_length w u2 key v
  rw [sha2_hmac_starts_eq w u1 c1 key v, sha2_hmac_starts_eq w u2 c2 key v, hk]
  refine ⟨sameview_update w hw _ _ _ (sameview_starts _ _ v), ?_⟩
  apply samepads_update
  apply samepads_starts
  constructor
  · dsimp only
    rw [pad_after_loop _ c1.ipad 0x36 hl, pad_after_loop _ c2.ipad 0x36 hl]
  · dsimp only
    rw [pad_after_loop _ c1.opad 0x5C hl, pad_after_loop _ c2.opad 0x5C hl]

theorem sha2_finish_tmpbuf (w : Nat) (u : Locals) (c : sha2_context) :
    ((sha2_finish w u c u.tmpbuf).2).take (if c.is224 = 0 then 32 else 28) =
      finish_bytes (sha2_finish_ctx w u c) := by
  rw [sha2_finish_output]
  apply take_store_zero
  rw [finish_bytes_length, (sha2_finish_ctx_frame w u c).2.2]

/-- The function `sha2_hmac_finish` is `sha2_finish` on the context of the outer
digest. -/
theorem sha2_hmac_finish_eq (w : Nat) (u : Locals) (c : sha2_context) (output : List Byte) :
    sha2_hmac_finish w u c output = sha2_finish w u (sha2_hmac_outer w u c) output := by
  unfold sha2_hmac_finish sha2_hmac_outer
  dsimp only

theorem sha2_hmac_outer_eq (w : Nat) (u : Locals) (c : sha2_context) :
    sha2_hmac_outer w u c =
      sha2_update w
        (sha2_update w (sha2_starts (sha2_finish_ctx w u c) c.is224)
          ((sha2_starts (sha2_finish_ctx w u c) c.is224).opad.take 64))
        (finish_bytes (sha2_finish_ctx w u c)) := by
  unfold sha2_hmac_outer
  dsimp only
  rw [sha2_finish_fst, sha2_finish_tmpbuf]

theorem sha2_hmac_outer_view (w : Nat) (hw : 32 ≤ w) (u1 u2 : Locals) (c1 c2 : sha2_context)
    (h : SameView c1 c2) (hp : SamePads c1 c2) :
    SameView (sha2_hmac_outer w u1 c1) (sha2_hmac_outer w u2 c2) ∧
    SamePads (sha2_hmac_outer w u1 c1) (sha2_hmac_outer w u2 c2) := by
  have hF := sameview_finish_ctx w hw u1 u2 c1 c2 h
  have hPF := samepads_finish_ctx w u1 u2 c1 c2 hp
  have hS := sameview_starts (sha2_finish_ctx w u1 c1) (sha2_finish_ctx w u2 c2) c1.is224
  have hPS := samepads_starts _ _ c1.is224 c1.is224 hPF
  have hU1 := sameview_update w hw _ _
    ((sha2_starts (sha2_finish_ctx w u1 c1) c1.is224).opad.take 64) hS
  have hU2 := sameview_update w hw _ _ (finish_bytes (sha2_finish_ctx w u1 c1)) hU1
  have hPU := samepads_update w _ _
    (finish_bytes (sha2_finish_ctx w u1 c1)) (finish_bytes (sha2_finish_ctx w u1 c1))
    (samepads_update w _ _
      ((sha2_starts (sha2_finish_ctx w u1 c1) c1.is224).opad.take 64)
      ((sha2_starts (sha2_finish_ctx w u1 c1) c1.is224).opad.take 64) hPS)
  rw [sha2_hmac_outer_eq, sha2_hmac_outer_eq, ← h.is224, ← hPS.opad,
    ← finish_bytes_congr _ _ hF]
  exact ⟨hU2, hPU⟩

theorem sha2_hmac_outer_is224 (w : Nat) (u : Locals) (c : sha2_context) :
    (sha2_hmac_outer w u c).is224 = c.is224 := by
  rw [sha2_hmac_outer_eq, (sha2_update_frame w _ _).2.2, (sha2_update_frame w _ _).2.2,
    (sha2_starts_fields _ _).2.2.2]

/-- The MAC that `sha2_hmac_finish` writes is the same for two contexts that
agree on what the digest and HMAC functions read. -/
theorem sameview_hmac_finish (w : Nat) (hw : 32 ≤ w) (u1 u2 : Locals) (c1 c2 : sha2_context)
    (output : List Byte) (h : SameView c1 c2) (hp : SamePads c1 c2) :
    (sha2_hmac_finish w u1 c1 output).2 = (sha2_hmac_finish w u2 c2 output).2 ∧
    SameView (sha2_hmac_finish w u1 c1 output).1 (sha2_hmac_finish w u2 c2 output).1 ∧
    SamePads (sha2_hmac_finish w u1 c1 output).1 (sha2_hmac_finish w u2 c2 output).1 := by
  obtain ⟨hV, hP⟩ := sha2_hmac_outer_view w hw u1 u2 c1 c2 h hp
  rw [sha2_hmac_finish_eq, sha2_hmac_finish_eq]
  refine ⟨sameview_finish w hw u1 u2 _ _ output hV, ?_, ?_⟩
  · rw [sha2_finish_fst, sha2_finish_fst]
    exact sameview_finish_ctx w hw u1 u2 _ _ hV
  · rw [sha2_finish_fst, sha2_finish_fst]
    exact samepads_finish_ctx w u1 u2 _ _ hP

/-- The array that `sha2_hmac_finish` writes to is the MAC followed by the bytes
that the array held after it. -/
theorem sha2_hmac_finish_store (w : Nat) (u : Locals) (c : sha2_context) (output : List Byte) :
    (sha2_hmac_finish w u c output).2 = store output 0 (sha2_hmac_finish w u c []).2 ∧
    (sha2_hmac_finish w u c []).2.length = (if c.is224 = 0 then 32 else 28) := by
  have e : (sha2_hmac_finish w u c []).2 =
      finish_bytes (sha2_finish_ctx w u (sha2_hmac_outer w u c)) := by
    rw [sha2_hmac_finish_eq, sha2_finish_output, store_zero]
    simp
  rw [e, sha2_hmac_finish_eq, sha2_finish_output, finish_bytes_length,
    (sha2_finish_ctx_frame w u _).2.2, sha2_hmac_outer_is224]
  exact ⟨rfl, rfl⟩

theorem sha2_hmac_update_foldl (w : Nat) (chunks : List (List Byte)) :
    ∀ c : sha2_context,
      chunks.foldl (sha2_hmac_update w) c = chunks.foldl (sha2_update w) c := by
  induction chunks with
  | nil => intro c; rfl
  | cons x xs ih => intro c; exact ih _

theorem sha2_hmac_starts_is224 (w : Nat) (u : Locals) (ctx : sha2_context) (key : List Byte)
    (v : Int) : (sha2_hmac_starts w u ctx key v).is224 = v := by
  rw [sha2_hmac_starts_eq, (sha2_update_frame w _ _).2.2, (sha2_starts_fields _ v).2.2.2]

theorem foldl_update_is224 (w : Nat) (chunks : List (List Byte)) :
    ∀ c : sha2_context, (chunks.foldl (sha2_update w) c).is224 = c.is224 := by
  induction chunks with
  | nil => intro c; rfl
  | cons x xs ih => intro c; rw [List.foldl_cons, ih, (sha2_update_frame w c x).2.2]

/-- One HMAC computation of `PKCS5_PBKDF2_HMAC` writes the same 32 bytes whatever
the context, the automatic variables and the array held before. -/
theorem hmac_op_indep (w : Nat) (hw : 32 ≤ w) (u1 u2 : Locals) (c1 c2 : sha2_context)
    (password : List Byte) (chunks : List (List Byte)) (m1 m2 : List Byte) :
    (sha2_hmac_finish w u1
        (chunks.foldl (sha2_update w) (sha2_hmac_starts w u1 c1 password 0)) m1).2.take 32 =
      (sha2_hmac_finish w u2
        (chunks.foldl (sha2_update w) (sha2_hmac_starts w u2 c2 password 0)) m2).2.take 32 ∧
    32 ≤ (sha2_hmac_finish w u1
        (chunks.foldl (sha2_update w) (sha2_hmac_starts w u1 c1 password 0)) m1).2.length ∧
    32 ≤ (sha2_hmac_finish w u2
        (chunks.foldl (sha2_update w) (sha2_hmac_starts w u2 c2 password 0)) m2).2.length := by
  obtain ⟨hV, hP⟩ := sameview_hmac_starts w hw u1 u2 c1 c2 password 0
  have hV2 := sameview_foldl w hw chunks _ _ hV
  have hP2 := samepads_foldl w chunks _ _ hP
  have hmac := (sameview_hmac_finish w hw u1 u2 _ _ [] hV2 hP2).1
  obtain ⟨a1, a2⟩ := sha2_hmac_finish_store w u1
    (chunks.foldl (sha2_update w) (sha2_hmac_starts w u1 c1 password 0)) m1
  obtain ⟨b1, b2⟩ := sha2_hmac_finish_store w u2
    (chunks.foldl (sha2_update w) (sha2_hmac_starts w u2 c2 password 0)) m2
  rw [foldl_update_is224, sha2_hmac_starts_is224, if_pos rfl] at a2 b2
  rw [a1, b1, take_store_zero _ _ 32 a2, take_store_zero _ _ 32 b2]
  refine ⟨hmac, ?_, ?_⟩
  · have h1 := store_length_ge m1 0
      (sha2_hmac_finish w u1
        (chunks.foldl (sha2_update w) (sha2_hmac_starts w u1 c1 password 0)) []).2
      (Nat.zero_le _)
    rw [a2] at h1
    omega
  · have h2 := store_length_ge m2 0
      (sha2_hmac_finish w u2
        (chunks.foldl (sha2_update w) (sha2_hmac_starts w u2 c2 password 0)) []).2
      (Nat.zero_le _)
    rw [b2] at h2
    omega

theorem PBKDF2_inner_loop_succ (w : Nat) (u : Locals) (password : List Byte) (c fuel ic : Nat)
    (v : PBKDF2_vars) :
    PBKDF2_inner_loop w u password 32 c (fuel + 1) ic v =
      if ic < c then
        PBKDF2_inner_loop w u password 32 c fuel (uadd w ic 1)
          (PBKDF2_inner_body w u password 32 v)
      else v := by
  rw [PBKDF2_inner_loop]
  rfl

theorem PBKDF2_inner_body_fields (w : Nat) (u : Locals) (password : List Byte)
    (v : PBKDF2_vars) :
    (PBKDF2_inner_body w u password 32 v).counter = v.counter ∧
    (PBKDF2_inner_body w u password 32 v).generated_key_length = v.generated_key_length ∧
    (PBKDF2_inner_body w u password 32 v).output = v.output ∧
    (PBKDF2_inner_body w u password 32 v).md1 =
      (sha2_hmac_finish w u (sha2_update w (sha2_hmac_starts w u v.ctx password 0)
        (v.md1.take 32)) v.md1).2 ∧
    (PBKDF2_inner_body w u password 32 v).work =
      PBKDF2_xor_loop 32 (sha2_hmac_finish w u (sha2_update w
        (sha2_hmac_starts w u v.ctx password 0) (v.md1.take 32)) v.md1).2 32 0 v.work := by
  unfold PBKDF2_inner_body
  dsimp only
  unfold sha2_hmac_update
  exact ⟨rfl, rfl, rfl, rfl, rfl⟩

theorem xor_bytes_take_length (a b : List Byte) (ha : 32 ≤ a.length) (hb : 32 ≤ b.length) :
    (xor_bytes (a.take 32) (b.take 32)).length = 32 := by
  unfold xor_bytes
  simp only [List.length_zipWith, List.length_take]
  omega

theorem xor_loop_take (k1 k2 p1 p2 : List Byte) (hk : k1.take 32 = k2.take 32)
    (hp : p1.take 32 = p2.take 32) (l1 : 32 ≤ k1.length) (l2 : 32 ≤ k2.length)
    (m1 : 32 ≤ p1.length) (m2 : 32 ≤ p2.length) :
    (PBKDF2_xor_loop 32 k1 32 0 p1).take 32 = (PBKDF2_xor_loop 32 k2 32 0 p2).take 32 ∧
    32 ≤ (PBKDF2_xor_loop 32 k1 32 0 p1).length ∧
    32 ≤ (PBKDF2_xor_loop 32 k2 32 0 p2).length := by
  rw [xor_loop_full 32 k1 p1 m1 l1, xor_loop_full 32 k2 p2 m2 l2,
    List.take_left' (xor_bytes_take_length _ _ m1 l1),
    List.take_left' (xor_bytes_take_length _ _ m2 l2), List.length_append, List.length_append,
    xor_bytes_take_length _ _ m1 l1, xor_bytes_take_length _ _ m2 l2, hk, hp]
  exact ⟨rfl, Nat.le_add_right _ _, Nat.le_add_right _ _⟩

theorem same_inner_body (w : Nat) (hw : 32 ≤ w) (u1 u2 : Locals) (password : List Byte)
    (v1 v2 : PBKDF2_vars) (h : SameInner v1 v2) :
    SameInner (PBKDF2_inner_body w u1 password 32 v1) (PBKDF2_inner_body w u2 password 32 v2) := by
  obtain ⟨e, l1, l2⟩ := hmac_op_indep w hw u1 u2 v1.ctx v2.ctx password [v1.md1.take 32]
    v1.md1 v2.md1
  simp only [List.foldl_cons, List.foldl_nil] at e l1 l2
  obtain ⟨a1, a2, a3, a4, a5⟩ := PBKDF2_inner_body_fields w u1 password v1
  obtain ⟨b1, b2, b3, b4, b5⟩ := PBKDF2_inner_body_fields w u2 password v2
  rw [← h.md1] at b4 b5
  obtain ⟨x1, x2, x3⟩ := xor_loop_take _ _ _ _ e h.work l1 l2 h.lw1 h.lw2
  rw [← a4] at e l1
  rw [← b4] at e l2
  rw [← a5] at x1 x2
  rw [← b5] at x1 x3
  exact ⟨a1.trans (h.counter.trans b1.symm), a2.trans (h.gen.trans b2.symm),
    a3.trans (h.output.trans b3.symm), e, x1, l1, l2, x2, x3⟩

theorem same_inner_loop (w : Nat) (hw : 32 ≤ w) (u1 u2 : Locals) (password : List Byte)
    (c : Nat) :
    ∀ (fuel ic : Nat) (v1 v2 : PBKDF2_vars), SameInner v1 v2 →
      SameInner (PBKDF2_inner_loop w u1 password 32 c fuel ic v1)
        (PBKDF2_inner_loop w u2 password 32 c fuel ic v2) := by
  intro fuel
  induction fuel with
  | zero => intro ic v1 v2 h; exact h
  | succ fuel ih =>
    intro ic v1 v2 h
    rw [PBKDF2_inner_loop_succ, PBKDF2_inner_loop_succ]
    by_cases hic : ic < c
    · rw [if_pos hic, if_pos hic]
      exact ih _ _ _ (same_inner_body w hw u1 u2 password v1 v2 h)
    · rw [if_neg hic, if_neg hic]
      exact h

theorem PBKDF2_outer_body_eq (w : Nat) (u : Locals) (password salt : List Byte) (c L : Nat)
    (v : PBKDF2_vars) :
    PBKDF2_outer_body w u password salt 32 c L v =
      PBKDF2_outer_tail w 32 L
        (PBKDF2_inner_loop w u password 32 c c 1 (PBKDF2_outer_head w u password salt 32 v)) := by
  rfl

theorem PBKDF2_outer_head_fields (w : Nat) (u : Locals) (password salt : List Byte)
    (v : PBKDF2_vars) :
    (PBKDF2_outer_head w u password salt 32 v).counter = v.counter ∧
    (PBKDF2_outer_head w u password salt 32 v).generated_key_length = v.generated_key_length ∧
    (PBKDF2_outer_head w u password salt 32 v).output = v.output ∧
    (PBKDF2_outer_head w u password salt 32 v).md1 =
      (sha2_hmac_finish w u (sha2_update w (sha2_update w
        (sha2_hmac_starts w u v.ctx password 0) salt) (BE32 v.counter)) v.md1).2 ∧
    (PBKDF2_outer_head w u password salt 32 v).work =
      store v.work 0 ((sha2_hmac_finish w u (sha2_update w (sha2_update w
        (sha2_hmac_starts w u v.ctx password 0) salt) (BE32 v.counter)) v.md1).2.take 32) := by
  unfold PBKDF2_outer_head
  dsimp only
  unfold sha2_hmac_update memcpy
  rw [counter_bytes]
  exact ⟨rfl, rfl, rfl, rfl, rfl⟩

theorem store_take_take (p1 p2 k1 k2 : List Byte) (hk : k1.take 32 = k2.take 32)
    (l1 : 32 ≤ k1.length) (l2 : 32 ≤ k2.length) :
    (store p1 0 (k1.take 32)).take 32 = (store p2 0 (k2.take 32)).take 32 ∧
    32 ≤ (store p1 0 (k1.take 32)).length ∧ 32 ≤ (store p2 0 (k2.take 32)).length := by
  have t1 : (k1.take 32).length = 32 := by
    rw [List.length_take]
    omega
  have t2 : (k2.take 32).length = 32 := by
    rw [List.length_take]
    omega
  have s1 := store_length_ge p1 0 (k1.take 32) (Nat.zero_le _)
  have s2 := store_length_ge p2 0 (k2.take 32) (Nat.zero_le _)
  rw [take_store_zero _ _ 32 t1, take_store_zero _ _ 32 t2]
  refine ⟨hk, ?_, ?_⟩
  · omega
  · omega

theorem same_outer_head (w : Nat) (hw : 32 ≤ w) (u1 u2 : Locals) (password salt : List Byte)
    (v1 v2 : PBKDF2_vars) (h : SameOuter v1 v2) :
    SameInner (PBKDF2_outer_head w u1 password salt 32 v1)
      (PBKDF2_outer_head w u2 password salt 32 v2) := by
  obtain ⟨e, l1, l2⟩ := hmac_op_indep w hw u1 u2 v1.ctx v2.ctx password [salt, BE32 v1.counter]
    v1.md1 v2.md1
  simp only [List.foldl_cons, List.foldl_nil] at e l1 l2
  obtain ⟨a1, a2, a3, a4, a5⟩ := PBKDF2_outer_head_fields w u1 password salt v1
  obtain ⟨b1, b2, b3, b4, b5⟩ := PBKDF2_outer_head_fields w u2 password salt v2
  rw [← h.counter] at b4 b5
  obtain ⟨x1, x2, x3⟩ := store_take_take v1.work v2.work _ _ e l1 l2
  rw [← a4] at e l1
  rw [← b4] at e l2
  rw [← a5] at x1 x2
  rw [← b5] at x1 x3
  exact ⟨a1.trans (h.counter.trans b1.symm), a2.trans (h.gen.trans b2.symm),
    a3.trans (h.output.trans b3.symm), e, x1, l1, l2, x2, x3⟩

theorem min_local_le (a b : Nat) : min_local a b ≤ b := by
  unfold min_local
  split <;> omega

theorem same_outer_tail (w L : Nat) (v1 v2 : PBKDF2_vars) (h : SameInner v1 v2) :
    SameOuter (PBKDF2_outer_tail w 32 L v1) (PBKDF2_outer_tail w 32 L v2) := by
  have tk : ∀ n : Nat, n ≤ 32 → v1.work.take n = v2.work.take n := by
    intro n hn
    have a : ∀ l : List Byte, l.take n = (l.take 32).take n := by
      intro l
      rw [List.take_take, Nat.min_eq_left hn]
    rw [a v1.work, a v2.work, h.work]
  unfold PBKDF2_outer_tail memcpy
  dsimp only
  refine ⟨?_, ?_, ?_⟩
  · rw [h.counter]
  · rw [h.gen]
  · rw [← h.gen, ← h.output, tk _ (min_local_le _ _)]

theorem same_outer_body (w : Nat) (hw : 32 ≤ w) (u1 u2 : Locals) (password salt : List Byte)
    (c L : Nat) (v1 v2 : PBKDF2_vars) (h : SameOuter v1 v2) :
    SameOuter (PBKDF2_outer_body w u1 password salt 32 c L v1)
      (PBKDF2_outer_body w u2 password salt 32 c L v2) := by
  rw [PBKDF2_outer_body_eq, PBKDF2_outer_body_eq]
  exact same_outer_tail w L _ _
    (same_inner_loop w hw u1 u2 password c c 1 _ _
      (same_outer_head w hw u1 u2 password salt v1 v2 h))

theorem same_outer_loop (w : Nat) (hw : 32 ≤ w) (u1 u2 : Locals) (password salt : List Byte)
    (c L : Nat) :
    ∀ (fuel : Nat) (v1 v2 : PBKDF2_vars), SameOuter v1 v2 →
      SameOuter (PBKDF2_outer_loop w u1 password salt 32 c L fuel v1)
        (PBKDF2_outer_loop w u2 password salt 32 c L fuel v2) := by
  intro fuel
  induction fuel with
  | zero => intro v1 v2 h; exact h
  | succ fuel ih =>
    intro v1 v2 h
    by_cases hlt : v1.generated_key_length < L
    · have hlt2 : v2.generated_key_length < L := h.gen ▸ hlt
      rw [(PBKDF2_outer_pass w u1 password salt c L v1 hlt).1,
        (PBKDF2_outer_pass w u2 password salt c L v2 hlt2).1]
      exact ih _ _ (same_outer_body w hw u1 u2 password salt c L v1 v2 h)
    · have hlt2 : ¬ v2.generated_key_length < L := h.gen ▸ hlt
      rw [PBKDF2_outer_done w u1 password salt c L v1 hlt,
        PBKDF2_outer_done w u2 password salt c L v2 hlt2]
      exact h

/-- The derived key does not depend on what the automatic variables of
`PKCS5_PBKDF2_HMAC` held on entry. -/
theorem PKCS5_PBKDF2_HMAC_locals (w : Nat) (hw : 32 ≤ w) (u1 u2 : Locals)
    (password salt : List Byte) (c L : Nat) (output : List Byte) :
    PKCS5_PBKDF2_HMAC w u1 password salt c L output =
      PKCS5_PBKDF2_HMAC w u2 password salt c L output := by
  have h : SameOuter (PBKDF2_init u1 output) (PBKDF2_init u2 output) := ⟨rfl, rfl, rfl⟩
  exact (same_outer_loop w hw u1 u2 password salt c L L _ _ h).output

/-- C22: the MAC does not depend on what the context held before. For any two
contexts and any two sets of automatic variables with arbitrary contents,
`sha2_hmac_starts` with the same key and variant, the same sequence of
`sha2_hmac_update` calls and `sha2_hmac_finish` write the same MAC. `sha2_starts`
leaves `buffer` as it was, yet the digest depends on no byte of `buffer` at or
after the offset `total[0] % 64`, neither right after `sha2_starts` nor later in
the stream, so the digest of `sha2_starts`, `sha2_update` calls and `sha2_finish`
is the same from any two contexts. Therefore the key derived by
`PKCS5_PBKDF2_HMAC`, which passes the same context to every HMAC computation,
does not depend on the contents of its automatic variables either. -/
theorem C22_stale_context_independence (w : Nat) (u1 u2 : Locals) (ctx1 ctx2 : sha2_context)
    (key : List Byte) (v : Int) (chunks : List (List Byte)) (output : List Byte)
    (hw : 32 ≤ w) :
    (sha2_hmac_finish w u1
        (chunks.foldl (sha2_hmac_update w) (sha2_hmac_starts w u1 ctx1 key v)) output).2 =
      (sha2_hmac_finish w u2
        (chunks.foldl (sha2_hmac_update w) (sha2_hmac_starts w u2 ctx2 key v)) output).2 ∧
    (sha2_starts ctx1 v).buffer = ctx1.buffer ∧
    (sha2_finish w u1 (chunks.foldl (sha2_update w) (sha2_starts ctx1 v)) output).2 =
      (sha2_finish w u2 (chunks.foldl (sha2_update w) (sha2_starts ctx2 v)) output).2 ∧
    (∀ b : List Byte,
      (sha2_finish w u1
          (chunks.foldl (sha2_update w) { sha2_starts ctx1 v with buffer := b }) output).2 =
        (sha2_finish w u1 (chunks.foldl (sha2_update w) (sha2_starts ctx1 v)) output).2) ∧
    (∀ (c : sha2_context) (b : List Byte), c.total0 % 64 ≤ c.buffer.length →
      b.take (c.total0 % 64) = c.buffer.take (c.total0 % 64) →
      (sha2_finish w u1 (chunks.foldl (sha2_update w) { c with buffer := b }) output).2 =
        (sha2_finish w u1 (chunks.foldl (sha2_update w) c) output).2) ∧
    (∀ (password salt : List Byte) (c L : Nat),
      PKCS5_PBKDF2_HMAC w u1 password salt c L output =
        PKCS5_PBKDF2_HMAC w u2 password salt c L output) := by
  have unread : ∀ (c : sha2_context) (b : List Byte), c.total0 % 64 ≤ c.buffer.length →
      b.take (c.total0 % 64) = c.buffer.take (c.total0 % 64) →
      (sha2_finish w u1 (chunks.foldl (sha2_update w) { c with buffer := b }) output).2 =
        (sha2_finish w u1 (chunks.foldl (sha2_update w) c) output).2 := by
    intro c b hl hb
    have hlb : c.total0 % 64 ≤ b.length := by
      have e := congrArg List.length hb
      rw [List.length_take, List.length_take] at e
      omega
    have hS : SameView { c with buffer := b } c := ⟨rfl, rfl, rfl, rfl, hb, hlb, hl⟩
    exact sameview_finish w hw u1 u1 _ _ output (sameview_foldl w hw chunks _ _ hS)
  refine ⟨?_, (sha2_starts_fields ctx1 v).2.2.1, ?_, ?_, unread, ?_⟩
  · obtain ⟨hV, hP⟩ := sameview_hmac_starts w hw u1 u2 ctx1 ctx2 key v
    rw [sha2_hmac_update_foldl, sha2_hmac_update_foldl]
    exact (sameview_hmac_finish w hw u1 u2 _ _ output (sameview_foldl w hw chunks _ _ hV)
      (samepads_foldl w chunks _ _ hP)).1
  · exact sameview_finish w hw u1 u2 _ _ output
      (sameview_foldl w hw chunks _ _ (sameview_starts ctx1 ctx2 v))
  · intro b
    have h0 : (sha2_starts ctx1 v).total0 = 0 := (sha2_starts_totals ctx1 v).1
    apply unread
    · rw [h0]
      exact Nat.zero_le _
    · rw [h0]
      rfl
  · intro password salt c L
    exact PKCS5_PBKDF2_HMAC_locals w hw u1 u2 password salt c L output

theorem C22_stale_context_independence_witness :
    32 ≤ 32 ∧
    (sha2_hmac_finish 32 stale_locals
        ([[0x61, 0x62], [], [0x63]].foldl (sha2_hmac_update 32)
          (sha2_hmac_starts 32 stale_locals stale_ctx [0x6b, 0x65, 0x79] 0))
        (List.replicate 32 0)).2 =
      (sha2_hmac_finish 32 { stale_locals with tmpbuf := [1, 2], sum := [] }
        ([[0x61, 0x62], [], [0x63]].foldl (sha2_hmac_update 32)
          (sha2_hmac_starts 32 { stale_locals with tmpbuf := [1, 2], sum := [] }
            { stale_ctx with buffer := List.replicate 64 0xAA, ipad := [4], total0 := 0 }
            [0x6b, 0x65, 0x79] 0))
        (List.replicate 32 0)).2 :=
  ⟨by decide,
    (C22_stale_context_independence 32 stale_locals
      { stale_locals with tmpbuf := [1, 2], sum := [] } stale_ctx
      { stale_ctx with buffer := List.replicate 64 0xAA, ipad := [4], total0 := 0 }
      [0x6b, 0x65, 0x79] 0 [[0x61, 0x62], [], [0x63]] (List.replicate 32 0) (by decide)).1⟩

theorem sha2_pad_count_length (m : List Byte) : sha2_pad_count m m.length = sha2_pad m := rfl

theorem digest_count_length (w : Nat) (v : Int) (m : List Byte) :
    digest_count w v m m.length = digest w v m := rfl

theorem digest_count_size (w : Nat) (v : Int) (m : List Byte) (n : Nat) :
    (digest_count w v m n).length = if v = 0 then 32 else 28 := by
  unfold digest_count
  rw [List.length_take, digest_flatten_length _
    (foldl_compress_length w _ _ (initial_state_length v))]
  split <;> rfl

/-- Two padded messages with different length fields differ. -/
theorem sha2_pad_count_ne (m : List Byte) (a b : Nat) (h : BE64 (8 * a) ≠ BE64 (8 * b)) :
    sha2_pad_count m a ≠ sha2_pad_count m b := by
  intro e
  unfold sha2_pad_count at e
  exact h (List.append_cancel_left e)

/-- The two words of the bit length that `sha2_finish` appends, from the two
counter words. -/
theorem sha2_finish_msglen_count (w : Nat) (u : Locals) (ctx : sha2_context) (n : Nat)
    (hw : 32 ≤ w) (h0 : ctx.total0 = n % 2 ^ 32) (h1 : ctx.total1 = n / 2 ^ 32 % 2 ^ w) :
    (sha2_finish_msglen w u ctx).take 8 = BE64 (8 * n) := by
  rw [sha2_finish_msglen_eq, h0, h1, msglen_low w _ hw, msglen_high w _ hw, ← BE64_eq]

/-- The context that `sha2_finish` leaves, for a context that has absorbed `m`
and whose counter words hold the count `n`: it has absorbed the padded message
with the length field of `n`. -/
theorem sha2_finish_ctx_counted (w : Nat) (u : Locals) (v : Int) (m : List Byte) (n : Nat)
    (ctx : sha2_context) (hw : 32 ≤ w) (h : Streaming w v m ctx)
    (h0 : ctx.total0 = n % 2 ^ 32) (h1 : ctx.total1 = n / 2 ^ 32 % 2 ^ w) :
    Streaming w v (sha2_pad_count m n) (sha2_finish_ctx w u ctx) := by
  have hlast : ctx.total0 &&& 0x3F = m.length % 64 := by
    rw [and_3F, h.total0]; omega
  have hpadn1 : 1 ≤ (if m.length % 64 < 56 then 56 - m.length % 64 else 120 - m.length % 64) := by
    split <;> omega
  have hpadn2 : (if m.length % 64 < 56 then 56 - m.length % 64 else 120 - m.length % 64) ≤ 64 := by
    split <;> omega
  have hpadk : (if m.length % 64 < 56 then 56 - m.length % 64 else 120 - m.length % 64) - 1 =
      pad_zeros m.length := by
    unfold pad_zeros
    split <;> omega
  have hpad : sha2_padding.take (sha2_finish_padn ctx) =
      0x80 :: List.replicate (pad_zeros m.length) 0 := by
    unfold sha2_finish_padn
    dsimp only
    rw [hlast, sha2_padding_take _ hpadn1 hpadn2, hpadk]
  rw [sha2_finish_ctx_eq, hpad, sha2_finish_msglen_count w u ctx n hw h0 h1]
  have hA1 := streaming_update w v m (0x80 :: List.replicate (pad_zeros m.length) 0) ctx hw h
  have hA2 := streaming_update w v _ (BE64 (8 * n)) _ hw hA1
  have hp : m ++ 0x80 :: List.replicate (pad_zeros m.length) 0 ++ BE64 (8 * n) =
      sha2_pad_count m n := by
    simp [sha2_pad_count]
  rw [hp] at hA2
  exact hA2

theorem finish_bytes_of_state (c : sha2_context) (st : List Nat) (v : Int) (hs : c.state = st)
    (hv : c.is224 = v) (hl : st.length = 8) :
    finish_bytes c = ((st.map BE32).flatten).take (if v = 0 then 32 else 28) := by
  unfold finish_bytes state_bytes28
  rw [hs, hv]
  have h8 := list8_eq st hl
  by_cases h : v = 0
  · rw [if_pos h, if_pos h]
    conv => rhs; rw [h8]
    rfl
  · rw [if_neg h, if_neg h]
    conv => rhs; rw [h8]
    rfl

/-- The digest that `sha2_finish` writes, for a context that has absorbed `m` and
whose counter words hold the count `n`: the length field of the padding is taken
from the counter, not from `m`. -/
theorem sha2_finish_counted (w : Nat) (u : Locals) (v : Int) (m : List Byte) (n : Nat)
    (ctx : sha2_context) (output : List Byte) (hw : 32 ≤ w) (h : Streaming w v m ctx)
    (h0 : ctx.total0 = n % 2 ^ 32) (h1 : ctx.total1 = n / 2 ^ 32 % 2 ^ w) :
    (sha2_finish w u ctx output).2 = store output 0 (digest_count w v m n) ∧
    finish_bytes (sha2_finish_ctx w u ctx) = digest_count w v m n := by
  have hS := sha2_finish_ctx_counted w u v m n ctx hw h h0 h1
  have hb : finish_bytes (sha2_finish_ctx w u ctx) = digest_count w v m n := by
    unfold digest_count
    exact finish_bytes_of_state _ _ v hS.state hS.is224
      (foldl_compress_length w _ _ (initial_state_length v))
  rw [sha2_finish_output, hb]
  exact ⟨rfl, rfl⟩

theorem streaming_of_absorbed (w : Nat) (v : Int) (m : List Byte) (ctx : sha2_context)
    (h : Absorbed w v m ctx) : Streaming w v m ctx :=
  ⟨h.is224, h.total0, h.state, h.buffer⟩

/-- The MAC written by `sha2_hmac_finish` for a context that holds the pads of
`K`, has absorbed the inner pad and `m`, and whose counter words hold the count
`n`: the inner digest has the length field of `n`. -/
theorem sha2_hmac_finish_counted (w : Nat) (u : Locals) (v : Int) (K m : List Byte) (n : Nat)
    (ctx : sha2_context) (output : List Byte) (hw : 32 ≤ w) (hK : K.length ≤ 64)
    (hk : HmacKeyed v K ctx) (hs : Streaming w v (xor_pad K 0x36 ++ m) ctx)
    (h0 : ctx.total0 = n % 2 ^ 32) (h1 : ctx.total1 = n / 2 ^ 32 % 2 ^ w) :
    (sha2_hmac_finish w u ctx output).2 =
      store output 0
        (digest w v (xor_pad K 0x5C ++ digest_count w v (xor_pad K 0x36 ++ m) n)) := by
  obtain ⟨f1, _⟩ := sha2_finish_counted w u v _ n ctx u.tmpbuf hw hs h0 h1
  have k1 := hmac_keyed_finish w u v K ctx u.tmpbuf hk
  have hhlen : (if ctx.is224 = 0 then 32 else 28) =
      (digest_count w v (xor_pad K 0x36 ++ m) n).length := by
    rw [digest_count_size, hk.is224]
  have htmp : (sha2_finish w u ctx u.tmpbuf).2.take (if ctx.is224 = 0 then 32 else 28) =
      digest_count w v (xor_pad K 0x36 ++ m) n := by
    rw [f1]
    exact take_store_zero _ _ _ hhlen.symm
  have a1 := absorbed_update w v [] (xor_pad K 0x5C) _ hw
    (by rw [xor_pad_length K _ hK]; decide)
    (absorbed_starts w (sha2_finish w u ctx u.tmpbuf).1 v)
  have a2 := absorbed_update w v _ (digest_count w v (xor_pad K 0x36 ++ m) n) _ hw
    (by rw [digest_count_size]; split <;> decide) a1
  rw [List.nil_append] at a2
  have heq : sha2_hmac_finish w u ctx output =
      sha2_finish w u
        (sha2_update w
          (sha2_update w (sha2_starts (sha2_finish w u ctx u.tmpbuf).1 v) (xor_pad K 0x5C))
          (digest_count w v (xor_pad K 0x36 ++ m) n)) output := by
    unfold sha2_hmac_finish
    dsimp only
    rw [htmp, hk.is224, (sha2_starts_fields _ v).2.1, k1.opad]
  rw [heq]
  exact (sha2_finish_spec w u v _ _ output hw a2).1

theorem PBKDF2_outer_tail_output (w L : Nat) (x : PBKDF2_vars) :
    (PBKDF2_outer_tail w 32 L x).output =
      memcpy x.output x.generated_key_length x.work
        (min_local (L - x.generated_key_length) 32) := rfl

/-- With one iteration and a key of 32 bytes `PKCS5_PBKDF2_HMAC` writes the MAC
of its first HMAC computation: `sha2_hmac_starts`, `sha2_hmac_update` on the
salt, `sha2_hmac_update` on the four bytes of the block index 1, and
`sha2_hmac_finish`. -/
theorem PKCS5_PBKDF2_HMAC_one_block (w : Nat) (hw : 32 ≤ w) (u : Locals)
    (password salt output : List Byte) :
    PKCS5_PBKDF2_HMAC w u password salt 1 32 output =
      store output 0
        ((sha2_hmac_finish w u
          (sha2_update w (sha2_update w (sha2_hmac_starts w u (sha2_starts u.ctx 0) password 0)
            salt) (BE32 1)) u.md1).2.take 32) := by
  have e0 : PKCS5_PBKDF2_HMAC w u password salt 1 32 output =
      (PBKDF2_outer_loop w u password salt 32 1 32 32 (PBKDF2_init u output)).output := rfl
  have hlt : (PBKDF2_init u output).generated_key_length < 32 := Nat.zero_lt_succ 31
  obtain ⟨p1, p2, _⟩ := PBKDF2_outer_pass w u password salt 1 32 (PBKDF2_init u output) hlt
  have g0 : (PBKDF2_init u output).generated_key_length = 0 := rfl
  have c1 : (PBKDF2_init u output).counter = 1 := rfl
  have o0 : (PBKDF2_init u output).output = output := rfl
  have x0 : (PBKDF2_init u output).ctx = sha2_starts u.ctx 0 := rfl
  have m0 : (PBKDF2_init u output).md1 = u.md1 := rfl
  have hP : 2 ^ 32 ≤ 2 ^ w := Nat.pow_le_pow_right (by decide) hw
  have hg : (PBKDF2_outer_body w u password salt 32 1 32
      (PBKDF2_init u output)).generated_key_length = 32 := by
    rw [p2, g0]
    have e : min_local (32 - 0) 32 = 32 := by decide
    rw [e]
    unfold uadd
    exact Nat.mod_eq_of_lt (by omega)
  have hdone := PBKDF2_outer_done w u password salt 1 32
    (PBKDF2_outer_body w u password salt 32 1 32 (PBKDF2_init u output))
    (by rw [hg]; decide) 31
  have hin : ∀ x : PBKDF2_vars, PBKDF2_inner_loop w u password 32 1 1 1 x = x := by
    intro x
    rw [PBKDF2_inner_loop_succ, if_neg (by decide)]
  obtain ⟨a1, a2, a3, a4, a5⟩ := PBKDF2_outer_head_fields w u password salt (PBKDF2_init u output)
  obtain ⟨_, l1, _⟩ := hmac_op_indep w hw u u (sha2_starts u.ctx 0) (sha2_starts u.ctx 0) password
    [salt, BE32 1] u.md1 u.md1
  simp only [List.foldl_cons, List.foldl_nil] at l1
  have t32 : ((sha2_hmac_finish w u
      (sha2_update w (sha2_update w (sha2_hmac_starts w u (sha2_starts u.ctx 0) password 0)
        salt) (BE32 1)) u.md1).2.take 32).length = 32 := by
    rw [List.length_take]
    omega
  rw [e0, p1 31, hdone, PBKDF2_outer_body_eq, hin, PBKDF2_outer_tail_output, a2, a3, a5, g0, o0,
    c1, x0, m0]
  have e : min_local (32 - 0) 32 = 32 := by decide
  rw [e]
  unfold memcpy
  rw [take_store_zero _ _ 32 t32]

/-- The counter words after `sha2_update` on an input of `k ≠ 0` bytes, from the
counter words `t0` and `t1`. -/
theorem sha2_update_totals_at (w : Nat) (ctx : sha2_context) (x : List Byte) (t0 t1 k : Nat)
    (h0 : ctx.total0 = t0) (h1 : ctx.total1 = t1) (hk : x.length = k) (hk0 : k ≠ 0) :
    (sha2_update w ctx x).total0 = total0_next w t0 k ∧
    (sha2_update w ctx x).total1 = total1_next w t0 t1 k := by
  obtain ⟨a0, a1⟩ := sha2_update_totals_eq w ctx x (by rw [hk]; exact hk0)
  rw [a0, a1, h0, h1, hk]
  exact ⟨rfl, rfl⟩

/-- The loop definition on a state of 32-bit words is the loop over the macros
with a 32-bit `unsigned long`. -/
theorem compress_spec_eq_process_loop_32 (st : List Nat) (data : List Byte)
    (hst : ∀ x ∈ st, x < 2 ^ 32) : compress_spec st data = process_loop 32 st data := by
  have h32 := process_loop_low 32 (Nat.le_refl 32) st data
  rw [map_low_of_lt _ hst, map_low_of_lt _ (process_loop_lt 32 st data)] at h32
  exact h32.symm

/-- The output of `sha2` for SHA-256 when the counter words hold the count `n`
after the input `m` is absorbed: the serialised fold of the compression function
over the blocks of `m ‖ 0x80 ‖ 0x00^k ‖ BE64(8 * n)`. -/
theorem sha2_counted_fold (w : Nat) (u : Locals) (m : List Byte) (n : Nat) (output : List Byte)
    (hw : 32 ≤ w)
    (h0 : (sha2_update w (sha2_starts u.ctx 0) m).total0 = n % 2 ^ 32)
    (h1 : (sha2_update w (sha2_starts u.ctx 0) m).total1 = n / 2 ^ 32 % 2 ^ w) :
    sha2 w u m output 0 =
      (((blocks (m ++ [0x80] ++ List.replicate (pad_zeros m.length) 0 ++
            BE64 (8 * n))).foldl (compress w)
          [0x6A09E667, 0xBB67AE85, 0x3C6EF372, 0xA54FF53A,
           0x510E527F, 0x9B05688C, 0x1F83D9AB, 0x5BE0CD19]).map BE32).flatten ++
        output.drop 32 := by
  have SB := streaming_update w 0 [] m _ hw (streaming_starts w u.ctx 0)
  rw [List.nil_append] at SB
  have FB := (sha2_finish_counted w u 0 _ n _ output hw SB h0 h1).1
  have e : sha2 w u m output 0 =
      (sha2_finish w u (sha2_update w (sha2_starts u.ctx 0) m) output).2 := rfl
  have hi : initial_state 0 = [0x6A09E667, 0xBB67AE85, 0x3C6EF372, 0xA54FF53A,
      0x510E527F, 0x9B05688C, 0x1F83D9AB, 0x5BE0CD19] := rfl
  have hd : digest_count w 0 m n =
      (((blocks (sha2_pad_count m n)).foldl (compress w) (initial_state 0)).map BE32).flatten := by
    unfold digest_count
    rw [if_pos rfl, List.take_of_length_le
      (Nat.le_of_eq (digest_flatten_length _
        (foldl_compress_length w _ _ (initial_state_length 0))))]
  rw [e, FB, store_zero, digest_count_size, if_pos rfl, hd, hi]
  unfold sha2_pad_count
  exact Eq.refl _

/-- After `sha2_hmac_starts` with a key of 64 bytes at most the context holds the
pads of the key, has absorbed the inner pad, and counts 64 bytes. -/
theorem sha2_hmac_starts_counted (w : Nat) (u : Locals) (ctx : sha2_context) (key : List Byte)
    (v : Int) (hw : 32 ≤ w) (hk : key.length ≤ 64) :
    HmacKeyed v key (sha2_hmac_starts w u ctx key v) ∧
    Streaming w v (xor_pad key 0x36) (sha2_hmac_starts w u ctx key v) ∧
    (sha2_hmac_starts w u ctx key v).total0 = 64 ∧
    (sha2_hmac_starts w u ctx key v).total1 = 0 := by
  obtain ⟨k0, a0⟩ := sha2_hmac_starts_spec w u ctx key v hw (by omega)
  rw [hmac_key_of_le w v key hk] at k0 a0
  have t0 := a0.total0
  have t1 := a0.total1
  rw [xor_pad_length key _ hk] at t0 t1
  refine ⟨k0, streaming_of_absorbed w v _ _ a0, t0, ?_⟩
  rw [t1]
  have e : 64 / 2 ^ 32 = 0 := by decide
  rw [e]
  exact Nat.zero_mod _

/-- The output of `sha2_hmac` for a key of 64 bytes at most, when the counter
words hold the count `n` after the message is absorbed: the inner digest has the
length field of `n`. -/
theorem sha2_hmac_counted (w : Nat) (u : Locals) (key m : List Byte) (n : Nat)
    (output : List Byte) (v : Int) (hw : 32 ≤ w) (hk : key.length ≤ 64)
    (h0 : (sha2_update w (sha2_hmac_starts w u u.ctx key v) m).total0 = n % 2 ^ 32)
    (h1 : (sha2_update w (sha2_hmac_starts w u u.ctx key v) m).total1 = n / 2 ^ 32 % 2 ^ w) :
    sha2_hmac w u key m output v =
      store output 0
        (digest w v (xor_pad key 0x5C ++ digest_count w v (xor_pad key 0x36 ++ m) n)) := by
  obtain ⟨k0, s0, _, _⟩ := sha2_hmac_starts_counted w u u.ctx key v hw hk
  have e : sha2_hmac w u key m output v =
      (sha2_hmac_finish w u (sha2_update w (sha2_hmac_starts w u u.ctx key v) m) output).2 := rfl
  rw [e]
  exact sha2_hmac_finish_counted w u v key m n _ output hw hk (hmac_keyed_update w v key _ m k0)
    (streaming_update w v _ m _ hw s0) h0 h1

/-- The output of `PKCS5_PBKDF2_HMAC` for one iteration, 32 bytes and a password
of 64 bytes at most, when the counter words hold the count `n` after the salt
and the block index are absorbed. -/
theorem PKCS5_PBKDF2_HMAC_counted (w : Nat) (u : Locals) (password salt : List Byte) (n : Nat)
    (output : List Byte) (hw : 32 ≤ w) (hk : password.length ≤ 64)
    (h0 : (sha2_update w (sha2_update w
      (sha2_hmac_starts w u (sha2_starts u.ctx 0) password 0) salt) (BE32 1)).total0 = n % 2 ^ 32)
    (h1 : (sha2_update w (sha2_update w
      (sha2_hmac_starts w u (sha2_starts u.ctx 0) password 0) salt) (BE32 1)).total1 =
        n / 2 ^ 32 % 2 ^ w) :
    PKCS5_PBKDF2_HMAC w u password salt 1 32 output =
      store output 0
        (digest w 0 (xor_pad password 0x5C ++
          digest_count w 0 (xor_pad password 0x36 ++ (salt ++ BE32 1)) n)) := by
  obtain ⟨k0, s0, _, _⟩ := sha2_hmac_starts_counted w u (sha2_starts u.ctx 0) password 0 hw hk
  have s2 := streaming_update w 0 _ (BE32 1) _ hw (streaming_update w 0 _ salt _ hw s0)
  rw [List.append_assoc] at s2
  have M := sha2_hmac_finish_counted w u 0 password (salt ++ BE32 1) n _ u.md1 hw hk
    (hmac_keyed_update w 0 password _ (BE32 1) (hmac_keyed_update w 0 password _ salt k0))
    s2 h0 h1
  rw [PKCS5_PBKDF2_HMAC_one_block w hw u password salt output, M,
    take_store_zero _ _ 32 (by rw [digest_length, if_pos rfl])]

/-- The output of `PKCS5_PBKDF2_HMAC` for one iteration, 32 bytes and a password
of 64 bytes at most, when the counter words hold the number of bytes absorbed:
the MAC of the salt and the block index. -/
theorem PKCS5_PBKDF2_HMAC_exact (w : Nat) (u : Locals) (password salt : List Byte)
    (output : List Byte) (hw : 32 ≤ w) (hk : password.length ≤ 64)
    (h0 : (sha2_update w (sha2_update w
      (sha2_hmac_starts w u (sha2_starts u.ctx 0) password 0) salt) (BE32 1)).total0 =
        (xor_pad password 0x36 ++ (salt ++ BE32 1)).length % 2 ^ 32)
    (h1 : (sha2_update w (sha2_update w
      (sha2_hmac_starts w u (sha2_starts u.ctx 0) password 0) salt) (BE32 1)).total1 =
        (xor_pad password 0x36 ++ (salt ++ BE32 1)).length / 2 ^ 32 % 2 ^ w) :
    PKCS5_PBKDF2_HMAC w u password salt 1 32 output =
      store output 0 (hmac_digest w 0 password (salt ++ BE32 1)) := by
  rw [PKCS5_PBKDF2_HMAC_counted w u password salt _ output hw hk h0 h1, digest_count_length]
  rfl

/-- C1: with `unsigned long` and `size_t` of 64 bits, for either variant and two
chunks of `2^32` bytes each, `sha2_starts`, `sha2_update` on each chunk and
`sha2_finish` write the digest of the concatenation, while `sha2_starts`, one
`sha2_update` on the concatenation of `2^33` bytes and `sha2_finish` write the
digest whose padding encodes a length of `2^32` bytes: the one call adds one
carry to `total[1]` where two are due. The two padded messages differ in the
length field, `00 00 00 08 ..` for `00 00 00 10 ..`. -/
theorem C1_single_update_miscounts_length (u : Locals) (ctx : sha2_context) (v : Int)
    (output : List Byte) :
    (sha2_finish 64 u
        (sha2_update 64 (sha2_update 64 (sha2_starts ctx v) (List.replicate (2 ^ 32) 0))
          (List.replicate (2 ^ 32) 0)) output).2 =
      store output 0 (digest 64 v (List.replicate (2 ^ 32) 0 ++ List.replicate (2 ^ 32) 0)) ∧
    (sha2_finish 64 u
        (sha2_update 64 (sha2_starts ctx v)
          (List.replicate (2 ^ 32) 0 ++ List.replicate (2 ^ 32) 0)) output).2 =
      store output 0
        (digest_count 64 v (List.replicate (2 ^ 32) 0 ++ List.replicate (2 ^ 32) 0) (2 ^ 32)) ∧
    sha2_pad_count (List.replicate (2 ^ 32) 0 ++ List.replicate (2 ^ 32) 0) (2 ^ 32) ≠
      sha2_pad (List.replicate (2 ^ 32) 0 ++ List.replicate (2 ^ 32) 0) ∧
    (List.replicate (2 ^ 32) (0 : Byte) ++ List.replicate (2 ^ 32) 0).length = 2 ^ 33 ∧
    (sha2_update 64 (sha2_update 64 (sha2_starts ctx v) (List.replicate (2 ^ 32) 0))
      (List.replicate (2 ^ 32) 0)).total1 = 2 ∧
    (sha2_update 64 (sha2_starts ctx v)
      (List.replicate (2 ^ 32) 0 ++ List.replicate (2 ^ 32) 0)).total1 = 1 ∧
    BE64 (8 * 2 ^ 32) = [0, 0, 0, 8, 0, 0, 0, 0] ∧
    BE64 (8 * 2 ^ 33) = [0, 0, 0, 16, 0, 0, 0, 0] := by
  have lz : (List.replicate (2 ^ 32) (0 : Byte)).length = 2 ^ 32 := List.length_replicate _ _
  have lzz : (List.replicate (2 ^ 32) (0 : Byte) ++ List.replicate (2 ^ 32) 0).length = 2 ^ 33 := by
    rw [List.length_append, lz]
    decide
  obtain ⟨s0, s1, _⟩ := sha2_starts_totals ctx v
  have A1 := sha2_update_totals_at 64 (sha2_starts ctx v) (List.replicate (2 ^ 32) 0) 0 0
    (2 ^ 32) s0 s1 lz (by decide)
  have A2 := sha2_update_totals_at 64 _ (List.replicate (2 ^ 32) 0) _ _ (2 ^ 32) A1.1 A1.2 lz
    (by decide)
  have B1 := sha2_update_totals_at 64 (sha2_starts ctx v)
    (List.replicate (2 ^ 32) 0 ++ List.replicate (2 ^ 32) 0) 0 0 (2 ^ 33) s0 s1 lzz (by decide)
  have S0 := streaming_starts 64 ctx v
  have SA := streaming_update 64 v _ (List.replicate (2 ^ 32) 0) _ (by decide)
    (streaming_update 64 v [] (List.replicate (2 ^ 32) 0) _ (by decide) S0)
  rw [List.nil_append] at SA
  have SB := streaming_update 64 v [] (List.replicate (2 ^ 32) 0 ++ List.replicate (2 ^ 32) 0) _
    (by decide) S0
  rw [List.nil_append] at SB
  have FA := (sha2_finish_counted 64 u v _
    (List.replicate (2 ^ 32) (0 : Byte) ++ List.replicate (2 ^ 32) 0).length _ output (by decide) SA
    (by rw [lzz]; exact A2.1.trans (by decide)) (by rw [lzz]; exact A2.2.trans (by decide))).1
  have FB := (sha2_finish_counted 64 u v _ (2 ^ 32) _ output (by decide) SB
    (B1.1.trans (by decide)) (B1.2.trans (by decide))).1
  rw [digest_count_length] at FA
  refine ⟨FA, FB, ?_, lzz, A2.2.trans (by decide), B1.2.trans (by decide), by decide, by decide⟩
  rw [← sha2_pad_count_length, lzz]
  exact sha2_pad_count_ne _ _ _ (by decide)

/-- C2: with `unsigned long` and `size_t` of 64 bits, `sha2` with `is224 = 0` on
the message `m` of `2^33` zero bytes writes the big-endian bytes of the state
words obtained by folding the compression function over the blocks of
`m ‖ 0x80 ‖ 0x00^k ‖ BE64(8 * 2^32)`: the length field encodes `2^32` bytes, not
the `2^33` bytes of `m`, so the padded message is not the one of the specification. -/
theorem C2_sha256_miscounts_length (u : Locals) (output : List Byte) :
    sha2 64 u (List.replicate (2 ^ 33) 0) output 0 =
      (((blocks (List.replicate (2 ^ 33) 0 ++ [0x80] ++
            List.replicate (pad_zeros (List.replicate (2 ^ 33) (0 : Byte)).length) 0 ++
            BE64 (8 * 2 ^ 32))).foldl (compress 64)
          [0x6A09E667, 0xBB67AE85, 0x3C6EF372, 0xA54FF53A,
           0x510E527F, 0x9B05688C, 0x1F83D9AB, 0x5BE0CD19]).map BE32).flatten ++
        output.drop 32 ∧
    List.replicate (2 ^ 33) 0 ++ [0x80] ++
        List.replicate (pad_zeros (List.replicate (2 ^ 33) (0 : Byte)).length) 0 ++
        BE64 (8 * 2 ^ 32) ≠
      List.replicate (2 ^ 33) 0 ++ [0x80] ++
        List.replicate (pad_zeros (List.replicate (2 ^ 33) (0 : Byte)).length) 0 ++
        BE64 (8 * (List.replicate (2 ^ 33) (0 : Byte)).length) ∧
    (sha2_update 64 (sha2_starts u.ctx 0) (List.replicate (2 ^ 33) 0)).total0 = 0 ∧
    (sha2_update 64 (sha2_starts u.ctx 0) (List.replicate (2 ^ 33) 0)).total1 = 1 ∧
    BE64 (8 * 2 ^ 32) = [0, 0, 0, 8, 0, 0, 0, 0] ∧
    BE64 (8 * (List.replicate (2 ^ 33) (0 : Byte)).length) = [0, 0, 0, 16, 0, 0, 0, 0] := by
  have lz : (List.replicate (2 ^ 33) (0 : Byte)).length = 2 ^ 33 := List.length_replicate _ _
  obtain ⟨s0, s1, _⟩ := sha2_starts_totals u.ctx 0
  have B1 := sha2_update_totals_at 64 (sha2_starts u.ctx 0) (List.replicate (2 ^ 33) 0) 0 0
    (2 ^ 33) s0 s1 lz (by decide)
  have hb : BE64 (8 * 2 ^ 32) ≠ BE64 (8 * (List.replicate (2 ^ 33) (0 : Byte)).length) := by
    rw [lz]
    decide
  exact ⟨sha2_counted_fold 64 u (List.replicate (2 ^ 33) 0) (2 ^ 32) output (by decide)
      (B1.1.trans (by decide)) (B1.2.trans (by decide)),
    fun h => hb (List.append_cancel_left h), B1.1.trans (by decide),
    B1.2.trans (by decide), by decide, by rw [lz]; decide⟩

/-- C3, on LP64: from the SHA-256 initial state, eight 32-bit words, and the
block of 64 bytes `0x61`, the state words that `sha2_process` leaves with a
64-bit `unsigned long` are not the words of the loop definition with all
arithmetic modulo `2^32`: they hold carries above bit 31. -/
theorem C3_lp64_state_words_differ :
    (∀ x ∈ (sha2_starts stale_ctx 0).state, x < 2 ^ 32) ∧
    (sha2_starts stale_ctx 0).state.length = 8 ∧
    (List.replicate 64 (0x61 : Byte)).length = 64 ∧
    (sha2_process 64 (sha2_starts stale_ctx 0) (List.replicate 64 0x61)).state ≠
      compress_spec (sha2_starts stale_ctx 0).state (List.replicate 64 0x61) := by
  have hs : (sha2_starts stale_ctx 0).state = initial_state 0 := (sha2_starts_totals _ 0).2.2
  have hlt : ∀ x ∈ initial_state 0, x < 2 ^ 32 := by decide
  refine ⟨by rw [hs]; exact hlt, by rw [hs]; rfl, List.length_replicate _ _, ?_⟩
  rw [sha2_process_state_eq, hs, compress_spec_eq_process_loop_32 _ _ hlt]
  exact process_loop_64_differs

/-- C5: with `unsigned long` and `size_t` of 64 bits, the password `pw`, a salt
of `2^33 - 66` zero bytes, one iteration and 32 bytes, `PKCS5_PBKDF2_HMAC` writes
the HMAC of `salt ‖ BE32(1)`, because its calls of `sha2_hmac_update` on the salt
and on the four bytes of the block index count `2^33 + 2` bytes with the inner
pad; `sha2_hmac` on the concatenation `salt ‖ BE32(1)` makes one call with
`2^33 - 62` bytes, counts `2^32 + 2` bytes, and writes the MAC whose inner digest
has the length field of `2^32 + 2` bytes. The two inner padded messages differ. -/
theorem C5_sha2_hmac_miscounts_length (u : Locals) (output : List Byte) :
    PKCS5_PBKDF2_HMAC 64 u [0x70, 0x77] (List.replicate (2 ^ 33 - 66) 0) 1 32 output =
      store output 0
        (hmac_digest 64 0 [0x70, 0x77] (List.replicate (2 ^ 33 - 66) 0 ++ BE32 1)) ∧
    sha2_hmac 64 u [0x70, 0x77] (List.replicate (2 ^ 33 - 66) 0 ++ BE32 1) output 0 =
      store output 0
        (digest 64 0 (xor_pad [0x70, 0x77] 0x5C ++
          digest_count 64 0
            (xor_pad [0x70, 0x77] 0x36 ++ (List.replicate (2 ^ 33 - 66) 0 ++ BE32 1))
            (2 ^ 32 + 2))) ∧
    hmac_digest 64 0 [0x70, 0x77] (List.replicate (2 ^ 33 - 66) 0 ++ BE32 1) =
      digest 64 0 (xor_pad [0x70, 0x77] 0x5C ++
        digest_count 64 0
          (xor_pad [0x70, 0x77] 0x36 ++ (List.replicate (2 ^ 33 - 66) 0 ++ BE32 1))
          (2 ^ 33 + 2)) ∧
    (xor_pad [0x70, 0x77] 0x36 ++ (List.replicate (2 ^ 33 - 66) 0 ++ BE32 1)).length =
      2 ^ 33 + 2 ∧
    sha2_pad_count (xor_pad [0x70, 0x77] 0x36 ++ (List.replicate (2 ^ 33 - 66) 0 ++ BE32 1))
        (2 ^ 32 + 2) ≠
      sha2_pad_count (xor_pad [0x70, 0x77] 0x36 ++ (List.replicate (2 ^ 33 - 66) 0 ++ BE32 1))
        (2 ^ 33 + 2) ∧
    (sha2_hmac_update 64 (sha2_hmac_update 64
      (sha2_hmac_starts 64 u (sha2_starts u.ctx 0) [0x70, 0x77] 0)
      (List.replicate (2 ^ 33 - 66) 0)) (BE32 1)).total0 = 2 ∧
    (sha2_hmac_update 64 (sha2_hmac_update 64
      (sha2_hmac_starts 64 u (sha2_starts u.ctx 0) [0x70, 0x77] 0)
      (List.replicate (2 ^ 33 - 66) 0)) (BE32 1)).total1 = 2 ∧
    (sha2_hmac_update 64 (sha2_hmac_starts 64 u u.ctx [0x70, 0x77] 0)
      (List.replicate (2 ^ 33 - 66) 0 ++ BE32 1)).total0 = 2 ∧
    (sha2_hmac_update 64 (sha2_hmac_starts 64 u u.ctx [0x70, 0x77] 0)
      (List.replicate (2 ^ 33 - 66) 0 ++ BE32 1)).total1 = 1 := by
  have hpw : ([0x70, 0x77] : List Byte).length ≤ 64 := by decide
  have lS : (List.replicate (2 ^ 33 - 66) (0 : Byte)).length = 2 ^ 33 - 66 :=
    List.length_replicate _ _
  have lB : (BE32 1).length = 4 := rfl
  have lSB : (List.replicate (2 ^ 33 - 66) (0 : Byte) ++ BE32 1).length = 2 ^ 33 - 66 + 4 := by
    rw [List.length_append, lS, lB]
  have lX : (xor_pad [0x70, 0x77] 0x36 ++
      (List.replicate (2 ^ 33 - 66) 0 ++ BE32 1)).length = 2 ^ 33 + 2 := by
    rw [List.length_append, lSB, xor_pad_length _ _ hpw]
    decide
  obtain ⟨_, _, p0, p1⟩ := sha2_hmac_starts_counted 64 u (sha2_starts u.ctx 0) [0x70, 0x77] 0
    (by decide) hpw
  obtain ⟨_, _, q0, q1⟩ := sha2_hmac_starts_counted 64 u u.ctx [0x70, 0x77] 0 (by decide) hpw
  have P1 := sha2_update_totals_at 64 _ (List.replicate (2 ^ 33 - 66) 0) 64 0 (2 ^ 33 - 66)
    p0 p1 lS (by decide)
  have P2 := sha2_update_totals_at 64 _ (BE32 1) _ _ 4 P1.1 P1.2 lB (by decide)
  have H1 := sha2_update_totals_at 64 _ (List.replicate (2 ^ 33 - 66) 0 ++ BE32 1) 64 0
    (2 ^ 33 - 66 + 4) q0 q1 lSB (by decide)
  refine ⟨?_, ?_, ?_, lX, sha2_pad_count_ne _ _ _ (by decide), P2.1.trans (by decide),
    P2.2.trans (by decide), H1.1.trans (by decide), H1.2.trans (by decide)⟩
  · exact PKCS5_PBKDF2_HMAC_exact 64 u [0x70, 0x77] (List.replicate (2 ^ 33 - 66) 0) output
      (by decide) hpw (by rw [lX]; exact P2.1.trans (by decide))
      (by rw [lX]; exact P2.2.trans (by decide))
  · exact sha2_hmac_counted 64 u [0x70, 0x77] (List.replicate (2 ^ 33 - 66) 0 ++ BE32 1)
      (2 ^ 32 + 2) output 0 (by decide) hpw (H1.1.trans (by decide)) (H1.2.trans (by decide))
  · exact (congrArg (fun n => digest 64 0 (xor_pad [0x70, 0x77] 0x5C ++
        digest_count 64 0
          (xor_pad [0x70, 0x77] 0x36 ++ (List.replicate (2 ^ 33 - 66) 0 ++ BE32 1)) n)) lX)

end Pbkdf2Sha256
